import Mathlib

/-!
# LuaRunner2 bindings (`LuaBindings_minimal.cpp`)

A shallow embedding of the Lua binding layer.  Every `lua_*` C function of the
source becomes a computation in `LuaM`: it reads its arguments from the Lua
stack, calls the engine (`st_*` functions, which live outside the file and are
reached through `Host.call`), pushes its results and returns their count.

Conventions.
* `lua_Integer` is a 64-bit integer, `lua_Number` a C `double` (Lua 5.3/5.4
  value model: integers and floats are distinct subtypes of number).
* C `int` is 32 bits; an implicit or explicit narrowing is written with an
  explicit wrap (`toInt32`, `toUInt32`, `toUInt16`).
* A C `float` is written `CFloat.ofDouble x`, the value of `(float)x`.
* A raised Lua error (`luaL_error`, `luaL_argerror`) is the `error` outcome.
* A `uint8_t` is a `Fin 256`; a C array the engine fills is read as a function
  of the index.
* A table is a reference into `LuaState.tables`, which holds the integer-keyed
  entries the raw accessors (`lua_rawgeti`, `lua_rawseti`) see.
-/

namespace LuaRunner2

/-! ## C scalar conversions -/

/-- Narrowing of an integer to C `int` (32-bit two's complement). -/
def toInt32 (i : Int) : Int := (i + 2 ^ 31) % 2 ^ 32 - 2 ^ 31

/-- Narrowing of an integer to `uint32_t`. -/
def toUInt32 (i : Int) : Nat := (i % 2 ^ 32).toNat

/-- Narrowing of an integer to `uint16_t`. -/
def toUInt16 (i : Int) : Nat := (i % 2 ^ 16).toNat

/-- Narrowing of an integer to `uint8_t`. -/
def toUInt8 (i : Int) : Fin 256 := ⟨(i % 256).toNat, by omega⟩

/-- A C `float`.  `CFloat.ofDouble x` is the result of the conversion `(float)x`
of the double `x`; the rounding itself is not modelled. -/
structure CFloat where ofDouble ::
  toDouble : Float
deriving Repr, Inhabited

/-! ## Lua values and errors -/

/-- A Lua value as seen through the C API. -/
inductive LuaValue where
  | nil
  | boolean (b : Bool)
  | integer (i : Int)
  | number (x : Float)
  | string (s : String)
  | table (ref : Nat)
  | function (ref : Nat)
  | userdata (ref : Nat)
deriving Repr, Inhabited

/-- A raised Lua error: `luaL_argerror(L, arg, extramsg)` (`badArgumentAt` when
the index is relative to the top, as in `luaL_checkinteger(L, -1)`) or
`luaL_error(L, message)`.  `fault` is not a Lua error: the C++ code threw an
exception or left defined behaviour (a store outside a buffer, a pop from an
empty stack), and the binding does not return. -/
inductive LuaError where
  | badArgument (arg : Nat) (extramsg : String)
  | runtime (message : String)
  | badArgumentAt (idx : Int) (extramsg : String)
  | fault (what : String)
deriving Repr, DecidableEq, Inhabited

/-! ## The engine interface -/

/-- The calls the bindings make into the SuperTerminal engine, with the
arguments in the order of the C call. -/
inductive EngineCall where
  | st_sound_create_beep (frequency duration : CFloat)
  | st_sound_create_blip (pitch duration : CFloat)
  | st_sound_create_click (sharpness duration : CFloat)
  | st_sound_create_zap (frequency duration : CFloat)
  | st_sound_create_explode (size duration : CFloat)
  | st_sound_create_pickup (brightness duration : CFloat)
  | st_sound_create_hurt (severity duration : CFloat)
  | st_sound_create_sweep_down (start_freq end_freq duration : CFloat)
  | st_sound_create_coin (pitch duration : CFloat)
  | st_sound_create_powerup (intensity duration : CFloat)
  | st_sound_play_id (sound_id : Nat) (volume pan : CFloat)
  | st_sound_exists (sound_id : Nat)
  | st_sound_unload (sound_id : Nat)
  | st_voice_set_waveform (voiceNum waveform : Int)
  | st_voice_set_frequency (voiceNum : Int) (frequency : CFloat)
  | st_voice_set_note (voiceNum midiNote : Int)
  | st_voice_set_note_name (voiceNum : Int) (noteName : String)
  | st_voice_set_envelope (voiceNum : Int) (attack decay sustain release : CFloat)
  | st_voice_set_gate (voiceNum gateOn : Int)
  | st_voice_set_volume (voiceNum : Int) (volume : CFloat)
  | st_voice_set_pulse_width (voiceNum : Int) (pulseWidth : CFloat)
  | st_voice_set_pan (voiceNum : Int) (pan : CFloat)
  | st_voice_set_filter_routing (voiceNum enabled : Int)
  | st_voice_set_filter_type (filterType : Int)
  | st_voice_set_filter_cutoff (cutoff : CFloat)
  | st_voice_set_filter_resonance (resonance : CFloat)
  | st_voice_set_filter_enabled (enabled : Int)
  | st_voice_set_master_volume (volume : CFloat)
  | st_voice_reset_all
  | st_voice_wait (beats : CFloat)
  | st_voice_set_physical_model (voiceNum modelType : Int)
  | st_voice_set_physical_damping (voiceNum : Int) (damping : CFloat)
  | st_voice_set_physical_brightness (voiceNum : Int) (brightness : CFloat)
  | st_voice_set_physical_excitation (voiceNum : Int) (excitation : CFloat)
  | st_voice_set_physical_resonance (voiceNum : Int) (resonance : CFloat)
  | st_voice_set_physical_tension (voiceNum : Int) (tension : CFloat)
  | st_voice_set_physical_pressure (voiceNum : Int) (pressure : CFloat)
  | st_voice_physical_trigger (voiceNum : Int)
  | st_voice_set_ring_mod (voiceNum sourceVoice : Int)
  | st_voice_set_sync (voiceNum sourceVoice : Int)
  | st_voice_set_portamento (voiceNum : Int) (time : CFloat)
  | st_voice_set_detune (voiceNum : Int) (cents : CFloat)
  | st_voice_set_delay_enable (voiceNum enabled : Int)
  | st_voice_set_delay_time (voiceNum : Int) (time : CFloat)
  | st_voice_set_delay_feedback (voiceNum : Int) (feedback : CFloat)
  | st_voice_set_delay_mix (voiceNum : Int) (mix : CFloat)
  | st_lfo_set_waveform (lfoNum waveform : Int)
  | st_lfo_set_rate (lfoNum : Int) (rateHz : CFloat)
  | st_lfo_reset (lfoNum : Int)
  | st_lfo_to_pitch (voiceNum lfoNum : Int) (depthCents : CFloat)
  | st_lfo_to_volume (voiceNum lfoNum : Int) (depth : CFloat)
  | st_lfo_to_filter (voiceNum lfoNum : Int) (depthHz : CFloat)
  | st_lfo_to_pulsewidth (voiceNum lfoNum : Int) (depth : CFloat)
  | st_voices_start
  | st_voices_set_tempo (bpm : CFloat)
  | st_voices_end_slot (slot : Int) (volume : CFloat)
  | st_voices_next_slot (volume : CFloat)
  | st_voices_end_play
  | st_voices_end_save (filename : String)
  | st_voices_are_playing
  | st_voice_direct (destination : String)
  | st_voice_direct_slot (slot : Int) (volume duration : CFloat)
  | st_key_pressed (key : Int)
  | st_wait_frame
  | sprite_explode (sprite_id particle_count : Nat)
  | sprite_explode_advanced (sprite_id particle_count : Nat)
      (explosion_force gravity fade_time : CFloat)
  | sprite_explode_directional (sprite_id particle_count : Nat) (force_x force_y : CFloat)
  | st_get_last_error
  | st_clear_error
  | st_key_get_char
  | st_sprite_load_indexed_from_rgba (pixels : List (Fin 256)) (width height : Int)
  | st_sprite_get_palette (sprite_id : Int)
  | st_sprite_set_standard_palette (sprite_id : Int) (palette_id : Fin 256)
  | st_asset_get_data (asset : Int)
  | st_asset_get_size (asset : Int)
  | st_asset_get_name (asset : Int)
  | st_asset_list (type : Int) (names : Option Nat) (max_count : Int)
  | st_asset_search (pattern : String) (names : Option Nat) (max_count : Int)
  | st_asset_get_error
deriving Repr, Inhabited

/-- The C types of the engine's results, as far as the bindings use them. -/
inductive CType where
  | void
  | uint32
  | bool
  | int
  | cstring
  | size_t
  | intAndPalette
  | boolAndPalette
  | cstringArray
deriving Repr, DecidableEq

/-- The values of a C type: a `uint32_t` or `size_t` is a natural number, a
`const char*` (or the `const void*` of a block of bytes) an optional string
(`none` for the null pointer).  `intAndPalette` and `boolAndPalette` are the
result of a call that also fills the caller's `uint8_t palette[64]`: the value
returned and the bytes the array holds after the call.  `cstringArray` is what
the caller's `const char*` array holds after the call that fills it. -/
@[reducible]
def CType.Val : CType → Type
  | .void => Unit
  | .uint32 => Nat
  | .bool => Bool
  | .int => Int
  | .cstring => Option String
  | .size_t => Nat
  | .intAndPalette => Int × (Nat → Fin 256)
  | .boolAndPalette => Bool × (Nat → Fin 256)
  | .cstringArray => Nat → Option String

/-- The zero value of each C type. -/
def CType.zero : (t : CType) → t.Val
  | .void => ()
  | .uint32 => 0
  | .bool => false
  | .int => 0
  | .cstring => none
  | .size_t => 0
  | .intAndPalette => (0, fun _ => 0)
  | .boolAndPalette => (false, fun _ => 0)
  | .cstringArray => fun _ => none

/-- The result type of each engine call, as the binding that makes the call
uses it; a result the binding ignores is `void`. -/
@[reducible]
def EngineCall.retType : EngineCall → CType
  | .st_sound_create_beep .. => .uint32
  | .st_sound_create_blip .. => .uint32
  | .st_sound_create_click .. => .uint32
  | .st_sound_create_zap .. => .uint32
  | .st_sound_create_explode .. => .uint32
  | .st_sound_create_pickup .. => .uint32
  | .st_sound_create_hurt .. => .uint32
  | .st_sound_create_sweep_down .. => .uint32
  | .st_sound_create_coin .. => .uint32
  | .st_sound_create_powerup .. => .uint32
  | .st_sound_exists .. => .bool
  | .st_voices_next_slot .. => .uint32
  | .st_voices_are_playing => .int
  | .st_voice_direct_slot .. => .uint32
  | .st_key_pressed .. => .bool
  | .sprite_explode .. => .bool
  | .sprite_explode_advanced .. => .bool
  | .sprite_explode_directional .. => .bool
  | .st_get_last_error => .cstring
  | .st_key_get_char => .uint32
  | .st_sprite_load_indexed_from_rgba .. => .intAndPalette
  | .st_sprite_get_palette .. => .boolAndPalette
  | .st_sprite_set_standard_palette .. => .bool
  | .st_asset_get_data .. => .cstring
  | .st_asset_get_size .. => .size_t
  | .st_asset_get_name .. => .cstring
  | .st_asset_list _ none _ => .int
  | .st_asset_list _ (some _) _ => .cstringArray
  | .st_asset_search _ none _ => .int
  | .st_asset_search _ (some _) _ => .cstringArray
  | .st_asset_get_error => .cstring
  | _ => .void

/-- The value an engine call hands back. -/
@[reducible]
def EngineCall.Ret (c : EngineCall) : Type := c.retType.Val

/-- Everything the bindings link against but the file does not define: the
engine, as a transition on an engine state `σ`, and the two string coercions
of the Lua runtime (`l_strton`: string to number, giving an `integer` or a
`number`; `tostring`: number to string). -/
structure Host (σ : Type) where
  call : (c : EngineCall) → σ → c.Ret × σ
  l_strton : String → Option LuaValue
  tostring : LuaValue → String

/-! ## The Lua state and the binding monad -/

/-- The integer-keyed entries of a Lua table, as the raw accessors see them: the
assignments made, the latest first. -/
abbrev LuaTable : Type := List (Int × LuaValue)

/-- The state a binding runs in: the Lua stack of the current call frame
(index 1 first), the engine state, the engine calls made so far (oldest
first), and the tables of the Lua heap (`LuaValue.table ref` is the table at
position `ref`). -/
structure LuaState (σ : Type) where
  stack : List LuaValue
  engine : σ
  calls : List EngineCall
  tables : List LuaTable := []

/-- A computation of the binding layer: it may raise a Lua error, and in
either case leaves a state behind. -/
def LuaM (σ α : Type) : Type := Host σ → LuaState σ → Except LuaError α × LuaState σ

/-- Sequencing in `LuaM`; an error aborts the rest (the `longjmp` of Lua). -/
def LuaM.bind {σ α β : Type} (m : LuaM σ α) (f : α → LuaM σ β) : LuaM σ β :=
  fun H st =>
    match m H st with
    | (.ok a, st1) => f a H st1
    | (.error e, st1) => (.error e, st1)

instance {σ : Type} : Monad (LuaM σ) where
  pure a := fun _ st => (.ok a, st)
  bind := LuaM.bind

/-- Raise a Lua error. -/
def raise {σ α : Type} (e : LuaError) : LuaM σ α := fun _ st => (.error e, st)

/-- Call the engine and record the call. -/
def engine {σ : Type} (c : EngineCall) : LuaM σ c.Ret :=
  fun H st =>
    let r := H.call c st.engine
    (.ok r.1, { st with engine := r.2, calls := st.calls ++ [c] })

/-- Run a binding as Lua calls it: on a fresh frame holding the arguments. -/
def callBinding {σ α : Type} (f : LuaM σ α) (H : Host σ) (args : List LuaValue) (s : σ) :
    Except LuaError α × LuaState σ :=
  f H { stack := args, engine := s, calls := [] }

/-- The values a finished binding hands back to the script: the top `n`
stack slots, `n` being the returned count. -/
def results {σ : Type} (r : Except LuaError Int × LuaState σ) : Option (List LuaValue) :=
  match r.1 with
  | .ok n => some (r.2.stack.drop (r.2.stack.length - n.toNat))
  | .error _ => none

/-! ## The Lua C API used by the bindings -/

/-- The value at a (positive) stack index, `none` past the top. -/
def index2value (stack : List LuaValue) (idx : Nat) : Option LuaValue :=
  if idx = 0 then none else stack.get? (idx - 1)

/-- The C function `lua_gettop`. -/
def lua_gettop {σ : Type} : LuaM σ Int := fun _ st => (.ok st.stack.length, st)

/-- The C function `lua_pushinteger`. -/
def lua_pushinteger {σ : Type} (n : Int) : LuaM σ Unit :=
  fun _ st => (.ok (), { st with stack := st.stack ++ [.integer n] })

/-- The C function `lua_pushboolean`: any non-zero `int` is true. -/
def lua_pushboolean {σ : Type} (b : Int) : LuaM σ Unit :=
  fun _ st => (.ok (), { st with stack := st.stack ++ [.boolean (b != 0)] })

/-- The C function `lua_pushnumber`. -/
def lua_pushnumber {σ : Type} (x : Float) : LuaM σ Unit :=
  fun _ st => (.ok (), { st with stack := st.stack ++ [.number x] })

/-- The C function `lua_pushstring` (on a non-null pointer). -/
def lua_pushstring {σ : Type} (s : String) : LuaM σ Unit :=
  fun _ st => (.ok (), { st with stack := st.stack ++ [.string s] })

/-- The C function `lua_pushnil`. -/
def lua_pushnil {σ : Type} : LuaM σ Unit :=
  fun _ st => (.ok (), { st with stack := st.stack ++ [.nil] })

/-- The C function `lua_toboolean`: 0 for `false`, `nil` and an absent
argument, 1 for every other value. -/
def lua_toboolean {σ : Type} (idx : Nat) : LuaM σ Int :=
  fun _ st =>
    match index2value st.stack idx with
    | none => (.ok 0, st)
    | some .nil => (.ok 0, st)
    | some (.boolean false) => (.ok 0, st)
    | some _ => (.ok 1, st)

/-- The C macro `lua_isnoneornil`. -/
def lua_isnoneornil (stack : List LuaValue) (idx : Nat) : Bool :=
  match index2value stack idx with
  | none => true
  | some .nil => true
  | some _ => false

/-- Float to integer, exact values only (`luaV_flttointns` in mode `F2Ieq`). -/
def flttointns (x : Float) : Option Int :=
  if x.floor == x && (-9223372036854775808.0 : Float) <= x && x < 9223372036854775808.0 then
    if x < 0 then some (-((-x).toUInt64.toNat : Int)) else some (x.toUInt64.toNat : Int)
  else none

/-- Conversion of a value to an integer (`lua_tointegerx`): integers as they
are, floats when they hold an exact integer, strings through `l_strton`. -/
def tointeger {σ : Type} (H : Host σ) : LuaValue → Option Int
  | .integer i => some i
  | .number x => flttointns x
  | .string s =>
    match H.l_strton s with
    | some (.integer i) => some i
    | some (.number x) => flttointns x
    | _ => none
  | _ => none

/-- Conversion of a value to a float (`lua_tonumberx`). -/
def tonumber {σ : Type} (H : Host σ) : LuaValue → Option Float
  | .number x => some x
  | .integer i => some (Float.ofInt i)
  | .string s =>
    match H.l_strton s with
    | some (.integer i) => some (Float.ofInt i)
    | some (.number x) => some x
    | _ => none
  | _ => none

/-- The C function `luaL_typename` at an argument (`none`: no value there). -/
def luaL_typename : Option LuaValue → String
  | none => "no value"
  | some .nil => "nil"
  | some (.boolean _) => "boolean"
  | some (.integer _) => "number"
  | some (.number _) => "number"
  | some (.string _) => "string"
  | some (.table _) => "table"
  | some (.function _) => "function"
  | some (.userdata _) => "userdata"

/-- The C function `luaL_checkinteger`: the argument as a `lua_Integer`, or a
bad-argument error (a number that is not an integer; not a number at all). -/
def luaL_checkinteger {σ : Type} (arg : Nat) : LuaM σ Int :=
  fun H st =>
    match (index2value st.stack arg).bind (tointeger H) with
    | some i => (.ok i, st)
    | none =>
      if ((index2value st.stack arg).bind (tonumber H)).isSome then
        (.error (.badArgument arg "number has no integer representation"), st)
      else
        (.error (.badArgument arg
          ("number expected, got " ++ luaL_typename (index2value st.stack arg))), st)

/-- The C function `luaL_checknumber`. -/
def luaL_checknumber {σ : Type} (arg : Nat) : LuaM σ Float :=
  fun H st =>
    match (index2value st.stack arg).bind (tonumber H) with
    | some x => (.ok x, st)
    | none =>
      (.error (.badArgument arg
        ("number expected, got " ++ luaL_typename (index2value st.stack arg))), st)

/-- The C function `luaL_optinteger`: the default when the argument is absent
or nil. -/
def luaL_optinteger {σ : Type} (arg : Nat) (dflt : Int) : LuaM σ Int :=
  fun H st => if lua_isnoneornil st.stack arg then (.ok dflt, st) else luaL_checkinteger arg H st

/-- The C function `luaL_optnumber`: the default when the argument is absent
or nil. -/
def luaL_optnumber {σ : Type} (arg : Nat) (dflt : Float) : LuaM σ Float :=
  fun H st => if lua_isnoneornil st.stack arg then (.ok dflt, st) else luaL_checknumber arg H st

/-- The C function `luaL_checkstring`: a string as it is; a number is
converted to a string in place; anything else is a bad-argument error. -/
def luaL_checkstring {σ : Type} (arg : Nat) : LuaM σ String :=
  fun H st =>
    match index2value st.stack arg with
    | some (.string s) => (.ok s, st)
    | some (.integer i) =>
      (.ok (H.tostring (.integer i)),
        { st with stack := st.stack.set (arg - 1) (.string (H.tostring (.integer i))) })
    | some (.number x) =>
      (.ok (H.tostring (.number x)),
        { st with stack := st.stack.set (arg - 1) (.string (H.tostring (.number x))) })
    | _ =>
      (.error (.badArgument arg
        ("string expected, got " ++ luaL_typename (index2value st.stack arg))), st)

/-- The C function `luaL_error`. -/
def luaL_error {σ α : Type} (message : String) : LuaM σ α := raise (.runtime message)

/-! ## Sound bank bindings -/

/-- Source: `lua_st_sound_create_beep`. -/
def lua_st_sound_create_beep {σ : Type} : LuaM σ Int := do
  let frequency := CFloat.ofDouble (← luaL_checknumber 1)
  let duration := CFloat.ofDouble (← luaL_checknumber 2)
  let sound_id : Nat ← engine (.st_sound_create_beep frequency duration)
  lua_pushinteger sound_id
  return 1

/-- Source: `lua_st_sound_create_blip`. -/
def lua_st_sound_create_blip {σ : Type} : LuaM σ Int := do
  let pitch := CFloat.ofDouble (← luaL_checknumber 1)
  let duration := CFloat.ofDouble (← luaL_checknumber 2)
  let sound_id : Nat ← engine (.st_sound_create_blip pitch duration)
  lua_pushinteger sound_id
  return 1

/-- Source: `lua_st_sound_create_click`. -/
def lua_st_sound_create_click {σ : Type} : LuaM σ Int := do
  let sharpness := CFloat.ofDouble (← luaL_checknumber 1)
  let duration := CFloat.ofDouble (← luaL_checknumber 2)
  let sound_id : Nat ← engine (.st_sound_create_click sharpness duration)
  lua_pushinteger sound_id
  return 1

/-- Source: `lua_st_sound_create_zap`. -/
def lua_st_sound_create_zap {σ : Type} : LuaM σ Int := do
  let frequency := CFloat.ofDouble (← luaL_checknumber 1)
  let duration := CFloat.ofDouble (← luaL_checknumber 2)
  let sound_id : Nat ← engine (.st_sound_create_zap frequency duration)
  lua_pushinteger sound_id
  return 1

/-- Source: `lua_st_sound_create_explode`. -/
def lua_st_sound_create_explode {σ : Type} : LuaM σ Int := do
  let size := CFloat.ofDouble (← luaL_checknumber 1)
  let duration := CFloat.ofDouble (← luaL_checknumber 2)
  let sound_id : Nat ← engine (.st_sound_create_explode size duration)
  lua_pushinteger sound_id
  return 1

/-- Source: `lua_st_sound_create_pickup`. -/
def lua_st_sound_create_pickup {σ : Type} : LuaM σ Int := do
  let brightness := CFloat.ofDouble (← luaL_checknumber 1)
  let duration := CFloat.ofDouble (← luaL_checknumber 2)
  let sound_id : Nat ← engine (.st_sound_create_pickup brightness duration)
  lua_pushinteger sound_id
  return 1

/-- Source: `lua_st_sound_create_hurt`. -/
def lua_st_sound_create_hurt {σ : Type} : LuaM σ Int := do
  let severity := CFloat.ofDouble (← luaL_checknumber 1)
  let duration := CFloat.ofDouble (← luaL_checknumber 2)
  let sound_id : Nat ← engine (.st_sound_create_hurt severity duration)
  lua_pushinteger sound_id
  return 1

/-- Source: `lua_st_sound_create_sweep_down`. -/
def lua_st_sound_create_sweep_down {σ : Type} : LuaM σ Int := do
  let start_freq := CFloat.ofDouble (← luaL_checknumber 1)
  let end_freq := CFloat.ofDouble (← luaL_checknumber 2)
  let duration := CFloat.ofDouble (← luaL_checknumber 3)
  let sound_id : Nat ← engine (.st_sound_create_sweep_down start_freq end_freq duration)
  lua_pushinteger sound_id
  return 1

/-- Source: `lua_st_sound_create_coin`. -/
def lua_st_sound_create_coin {σ : Type} : LuaM σ Int := do
  let pitch := CFloat.ofDouble (← luaL_checknumber 1)
  let duration := CFloat.ofDouble (← luaL_checknumber 2)
  let sound_id : Nat ← engine (.st_sound_create_coin pitch duration)
  lua_pushinteger sound_id
  return 1

/-- Source: `lua_st_sound_create_powerup`. -/
def lua_st_sound_create_powerup {σ : Type} : LuaM σ Int := do
  let intensity := CFloat.ofDouble (← luaL_checknumber 1)
  let duration := CFloat.ofDouble (← luaL_checknumber 2)
  let sound_id : Nat ← engine (.st_sound_create_powerup intensity duration)
  lua_pushinteger sound_id
  return 1

/-- Source: `lua_st_sound_play_id`. -/
def lua_st_sound_play_id {σ : Type} : LuaM σ Int := do
  let sound_id := toUInt32 (← luaL_checkinteger 1)
  let volume := CFloat.ofDouble (← luaL_optnumber 2 1.0)
  let pan := CFloat.ofDouble (← luaL_optnumber 3 0.0)
  engine (.st_sound_play_id sound_id volume pan)
  return 0

/-- Source: `lua_st_sound_exists`. -/
def lua_st_sound_exists {σ : Type} : LuaM σ Int := do
  let sound_id := toUInt32 (← luaL_checkinteger 1)
  let «exists» : Bool ← engine (.st_sound_exists sound_id)
  lua_pushboolean (if «exists» then 1 else 0)
  return 1

/-- Source: `lua_st_sound_delete`. -/
def lua_st_sound_delete {σ : Type} : LuaM σ Int := do
  let sound_id := toUInt32 (← luaL_checkinteger 1)
  engine (.st_sound_unload sound_id)
  return 0

/-! ## Voice controller bindings -/

/-- Source: `lua_st_voice_set_waveform`. -/
def lua_st_voice_set_waveform {σ : Type} : LuaM σ Int := do
  let voiceNum := toInt32 (← luaL_checkinteger 1)
  let waveform := toInt32 (← luaL_checkinteger 2)
  engine (.st_voice_set_waveform voiceNum waveform)
  return 0

/-- Source: `lua_st_voice_set_frequency`. -/
def lua_st_voice_set_frequency {σ : Type} : LuaM σ Int := do
  let voiceNum := toInt32 (← luaL_checkinteger 1)
  let frequency := CFloat.ofDouble (← luaL_checknumber 2)
  engine (.st_voice_set_frequency voiceNum frequency)
  return 0

/-- Source: `lua_st_voice_set_note`. -/
def lua_st_voice_set_note {σ : Type} : LuaM σ Int := do
  let voiceNum := toInt32 (← luaL_checkinteger 1)
  let midiNote := toInt32 (← luaL_checkinteger 2)
  engine (.st_voice_set_note voiceNum midiNote)
  return 0

/-- Source: `lua_st_voice_set_note_name`. -/
def lua_st_voice_set_note_name {σ : Type} : LuaM σ Int := do
  let voiceNum := toInt32 (← luaL_checkinteger 1)
  let noteName ← luaL_checkstring 2
  engine (.st_voice_set_note_name voiceNum noteName)
  return 0

/-- Source: `lua_st_voice_set_envelope`. -/
def lua_st_voice_set_envelope {σ : Type} : LuaM σ Int := do
  let voiceNum := toInt32 (← luaL_checkinteger 1)
  let attack := CFloat.ofDouble (← luaL_checknumber 2)
  let decay := CFloat.ofDouble (← luaL_checknumber 3)
  let sustain := CFloat.ofDouble (← luaL_checknumber 4)
  let release := CFloat.ofDouble (← luaL_checknumber 5)
  engine (.st_voice_set_envelope voiceNum attack decay sustain release)
  return 0

/-- Source: `lua_st_voice_set_gate`. -/
def lua_st_voice_set_gate {σ : Type} : LuaM σ Int := do
  let voiceNum := toInt32 (← luaL_checkinteger 1)
  let gateOn ← lua_toboolean 2
  engine (.st_voice_set_gate voiceNum gateOn)
  return 0

/-- Source: `lua_st_voice_set_volume`. -/
def lua_st_voice_set_volume {σ : Type} : LuaM σ Int := do
  let voiceNum := toInt32 (← luaL_checkinteger 1)
  let volume := CFloat.ofDouble (← luaL_checknumber 2)
  engine (.st_voice_set_volume voiceNum volume)
  return 0

/-- Source: `lua_st_voice_set_pulse_width`. -/
def lua_st_voice_set_pulse_width {σ : Type} : LuaM σ Int := do
  let voiceNum := toInt32 (← luaL_checkinteger 1)
  let pulseWidth := CFloat.ofDouble (← luaL_checknumber 2)
  engine (.st_voice_set_pulse_width voiceNum pulseWidth)
  return 0

/-- Source: `lua_st_voice_set_pan`. -/
def lua_st_voice_set_pan {σ : Type} : LuaM σ Int := do
  let voiceNum := toInt32 (← luaL_checkinteger 1)
  let pan := CFloat.ofDouble (← luaL_checknumber 2)
  engine (.st_voice_set_pan voiceNum pan)
  return 0

/-- Source: `lua_st_voice_set_filter_routing`. -/
def lua_st_voice_set_filter_routing {σ : Type} : LuaM σ Int := do
  let voiceNum := toInt32 (← luaL_checkinteger 1)
  let enabled ← lua_toboolean 2
  engine (.st_voice_set_filter_routing voiceNum enabled)
  return 0

/-- Source: `lua_st_voice_set_filter_type`. -/
def lua_st_voice_set_filter_type {σ : Type} : LuaM σ Int := do
  let filterType := toInt32 (← luaL_checkinteger 1)
  engine (.st_voice_set_filter_type filterType)
  return 0

/-- Source: `lua_st_voice_set_filter_cutoff`. -/
def lua_st_voice_set_filter_cutoff {σ : Type} : LuaM σ Int := do
  let cutoff := CFloat.ofDouble (← luaL_checknumber 1)
  engine (.st_voice_set_filter_cutoff cutoff)
  return 0

/-- Source: `lua_st_voice_set_filter_resonance`. -/
def lua_st_voice_set_filter_resonance {σ : Type} : LuaM σ Int := do
  let resonance := CFloat.ofDouble (← luaL_checknumber 1)
  engine (.st_voice_set_filter_resonance resonance)
  return 0

/-- Source: `lua_st_voice_set_filter_enabled`. -/
def lua_st_voice_set_filter_enabled {σ : Type} : LuaM σ Int := do
  let enabled ← lua_toboolean 1
  engine (.st_voice_set_filter_enabled enabled)
  return 0

/-- Source: `lua_st_voice_set_master_volume`. -/
def lua_st_voice_set_master_volume {σ : Type} : LuaM σ Int := do
  let volume := CFloat.ofDouble (← luaL_checknumber 1)
  engine (.st_voice_set_master_volume volume)
  return 0

/-- Source: `lua_st_voice_reset_all`. -/
def lua_st_voice_reset_all {σ : Type} : LuaM σ Int := do
  engine .st_voice_reset_all
  return 0

/-- Source: `lua_st_voice_wait`. -/
def lua_st_voice_wait {σ : Type} : LuaM σ Int := do
  let beats := CFloat.ofDouble (← luaL_checknumber 1)
  engine (.st_voice_wait beats)
  return 0

/-- Source: `lua_st_voice_set_physical_model`. -/
def lua_st_voice_set_physical_model {σ : Type} : LuaM σ Int := do
  let voiceNum := toInt32 (← luaL_checkinteger 1)
  let modelType := toInt32 (← luaL_checkinteger 2)
  engine (.st_voice_set_physical_model voiceNum modelType)
  return 0

/-- Source: `lua_st_voice_set_physical_damping`. -/
def lua_st_voice_set_physical_damping {σ : Type} : LuaM σ Int := do
  let voiceNum := toInt32 (← luaL_checkinteger 1)
  let damping := CFloat.ofDouble (← luaL_checknumber 2)
  engine (.st_voice_set_physical_damping voiceNum damping)
  return 0

/-- Source: `lua_st_voice_set_physical_brightness`. -/
def lua_st_voice_set_physical_brightness {σ : Type} : LuaM σ Int := do
  let voiceNum := toInt32 (← luaL_checkinteger 1)
  let brightness := CFloat.ofDouble (← luaL_checknumber 2)
  engine (.st_voice_set_physical_brightness voiceNum brightness)
  return 0

/-- Source: `lua_st_voice_set_physical_excitation`. -/
def lua_st_voice_set_physical_excitation {σ : Type} : LuaM σ Int := do
  let voiceNum := toInt32 (← luaL_checkinteger 1)
  let excitation := CFloat.ofDouble (← luaL_checknumber 2)
  engine (.st_voice_set_physical_excitation voiceNum excitation)
  return 0

/-- Source: `lua_st_voice_set_physical_resonance`. -/
def lua_st_voice_set_physical_resonance {σ : Type} : LuaM σ Int := do
  let voiceNum := toInt32 (← luaL_checkinteger 1)
  let resonance := CFloat.ofDouble (← luaL_checknumber 2)
  engine (.st_voice_set_physical_resonance voiceNum resonance)
  return 0

/-- Source: `lua_st_voice_set_physical_tension`. -/
def lua_st_voice_set_physical_tension {σ : Type} : LuaM σ Int := do
  let voiceNum := toInt32 (← luaL_checkinteger 1)
  let tension := CFloat.ofDouble (← luaL_checknumber 2)
  engine (.st_voice_set_physical_tension voiceNum tension)
  return 0

/-- Source: `lua_st_voice_set_physical_pressure`. -/
def lua_st_voice_set_physical_pressure {σ : Type} : LuaM σ Int := do
  let voiceNum := toInt32 (← luaL_checkinteger 1)
  let pressure := CFloat.ofDouble (← luaL_checknumber 2)
  engine (.st_voice_set_physical_pressure voiceNum pressure)
  return 0

/-- Source: `lua_st_voice_physical_trigger`. -/
def lua_st_voice_physical_trigger {σ : Type} : LuaM σ Int := do
  let voiceNum := toInt32 (← luaL_checkinteger 1)
  engine (.st_voice_physical_trigger voiceNum)
  return 0

/-- Source: `lua_st_voice_set_ring_mod`. -/
def lua_st_voice_set_ring_mod {σ : Type} : LuaM σ Int := do
  let voiceNum := toInt32 (← luaL_checkinteger 1)
  let sourceVoice := toInt32 (← luaL_checkinteger 2)
  engine (.st_voice_set_ring_mod voiceNum sourceVoice)
  return 0

/-- Source: `lua_st_voice_set_sync`. -/
def lua_st_voice_set_sync {σ : Type} : LuaM σ Int := do
  let voiceNum := toInt32 (← luaL_checkinteger 1)
  let sourceVoice := toInt32 (← luaL_checkinteger 2)
  engine (.st_voice_set_sync voiceNum sourceVoice)
  return 0

/-- Source: `lua_st_voice_set_portamento`. -/
def lua_st_voice_set_portamento {σ : Type} : LuaM σ Int := do
  let voiceNum := toInt32 (← luaL_checkinteger 1)
  let time := CFloat.ofDouble (← luaL_checknumber 2)
  engine (.st_voice_set_portamento voiceNum time)
  return 0

/-- Source: `lua_st_voice_set_detune`. -/
def lua_st_voice_set_detune {σ : Type} : LuaM σ Int := do
  let voiceNum := toInt32 (← luaL_checkinteger 1)
  let cents := CFloat.ofDouble (← luaL_checknumber 2)
  engine (.st_voice_set_detune voiceNum cents)
  return 0

/-- Source: `lua_st_voice_set_delay_enable`. -/
def lua_st_voice_set_delay_enable {σ : Type} : LuaM σ Int := do
  let voiceNum := toInt32 (← luaL_checkinteger 1)
  let enabled := toInt32 (← luaL_checkinteger 2)
  engine (.st_voice_set_delay_enable voiceNum enabled)
  return 0

/-- Source: `lua_st_voice_set_delay_time`. -/
def lua_st_voice_set_delay_time {σ : Type} : LuaM σ Int := do
  let voiceNum := toInt32 (← luaL_checkinteger 1)
  let time := CFloat.ofDouble (← luaL_checknumber 2)
  engine (.st_voice_set_delay_time voiceNum time)
  return 0

/-- Source: `lua_st_voice_set_delay_feedback`. -/
def lua_st_voice_set_delay_feedback {σ : Type} : LuaM σ Int := do
  let voiceNum := toInt32 (← luaL_checkinteger 1)
  let feedback := CFloat.ofDouble (← luaL_checknumber 2)
  engine (.st_voice_set_delay_feedback voiceNum feedback)
  return 0

/-- Source: `lua_st_voice_set_delay_mix`. -/
def lua_st_voice_set_delay_mix {σ : Type} : LuaM σ Int := do
  let voiceNum := toInt32 (← luaL_checkinteger 1)
  let mix := CFloat.ofDouble (← luaL_checknumber 2)
  engine (.st_voice_set_delay_mix voiceNum mix)
  return 0

/-! ## LFO bindings -/

/-- Source: `lua_st_lfo_set_waveform`. -/
def lua_st_lfo_set_waveform {σ : Type} : LuaM σ Int := do
  let lfoNum := toInt32 (← luaL_checkinteger 1)
  let waveform := toInt32 (← luaL_checkinteger 2)
  engine (.st_lfo_set_waveform lfoNum waveform)
  return 0

/-- Source: `lua_st_lfo_set_rate`. -/
def lua_st_lfo_set_rate {σ : Type} : LuaM σ Int := do
  let lfoNum := toInt32 (← luaL_checkinteger 1)
  let rateHz := CFloat.ofDouble (← luaL_checknumber 2)
  engine (.st_lfo_set_rate lfoNum rateHz)
  return 0

/-- Source: `lua_st_lfo_reset`. -/
def lua_st_lfo_reset {σ : Type} : LuaM σ Int := do
  let lfoNum := toInt32 (← luaL_checkinteger 1)
  engine (.st_lfo_reset lfoNum)
  return 0

/-- Source: `lua_st_lfo_to_pitch`. -/
def lua_st_lfo_to_pitch {σ : Type} : LuaM σ Int := do
  let voiceNum := toInt32 (← luaL_checkinteger 1)
  let lfoNum := toInt32 (← luaL_checkinteger 2)
  let depthCents := CFloat.ofDouble (← luaL_checknumber 3)
  engine (.st_lfo_to_pitch voiceNum lfoNum depthCents)
  return 0

/-- Source: `lua_st_lfo_to_volume`. -/
def lua_st_lfo_to_volume {σ : Type} : LuaM σ Int := do
  let voiceNum := toInt32 (← luaL_checkinteger 1)
  let lfoNum := toInt32 (← luaL_checkinteger 2)
  let depth := CFloat.ofDouble (← luaL_checknumber 3)
  engine (.st_lfo_to_volume voiceNum lfoNum depth)
  return 0

/-- Source: `lua_st_lfo_to_filter`. -/
def lua_st_lfo_to_filter {σ : Type} : LuaM σ Int := do
  let voiceNum := toInt32 (← luaL_checkinteger 1)
  let lfoNum := toInt32 (← luaL_checkinteger 2)
  let depthHz := CFloat.ofDouble (← luaL_checknumber 3)
  engine (.st_lfo_to_filter voiceNum lfoNum depthHz)
  return 0

/-- Source: `lua_st_lfo_to_pulsewidth`. -/
def lua_st_lfo_to_pulsewidth {σ : Type} : LuaM σ Int := do
  let voiceNum := toInt32 (← luaL_checkinteger 1)
  let lfoNum := toInt32 (← luaL_checkinteger 2)
  let depth := CFloat.ofDouble (← luaL_checknumber 3)
  engine (.st_lfo_to_pulsewidth voiceNum lfoNum depth)
  return 0

/-! ## Voice timeline bindings -/

/-- Source: `lua_st_voices_start`. -/
def lua_st_voices_start {σ : Type} : LuaM σ Int := do
  engine .st_voices_start
  return 0

/-- Source: `lua_st_voices_set_tempo`. -/
def lua_st_voices_set_tempo {σ : Type} : LuaM σ Int := do
  let bpm := CFloat.ofDouble (← luaL_checknumber 1)
  engine (.st_voices_set_tempo bpm)
  return 0

/-- Source: `lua_st_voices_end_slot`. -/
def lua_st_voices_end_slot {σ : Type} : LuaM σ Int := do
  let slot := toInt32 (← luaL_checkinteger 1)
  let volume := CFloat.ofDouble (← luaL_optnumber 2 1.0)
  engine (.st_voices_end_slot slot volume)
  return 0

/-- Source: `lua_st_voices_next_slot`. -/
def lua_st_voices_next_slot {σ : Type} : LuaM σ Int := do
  let volume := CFloat.ofDouble (← luaL_optnumber 1 1.0)
  let soundId : Nat ← engine (.st_voices_next_slot volume)
  lua_pushinteger soundId
  return 1

/-- Source: `lua_st_voices_end_play`. -/
def lua_st_voices_end_play {σ : Type} : LuaM σ Int := do
  engine .st_voices_end_play
  return 0

/-- Source: `lua_st_voices_end_save`. -/
def lua_st_voices_end_save {σ : Type} : LuaM σ Int := do
  let filename ← luaL_checkstring 1
  engine (.st_voices_end_save filename)
  return 0

/-- Source: `lua_st_voices_are_playing`. -/
def lua_st_voices_are_playing {σ : Type} : LuaM σ Int := do
  let playing : Int ← engine .st_voices_are_playing
  lua_pushboolean playing
  return 1

/-- Source: `lua_st_voice_direct`. -/
def lua_st_voice_direct {σ : Type} : LuaM σ Int := do
  let destination ← luaL_checkstring 1
  engine (.st_voice_direct destination)
  return 0

/-- Source: `lua_st_voice_direct_slot`. -/
def lua_st_voice_direct_slot {σ : Type} : LuaM σ Int := do
  let slot := toInt32 (← luaL_checkinteger 1)
  let volume := CFloat.ofDouble (← luaL_optnumber 2 1.0)
  let duration := CFloat.ofDouble (← luaL_optnumber 3 0.0)
  let sound_id : Nat ← engine (.st_voice_direct_slot slot volume duration)
  lua_pushinteger sound_id
  return 1

/-! ## Frame control bindings -/

/-- The key scan of `lua_st_wait_key`, `for (key = 0; key < 512; key++)`, from
`key` on with `n` keys left: `true` as soon as `st_key_pressed` answers true. -/
def wait_key_scan {σ : Type} : Nat → Int → LuaM σ Bool
  | 0, _ => pure false
  | n + 1, key => do
    let pressed : Bool ← engine (.st_key_pressed key)
    if pressed then return true else wait_key_scan n (key + 1)

/-- One pass through the body of the `while (true)` loop of `lua_st_wait_key`,
entered with the given `frames_waited`: `some n` when the body executes
`return n`, `none` when the loop goes round again.  The counter is a C `int`:
`frames_waited++` is taken to wrap at 32 bits. -/
def wait_key_frame {σ : Type} (timeout_frames frames_waited : Int) : LuaM σ (Option Int) := do
  engine .st_wait_frame
  let frames_waited := toInt32 (frames_waited + 1)
  if timeout_frames > 0 ∧ frames_waited ≥ timeout_frames then do
    lua_pushboolean 0
    return some 1
  else do
    let pressed ← wait_key_scan 512 0
    if pressed then do
      lua_pushboolean 1
      return some 1
    else return none

/-- The `while (true)` loop of `lua_st_wait_key`, run for at most `fuel`
frames; `none` when it is still waiting after them. -/
def wait_key_loop {σ : Type} (timeout_frames : Int) : Nat → Int → LuaM σ (Option Int)
  | 0, _ => pure none
  | fuel + 1, frames_waited => do
    let r ← wait_key_frame timeout_frames frames_waited
    match r with
    | some n => return some n
    | none => wait_key_loop timeout_frames fuel (toInt32 (frames_waited + 1))

/-- Source: `lua_st_wait_key`, run for at most `fuel` frames. -/
def lua_st_wait_key {σ : Type} (fuel : Nat) : LuaM σ (Option Int) := do
  let timeout_frames := toInt32 (← luaL_optinteger 1 (-1))
  wait_key_loop timeout_frames fuel 0

/-! ## Sprite explosion bindings -/

/-- The enumeration `SuperTerminal::ParticleMode`. -/
inductive ParticleMode where
  | POINT_SPRITE
  | SPRITE_FRAGMENT
deriving Repr, DecidableEq

/-- The mode selection of the explosion bindings, on the `lua_Integer` read
from the stack: `int mode_int = ...; mode = (mode_int == 1) ? SPRITE_FRAGMENT :
POINT_SPRITE`. -/
def particleMode (mode : Int) : ParticleMode :=
  if toInt32 mode = 1 then ParticleMode.SPRITE_FRAGMENT else ParticleMode.POINT_SPRITE

/-- Source: `lua_sprite_explode`. -/
def lua_sprite_explode {σ : Type} : LuaM σ Int := do
  let sprite_id := toInt32 (← luaL_checkinteger 1)
  let top ← lua_gettop
  let particle_count ← (if top ≥ 2 then toInt32 <$> luaL_checkinteger 2 else pure 32)
  let _mode ← (if top ≥ 3 then particleMode <$> luaL_checkinteger 3
    else pure ParticleMode.SPRITE_FRAGMENT)
  if sprite_id < 1 ∨ sprite_id > 1024 then
    luaL_error "sprite_explode: sprite_id must be between 1 and 1024"
  else if particle_count < 1 ∨ particle_count > 500 then
    luaL_error "sprite_explode: particle_count must be between 1 and 500"
  else do
    let result : Bool ← engine (.sprite_explode (toUInt16 sprite_id) (toUInt16 particle_count))
    lua_pushboolean (if result then 1 else 0)
    return 1

/-- Source: `lua_sprite_explode_advanced`. -/
def lua_sprite_explode_advanced {σ : Type} : LuaM σ Int := do
  let sprite_id := toInt32 (← luaL_checkinteger 1)
  let particle_count := toInt32 (← luaL_checkinteger 2)
  let top ← lua_gettop
  let explosion_force ← (if top ≥ 3 then CFloat.ofDouble <$> luaL_checknumber 3
    else pure (CFloat.ofDouble 200.0))
  let gravity ← (if top ≥ 4 then CFloat.ofDouble <$> luaL_checknumber 4
    else pure (CFloat.ofDouble 100.0))
  let fade_time ← (if top ≥ 5 then CFloat.ofDouble <$> luaL_checknumber 5
    else pure (CFloat.ofDouble 2.0))
  let _mode ← (if top ≥ 6 then particleMode <$> luaL_checkinteger 6
    else pure ParticleMode.SPRITE_FRAGMENT)
  if sprite_id < 1 ∨ sprite_id > 1024 then
    luaL_error "sprite_explode_advanced: sprite_id must be between 1 and 1024"
  else if particle_count < 1 ∨ particle_count > 500 then
    luaL_error "sprite_explode_advanced: particle_count must be between 1 and 500"
  else do
    let result : Bool ← engine (.sprite_explode_advanced (toUInt16 sprite_id)
      (toUInt16 particle_count) explosion_force gravity fade_time)
    lua_pushboolean (if result then 1 else 0)
    return 1

/-- Source: `lua_sprite_explode_directional`. -/
def lua_sprite_explode_directional {σ : Type} : LuaM σ Int := do
  let sprite_id := toInt32 (← luaL_checkinteger 1)
  let particle_count := toInt32 (← luaL_checkinteger 2)
  let force_x := CFloat.ofDouble (← luaL_checknumber 3)
  let force_y := CFloat.ofDouble (← luaL_checknumber 4)
  if sprite_id < 1 ∨ sprite_id > 1024 then
    luaL_error "sprite_explode_directional: sprite_id must be between 1 and 1024"
  else if particle_count < 1 ∨ particle_count > 500 then
    luaL_error "sprite_explode_directional: particle_count must be between 1 and 500"
  else do
    let result : Bool ← engine (.sprite_explode_directional (toUInt16 sprite_id)
      (toUInt16 particle_count) force_x force_y)
    lua_pushboolean (if result then 1 else 0)
    return 1

/-- Source: `lua_sprite_explode_mode`. -/
def lua_sprite_explode_mode {σ : Type} : LuaM σ Int := do
  let sprite_id := toInt32 (← luaL_checkinteger 1)
  let explosion_mode := toInt32 (← luaL_checkinteger 2)
  if sprite_id < 1 ∨ sprite_id > 1024 then
    luaL_error "sprite_explode_mode: sprite_id must be between 1 and 1024"
  else if explosion_mode < 1 ∨ explosion_mode > 6 then
    luaL_error "sprite_explode_mode: explosion_mode must be between 1 and 6"
  else
    match explosion_mode with
    | 1 => do
      let success : Bool ← engine
        (.sprite_explode_advanced (toUInt16 sprite_id) 48 ⟨200.0⟩ ⟨100.0⟩ ⟨2.0⟩)
      lua_pushboolean (if success then 1 else 0)
      return 1
    | 2 => do
      let success : Bool ← engine
        (.sprite_explode_advanced (toUInt16 sprite_id) 128 ⟨350.0⟩ ⟨80.0⟩ ⟨3.0⟩)
      lua_pushboolean (if success then 1 else 0)
      return 1
    | 3 => do
      let success : Bool ← engine
        (.sprite_explode_advanced (toUInt16 sprite_id) 64 ⟨120.0⟩ ⟨40.0⟩ ⟨4.0⟩)
      lua_pushboolean (if success then 1 else 0)
      return 1
    | 4 => do
      let success : Bool ← engine
        (.sprite_explode_directional (toUInt16 sprite_id) 80 ⟨180.0⟩ ⟨-30.0⟩)
      lua_pushboolean (if success then 1 else 0)
      return 1
    | 5 => do
      let success : Bool ← engine
        (.sprite_explode_directional (toUInt16 sprite_id) 96 ⟨0.0⟩ ⟨-250.0⟩)
      lua_pushboolean (if success then 1 else 0)
      return 1
    | 6 => do
      let success : Bool ← engine
        (.sprite_explode_advanced (toUInt16 sprite_id) 32 ⟨400.0⟩ ⟨200.0⟩ ⟨1.0⟩)
      lua_pushboolean (if success then 1 else 0)
      return 1
    | _ => luaL_error "sprite_explode_mode: invalid explosion_mode"

/-! ## Error handling bindings -/

/-- Source: `lua_st_get_error`.  The engine's `const char*` is an optional
string; `error[0] != 0` is the test that it is not empty. -/
def lua_st_get_error {σ : Type} : LuaM σ Int := do
  let error : Option String ← engine .st_get_last_error
  match error with
  | some e =>
    if e ≠ "" then lua_pushstring e else lua_pushnil
    return 1
  | none =>
    lua_pushnil
    return 1

/-- Source: `lua_st_clear_error`. -/
def lua_st_clear_error {σ : Type} : LuaM σ Int := do
  engine .st_clear_error
  return 0

/-! ## Registration -/

/-- The binding functions embedded here, as the function pointers that
`registerBindings` stores. -/
inductive CFunction where
  | lua_st_sound_create_beep
  | lua_st_sound_create_blip
  | lua_st_sound_create_click
  | lua_st_sound_create_zap
  | lua_st_sound_create_explode
  | lua_st_sound_create_pickup
  | lua_st_sound_create_hurt
  | lua_st_sound_create_sweep_down
  | lua_st_sound_create_coin
  | lua_st_sound_create_powerup
  | lua_st_sound_play_id
  | lua_st_sound_exists
  | lua_st_sound_delete
  | lua_st_voice_set_waveform
  | lua_st_voice_set_frequency
  | lua_st_voice_set_note
  | lua_st_voice_set_note_name
  | lua_st_voice_set_envelope
  | lua_st_voice_set_gate
  | lua_st_voice_set_volume
  | lua_st_voice_set_pulse_width
  | lua_st_voice_set_pan
  | lua_st_voice_set_filter_routing
  | lua_st_voice_set_filter_type
  | lua_st_voice_set_filter_cutoff
  | lua_st_voice_set_filter_resonance
  | lua_st_voice_set_filter_enabled
  | lua_st_voice_set_master_volume
  | lua_st_voice_reset_all
  | lua_st_voice_wait
  | lua_st_voice_set_physical_model
  | lua_st_voice_set_physical_damping
  | lua_st_voice_set_physical_brightness
  | lua_st_voice_set_physical_excitation
  | lua_st_voice_set_physical_resonance
  | lua_st_voice_set_physical_tension
  | lua_st_voice_set_physical_pressure
  | lua_st_voice_physical_trigger
  | lua_st_voice_set_ring_mod
  | lua_st_voice_set_sync
  | lua_st_voice_set_portamento
  | lua_st_voice_set_detune
  | lua_st_voice_set_delay_enable
  | lua_st_voice_set_delay_time
  | lua_st_voice_set_delay_feedback
  | lua_st_voice_set_delay_mix
  | lua_st_lfo_set_waveform
  | lua_st_lfo_set_rate
  | lua_st_lfo_reset
  | lua_st_lfo_to_pitch
  | lua_st_lfo_to_volume
  | lua_st_lfo_to_filter
  | lua_st_lfo_to_pulsewidth
  | lua_st_voices_start
  | lua_st_voices_set_tempo
  | lua_st_voices_end_slot
  | lua_st_voices_next_slot
  | lua_st_voices_end_play
  | lua_st_voices_end_save
  | lua_st_voices_are_playing
  | lua_st_voice_direct
  | lua_st_voice_direct_slot
  | lua_st_wait_key
  | lua_sprite_explode
  | lua_sprite_explode_advanced
  | lua_sprite_explode_directional
  | lua_sprite_explode_mode
  | lua_st_get_error
  | lua_st_clear_error
deriving Repr, DecidableEq

/-- The body behind each function pointer, run for at most `fuel` frames (only
`lua_st_wait_key` loops; every other body ignores the fuel and returns). -/
def CFunction.body {σ : Type} (fuel : Nat) : CFunction → LuaM σ (Option Int)
  | .lua_st_sound_create_beep => some <$> LuaRunner2.lua_st_sound_create_beep
  | .lua_st_sound_create_blip => some <$> LuaRunner2.lua_st_sound_create_blip
  | .lua_st_sound_create_click => some <$> LuaRunner2.lua_st_sound_create_click
  | .lua_st_sound_create_zap => some <$> LuaRunner2.lua_st_sound_create_zap
  | .lua_st_sound_create_explode => some <$> LuaRunner2.lua_st_sound_create_explode
  | .lua_st_sound_create_pickup => some <$> LuaRunner2.lua_st_sound_create_pickup
  | .lua_st_sound_create_hurt => some <$> LuaRunner2.lua_st_sound_create_hurt
  | .lua_st_sound_create_sweep_down => some <$> LuaRunner2.lua_st_sound_create_sweep_down
  | .lua_st_sound_create_coin => some <$> LuaRunner2.lua_st_sound_create_coin
  | .lua_st_sound_create_powerup => some <$> LuaRunner2.lua_st_sound_create_powerup
  | .lua_st_sound_play_id => some <$> LuaRunner2.lua_st_sound_play_id
  | .lua_st_sound_exists => some <$> LuaRunner2.lua_st_sound_exists
  | .lua_st_sound_delete => some <$> LuaRunner2.lua_st_sound_delete
  | .lua_st_voice_set_waveform => some <$> LuaRunner2.lua_st_voice_set_waveform
  | .lua_st_voice_set_frequency => some <$> LuaRunner2.lua_st_voice_set_frequency
  | .lua_st_voice_set_note => some <$> LuaRunner2.lua_st_voice_set_note
  | .lua_st_voice_set_note_name => some <$> LuaRunner2.lua_st_voice_set_note_name
  | .lua_st_voice_set_envelope => some <$> LuaRunner2.lua_st_voice_set_envelope
  | .lua_st_voice_set_gate => some <$> LuaRunner2.lua_st_voice_set_gate
  | .lua_st_voice_set_volume => some <$> LuaRunner2.lua_st_voice_set_volume
  | .lua_st_voice_set_pulse_width => some <$> LuaRunner2.lua_st_voice_set_pulse_width
  | .lua_st_voice_set_pan => some <$> LuaRunner2.lua_st_voice_set_pan
  | .lua_st_voice_set_filter_routing => some <$> LuaRunner2.lua_st_voice_set_filter_routing
  | .lua_st_voice_set_filter_type => some <$> LuaRunner2.lua_st_voice_set_filter_type
  | .lua_st_voice_set_filter_cutoff => some <$> LuaRunner2.lua_st_voice_set_filter_cutoff
  | .lua_st_voice_set_filter_resonance => some <$> LuaRunner2.lua_st_voice_set_filter_resonance
  | .lua_st_voice_set_filter_enabled => some <$> LuaRunner2.lua_st_voice_set_filter_enabled
  | .lua_st_voice_set_master_volume => some <$> LuaRunner2.lua_st_voice_set_master_volume
  | .lua_st_voice_reset_all => some <$> LuaRunner2.lua_st_voice_reset_all
  | .lua_st_voice_wait => some <$> LuaRunner2.lua_st_voice_wait
  | .lua_st_voice_set_physical_model => some <$> LuaRunner2.lua_st_voice_set_physical_model
  | .lua_st_voice_set_physical_damping => some <$> LuaRunner2.lua_st_voice_set_physical_damping
  | .lua_st_voice_set_physical_brightness =>
    some <$> LuaRunner2.lua_st_voice_set_physical_brightness
  | .lua_st_voice_set_physical_excitation =>
    some <$> LuaRunner2.lua_st_voice_set_physical_excitation
  | .lua_st_voice_set_physical_resonance => some <$> LuaRunner2.lua_st_voice_set_physical_resonance
  | .lua_st_voice_set_physical_tension => some <$> LuaRunner2.lua_st_voice_set_physical_tension
  | .lua_st_voice_set_physical_pressure => some <$> LuaRunner2.lua_st_voice_set_physical_pressure
  | .lua_st_voice_physical_trigger => some <$> LuaRunner2.lua_st_voice_physical_trigger
  | .lua_st_voice_set_ring_mod => some <$> LuaRunner2.lua_st_voice_set_ring_mod
  | .lua_st_voice_set_sync => some <$> LuaRunner2.lua_st_voice_set_sync
  | .lua_st_voice_set_portamento => some <$> LuaRunner2.lua_st_voice_set_portamento
  | .lua_st_voice_set_detune => some <$> LuaRunner2.lua_st_voice_set_detune
  | .lua_st_voice_set_delay_enable => some <$> LuaRunner2.lua_st_voice_set_delay_enable
  | .lua_st_voice_set_delay_time => some <$> LuaRunner2.lua_st_voice_set_delay_time
  | .lua_st_voice_set_delay_feedback => some <$> LuaRunner2.lua_st_voice_set_delay_feedback
  | .lua_st_voice_set_delay_mix => some <$> LuaRunner2.lua_st_voice_set_delay_mix
  | .lua_st_lfo_set_waveform => some <$> LuaRunner2.lua_st_lfo_set_waveform
  | .lua_st_lfo_set_rate => some <$> LuaRunner2.lua_st_lfo_set_rate
  | .lua_st_lfo_reset => some <$> LuaRunner2.lua_st_lfo_reset
  | .lua_st_lfo_to_pitch => some <$> LuaRunner2.lua_st_lfo_to_pitch
  | .lua_st_lfo_to_volume => some <$> LuaRunner2.lua_st_lfo_to_volume
  | .lua_st_lfo_to_filter => some <$> LuaRunner2.lua_st_lfo_to_filter
  | .lua_st_lfo_to_pulsewidth => some <$> LuaRunner2.lua_st_lfo_to_pulsewidth
  | .lua_st_voices_start => some <$> LuaRunner2.lua_st_voices_start
  | .lua_st_voices_set_tempo => some <$> LuaRunner2.lua_st_voices_set_tempo
  | .lua_st_voices_end_slot => some <$> LuaRunner2.lua_st_voices_end_slot
  | .lua_st_voices_next_slot => some <$> LuaRunner2.lua_st_voices_next_slot
  | .lua_st_voices_end_play => some <$> LuaRunner2.lua_st_voices_end_play
  | .lua_st_voices_end_save => some <$> LuaRunner2.lua_st_voices_end_save
  | .lua_st_voices_are_playing => some <$> LuaRunner2.lua_st_voices_are_playing
  | .lua_st_voice_direct => some <$> LuaRunner2.lua_st_voice_direct
  | .lua_st_voice_direct_slot => some <$> LuaRunner2.lua_st_voice_direct_slot
  | .lua_st_wait_key => LuaRunner2.lua_st_wait_key fuel
  | .lua_sprite_explode => some <$> LuaRunner2.lua_sprite_explode
  | .lua_sprite_explode_advanced => some <$> LuaRunner2.lua_sprite_explode_advanced
  | .lua_sprite_explode_directional => some <$> LuaRunner2.lua_sprite_explode_directional
  | .lua_sprite_explode_mode => some <$> LuaRunner2.lua_sprite_explode_mode
  | .lua_st_get_error => some <$> LuaRunner2.lua_st_get_error
  | .lua_st_clear_error => some <$> LuaRunner2.lua_st_clear_error

/-- The `luaL_setglobalfunction(L, name, func)` calls of `registerBindings` that
store one of the functions embedded here, in source order. -/
def registerBindings : List (String × CFunction) :=
  [("sound_create_beep", CFunction.lua_st_sound_create_beep),
   ("sound_create_blip", CFunction.lua_st_sound_create_blip),
   ("sound_create_click", CFunction.lua_st_sound_create_click),
   ("sound_create_zap", CFunction.lua_st_sound_create_zap),
   ("sound_create_explode", CFunction.lua_st_sound_create_explode),
   ("sound_create_pickup", CFunction.lua_st_sound_create_pickup),
   ("sound_create_hurt", CFunction.lua_st_sound_create_hurt),
   ("sound_create_sweep_down", CFunction.lua_st_sound_create_sweep_down),
   ("sound_create_coin", CFunction.lua_st_sound_create_coin),
   ("sound_create_powerup", CFunction.lua_st_sound_create_powerup),
   ("sound_play_id", CFunction.lua_st_sound_play_id),
   ("sound_play", CFunction.lua_st_sound_play_id)] ++
  [("sound_exists", CFunction.lua_st_sound_exists),
   ("sound_delete", CFunction.lua_st_sound_delete),
   ("voice_set_waveform", CFunction.lua_st_voice_set_waveform),
   ("voice_set_frequency", CFunction.lua_st_voice_set_frequency),
   ("voice_set_note", CFunction.lua_st_voice_set_note),
   ("voice_set_note_name", CFunction.lua_st_voice_set_note_name),
   ("voice_set_envelope", CFunction.lua_st_voice_set_envelope),
   ("voice_set_gate", CFunction.lua_st_voice_set_gate),
   ("voice_set_volume", CFunction.lua_st_voice_set_volume),
   ("voice_set_pulse_width", CFunction.lua_st_voice_set_pulse_width),
   ("voice_set_pan", CFunction.lua_st_voice_set_pan),
   ("voice_set_filter_routing", CFunction.lua_st_voice_set_filter_routing)] ++
  [("voice_set_filter_type", CFunction.lua_st_voice_set_filter_type),
   ("voice_set_filter_cutoff", CFunction.lua_st_voice_set_filter_cutoff),
   ("voice_set_filter_resonance", CFunction.lua_st_voice_set_filter_resonance),
   ("voice_set_filter_enabled", CFunction.lua_st_voice_set_filter_enabled),
   ("voice_set_master_volume", CFunction.lua_st_voice_set_master_volume),
   ("voice_reset_all", CFunction.lua_st_voice_reset_all),
   ("voice_wait", CFunction.lua_st_voice_wait),
   ("voice_set_physical_model", CFunction.lua_st_voice_set_physical_model),
   ("voice_set_physical_damping", CFunction.lua_st_voice_set_physical_damping),
   ("voice_set_physical_brightness", CFunction.lua_st_voice_set_physical_brightness),
   ("voice_set_physical_excitation", CFunction.lua_st_voice_set_physical_excitation),
   ("voice_set_physical_resonance", CFunction.lua_st_voice_set_physical_resonance)] ++
  [("voice_set_physical_tension", CFunction.lua_st_voice_set_physical_tension),
   ("voice_set_physical_pressure", CFunction.lua_st_voice_set_physical_pressure),
   ("voice_physical_trigger", CFunction.lua_st_voice_physical_trigger),
   ("voice_set_ring_mod", CFunction.lua_st_voice_set_ring_mod),
   ("voice_set_sync", CFunction.lua_st_voice_set_sync),
   ("voice_set_portamento", CFunction.lua_st_voice_set_portamento),
   ("voice_set_detune", CFunction.lua_st_voice_set_detune),
   ("voice_set_delay_enable", CFunction.lua_st_voice_set_delay_enable),
   ("voice_set_delay_time", CFunction.lua_st_voice_set_delay_time),
   ("voice_set_delay_feedback", CFunction.lua_st_voice_set_delay_feedback),
   ("voice_set_delay_mix", CFunction.lua_st_voice_set_delay_mix),
   ("lfo_set_waveform", CFunction.lua_st_lfo_set_waveform)] ++
  [("lfo_set_rate", CFunction.lua_st_lfo_set_rate),
   ("lfo_reset", CFunction.lua_st_lfo_reset),
   ("lfo_to_pitch", CFunction.lua_st_lfo_to_pitch),
   ("lfo_to_volume", CFunction.lua_st_lfo_to_volume),
   ("lfo_to_filter", CFunction.lua_st_lfo_to_filter),
   ("lfo_to_pulsewidth", CFunction.lua_st_lfo_to_pulsewidth),
   ("voices_start", CFunction.lua_st_voices_start),
   ("voices_set_tempo", CFunction.lua_st_voices_set_tempo),
   ("voices_end_slot", CFunction.lua_st_voices_end_slot),
   ("voices_next_slot", CFunction.lua_st_voices_next_slot),
   ("voices_end_play", CFunction.lua_st_voices_end_play),
   ("voices_end_save", CFunction.lua_st_voices_end_save)] ++
  [("voices_are_playing", CFunction.lua_st_voices_are_playing),
   ("voice_direct", CFunction.lua_st_voice_direct),
   ("voice_direct_slot", CFunction.lua_st_voice_direct_slot),
   ("wait_key", CFunction.lua_st_wait_key),
   ("st_get_error", CFunction.lua_st_get_error),
   ("st_clear_error", CFunction.lua_st_clear_error),
   ("sprite_explode", CFunction.lua_sprite_explode),
   ("sprite_explode_advanced", CFunction.lua_sprite_explode_advanced),
   ("sprite_explode_directional", CFunction.lua_sprite_explode_directional),
   ("sprite_explode_mode", CFunction.lua_sprite_explode_mode)]

/-- The function a global name holds once `registerBindings` has run:
`lua_setglobal` overwrites, so the last registration of a name counts. -/
def getglobal (name : String) : Option CFunction :=
  List.lookup name registerBindings.reverse

/-! ## Hosts used in examples -/

/-- A host on which nothing happens: every engine call answers the zero of its
type and no string converts to a number. -/
def idleHost : Host Unit where
  call := fun c s => (c.retType.zero, s)
  l_strton := fun _ => none
  tostring := fun _ => ""

/-- The answer of an engine that keeps a last-error string as its whole state:
`st_get_last_error` reads it, every other call answers zero. -/
def errorHostAnswer (s : Option String) : (c : EngineCall) → c.Ret
  | .st_get_last_error => s
  | c => c.retType.zero

/-- A host whose engine state is its last-error string; `st_clear_error`
empties it. -/
def errorHost : Host (Option String) where
  call := fun c s =>
    (errorHostAnswer s c,
      match c with
      | .st_clear_error => none
      | _ => s)
  l_strton := fun _ => none
  tostring := fun _ => ""

/-! ## Vocabulary of the statements -/

/-- A Lua number passed as an argument, of either subtype. -/
inductive LuaNum where
  | int (i : Int)
  | float (x : Float)
deriving Repr

/-- The Lua value of a number argument. -/
def LuaNum.value : LuaNum → LuaValue
  | .int i => .integer i
  | .float x => .number x

/-- The `lua_Number` (C double) a number argument stands for. -/
def LuaNum.toDouble : LuaNum → Float
  | .int i => Float.ofInt i
  | .float x => x

/-- The computation leaves the state as it found it, whatever it returns. -/
def Quiet {σ α : Type} (m : LuaM σ α) : Prop := ∀ H st, (m H st).2 = st

/-- The computation raises a Lua error and leaves the state as it found it. -/
def Raises {σ α : Type} (m : LuaM σ α) : Prop :=
  ∀ H st, (∃ e, (m H st).1 = .error e) ∧ (m H st).2 = st

/-- The engine state in which the key scan of `lua_st_wait_key`, started at
`key` in state `s`, asks about the key `j` places further on: the `j` keys
before it have been asked about. -/
def scanState {σ : Type} (H : Host σ) : Nat → Int → σ → σ
  | 0, _, s => s
  | j + 1, key, s => scanState H j (key + 1) (H.call (.st_key_pressed key) s).2

/-- During a scan of the `n` key codes from `key` on, started in engine state
`s`, the engine reports one of them pressed. -/
def keyPressedInScan {σ : Type} (H : Host σ) (n : Nat) (key : Int) (s : σ) : Prop :=
  ∃ j : Nat, j < n ∧ (H.call (.st_key_pressed (key + j)) (scanState H j key s)).1 = true

/-! ## Names of the engine functions and the registered constants -/

/-- The name of the C function an engine call is a call of. -/
def EngineCall.name : EngineCall → String
  | .st_sound_create_beep .. => "st_sound_create_beep"
  | .st_sound_create_blip .. => "st_sound_create_blip"
  | .st_sound_create_click .. => "st_sound_create_click"
  | .st_sound_create_zap .. => "st_sound_create_zap"
  | .st_sound_create_explode .. => "st_sound_create_explode"
  | .st_sound_create_pickup .. => "st_sound_create_pickup"
  | .st_sound_create_hurt .. => "st_sound_create_hurt"
  | .st_sound_create_sweep_down .. => "st_sound_create_sweep_down"
  | .st_sound_create_coin .. => "st_sound_create_coin"
  | .st_sound_create_powerup .. => "st_sound_create_powerup"
  | .st_sound_play_id .. => "st_sound_play_id"
  | .st_sound_exists .. => "st_sound_exists"
  | .st_sound_unload .. => "st_sound_unload"
  | .st_voice_set_waveform .. => "st_voice_set_waveform"
  | .st_voice_set_frequency .. => "st_voice_set_frequency"
  | .st_voice_set_note .. => "st_voice_set_note"
  | .st_voice_set_note_name .. => "st_voice_set_note_name"
  | .st_voice_set_envelope .. => "st_voice_set_envelope"
  | .st_voice_set_gate .. => "st_voice_set_gate"
  | .st_voice_set_volume .. => "st_voice_set_volume"
  | .st_voice_set_pulse_width .. => "st_voice_set_pulse_width"
  | .st_voice_set_pan .. => "st_voice_set_pan"
  | .st_voice_set_filter_routing .. => "st_voice_set_filter_routing"
  | .st_voice_set_filter_type .. => "st_voice_set_filter_type"
  | .st_voice_set_filter_cutoff .. => "st_voice_set_filter_cutoff"
  | .st_voice_set_filter_resonance .. => "st_voice_set_filter_resonance"
  | .st_voice_set_filter_enabled .. => "st_voice_set_filter_enabled"
  | .st_voice_set_master_volume .. => "st_voice_set_master_volume"
  | .st_voice_reset_all .. => "st_voice_reset_all"
  | .st_voice_wait .. => "st_voice_wait"
  | .st_voice_set_physical_model .. => "st_voice_set_physical_model"
  | .st_voice_set_physical_damping .. => "st_voice_set_physical_damping"
  | .st_voice_set_physical_brightness .. => "st_voice_set_physical_brightness"
  | .st_voice_set_physical_excitation .. => "st_voice_set_physical_excitation"
  | .st_voice_set_physical_resonance .. => "st_voice_set_physical_resonance"
  | .st_voice_set_physical_tension .. => "st_voice_set_physical_tension"
  | .st_voice_set_physical_pressure .. => "st_voice_set_physical_pressure"
  | .st_voice_physical_trigger .. => "st_voice_physical_trigger"
  | .st_voice_set_ring_mod .. => "st_voice_set_ring_mod"
  | .st_voice_set_sync .. => "st_voice_set_sync"
  | .st_voice_set_portamento .. => "st_voice_set_portamento"
  | .st_voice_set_detune .. => "st_voice_set_detune"
  | .st_voice_set_delay_enable .. => "st_voice_set_delay_enable"
  | .st_voice_set_delay_time .. => "st_voice_set_delay_time"
  | .st_voice_set_delay_feedback .. => "st_voice_set_delay_feedback"
  | .st_voice_set_delay_mix .. => "st_voice_set_delay_mix"
  | .st_lfo_set_waveform .. => "st_lfo_set_waveform"
  | .st_lfo_set_rate .. => "st_lfo_set_rate"
  | .st_lfo_reset .. => "st_lfo_reset"
  | .st_lfo_to_pitch .. => "st_lfo_to_pitch"
  | .st_lfo_to_volume .. => "st_lfo_to_volume"
  | .st_lfo_to_filter .. => "st_lfo_to_filter"
  | .st_lfo_to_pulsewidth .. => "st_lfo_to_pulsewidth"
  | .st_voices_start .. => "st_voices_start"
  | .st_voices_set_tempo .. => "st_voices_set_tempo"
  | .st_voices_end_slot .. => "st_voices_end_slot"
  | .st_voices_next_slot .. => "st_voices_next_slot"
  | .st_voices_end_play .. => "st_voices_end_play"
  | .st_voices_end_save .. => "st_voices_end_save"
  | .st_voices_are_playing .. => "st_voices_are_playing"
  | .st_voice_direct .. => "st_voice_direct"
  | .st_voice_direct_slot .. => "st_voice_direct_slot"
  | .st_key_pressed .. => "st_key_pressed"
  | .st_wait_frame .. => "st_wait_frame"
  | .sprite_explode .. => "sprite_explode"
  | .sprite_explode_advanced .. => "sprite_explode_advanced"
  | .sprite_explode_directional .. => "sprite_explode_directional"
  | .st_get_last_error .. => "st_get_last_error"
  | .st_clear_error .. => "st_clear_error"
  | .st_key_get_char .. => "st_key_get_char"
  | .st_sprite_load_indexed_from_rgba .. => "st_sprite_load_indexed_from_rgba"
  | .st_sprite_get_palette .. => "st_sprite_get_palette"
  | .st_sprite_set_standard_palette .. => "st_sprite_set_standard_palette"
  | .st_asset_get_data .. => "st_asset_get_data"
  | .st_asset_get_size .. => "st_asset_get_size"
  | .st_asset_get_name .. => "st_asset_get_name"
  | .st_asset_list .. => "st_asset_list"
  | .st_asset_search .. => "st_asset_search"
  | .st_asset_get_error .. => "st_asset_get_error"

/-- Source: `luaL_setglobalnumber`: the value, converted to `lua_Number`, is
pushed and stored in the global `name`. -/
def luaL_setglobalnumber (name : String) (value : Int) : String × LuaValue :=
  (name, .number (Float.ofInt value))

/-- The `luaL_setglobalnumber(L, name, value)` calls of `registerBindings` whose
value is an integer literal (the others name enumerators of headers outside the
file), in source order, with the literal. -/
def registerNumbers : List (String × Int) :=
  [("ST_ALIGN_LEFT", 0),
   ("ST_ALIGN_CENTER", 1),
   ("ST_ALIGN_RIGHT", 2),
   ("STAR_SOLID", 0),
   ("STAR_RADIAL", 1),
   ("STAR_ALTERNATING", 2),
   ("STAR_OUTLINE", 100),
   ("STAR_DASHED_OUTLINE", 101),
   ("WAVE_SILENCE", 0),
   ("WAVE_SINE", 1)] ++
  [("WAVE_SQUARE", 2),
   ("WAVE_SAW", 3),
   ("WAVE_SAWTOOTH", 3),
   ("WAVE_TRIANGLE", 4),
   ("WAVE_NOISE", 5),
   ("WAVE_PULSE", 6),
   ("WAVE_PHYSICAL", 7),
   ("FILTER_NONE", 0),
   ("FILTER_LOWPASS", 1),
   ("FILTER_HIGHPASS", 2)] ++
  [("FILTER_BANDPASS", 3),
   ("BASIC_EXPLOSION", 1),
   ("MASSIVE_BLAST", 2),
   ("GENTLE_DISPERSAL", 3),
   ("RIGHTWARD_BLAST", 4),
   ("UPWARD_ERUPTION", 5),
   ("RAPID_BURST", 6),
   ("PARTICLE_MODE_POINT_SPRITE", 0),
   ("PARTICLE_MODE_SPRITE_FRAGMENT", 1)]

/-- The integer literal a global constant was registered with: `lua_setglobal`
overwrites, so the last registration of a name counts. -/
def getglobalnumber (name : String) : Option Int :=
  List.lookup name registerNumbers.reverse

/-- The Lua value a registered constant holds. -/
def getglobalvalue (name : String) : Option LuaValue :=
  (getglobalnumber name).map fun value => (luaL_setglobalnumber name value).2

/-- The global `name` holds a binding that, called with `args`, makes exactly
one engine call, `c`, a call of the engine function named `st_` followed by
`name`, leaves the engine in the state that call produced, and returns no
values. -/
def Forwards {σ : Type} (H : Host σ) (s : σ) (name : String) (args : List LuaValue)
    (c : EngineCall) : Prop :=
  ∃ f : CFunction, getglobal name = some f ∧ c.name = "st_" ++ name ∧
    ∀ fuel : Nat,
      (callBinding (f.body fuel) H args s).1 = .ok (some 0) ∧
      (callBinding (f.body fuel) H args s).2.calls = [c] ∧
      (callBinding (f.body fuel) H args s).2.engine = (H.call c s).2

/-- The outcome `r` of an explosion binding named `fname`, run in engine state
`s` with sprite id `id` and particle count `n`: a sprite id outside 1..1024 is
reported first, then a particle count outside 1..500, both by a Lua error and
without an engine call; with both in range the engine is called exactly once,
with `c`, and the binding returns one boolean.  So it raises iff one of the two
is out of range. -/
def ValidatedCall {σ : Type} (r : Except LuaError Int × LuaState σ) (H : Host σ) (s : σ)
    (fname : String) (id n : Int) (c : EngineCall) : Prop :=
  ((id < 1 ∨ id > 1024) →
    r.1 = .error (.runtime (fname ++ ": sprite_id must be between 1 and 1024")) ∧
    r.2.calls = []) ∧
  ((1 ≤ id ∧ id ≤ 1024) → (n < 1 ∨ n > 500) →
    r.1 = .error (.runtime (fname ++ ": particle_count must be between 1 and 500")) ∧
    r.2.calls = []) ∧
  ((1 ≤ id ∧ id ≤ 1024) → (1 ≤ n ∧ n ≤ 500) →
    r.1 = .ok 1 ∧ r.2.calls = [c] ∧ r.2.engine = (H.call c s).2 ∧
    ∃ b : Bool, results r = some [.boolean b]) ∧
  ((∃ e, r.1 = .error e) ↔ (id < 1 ∨ id > 1024 ∨ n < 1 ∨ n > 500))

/-- The particle count an explosion call of the engine carries. -/
def EngineCall.particleCount : EngineCall → Option Nat
  | .sprite_explode _ particle_count => some particle_count
  | .sprite_explode_advanced _ particle_count _ _ _ => some particle_count
  | .sprite_explode_directional _ particle_count _ _ => some particle_count
  | _ => none

/-- The binding `sprite_explode_mode`, called with sprite id `id` and the mode
registered as the constant `const`, makes exactly one engine call, `c`, whose
particle count lies in 1..500, and returns one boolean. -/
def IssuesPreset {σ : Type} (H : Host σ) (s : σ) (id : Int) (const : String) (mode : Int)
    (c : EngineCall) : Prop :=
  getglobalnumber const = some mode ∧
  (callBinding lua_sprite_explode_mode H [.integer id, .integer mode] s).1 = .ok 1 ∧
  (callBinding lua_sprite_explode_mode H [.integer id, .integer mode] s).2.calls = [c] ∧
  (callBinding lua_sprite_explode_mode H [.integer id, .integer mode] s).2.engine
    = (H.call c s).2 ∧
  (∃ b : Bool,
    results (callBinding lua_sprite_explode_mode H [.integer id, .integer mode] s)
      = some [.boolean b]) ∧
  ∃ count : Nat, c.particleCount = some count ∧ 1 ≤ count ∧ count ≤ 500

/-- The engine state after one frame of `lua_st_wait_key` in which no key was
reported pressed: `st_wait_frame`, then the 512 key queries. -/
def afterQuietFrame {σ : Type} (H : Host σ) (s : σ) : σ :=
  scanState H 512 0 (H.call .st_wait_frame s).2

/-- The engine state in which a wait started in state `s` enters its next frame
after `k` frames without a key. -/
def enterFrame {σ : Type} (H : Host σ) : Nat → σ → σ
  | 0, s => s
  | k + 1, s => enterFrame H k (afterQuietFrame H s)

/-- In frame `k` (counted from 1) of a wait started in engine state `s`, no key
having been reported in the frames before it, the engine reports some key code
in 0..511 pressed during the scan. -/
def keyPressedInFrame {σ : Type} (H : Host σ) : Nat → σ → Prop
  | 0, _ => False
  | k + 1, s => keyPressedInScan H 512 0 (H.call .st_wait_frame (enterFrame H k s)).2

/-- The number of `st_wait_frame` calls among the engine calls made. -/
def frameWaits (calls : List EngineCall) : Nat :=
  calls.countP fun c =>
    match c with
    | .st_wait_frame => true
    | _ => false

/-! ## The binding table by name

Every binding function the file defines and every registration `registerBindings` makes, by
name, in source order. -/

/-- The `static int lua_*` binding functions the file defines, in source order (the
`lua_st_chunky_*` functions, which stand inside block comments, are not defined). -/
def definedBindings : List String :=
  [
    "lua_st_text_putchar", "lua_poke_text", "lua_st_text_put", "lua_st_text_clear",
    "lua_st_text_clear_region", "lua_st_text_set_size", "lua_st_text_get_size",
    "lua_st_text_scroll", "lua_st_text_putsixel", "lua_st_sixel_pack_colors",
    "lua_st_text_putsixel_packed", "lua_st_sixel_set_stripe", "lua_st_sixel_get_stripe",
    "lua_st_sixel_gradient", "lua_st_sixel_hline", "lua_st_sixel_fill_rect", "lua_st_text_mode",
    "lua_st_lores", "lua_st_mediumres", "lua_st_highres", "lua_st_ultrares", "lua_st_xres",
    "lua_st_wres", "lua_st_mode", "lua_st_lores_pset", "lua_st_lores_line", "lua_st_lores_rect",
    "lua_st_lores_fillrect", "lua_st_lores_hline", "lua_st_lores_vline", "lua_st_lores_clear",
    "lua_st_lores_resolution", "lua_st_lores_buffer", "lua_st_lores_buffer_get",
    "lua_st_lores_flip", "lua_st_lores_blit", "lua_st_lores_blit_trans",
    "lua_st_lores_palette_set", "lua_st_lores_palette_poke", "lua_st_lores_palette_peek",
    "lua_st_ures_pset", "lua_st_ures_pget", "lua_st_ures_clear", "lua_st_ures_fillrect",
    "lua_st_ures_hline", "lua_st_ures_vline", "lua_st_ures_buffer", "lua_st_ures_buffer_get"] ++
  [
    "lua_st_ures_flip", "lua_st_ures_gpu_flip", "lua_st_ures_sync", "lua_st_ures_swap",
    "lua_st_ures_blit_from", "lua_st_ures_blit_from_trans", "lua_st_urgb", "lua_st_urgba",
    "lua_st_xres_pset", "lua_st_xres_pget", "lua_st_xres_clear", "lua_st_xres_fillrect",
    "lua_st_xres_hline", "lua_st_xres_vline", "lua_st_xres_buffer", "lua_st_xres_flip",
    "lua_st_xres_blit", "lua_st_xres_blit_trans", "lua_st_xres_blit_from",
    "lua_st_xres_blit_from_trans", "lua_st_lores_blit_gpu", "lua_st_lores_blit_trans_gpu",
    "lua_st_lores_clear_gpu", "lua_st_lores_rect_fill_gpu", "lua_st_lores_circle_fill_gpu",
    "lua_st_lores_line_gpu", "lua_st_xres_blit_gpu", "lua_st_xres_blit_trans_gpu",
    "lua_st_gpu_sync", "lua_st_xres_clear_gpu", "lua_st_wres_clear_gpu",
    "lua_st_xres_rect_fill_gpu", "lua_st_wres_rect_fill_gpu", "lua_st_xres_circle_fill_gpu",
    "lua_st_wres_circle_fill_gpu", "lua_st_xres_line_gpu", "lua_st_wres_line_gpu",
    "lua_st_xres_circle_fill_aa", "lua_st_wres_circle_fill_aa", "lua_st_xres_line_aa",
    "lua_st_wres_line_aa", "lua_st_ures_blit_copy_gpu", "lua_st_ures_blit_transparent_gpu",
    "lua_st_ures_blit_alpha_composite_gpu", "lua_st_ures_clear_gpu", "lua_st_ures_rect_fill_gpu",
    "lua_st_ures_circle_fill_gpu", "lua_st_ures_line_gpu"] ++
  [
    "lua_st_ures_circle_fill_aa", "lua_st_ures_line_aa", "lua_st_ures_rect_fill_gradient_gpu",
    "lua_st_ures_circle_fill_gradient_gpu", "lua_st_ures_circle_fill_gradient_aa",
    "lua_st_begin_blit_batch", "lua_st_end_blit_batch", "lua_st_ures_pack_argb4",
    "lua_st_ures_pack_argb8", "lua_st_ures_unpack_argb4", "lua_st_ures_unpack_argb8",
    "lua_st_ures_blend_colors", "lua_st_ures_lerp_colors", "lua_st_ures_color_from_hsv",
    "lua_st_ures_adjust_brightness", "lua_st_ures_set_alpha", "lua_st_ures_get_alpha",
    "lua_st_xres_palette_row", "lua_st_xres_palette_global", "lua_st_xres_palette_rotate_row",
    "lua_st_xres_palette_rotate_global", "lua_st_xres_palette_copy_row",
    "lua_st_xres_palette_lerp_row", "lua_st_xres_palette_lerp_global",
    "lua_st_xres_palette_make_ramp", "lua_st_xres_gradient_h", "lua_st_xres_gradient_v",
    "lua_st_xres_gradient_radial", "lua_st_xres_gradient_corners", "lua_st_xrgb",
    "lua_st_wres_pset", "lua_st_wres_pget", "lua_st_wres_clear", "lua_st_wres_fillrect",
    "lua_st_wres_hline", "lua_st_wres_vline", "lua_st_wres_buffer", "lua_st_wres_flip",
    "lua_st_wres_blit", "lua_st_wres_blit_trans", "lua_st_wres_blit_from",
    "lua_st_wres_blit_from_trans", "lua_st_wres_blit_gpu", "lua_st_wres_blit_trans_gpu",
    "lua_st_wres_palette_row", "lua_st_wres_palette_global", "lua_st_wres_palette_rotate_row",
    "lua_st_wres_palette_rotate_global"] ++
  [
    "lua_st_wres_palette_copy_row", "lua_st_wres_palette_lerp_row",
    "lua_st_wres_palette_lerp_global", "lua_st_wres_palette_make_ramp", "lua_st_wres_gradient_h",
    "lua_st_wres_gradient_v", "lua_st_wres_gradient_radial", "lua_st_wres_gradient_corners",
    "lua_st_wrgb", "lua_st_pres_pset", "lua_st_pres_pget", "lua_st_pres_clear",
    "lua_st_pres_fillrect", "lua_st_pres_hline", "lua_st_pres_vline", "lua_st_pres_buffer",
    "lua_st_pres_flip", "lua_st_pres_blit", "lua_st_pres_blit_trans", "lua_st_pres_blit_from",
    "lua_st_pres_blit_from_trans", "lua_st_pres_blit_gpu", "lua_st_pres_blit_trans_gpu",
    "lua_st_pres_clear_gpu", "lua_st_pres_rect_fill_gpu", "lua_st_pres_circle_fill_gpu",
    "lua_st_pres_line_gpu", "lua_st_pres_circle_fill_aa", "lua_st_pres_line_aa",
    "lua_st_pres_palette_row", "lua_st_pres_palette_global", "lua_st_pres_palette_rotate_row",
    "lua_st_pres_palette_rotate_global", "lua_st_pres_palette_copy_row",
    "lua_st_pres_palette_lerp_row", "lua_st_pres_palette_lerp_global",
    "lua_st_pres_palette_make_ramp", "lua_st_pres_gradient_h", "lua_st_pres_gradient_v",
    "lua_st_pres_gradient_radial", "lua_st_pres_gradient_corners", "lua_st_prgb",
    "lua_video_get_color_depth", "lua_video_has_palette", "lua_video_has_per_row_palette",
    "lua_video_get_palette_info", "lua_video_set_palette", "lua_video_set_palette_row"] ++
  [
    "lua_video_get_palette", "lua_video_get_palette_row", "lua_video_load_preset_palette",
    "lua_video_load_preset_palette_rows", "lua_video_pack_rgb", "lua_video_unpack_rgb",
    "lua_video_mode", "lua_video_mode_name", "lua_video_mode_get", "lua_video_mode_disable",
    "lua_video_pset", "lua_video_pget", "lua_video_clear", "lua_video_clear_gpu", "lua_video_rect",
    "lua_video_rect_gpu", "lua_video_circle", "lua_video_circle_gpu", "lua_video_circle_aa",
    "lua_video_line", "lua_video_line_gpu", "lua_video_line_aa", "lua_video_blit",
    "lua_video_blit_trans", "lua_video_blit_gpu", "lua_video_blit_trans_gpu", "lua_video_buffer",
    "lua_video_buffer_get", "lua_video_get_back_buffer", "lua_video_load_image",
    "lua_video_save_image", "lua_video_load_palette", "lua_video_save_palette",
    "lua_video_get_front_buffer", "lua_video_flip", "lua_video_gpu_flip",
    "lua_video_rect_gradient_gpu", "lua_video_circle_gradient_gpu", "lua_video_supports_gradients",
    "lua_video_enable_antialias", "lua_video_supports_antialias", "lua_video_set_line_width",
    "lua_video_get_line_width", "lua_video_sync", "lua_video_begin_batch", "lua_video_end_batch",
    "lua_video_swap", "lua_video_resolution"] ++
  [
    "lua_video_get_max_buffers", "lua_video_is_valid_buffer", "lua_video_get_current_buffer",
    "lua_video_get_feature_flags", "lua_video_uses_palette", "lua_video_has_gpu",
    "lua_video_get_memory_per_buffer", "lua_video_get_memory_usage", "lua_video_get_pixel_count",
    "lua_video_reset_palette_to_default", "lua_st_gfx_clear", "lua_st_gfx_rect",
    "lua_st_gfx_rect_outline", "lua_st_gfx_circle", "lua_st_gfx_circle_outline", "lua_st_gfx_line",
    "lua_st_gfx_point", "lua_st_rect_create", "lua_st_rect_create_gradient",
    "lua_st_rect_create_three_point", "lua_st_rect_create_four_corner", "lua_st_rect_set_position",
    "lua_st_rect_set_size", "lua_st_rect_set_color", "lua_st_rect_set_colors",
    "lua_st_rect_set_mode", "lua_st_rect_set_rotation", "lua_st_rect_set_visible",
    "lua_st_rect_exists", "lua_st_rect_is_visible", "lua_st_rect_delete", "lua_st_rect_delete_all",
    "lua_st_rect_create_outline", "lua_st_rect_create_horizontal_stripes",
    "lua_st_rect_create_vertical_stripes", "lua_st_rect_create_diagonal_stripes",
    "lua_st_rect_create_checkerboard", "lua_st_rect_create_dots", "lua_st_rect_create_grid",
    "lua_st_circle_create", "lua_st_circle_create_radial", "lua_st_circle_create_radial_3",
    "lua_st_circle_create_radial_4", "lua_st_circle_create_outline",
    "lua_st_circle_create_dashed_outline", "lua_st_circle_create_ring",
    "lua_st_circle_create_pie_slice", "lua_st_circle_create_arc"] ++
  [
    "lua_st_circle_create_dots_ring", "lua_st_circle_create_star_burst",
    "lua_st_circle_set_position", "lua_st_circle_set_radius", "lua_st_circle_set_color",
    "lua_st_circle_set_colors", "lua_st_circle_set_parameters", "lua_st_circle_set_visible",
    "lua_st_circle_exists", "lua_st_circle_is_visible", "lua_st_circle_delete",
    "lua_st_circle_delete_all", "lua_st_circle_count", "lua_st_circle_is_empty",
    "lua_st_circle_set_max", "lua_st_circle_get_max", "lua_st_line_create",
    "lua_st_line_create_gradient", "lua_st_line_create_dashed", "lua_st_line_create_dotted",
    "lua_st_line_set_endpoints", "lua_st_line_set_thickness", "lua_st_line_set_color",
    "lua_st_line_set_colors", "lua_st_line_set_dash_pattern", "lua_st_line_set_visible",
    "lua_st_line_exists", "lua_st_line_is_visible", "lua_st_line_delete", "lua_st_line_delete_all",
    "lua_st_line_count", "lua_st_line_is_empty", "lua_st_line_set_max", "lua_st_line_get_max",
    "lua_st_polygon_create", "lua_st_polygon_create_gradient", "lua_st_polygon_set_position",
    "lua_st_polygon_set_radius", "lua_st_polygon_set_sides", "lua_st_polygon_set_color",
    "lua_st_polygon_set_rotation", "lua_st_polygon_set_visible", "lua_st_polygon_delete",
    "lua_st_polygon_delete_all", "lua_st_polygon_count", "lua_st_star_create",
    "lua_st_star_create_custom", "lua_st_star_create_gradient"] ++
  [
    "lua_st_star_create_outline", "lua_st_star_set_position", "lua_st_star_set_radius",
    "lua_st_star_set_radii", "lua_st_star_set_points", "lua_st_star_set_color",
    "lua_st_star_set_colors", "lua_st_star_set_rotation", "lua_st_star_set_visible",
    "lua_st_star_exists", "lua_st_star_is_visible", "lua_st_star_delete", "lua_st_star_delete_all",
    "lua_st_star_count", "lua_st_star_is_empty", "lua_st_music_play", "lua_st_music_play_file",
    "lua_st_music_stop", "lua_st_music_pause", "lua_st_music_resume", "lua_st_music_is_playing",
    "lua_st_music_set_volume", "lua_st_synth_note", "lua_st_synth_set_instrument",
    "lua_st_sound_create_beep", "lua_st_sound_create_blip", "lua_st_sound_create_click",
    "lua_st_sound_create_zap", "lua_st_sound_create_explode", "lua_st_sound_create_pickup",
    "lua_st_sound_create_hurt", "lua_st_sound_create_sweep_down", "lua_st_sound_create_coin",
    "lua_st_sound_create_powerup", "lua_st_sound_play_id", "lua_st_sound_exists",
    "lua_st_sound_delete", "lua_st_synth_frequency", "lua_st_voice_set_waveform",
    "lua_st_voice_set_frequency", "lua_st_voice_set_note", "lua_st_voice_set_note_name",
    "lua_st_voice_set_envelope", "lua_st_voice_set_gate", "lua_st_voice_set_volume",
    "lua_st_voice_set_pulse_width", "lua_st_voice_set_pan", "lua_st_voice_set_filter_routing"] ++
  [
    "lua_st_voice_set_filter_type", "lua_st_voice_set_filter_cutoff",
    "lua_st_voice_set_filter_resonance", "lua_st_voice_set_filter_enabled",
    "lua_st_voice_set_master_volume", "lua_st_voice_get_master_volume", "lua_st_voice_reset_all",
    "lua_st_voice_wait", "lua_st_voice_set_physical_model", "lua_st_voice_set_physical_damping",
    "lua_st_voice_set_physical_brightness", "lua_st_voice_set_physical_excitation",
    "lua_st_voice_set_physical_resonance", "lua_st_voice_set_physical_tension",
    "lua_st_voice_set_physical_pressure", "lua_st_voice_physical_trigger",
    "lua_st_voice_set_ring_mod", "lua_st_voice_set_sync", "lua_st_voice_set_portamento",
    "lua_st_voice_set_detune", "lua_st_voice_set_delay_enable", "lua_st_voice_set_delay_time",
    "lua_st_voice_set_delay_feedback", "lua_st_voice_set_delay_mix", "lua_st_lfo_set_waveform",
    "lua_st_lfo_set_rate", "lua_st_lfo_reset", "lua_st_lfo_to_pitch", "lua_st_lfo_to_volume",
    "lua_st_lfo_to_filter", "lua_st_lfo_to_pulsewidth", "lua_st_voices_start",
    "lua_st_voices_set_tempo", "lua_st_voices_end_slot", "lua_st_voices_next_slot",
    "lua_st_voices_end_play", "lua_st_voices_end_save", "lua_st_voices_are_playing",
    "lua_st_voice_direct", "lua_st_voice_direct_slot", "lua_st_vscript_save_to_bank",
    "lua_st_key_pressed", "lua_st_key_just_pressed", "lua_st_key_just_released",
    "lua_st_key_get_char", "lua_st_key_clear_buffer", "lua_st_mouse_position",
    "lua_st_mouse_grid_position"] ++
  [
    "lua_st_mouse_button", "lua_st_mouse_button_just_pressed", "lua_st_mouse_button_just_released",
    "lua_st_wait_frame", "lua_st_wait_frames", "lua_st_wait_key", "lua_st_wait", "lua_st_sleep",
    "lua_st_frame_count", "lua_st_time", "lua_st_delta_time", "lua_st_rgb", "lua_st_rgba",
    "lua_st_hsv", "lua_st_debug_print", "lua_st_display_size", "lua_st_cell_size",
    "lua_st_sprite_explode", "lua_st_sprite_explode_advanced", "lua_st_sprite_explode_directional",
    "lua_st_particle_clear", "lua_st_particle_pause", "lua_st_particle_resume",
    "lua_st_particle_set_time_scale", "lua_st_particle_set_world_bounds",
    "lua_st_particle_set_enabled", "lua_st_particle_get_active_count",
    "lua_st_particle_get_total_created", "lua_st_particle_dump_stats", "lua_st_sprite_load",
    "lua_st_sprite_load_builtin", "lua_st_sprite_load_sprtz", "lua_st_sprite_show",
    "lua_st_sprite_hide", "lua_st_sprite_transform", "lua_st_sprite_tint", "lua_st_sprite_unload",
    "lua_st_sprite_load_indexed_from_rgba", "lua_st_sprite_is_indexed",
    "lua_st_sprite_set_palette", "lua_st_sprite_get_palette", "lua_st_sprite_set_palette_color",
    "lua_st_sprite_lerp_palette", "lua_st_sprite_rotate_palette",
    "lua_st_sprite_adjust_brightness", "lua_st_sprite_copy_palette",
    "lua_st_sprite_set_standard_palette", "lua_sprite_explode"] ++
  [
    "lua_sprite_explode_advanced", "lua_sprite_explode_directional", "lua_sprite_explode_mode",
    "lua_st_asset_init", "lua_st_asset_shutdown", "lua_st_asset_is_initialized",
    "lua_st_asset_load", "lua_st_asset_load_file", "lua_st_asset_unload", "lua_st_asset_is_loaded",
    "lua_st_asset_import", "lua_st_asset_import_directory", "lua_st_asset_export",
    "lua_st_asset_delete", "lua_st_asset_get_data", "lua_st_asset_get_size",
    "lua_st_asset_get_type", "lua_st_asset_get_name", "lua_st_asset_exists", "lua_st_asset_list",
    "lua_st_asset_search", "lua_st_asset_get_count", "lua_st_asset_clear_cache",
    "lua_st_asset_get_cache_size", "lua_st_asset_get_cached_count",
    "lua_st_asset_set_max_cache_size", "lua_st_asset_get_hit_rate",
    "lua_st_asset_get_database_size", "lua_st_asset_get_error", "lua_st_asset_clear_error",
    "lua_st_tilemap_init", "lua_st_tilemap_shutdown", "lua_st_tilemap_create",
    "lua_st_tilemap_destroy", "lua_st_tilemap_get_size", "lua_st_tilemap_create_layer",
    "lua_st_tilemap_destroy_layer", "lua_st_tilemap_layer_set_tilemap",
    "lua_st_tilemap_layer_set_parallax", "lua_st_tilemap_layer_set_opacity",
    "lua_st_tilemap_layer_set_visible", "lua_st_tilemap_layer_set_z_order",
    "lua_st_tilemap_layer_set_auto_scroll", "lua_st_tilemap_set_tile", "lua_st_tilemap_get_tile",
    "lua_st_tilemap_fill_rect", "lua_st_tilemap_clear", "lua_st_tilemap_set_camera"] ++
  [
    "lua_st_tilemap_move_camera", "lua_st_tilemap_get_camera", "lua_st_tilemap_set_zoom",
    "lua_st_tilemap_camera_follow", "lua_st_tilemap_set_camera_bounds",
    "lua_st_tilemap_camera_shake", "lua_st_tilemap_update", "lua_st_tilemap_world_to_tile",
    "lua_st_tilemap_tile_to_world", "lua_st_get_error", "lua_st_clear_error",
    "lua_st_tileset_load", "lua_st_tileset_load_asset", "lua_st_tileset_destroy",
    "lua_st_tileset_get_tile_count", "lua_st_tileset_get_dimensions",
    "lua_st_tilemap_layer_set_tileset", "lua_st_text_display_at", "lua_st_text_display_shear",
    "lua_st_text_display_update", "lua_st_text_display_set_visible", "lua_st_text_display_clear",
    "lua_st_text_update_item", "lua_st_text_remove_item", "lua_st_text_clear_displayed",
    "lua_st_text_set_item_visible", "lua_st_text_set_item_layer", "lua_st_text_set_item_color",
    "lua_st_text_get_item_count", "lua_st_text_get_visible_count", "lua_collision_circle_circle",
    "lua_collision_circle_rect", "lua_collision_circle_rect_bottom", "lua_collision_rect_rect",
    "lua_collision_point_in_circle", "lua_collision_point_in_rect",
    "lua_collision_circle_rect_info", "lua_collision_circle_circle_penetration",
    "lua_collision_rect_rect_overlap", "lua_collision_swept_circle_rect"]

/-- One registration made by `registerBindings`: a binding function installed under a global
name (`luaL_setglobalfunction`, `table = none`) or as a field of a namespace table
(`lua_pushcfunction` then `lua_setfield`, the table then stored by `lua_setglobal`). -/
structure Registration where
  table : Option String
  name : String
  func : String
  deriving DecidableEq, Repr

/-- Registration under a global name: `luaL_setglobalfunction(L, name, func)`. -/
def Registration.global (name func : String) : Registration :=
  { table := none, name := name, func := func }

/-- Registration as a field of a namespace table: `lua_pushcfunction(L, func)`,
`lua_setfield(L, -2, name)`, the table being stored by `lua_setglobal(L, table)`. -/
def Registration.field (table name func : String) : Registration :=
  { table := some table, name := name, func := func }

/-- The registrations `registerBindings` makes, in source order. -/
def registrations : List Registration :=
  [
    .global "text_putchar" "lua_st_text_putchar", .global "poke_text" "lua_poke_text",
    .global "text_put" "lua_st_text_put", .global "text_clear" "lua_st_text_clear",
    .global "cls" "lua_st_text_clear", .global "text_clear_region" "lua_st_text_clear_region",
    .global "text_set_size" "lua_st_text_set_size", .global "text_get_size" "lua_st_text_get_size",
    .global "text_scroll" "lua_st_text_scroll", .global "text_display_at" "lua_st_text_display_at",
    .global "text_display_shear" "lua_st_text_display_shear",
    .global "text_display_update" "lua_st_text_display_update",
    .global "text_display_set_visible" "lua_st_text_display_set_visible",
    .global "text_display_set_color" "lua_st_text_set_item_color",
    .global "text_display_clear" "lua_st_text_display_clear",
    .global "text_putsixel" "lua_st_text_putsixel",
    .global "text_putsixel_packed" "lua_st_text_putsixel_packed",
    .global "sixel_pack_colors" "lua_st_sixel_pack_colors",
    .global "sixel_set_stripe" "lua_st_sixel_set_stripe",
    .global "sixel_get_stripe" "lua_st_sixel_get_stripe",
    .global "sixel_gradient" "lua_st_sixel_gradient", .global "sixel_hline" "lua_st_sixel_hline",
    .global "sixel_fill_rect" "lua_st_sixel_fill_rect", .global "st_mode" "lua_st_mode",
    .global "text_mode" "lua_st_text_mode", .global "lores" "lua_st_lores",
    .global "mediumres" "lua_st_mediumres", .global "highres" "lua_st_highres",
    .global "ultrares" "lua_st_ultrares", .global "xres" "lua_st_xres",
    .global "wres" "lua_st_wres", .global "lores_pset" "lua_st_lores_pset"] ++
  [
    .global "lores_line" "lua_st_lores_line", .global "lores_rect" "lua_st_lores_rect",
    .global "lores_fillrect" "lua_st_lores_fillrect", .global "lores_hline" "lua_st_lores_hline",
    .global "lores_vline" "lua_st_lores_vline", .global "lores_clear" "lua_st_lores_clear",
    .global "lores_resolution" "lua_st_lores_resolution",
    .global "lores_buffer" "lua_st_lores_buffer",
    .global "lores_buffer_get" "lua_st_lores_buffer_get", .global "lores_flip" "lua_st_lores_flip",
    .global "lores_blit" "lua_st_lores_blit", .global "lores_blit_trans" "lua_st_lores_blit_trans",
    .global "lores_palette_set" "lua_st_lores_palette_set",
    .global "lores_palette_poke" "lua_st_lores_palette_poke",
    .global "lores_palette_peek" "lua_st_lores_palette_peek",
    .global "ures_pset" "lua_st_ures_pset", .global "ures_pget" "lua_st_ures_pget",
    .global "ures_clear" "lua_st_ures_clear", .global "ures_fillrect" "lua_st_ures_fillrect",
    .global "ures_hline" "lua_st_ures_hline", .global "ures_vline" "lua_st_ures_vline",
    .global "ures_buffer" "lua_st_ures_buffer", .global "ures_buffer_get" "lua_st_ures_buffer_get",
    .global "ures_flip" "lua_st_ures_flip", .global "ures_gpu_flip" "lua_st_ures_gpu_flip",
    .global "ures_sync" "lua_st_ures_sync", .global "ures_swap" "lua_st_ures_swap",
    .global "ures_blit_from" "lua_st_ures_blit_from",
    .global "ures_blit_from_trans" "lua_st_ures_blit_from_trans", .global "urgb" "lua_st_urgb",
    .global "urgba" "lua_st_urgba", .global "xres_pset" "lua_st_xres_pset"] ++
  [
    .global "xres_pget" "lua_st_xres_pget", .global "xres_clear" "lua_st_xres_clear",
    .global "xres_fillrect" "lua_st_xres_fillrect", .global "xres_hline" "lua_st_xres_hline",
    .global "xres_vline" "lua_st_xres_vline", .global "xres_buffer" "lua_st_xres_buffer",
    .global "xres_flip" "lua_st_xres_flip", .global "xres_blit" "lua_st_xres_blit",
    .global "xres_blit_trans" "lua_st_xres_blit_trans",
    .global "xres_blit_from" "lua_st_xres_blit_from",
    .global "xres_blit_from_trans" "lua_st_xres_blit_from_trans",
    .global "lores_blit_gpu" "lua_st_lores_blit_gpu",
    .global "lores_blit_trans_gpu" "lua_st_lores_blit_trans_gpu",
    .global "lores_clear_gpu" "lua_st_lores_clear_gpu",
    .global "lores_rect_fill_gpu" "lua_st_lores_rect_fill_gpu",
    .global "lores_circle_fill_gpu" "lua_st_lores_circle_fill_gpu",
    .global "lores_line_gpu" "lua_st_lores_line_gpu",
    .global "xres_blit_gpu" "lua_st_xres_blit_gpu",
    .global "xres_blit_trans_gpu" "lua_st_xres_blit_trans_gpu",
    .global "gpu_sync" "lua_st_gpu_sync", .global "xres_clear_gpu" "lua_st_xres_clear_gpu",
    .global "wres_clear_gpu" "lua_st_wres_clear_gpu",
    .global "xres_rect_fill_gpu" "lua_st_xres_rect_fill_gpu",
    .global "wres_rect_fill_gpu" "lua_st_wres_rect_fill_gpu",
    .global "xres_circle_fill_gpu" "lua_st_xres_circle_fill_gpu",
    .global "wres_circle_fill_gpu" "lua_st_wres_circle_fill_gpu",
    .global "xres_line_gpu" "lua_st_xres_line_gpu", .global "wres_line_gpu" "lua_st_wres_line_gpu",
    .global "xres_circle_fill_aa" "lua_st_xres_circle_fill_aa",
    .global "wres_circle_fill_aa" "lua_st_wres_circle_fill_aa",
    .global "xres_line_aa" "lua_st_xres_line_aa", .global "wres_line_aa" "lua_st_wres_line_aa"] ++
  [
    .global "ures_blit_copy_gpu" "lua_st_ures_blit_copy_gpu",
    .global "ures_blit_transparent_gpu" "lua_st_ures_blit_transparent_gpu",
    .global "ures_blit_alpha_composite_gpu" "lua_st_ures_blit_alpha_composite_gpu",
    .global "ures_clear_gpu" "lua_st_ures_clear_gpu",
    .global "ures_rect_fill_gpu" "lua_st_ures_rect_fill_gpu",
    .global "ures_circle_fill_gpu" "lua_st_ures_circle_fill_gpu",
    .global "ures_line_gpu" "lua_st_ures_line_gpu",
    .global "ures_circle_fill_aa" "lua_st_ures_circle_fill_aa",
    .global "ures_line_aa" "lua_st_ures_line_aa",
    .global "ures_rect_fill_gradient_gpu" "lua_st_ures_rect_fill_gradient_gpu",
    .global "ures_circle_fill_gradient_gpu" "lua_st_ures_circle_fill_gradient_gpu",
    .global "ures_circle_fill_gradient_aa" "lua_st_ures_circle_fill_gradient_aa",
    .global "ures_pack_argb4" "lua_st_ures_pack_argb4",
    .global "ures_pack_argb8" "lua_st_ures_pack_argb8",
    .global "ures_unpack_argb4" "lua_st_ures_unpack_argb4",
    .global "ures_unpack_argb8" "lua_st_ures_unpack_argb8",
    .global "ures_blend_colors" "lua_st_ures_blend_colors",
    .global "ures_lerp_colors" "lua_st_ures_lerp_colors",
    .global "ures_color_from_hsv" "lua_st_ures_color_from_hsv",
    .global "ures_adjust_brightness" "lua_st_ures_adjust_brightness",
    .global "ures_set_alpha" "lua_st_ures_set_alpha",
    .global "ures_get_alpha" "lua_st_ures_get_alpha",
    .global "begin_blit_batch" "lua_st_begin_blit_batch",
    .global "end_blit_batch" "lua_st_end_blit_batch",
    .global "xres_palette_row" "lua_st_xres_palette_row",
    .global "xres_palette_global" "lua_st_xres_palette_global",
    .global "xres_palette_rotate_row" "lua_st_xres_palette_rotate_row",
    .global "xres_palette_rotate_global" "lua_st_xres_palette_rotate_global",
    .global "xres_palette_copy_row" "lua_st_xres_palette_copy_row",
    .global "xres_palette_lerp_row" "lua_st_xres_palette_lerp_row",
    .global "xres_palette_lerp_global" "lua_st_xres_palette_lerp_global",
    .global "xres_palette_make_ramp" "lua_st_xres_palette_make_ramp"] ++
  [
    .global "xres_gradient_h" "lua_st_xres_gradient_h",
    .global "xres_gradient_v" "lua_st_xres_gradient_v",
    .global "xres_gradient_radial" "lua_st_xres_gradient_radial",
    .global "xres_gradient_corners" "lua_st_xres_gradient_corners", .global "xrgb" "lua_st_xrgb",
    .global "wres_pset" "lua_st_wres_pset", .global "wres_pget" "lua_st_wres_pget",
    .global "wres_clear" "lua_st_wres_clear", .global "wres_fillrect" "lua_st_wres_fillrect",
    .global "wres_hline" "lua_st_wres_hline", .global "wres_vline" "lua_st_wres_vline",
    .global "wres_buffer" "lua_st_wres_buffer", .global "wres_flip" "lua_st_wres_flip",
    .global "wres_blit" "lua_st_wres_blit", .global "wres_blit_trans" "lua_st_wres_blit_trans",
    .global "wres_blit_from" "lua_st_wres_blit_from",
    .global "wres_blit_from_trans" "lua_st_wres_blit_from_trans",
    .global "wres_blit_gpu" "lua_st_wres_blit_gpu",
    .global "wres_blit_trans_gpu" "lua_st_wres_blit_trans_gpu",
    .global "wres_palette_row" "lua_st_wres_palette_row",
    .global "wres_palette_global" "lua_st_wres_palette_global",
    .global "wres_palette_rotate_row" "lua_st_wres_palette_rotate_row",
    .global "wres_palette_rotate_global" "lua_st_wres_palette_rotate_global",
    .global "wres_palette_copy_row" "lua_st_wres_palette_copy_row",
    .global "wres_palette_lerp_row" "lua_st_wres_palette_lerp_row",
    .global "wres_palette_lerp_global" "lua_st_wres_palette_lerp_global",
    .global "wres_palette_make_ramp" "lua_st_wres_palette_make_ramp",
    .global "wres_gradient_h" "lua_st_wres_gradient_h",
    .global "wres_gradient_v" "lua_st_wres_gradient_v",
    .global "wres_gradient_radial" "lua_st_wres_gradient_radial",
    .global "wres_gradient_corners" "lua_st_wres_gradient_corners", .global "wrgb" "lua_st_wrgb"] ++
  [
    .global "pres_pset" "lua_st_pres_pset", .global "pres_pget" "lua_st_pres_pget",
    .global "pres_clear" "lua_st_pres_clear", .global "pres_fillrect" "lua_st_pres_fillrect",
    .global "pres_hline" "lua_st_pres_hline", .global "pres_vline" "lua_st_pres_vline",
    .global "pres_buffer" "lua_st_pres_buffer", .global "pres_flip" "lua_st_pres_flip",
    .global "pres_blit" "lua_st_pres_blit", .global "pres_blit_trans" "lua_st_pres_blit_trans",
    .global "pres_blit_from" "lua_st_pres_blit_from",
    .global "pres_blit_from_trans" "lua_st_pres_blit_from_trans",
    .global "pres_blit_gpu" "lua_st_pres_blit_gpu",
    .global "pres_blit_trans_gpu" "lua_st_pres_blit_trans_gpu",
    .global "pres_clear_gpu" "lua_st_pres_clear_gpu",
    .global "pres_rect_fill_gpu" "lua_st_pres_rect_fill_gpu",
    .global "pres_circle_fill_gpu" "lua_st_pres_circle_fill_gpu",
    .global "pres_line_gpu" "lua_st_pres_line_gpu",
    .global "pres_circle_fill_aa" "lua_st_pres_circle_fill_aa",
    .global "pres_line_aa" "lua_st_pres_line_aa",
    .global "pres_palette_row" "lua_st_pres_palette_row",
    .global "pres_palette_global" "lua_st_pres_palette_global",
    .global "pres_palette_rotate_row" "lua_st_pres_palette_rotate_row",
    .global "pres_palette_rotate_global" "lua_st_pres_palette_rotate_global",
    .global "pres_palette_copy_row" "lua_st_pres_palette_copy_row",
    .global "pres_palette_lerp_row" "lua_st_pres_palette_lerp_row",
    .global "pres_palette_lerp_global" "lua_st_pres_palette_lerp_global",
    .global "pres_palette_make_ramp" "lua_st_pres_palette_make_ramp",
    .global "pres_gradient_h" "lua_st_pres_gradient_h",
    .global "pres_gradient_v" "lua_st_pres_gradient_v",
    .global "pres_gradient_radial" "lua_st_pres_gradient_radial",
    .global "pres_gradient_corners" "lua_st_pres_gradient_corners"] ++
  [
    .global "prgb" "lua_st_prgb", .global "video_get_color_depth" "lua_video_get_color_depth",
    .global "video_has_palette" "lua_video_has_palette",
    .global "video_has_per_row_palette" "lua_video_has_per_row_palette",
    .global "video_get_palette_info" "lua_video_get_palette_info",
    .global "video_set_palette" "lua_video_set_palette",
    .global "video_set_palette_row" "lua_video_set_palette_row",
    .global "video_get_palette" "lua_video_get_palette",
    .global "video_get_palette_row" "lua_video_get_palette_row",
    .global "video_load_palette" "lua_video_load_palette",
    .global "video_save_palette" "lua_video_save_palette",
    .global "video_load_preset_palette" "lua_video_load_preset_palette",
    .global "video_load_preset_palette_rows" "lua_video_load_preset_palette_rows",
    .global "video_pack_rgb" "lua_video_pack_rgb",
    .global "video_unpack_rgb" "lua_video_unpack_rgb",
    .global "palette_global" "lua_video_set_palette",
    .global "palette_row" "lua_video_set_palette_row", .global "video_mode" "lua_video_mode",
    .global "video_mode_name" "lua_video_mode_name", .global "video_mode_get" "lua_video_mode_get",
    .global "video_mode_disable" "lua_video_mode_disable", .global "video_pset" "lua_video_pset",
    .global "video_pget" "lua_video_pget", .global "video_clear" "lua_video_clear",
    .global "video_clear_gpu" "lua_video_clear_gpu", .global "video_rect" "lua_video_rect",
    .global "video_rect_gpu" "lua_video_rect_gpu", .global "video_circle" "lua_video_circle",
    .global "video_circle_gpu" "lua_video_circle_gpu",
    .global "video_circle_aa" "lua_video_circle_aa", .global "video_line" "lua_video_line",
    .global "video_line_gpu" "lua_video_line_gpu"] ++
  [
    .global "video_line_aa" "lua_video_line_aa",
    .global "video_rect_gradient_gpu" "lua_video_rect_gradient_gpu",
    .global "video_circle_gradient_gpu" "lua_video_circle_gradient_gpu",
    .global "video_supports_gradients" "lua_video_supports_gradients",
    .global "video_enable_antialias" "lua_video_enable_antialias",
    .global "video_supports_antialias" "lua_video_supports_antialias",
    .global "video_set_line_width" "lua_video_set_line_width",
    .global "video_get_line_width" "lua_video_get_line_width",
    .global "video_blit" "lua_video_blit", .global "video_blit_trans" "lua_video_blit_trans",
    .global "video_blit_gpu" "lua_video_blit_gpu",
    .global "video_blit_trans_gpu" "lua_video_blit_trans_gpu",
    .global "video_buffer" "lua_video_buffer", .global "video_buffer_get" "lua_video_buffer_get",
    .global "video_get_back_buffer" "lua_video_get_back_buffer",
    .global "video_get_front_buffer" "lua_video_get_front_buffer",
    .global "video_gpu_flip" "lua_video_gpu_flip", .global "load_image" "lua_video_load_image",
    .global "save_image" "lua_video_save_image", .global "load_palette" "lua_video_load_palette",
    .global "save_palette" "lua_video_save_palette",
    .global "video_resolution" "lua_video_resolution",
    .global "video_get_max_buffers" "lua_video_get_max_buffers",
    .global "video_is_valid_buffer" "lua_video_is_valid_buffer",
    .global "video_get_current_buffer" "lua_video_get_current_buffer",
    .global "video_get_feature_flags" "lua_video_get_feature_flags",
    .global "video_uses_palette" "lua_video_uses_palette",
    .global "video_has_gpu" "lua_video_has_gpu",
    .global "video_get_memory_per_buffer" "lua_video_get_memory_per_buffer",
    .global "video_get_memory_usage" "lua_video_get_memory_usage",
    .global "video_get_pixel_count" "lua_video_get_pixel_count",
    .global "video_reset_palette_to_default" "lua_video_reset_palette_to_default"] ++
  [
    .global "video_flip" "lua_video_flip", .global "video_sync" "lua_video_sync",
    .global "video_swap" "lua_video_swap", .global "video_begin_batch" "lua_video_begin_batch",
    .global "video_end_batch" "lua_video_end_batch",
    .global "video_resolution" "lua_video_resolution", .global "gfx_clear" "lua_st_gfx_clear",
    .global "gfx_rect" "lua_st_gfx_rect", .global "gfx_rect_outline" "lua_st_gfx_rect_outline",
    .global "gfx_circle" "lua_st_gfx_circle",
    .global "gfx_circle_outline" "lua_st_gfx_circle_outline", .global "gfx_line" "lua_st_gfx_line",
    .global "gfx_point" "lua_st_gfx_point", .global "rect_create" "lua_st_rect_create",
    .global "rect_create_gradient" "lua_st_rect_create_gradient",
    .global "rect_create_three_point" "lua_st_rect_create_three_point",
    .global "rect_create_four_corner" "lua_st_rect_create_four_corner",
    .global "rect_set_position" "lua_st_rect_set_position",
    .global "rect_set_size" "lua_st_rect_set_size",
    .global "rect_set_color" "lua_st_rect_set_color",
    .global "rect_set_colors" "lua_st_rect_set_colors",
    .global "rect_set_mode" "lua_st_rect_set_mode",
    .global "rect_set_rotation" "lua_st_rect_set_rotation",
    .global "rect_set_visible" "lua_st_rect_set_visible",
    .global "rect_exists" "lua_st_rect_exists", .global "rect_is_visible" "lua_st_rect_is_visible",
    .global "rect_delete" "lua_st_rect_delete", .global "rect_delete_all" "lua_st_rect_delete_all",
    .global "rect_create_outline" "lua_st_rect_create_outline",
    .global "rect_create_horizontal_stripes" "lua_st_rect_create_horizontal_stripes",
    .global "rect_create_vertical_stripes" "lua_st_rect_create_vertical_stripes",
    .global "rect_create_diagonal_stripes" "lua_st_rect_create_diagonal_stripes"] ++
  [
    .global "rect_create_checkerboard" "lua_st_rect_create_checkerboard",
    .global "rect_create_dots" "lua_st_rect_create_dots",
    .global "rect_create_grid" "lua_st_rect_create_grid",
    .global "circle_create" "lua_st_circle_create",
    .global "circle_create_radial" "lua_st_circle_create_radial",
    .global "circle_create_radial_3" "lua_st_circle_create_radial_3",
    .global "circle_create_radial_4" "lua_st_circle_create_radial_4",
    .global "circle_create_outline" "lua_st_circle_create_outline",
    .global "circle_create_dashed_outline" "lua_st_circle_create_dashed_outline",
    .global "circle_create_ring" "lua_st_circle_create_ring",
    .global "circle_create_pie_slice" "lua_st_circle_create_pie_slice",
    .global "circle_create_arc" "lua_st_circle_create_arc",
    .global "circle_create_dots_ring" "lua_st_circle_create_dots_ring",
    .global "circle_create_star_burst" "lua_st_circle_create_star_burst",
    .global "circle_set_position" "lua_st_circle_set_position",
    .global "circle_set_radius" "lua_st_circle_set_radius",
    .global "circle_set_color" "lua_st_circle_set_color",
    .global "circle_set_colors" "lua_st_circle_set_colors",
    .global "circle_set_parameters" "lua_st_circle_set_parameters",
    .global "circle_set_visible" "lua_st_circle_set_visible",
    .global "circle_exists" "lua_st_circle_exists",
    .global "circle_is_visible" "lua_st_circle_is_visible",
    .global "circle_delete" "lua_st_circle_delete",
    .global "circle_delete_all" "lua_st_circle_delete_all",
    .global "circle_count" "lua_st_circle_count",
    .global "circle_is_empty" "lua_st_circle_is_empty",
    .global "circle_set_max" "lua_st_circle_set_max",
    .global "circle_get_max" "lua_st_circle_get_max", .global "line_create" "lua_st_line_create",
    .global "line_create_gradient" "lua_st_line_create_gradient",
    .global "line_create_dashed" "lua_st_line_create_dashed",
    .global "line_create_dotted" "lua_st_line_create_dotted"] ++
  [
    .global "line_set_endpoints" "lua_st_line_set_endpoints",
    .global "line_set_thickness" "lua_st_line_set_thickness",
    .global "line_set_color" "lua_st_line_set_color",
    .global "line_set_colors" "lua_st_line_set_colors",
    .global "line_set_dash_pattern" "lua_st_line_set_dash_pattern",
    .global "line_set_visible" "lua_st_line_set_visible",
    .global "line_exists" "lua_st_line_exists", .global "line_is_visible" "lua_st_line_is_visible",
    .global "line_delete" "lua_st_line_delete", .global "line_delete_all" "lua_st_line_delete_all",
    .global "line_count" "lua_st_line_count", .global "line_is_empty" "lua_st_line_is_empty",
    .global "line_set_max" "lua_st_line_set_max", .global "line_get_max" "lua_st_line_get_max",
    .global "polygon_create" "lua_st_polygon_create",
    .global "polygon_create_gradient" "lua_st_polygon_create_gradient",
    .global "polygon_set_position" "lua_st_polygon_set_position",
    .global "polygon_set_radius" "lua_st_polygon_set_radius",
    .global "polygon_set_sides" "lua_st_polygon_set_sides",
    .global "polygon_set_color" "lua_st_polygon_set_color",
    .global "polygon_set_rotation" "lua_st_polygon_set_rotation",
    .global "polygon_set_visible" "lua_st_polygon_set_visible",
    .global "polygon_delete" "lua_st_polygon_delete",
    .global "polygon_delete_all" "lua_st_polygon_delete_all",
    .global "polygon_count" "lua_st_polygon_count", .global "star_create" "lua_st_star_create",
    .global "star_create_custom" "lua_st_star_create_custom",
    .global "star_create_gradient" "lua_st_star_create_gradient",
    .global "star_create_outline" "lua_st_star_create_outline",
    .global "star_set_position" "lua_st_star_set_position",
    .global "star_set_radius" "lua_st_star_set_radius",
    .global "star_set_radii" "lua_st_star_set_radii"] ++
  [
    .global "star_set_points" "lua_st_star_set_points",
    .global "star_set_color" "lua_st_star_set_color",
    .global "star_set_colors" "lua_st_star_set_colors",
    .global "star_set_rotation" "lua_st_star_set_rotation",
    .global "star_set_visible" "lua_st_star_set_visible",
    .global "star_exists" "lua_st_star_exists", .global "star_is_visible" "lua_st_star_is_visible",
    .global "star_delete" "lua_st_star_delete", .global "star_delete_all" "lua_st_star_delete_all",
    .global "star_count" "lua_st_star_count", .global "star_is_empty" "lua_st_star_is_empty",
    .global "music_play" "lua_st_music_play", .global "music_play_file" "lua_st_music_play_file",
    .global "music_stop" "lua_st_music_stop", .global "music_pause" "lua_st_music_pause",
    .global "music_resume" "lua_st_music_resume",
    .global "music_is_playing" "lua_st_music_is_playing",
    .global "music_set_volume" "lua_st_music_set_volume", .global "synth_note" "lua_st_synth_note",
    .global "synth_set_instrument" "lua_st_synth_set_instrument",
    .global "sound_create_beep" "lua_st_sound_create_beep",
    .global "sound_create_blip" "lua_st_sound_create_blip",
    .global "sound_create_click" "lua_st_sound_create_click",
    .global "sound_create_zap" "lua_st_sound_create_zap",
    .global "sound_create_explode" "lua_st_sound_create_explode",
    .global "sound_create_pickup" "lua_st_sound_create_pickup",
    .global "sound_create_hurt" "lua_st_sound_create_hurt",
    .global "sound_create_sweep_down" "lua_st_sound_create_sweep_down",
    .global "sound_create_coin" "lua_st_sound_create_coin",
    .global "sound_create_powerup" "lua_st_sound_create_powerup",
    .global "sound_play_id" "lua_st_sound_play_id", .global "sound_play" "lua_st_sound_play_id"] ++
  [
    .global "sound_exists" "lua_st_sound_exists", .global "sound_delete" "lua_st_sound_delete",
    .global "synth_frequency" "lua_st_synth_frequency",
    .global "voice_set_waveform" "lua_st_voice_set_waveform",
    .global "voice_set_frequency" "lua_st_voice_set_frequency",
    .global "voice_set_note" "lua_st_voice_set_note",
    .global "voice_set_note_name" "lua_st_voice_set_note_name",
    .global "voice_set_envelope" "lua_st_voice_set_envelope",
    .global "voice_set_gate" "lua_st_voice_set_gate",
    .global "voice_set_volume" "lua_st_voice_set_volume",
    .global "voice_set_pulse_width" "lua_st_voice_set_pulse_width",
    .global "voice_set_pan" "lua_st_voice_set_pan",
    .global "voice_set_filter_routing" "lua_st_voice_set_filter_routing",
    .global "voice_set_filter_type" "lua_st_voice_set_filter_type",
    .global "voice_set_filter_cutoff" "lua_st_voice_set_filter_cutoff",
    .global "voice_set_filter_resonance" "lua_st_voice_set_filter_resonance",
    .global "voice_set_filter_enabled" "lua_st_voice_set_filter_enabled",
    .global "voice_set_master_volume" "lua_st_voice_set_master_volume",
    .global "voice_get_master_volume" "lua_st_voice_get_master_volume",
    .global "voice_reset_all" "lua_st_voice_reset_all", .global "voice_wait" "lua_st_voice_wait",
    .global "voice_set_physical_model" "lua_st_voice_set_physical_model",
    .global "voice_set_physical_damping" "lua_st_voice_set_physical_damping",
    .global "voice_set_physical_brightness" "lua_st_voice_set_physical_brightness",
    .global "voice_set_physical_excitation" "lua_st_voice_set_physical_excitation",
    .global "voice_set_physical_resonance" "lua_st_voice_set_physical_resonance",
    .global "voice_set_physical_tension" "lua_st_voice_set_physical_tension",
    .global "voice_set_physical_pressure" "lua_st_voice_set_physical_pressure",
    .global "voice_physical_trigger" "lua_st_voice_physical_trigger",
    .global "voice_set_ring_mod" "lua_st_voice_set_ring_mod",
    .global "voice_set_sync" "lua_st_voice_set_sync",
    .global "voice_set_portamento" "lua_st_voice_set_portamento"] ++
  [
    .global "voice_set_detune" "lua_st_voice_set_detune",
    .global "voice_set_delay_enable" "lua_st_voice_set_delay_enable",
    .global "voice_set_delay_time" "lua_st_voice_set_delay_time",
    .global "voice_set_delay_feedback" "lua_st_voice_set_delay_feedback",
    .global "voice_set_delay_mix" "lua_st_voice_set_delay_mix",
    .global "lfo_set_waveform" "lua_st_lfo_set_waveform",
    .global "lfo_set_rate" "lua_st_lfo_set_rate", .global "lfo_reset" "lua_st_lfo_reset",
    .global "lfo_to_pitch" "lua_st_lfo_to_pitch", .global "lfo_to_volume" "lua_st_lfo_to_volume",
    .global "lfo_to_filter" "lua_st_lfo_to_filter",
    .global "lfo_to_pulsewidth" "lua_st_lfo_to_pulsewidth",
    .global "voices_start" "lua_st_voices_start",
    .global "voices_set_tempo" "lua_st_voices_set_tempo",
    .global "voices_end_slot" "lua_st_voices_end_slot",
    .global "voices_next_slot" "lua_st_voices_next_slot",
    .global "voices_end_play" "lua_st_voices_end_play",
    .global "voices_end_save" "lua_st_voices_end_save",
    .global "voices_are_playing" "lua_st_voices_are_playing",
    .global "voice_direct" "lua_st_voice_direct",
    .global "voice_direct_slot" "lua_st_voice_direct_slot",
    .global "vscript_save_to_bank" "lua_st_vscript_save_to_bank",
    .global "key_pressed" "lua_st_key_pressed",
    .global "key_just_pressed" "lua_st_key_just_pressed",
    .global "key_just_released" "lua_st_key_just_released",
    .global "key_get_char" "lua_st_key_get_char",
    .global "key_clear_buffer" "lua_st_key_clear_buffer",
    .global "mouse_position" "lua_st_mouse_position",
    .global "mouse_grid_position" "lua_st_mouse_grid_position",
    .global "mouse_button" "lua_st_mouse_button",
    .global "mouse_button_just_pressed" "lua_st_mouse_button_just_pressed",
    .global "mouse_button_just_released" "lua_st_mouse_button_just_released"] ++
  [
    .global "wait_frame" "lua_st_wait_frame", .global "wait_frames" "lua_st_wait_frames",
    .global "wait_key" "lua_st_wait_key", .global "wait" "lua_st_wait",
    .global "sleep" "lua_st_sleep", .global "frame_count" "lua_st_frame_count",
    .global "time" "lua_st_time", .global "delta_time" "lua_st_delta_time",
    .global "rgb" "lua_st_rgb", .global "rgba" "lua_st_rgba", .global "hsv" "lua_st_hsv",
    .global "debug_print" "lua_st_debug_print", .global "display_size" "lua_st_display_size",
    .global "cell_size" "lua_st_cell_size", .global "st_get_error" "lua_st_get_error",
    .global "st_clear_error" "lua_st_clear_error",
    .global "st_sprite_explode" "lua_st_sprite_explode",
    .global "st_sprite_explode_advanced" "lua_st_sprite_explode_advanced",
    .global "st_sprite_explode_directional" "lua_st_sprite_explode_directional",
    .global "st_particle_clear" "lua_st_particle_clear",
    .global "st_particle_pause" "lua_st_particle_pause",
    .global "st_particle_resume" "lua_st_particle_resume",
    .global "st_particle_set_time_scale" "lua_st_particle_set_time_scale",
    .global "st_particle_set_world_bounds" "lua_st_particle_set_world_bounds",
    .global "st_particle_set_enabled" "lua_st_particle_set_enabled",
    .global "st_particle_get_active_count" "lua_st_particle_get_active_count",
    .global "st_particle_get_total_created" "lua_st_particle_get_total_created",
    .global "st_particle_dump_stats" "lua_st_particle_dump_stats",
    .global "sprite_load" "lua_st_sprite_load",
    .global "sprite_load_builtin" "lua_st_sprite_load_builtin",
    .global "sprite_load_sprtz" "lua_st_sprite_load_sprtz",
    .global "sprite_show" "lua_st_sprite_show"] ++
  [
    .global "sprite_hide" "lua_st_sprite_hide",
    .global "sprite_transform" "lua_st_sprite_transform",
    .global "sprite_tint" "lua_st_sprite_tint", .global "sprite_unload" "lua_st_sprite_unload",
    .global "sprite_load_indexed_from_rgba" "lua_st_sprite_load_indexed_from_rgba",
    .global "sprite_is_indexed" "lua_st_sprite_is_indexed",
    .global "sprite_set_palette" "lua_st_sprite_set_palette",
    .global "sprite_get_palette" "lua_st_sprite_get_palette",
    .global "sprite_set_palette_color" "lua_st_sprite_set_palette_color",
    .global "sprite_lerp_palette" "lua_st_sprite_lerp_palette",
    .global "sprite_rotate_palette" "lua_st_sprite_rotate_palette",
    .global "sprite_adjust_brightness" "lua_st_sprite_adjust_brightness",
    .global "sprite_copy_palette" "lua_st_sprite_copy_palette",
    .global "sprite_set_standard_palette" "lua_st_sprite_set_standard_palette",
    .global "sprite_explode" "lua_sprite_explode",
    .global "sprite_explode_advanced" "lua_sprite_explode_advanced",
    .global "sprite_explode_directional" "lua_sprite_explode_directional",
    .global "sprite_explode_mode" "lua_sprite_explode_mode",
    .field "asset" "init" "lua_st_asset_init", .field "asset" "shutdown" "lua_st_asset_shutdown",
    .field "asset" "isInitialized" "lua_st_asset_is_initialized",
    .field "asset" "load" "lua_st_asset_load", .field "asset" "loadFile" "lua_st_asset_load_file",
    .field "asset" "unload" "lua_st_asset_unload",
    .field "asset" "isLoaded" "lua_st_asset_is_loaded",
    .field "asset" "import" "lua_st_asset_import",
    .field "asset" "importDirectory" "lua_st_asset_import_directory",
    .field "asset" "export" "lua_st_asset_export", .field "asset" "delete" "lua_st_asset_delete",
    .field "asset" "getData" "lua_st_asset_get_data",
    .field "asset" "getSize" "lua_st_asset_get_size",
    .field "asset" "getType" "lua_st_asset_get_type"] ++
  [
    .field "asset" "getName" "lua_st_asset_get_name",
    .field "asset" "exists" "lua_st_asset_exists", .field "asset" "list" "lua_st_asset_list",
    .field "asset" "search" "lua_st_asset_search",
    .field "asset" "getCount" "lua_st_asset_get_count",
    .field "asset" "clearCache" "lua_st_asset_clear_cache",
    .field "asset" "getCacheSize" "lua_st_asset_get_cache_size",
    .field "asset" "getCachedCount" "lua_st_asset_get_cached_count",
    .field "asset" "setMaxCacheSize" "lua_st_asset_set_max_cache_size",
    .field "asset" "getHitRate" "lua_st_asset_get_hit_rate",
    .field "asset" "getDatabaseSize" "lua_st_asset_get_database_size",
    .field "asset" "getError" "lua_st_asset_get_error",
    .field "asset" "clearError" "lua_st_asset_clear_error",
    .field "tilemap" "init" "lua_st_tilemap_init",
    .field "tilemap" "shutdown" "lua_st_tilemap_shutdown",
    .field "tilemap" "create" "lua_st_tilemap_create",
    .field "tilemap" "destroy" "lua_st_tilemap_destroy",
    .field "tilemap" "getSize" "lua_st_tilemap_get_size",
    .field "tilemap" "createLayer" "lua_st_tilemap_create_layer",
    .field "tilemap" "destroyLayer" "lua_st_tilemap_destroy_layer",
    .field "tilemap" "layerSetTilemap" "lua_st_tilemap_layer_set_tilemap",
    .field "tilemap" "layerSetTileset" "lua_st_tilemap_layer_set_tileset",
    .field "tilemap" "layerSetParallax" "lua_st_tilemap_layer_set_parallax",
    .field "tilemap" "layerSetOpacity" "lua_st_tilemap_layer_set_opacity",
    .field "tilemap" "layerSetVisible" "lua_st_tilemap_layer_set_visible",
    .field "tilemap" "layerSetZOrder" "lua_st_tilemap_layer_set_z_order",
    .field "tilemap" "layerSetAutoScroll" "lua_st_tilemap_layer_set_auto_scroll",
    .field "tilemap" "setTile" "lua_st_tilemap_set_tile",
    .field "tilemap" "getTile" "lua_st_tilemap_get_tile",
    .field "tilemap" "fillRect" "lua_st_tilemap_fill_rect",
    .field "tilemap" "clear" "lua_st_tilemap_clear",
    .field "tilemap" "setCamera" "lua_st_tilemap_set_camera"] ++
  [
    .field "tilemap" "moveCamera" "lua_st_tilemap_move_camera",
    .field "tilemap" "getCamera" "lua_st_tilemap_get_camera",
    .field "tilemap" "setZoom" "lua_st_tilemap_set_zoom",
    .field "tilemap" "cameraFollow" "lua_st_tilemap_camera_follow",
    .field "tilemap" "setCameraBounds" "lua_st_tilemap_set_camera_bounds",
    .field "tilemap" "cameraShake" "lua_st_tilemap_camera_shake",
    .field "tilemap" "update" "lua_st_tilemap_update",
    .field "tilemap" "worldToTile" "lua_st_tilemap_world_to_tile",
    .field "tilemap" "tileToWorld" "lua_st_tilemap_tile_to_world",
    .field "tilemap" "loadTileset" "lua_st_tileset_load",
    .field "tilemap" "loadTilesetAsset" "lua_st_tileset_load_asset",
    .field "tilemap" "destroyTileset" "lua_st_tileset_destroy",
    .field "tilemap" "getTilesetTileCount" "lua_st_tileset_get_tile_count",
    .field "tilemap" "getTilesetDimensions" "lua_st_tileset_get_dimensions",
    .global "collision_circle_circle" "lua_collision_circle_circle",
    .global "collision_circle_rect" "lua_collision_circle_rect",
    .global "collision_circle_rect_bottom" "lua_collision_circle_rect_bottom",
    .global "collision_rect_rect" "lua_collision_rect_rect",
    .global "collision_point_in_circle" "lua_collision_point_in_circle",
    .global "collision_point_in_rect" "lua_collision_point_in_rect",
    .global "collision_circle_rect_info" "lua_collision_circle_rect_info",
    .global "collision_circle_circle_penetration" "lua_collision_circle_circle_penetration",
    .global "collision_rect_rect_overlap" "lua_collision_rect_rect_overlap",
    .global "collision_swept_circle_rect" "lua_collision_swept_circle_rect"]

/-- Whether `registerBindings` makes the binding function `func` reachable from Lua: some
registration installs it, under a global name or as a field of a namespace table. -/
def reachable (func : String) : Bool :=
  registrations.any fun r => r.func == func

/-- The text-item binding functions of lines 5516-5569. -/
def textItemBindings : List String :=
  ["lua_st_text_update_item", "lua_st_text_remove_item", "lua_st_text_clear_displayed",
    "lua_st_text_set_item_visible", "lua_st_text_set_item_layer", "lua_st_text_get_item_count",
    "lua_st_text_get_visible_count"]

/-- For each defined binding, in the order of `definedBindings`: the position in `registrations`
of the first registration that installs it (`none` where there is no registration). -/
def firstRegistration : List (Option Nat) :=
  [
    some 0, some 1, some 2, some 3, some 5, some 6, some 7, some 8, some 15, some 17, some 16,
    some 18, some 19, some 20, some 21, some 22, some 24, some 25, some 26, some 27, some 28,
    some 29, some 30, some 23, some 31, some 32, some 33, some 34, some 35, some 36, some 37,
    some 38, some 39, some 40, some 41, some 42, some 43, some 44, some 45, some 46, some 47,
    some 48, some 49, some 50, some 51, some 52, some 53, some 54, some 55, some 56, some 57,
    some 58, some 59, some 60, some 61, some 62, some 63, some 64, some 65, some 66, some 67,
    some 68, some 69, some 70] ++
  [
    some 71, some 72, some 73, some 74, some 75, some 76, some 77, some 78, some 79, some 80,
    some 81, some 82, some 83, some 84, some 85, some 86, some 87, some 88, some 89, some 90,
    some 91, some 92, some 93, some 94, some 95, some 96, some 97, some 98, some 99, some 100,
    some 101, some 102, some 103, some 104, some 105, some 106, some 107, some 118, some 119,
    some 108, some 109, some 110, some 111, some 112, some 113, some 114, some 115, some 116,
    some 117, some 120, some 121, some 122, some 123, some 124, some 125, some 126, some 127,
    some 128, some 129, some 130, some 131, some 132, some 133, some 134] ++
  [
    some 135, some 136, some 137, some 138, some 139, some 140, some 141, some 142, some 143,
    some 144, some 145, some 146, some 147, some 148, some 149, some 150, some 151, some 152,
    some 153, some 154, some 155, some 156, some 157, some 158, some 159, some 160, some 161,
    some 162, some 163, some 164, some 165, some 166, some 167, some 168, some 169, some 170,
    some 171, some 172, some 173, some 174, some 175, some 176, some 177, some 178, some 179,
    some 180, some 181, some 182, some 183, some 184, some 185, some 186, some 187, some 188,
    some 189, some 190, some 191, some 192, some 193, some 194, some 195, some 196, some 197,
    some 198] ++
  [
    some 199, some 200, some 203, some 204, some 205, some 206, some 209, some 210, some 211,
    some 212, some 213, some 214, some 215, some 216, some 217, some 218, some 219, some 220,
    some 221, some 222, some 223, some 224, some 232, some 233, some 234, some 235, some 236,
    some 237, some 238, some 241, some 242, some 201, some 202, some 239, some 256, some 240,
    some 225, some 226, some 227, some 228, some 229, some 230, some 231, some 257, some 259,
    some 260, some 258, some 245, some 246, some 247, some 248, some 249, some 250, some 251,
    some 252, some 253, some 254, some 255, some 262, some 263, some 264, some 265, some 266,
    some 267] ++
  [
    some 268, some 269, some 270, some 271, some 272, some 273, some 274, some 275, some 276,
    some 277, some 278, some 279, some 280, some 281, some 282, some 283, some 284, some 285,
    some 286, some 287, some 288, some 289, some 290, some 291, some 292, some 293, some 294,
    some 295, some 296, some 297, some 298, some 299, some 300, some 301, some 302, some 303,
    some 304, some 305, some 306, some 307, some 308, some 309, some 310, some 311, some 312,
    some 313, some 314, some 315, some 316, some 317, some 318, some 319, some 320, some 321,
    some 322, some 323, some 324, some 325, some 326, some 327, some 328, some 329, some 330,
    some 331] ++
  [
    some 332, some 333, some 334, some 335, some 336, some 337, some 338, some 339, some 340,
    some 341, some 342, some 343, some 344, some 345, some 346, some 347, some 348, some 349,
    some 350, some 351, some 352, some 353, some 354, some 355, some 356, some 357, some 358,
    some 359, some 360, some 361, some 362, some 363, some 364, some 365, some 366, some 367,
    some 368, some 369, some 370, some 371, some 372, some 373, some 374, some 375, some 376,
    some 377, some 378, some 379, some 380, some 381, some 382, some 384, some 385, some 386,
    some 387, some 388, some 389, some 390, some 391, some 392, some 393, some 394, some 395,
    some 396] ++
  [
    some 397, some 398, some 399, some 400, some 401, some 402, some 403, some 404, some 405,
    some 406, some 407, some 408, some 409, some 410, some 411, some 412, some 413, some 414,
    some 415, some 416, some 417, some 418, some 419, some 420, some 421, some 422, some 423,
    some 424, some 425, some 426, some 427, some 428, some 429, some 430, some 431, some 432,
    some 433, some 434, some 435, some 436, some 437, some 438, some 439, some 440, some 441,
    some 442, some 443, some 444, some 445, some 446, some 447, some 448, some 449, some 450,
    some 451, some 452, some 453, some 454, some 455, some 456, some 457, some 458, some 459,
    some 460] ++
  [
    some 461, some 464, some 465, some 466, some 467, some 468, some 469, some 470, some 471,
    some 472, some 473, some 474, some 475, some 476, some 477, some 478, some 479, some 480,
    some 481, some 482, some 483, some 484, some 485, some 486, some 487, some 488, some 489,
    some 490, some 491, some 492, some 493, some 494, some 495, some 496, some 497, some 498,
    some 499, some 500, some 501, some 502, some 503, some 504, some 505, some 506, some 507,
    some 508, some 509, some 510, some 511, some 512, some 513, some 514, some 515, some 516,
    some 517, some 518, some 519, some 520, some 521, some 522, some 523, some 524, some 525,
    some 526] ++
  [
    some 527, some 528, some 529, some 530, some 531, some 532, some 534, some 535, some 536,
    some 537, some 538, some 539, some 540, some 541, some 542, some 543, some 544, some 545,
    some 546, some 547, some 548, some 549, some 550, some 551, some 552, some 462, some 463,
    some 553, some 554, some 555, some 556, some 557, some 533, some 9, some 10, some 11, some 12,
    some 14, none, none, none, none, none, some 13, none, none, some 558, some 559, some 560,
    some 561, some 562, some 563, some 564, some 565, some 566, some 567]

/-! ## The voice bank: modulation sources -/

/-- Modelled from the spec: the modulation sources of one voice, each an optional voice index
for which self-reference is disallowed.  The engine that keeps them is not under src/; the
other fields of a voice play no part in the modulation setters. -/
structure Voice where
  ringModSource : Option Nat
  syncSource : Option Nat
  deriving DecidableEq, Repr

/-- Modelled from the spec: the voice bank of the engine, voices 0..N-1 (the engine is not
under src/). -/
abbrev VoiceBank : Type := List Voice

/-- Modelled from the spec: whether an index names an existing voice (valid indices are
0..N-1). -/
def VoiceBank.valid (bank : VoiceBank) (i : Int) : Bool :=
  decide (0 ≤ i) && decide (i < bank.length)

/-- Modelled from the spec: change one existing voice of the bank in place. -/
def VoiceBank.modifyVoice (bank : VoiceBank) (i : Nat) (f : Voice → Voice) : VoiceBank :=
  match bank.get? i with
  | some w => bank.set i (f w)
  | none => bank

/-- Modelled from the spec: the engine function `st_voice_set_ring_mod`, which is not under
src/.  A ring-modulation source, if set, references a different existing voice; an operation
on an invalid index is a no-op, and naming the voice itself is rejected at the setter, as a
no-op. -/
def st_voice_set_ring_mod (voiceNum sourceVoice : Int) (bank : VoiceBank) : VoiceBank :=
  if bank.valid voiceNum && bank.valid sourceVoice && sourceVoice != voiceNum then
    bank.modifyVoice voiceNum.toNat fun w => { w with ringModSource := some sourceVoice.toNat }
  else bank

/-- Modelled from the spec: the engine function `st_voice_set_sync`, which is not under src/.
A hard-sync source, if set, references a different existing voice; an operation on an invalid
index is a no-op, and naming the voice itself is rejected at the setter, as a no-op. -/
def st_voice_set_sync (voiceNum sourceVoice : Int) (bank : VoiceBank) : VoiceBank :=
  if bank.valid voiceNum && bank.valid sourceVoice && sourceVoice != voiceNum then
    bank.modifyVoice voiceNum.toNat fun w => { w with syncSource := some sourceVoice.toNat }
  else bank

/-- A host whose engine state is the voice bank: the two modulation setters act on it as
modelled, every other call leaves it alone and answers the zero of its type. -/
def voiceBankHost : Host VoiceBank where
  call := fun c bank =>
    (c.retType.zero,
      match c with
      | .st_voice_set_ring_mod voiceNum sourceVoice =>
        st_voice_set_ring_mod voiceNum sourceVoice bank
      | .st_voice_set_sync voiceNum sourceVoice => st_voice_set_sync voiceNum sourceVoice bank
      | _ => bank)
  l_strton := fun _ => none
  tostring := fun _ => ""

/-- No voice of the bank is its own ring-modulation or hard-sync source. -/
def NoSelfSource (bank : VoiceBank) : Prop :=
  ∀ i : Nat, i < bank.length →
    (bank.get? i).bind Voice.ringModSource ≠ some i ∧
    (bank.get? i).bind Voice.syncSource ≠ some i

instance (bank : VoiceBank) : Decidable (NoSelfSource bank) := by
  unfold NoSelfSource
  infer_instance

/-! ## The timeline session -/

/-- Modelled from the spec: additive mixing of two sample runs from their common start; where
only one of them has a sample, that sample stands.  The engine's mixing code is not under
src/. -/
def mixSamples : List ℚ → List ℚ → List ℚ
  | [], ys => ys
  | xs, [] => xs
  | x :: xs, y :: ys => (x + y) :: mixSamples xs ys

/-- Modelled from the spec: additive mixing of a rendered run into the accumulation buffer at
a time offset in samples; a buffer that ends before the offset is continued with silence.
The engine's mixing code is not under src/. -/
def mixAt : List ℚ → Nat → List ℚ → List ℚ
  | buffer, 0, xs => mixSamples buffer xs
  | [], offset + 1, xs => 0 :: mixAt [] offset xs
  | b :: buffer, offset + 1, xs => b :: mixAt buffer offset xs

/-- Modelled from the spec: the beat-to-sample conversion of the Timeline Session,
beatDurationSamples = sampleRate*60/tempoBPM, as a whole number of samples.  The engine code
that computes it is not under src/. -/
def beatDurationSamples (sampleRate : Nat) (tempoBPM : ℚ) : Nat :=
  Nat.floor ((sampleRate : ℚ) * 60 / tempoBPM)

/-- Modelled from the spec: the Timeline Session of the engine with its Sound Bank, neither
under src/: whether a session is active, the tempo, the write cursor (in samples), the
accumulation buffer, and the Sound Bank entries (id and rendered samples) with the next id to
assign. -/
structure Timeline where
  sampleRate : Nat
  active : Bool
  tempoBPM : ℚ
  cursor : Nat
  buffer : List ℚ
  sounds : List (Nat × List ℚ)
  nextId : Nat

/-- Modelled from the spec: the engine function `st_voices_start`, not under src/: it resets
the accumulation buffer and activates the session (the write cursor is back at the start). -/
def st_voices_start (t : Timeline) : Timeline :=
  { t with active := true, cursor := 0, buffer := [] }

/-- Modelled from the spec: the engine function `st_voices_set_tempo`, not under src/: it
fixes the beat-to-sample conversion for the slot operations that follow. -/
def st_voices_set_tempo (bpm : ℚ) (t : Timeline) : Timeline :=
  { t with tempoBPM := bpm }

/-- Modelled from the spec: one beat of the live voice state, rendered from the tick `start`
and scaled by `volume`: `beat` samples.  `signal` is the sample the voices produce at a
tick; the voice rendering itself is not under src/. -/
def renderBeat (signal : Nat → ℚ) (volume : ℚ) (start beat : Nat) : List ℚ :=
  (List.range beat).map fun k => volume * signal (start + k)

/-- Modelled from the spec: the engine function `st_voices_next_slot`, not under src/: it
renders one beat at the current write cursor, mixes it into the accumulation buffer there,
advances the cursor by one beat, and returns a newly assigned Sound Bank id that stands for
that slot's render alone. -/
def st_voices_next_slot (signal : Nat → ℚ) (volume : ℚ) (t : Timeline) : Nat × Timeline :=
  let beat := beatDurationSamples t.sampleRate t.tempoBPM
  let slot := renderBeat signal volume t.cursor beat
  (t.nextId,
    { t with
      cursor := t.cursor + beat
      buffer := mixAt t.buffer t.cursor slot
      sounds := t.sounds ++ [(t.nextId, slot)]
      nextId := t.nextId + 1 })

/-- The answer of the timeline engine to a call: the id of the slot for `st_voices_next_slot`,
the zero of its type for every other call. -/
def timelineAnswer (signal : Nat → ℚ) (real : CFloat → ℚ) (t : Timeline) :
    (c : EngineCall) → c.Ret
  | .st_voices_next_slot volume => (st_voices_next_slot signal (real volume) t).1
  | c => c.retType.zero

/-- A host whose engine state is the timeline session.  `real` is the number a C `float`
stands for and `signal` the sample the voices produce at a tick; the three timeline calls act
as modelled, every other call leaves the session alone. -/
def timelineHost (signal : Nat → ℚ) (real : CFloat → ℚ) : Host Timeline where
  call := fun c t =>
    (timelineAnswer signal real t c,
      match c with
      | .st_voices_start => st_voices_start t
      | .st_voices_set_tempo bpm => st_voices_set_tempo (real bpm) t
      | .st_voices_next_slot volume => (st_voices_next_slot signal (real volume) t).2
      | _ => t)
  l_strton := fun _ => none
  tostring := fun _ => ""

/-- The script `voices_start(); voices_set_tempo(tempo); voices_next_slot(volume);
voices_next_slot(volume)` run from the engine state `s`: the outcomes of the two
`voices_next_slot` calls. -/
def twoSlotScript {σ : Type} (H : Host σ) (tempo volume : LuaValue) (s : σ) :
    (Except LuaError Int × LuaState σ) × (Except LuaError Int × LuaState σ) :=
  let s1 := (callBinding lua_st_voices_start H [] s).2.engine
  let s2 := (callBinding lua_st_voices_set_tempo H [tempo] s1).2.engine
  let r3 := callBinding lua_st_voices_next_slot H [volume] s2
  (r3, callBinding lua_st_voices_next_slot H [volume] r3.2.engine)

/-! ## Tables, relative stack indices and C strings -/

/-- The value at an acceptable stack index: a positive index counts from the
bottom of the frame, a negative one from the top (`-1` is the top); `none`
where there is no value. -/
def index2valueRel (stack : List LuaValue) (idx : Int) : Option LuaValue :=
  if 0 < idx then index2value stack idx.toNat
  else if idx < 0 ∧ (-idx).toNat ≤ stack.length then
    stack.get? (stack.length - (-idx).toNat)
  else none

/-- The C function `luaL_checkinteger` at a relative index (`luaL_checkinteger(L,
-1)`): the value there as a `lua_Integer`, or a bad-argument error. -/
def luaL_checkintegerAt {σ : Type} (idx : Int) : LuaM σ Int :=
  fun H st =>
    match (index2valueRel st.stack idx).bind (tointeger H) with
    | some i => (.ok i, st)
    | none =>
      if ((index2valueRel st.stack idx).bind (tonumber H)).isSome then
        (.error (.badArgumentAt idx "number has no integer representation"), st)
      else
        (.error (.badArgumentAt idx
          ("number expected, got " ++ luaL_typename (index2valueRel st.stack idx))), st)

/-- The C call `luaL_checktype(L, arg, LUA_TTABLE)`: a bad-argument error unless
the argument is a table. -/
def luaL_checktype_LUA_TTABLE {σ : Type} (arg : Nat) : LuaM σ Unit :=
  fun _ st =>
    match index2value st.stack arg with
    | some (.table _) => (.ok (), st)
    | v => (.error (.badArgument arg ("table expected, got " ++ luaL_typename v)), st)

/-- The entry of a table under an integer key, `nil` when there is none. -/
def LuaTable.rawget (t : LuaTable) (n : Int) : LuaValue :=
  match t.lookup n with
  | some v => v
  | none => .nil

/-- The C function `lua_rawgeti` with the table at a positive index: pushes
`t[n]`.  On a value that is not a table of the heap the call is not defined. -/
def lua_rawgeti {σ : Type} (idx : Nat) (n : Int) : LuaM σ Unit :=
  fun _ st =>
    match index2value st.stack idx with
    | some (.table ref) =>
      match st.tables.get? ref with
      | some t => (.ok (), { st with stack := st.stack ++ [t.rawget n] })
      | none => (.error (.fault "lua_rawgeti: not a table"), st)
    | _ => (.error (.fault "lua_rawgeti: not a table"), st)

/-- The C macro `lua_pop`: removes the top `n` values; not defined when the
frame holds fewer. -/
def lua_pop {σ : Type} (n : Nat) : LuaM σ Unit :=
  fun _ st =>
    if n ≤ st.stack.length then
      (.ok (), { st with stack := st.stack.take (st.stack.length - n) })
    else (.error (.fault "lua_pop: stack underflow"), st)

/-- The C function `lua_createtable`: a new empty table on the heap and its
reference on the stack (the two size hints change nothing a script can see). -/
def lua_createtable {σ : Type} (_narr _nrec : Int) : LuaM σ Unit :=
  fun _ st =>
    (.ok (), { st with stack := st.stack ++ [.table st.tables.length],
                       tables := st.tables ++ [[]] })

/-- The C macro `lua_newtable`, which is `lua_createtable(L, 0, 0)`. -/
def lua_newtable {σ : Type} : LuaM σ Unit := lua_createtable 0 0

/-- The C function `lua_rawseti` with the table at a relative index: `t[n] = v`
for the value `v` on top of the stack, which it pops.  Not defined when there
is no value to pop or the index does not hold a table of the heap. -/
def lua_rawseti {σ : Type} (idx : Int) (n : Int) : LuaM σ Unit :=
  fun _ st =>
    match index2valueRel st.stack idx, st.stack.getLast? with
    | some (.table ref), some v =>
      match st.tables.get? ref with
      | some t =>
        (.ok (), { st with stack := st.stack.take (st.stack.length - 1),
                           tables := st.tables.set ref ((n, v) :: t) })
      | none => (.error (.fault "lua_rawseti: not a table"), st)
    | _, _ => (.error (.fault "lua_rawseti: not a table"), st)

/-- The C string in a `char` array: the bytes before the first zero byte.  A
byte of a Lua string is written as the character with that code. -/
def cstr (bytes : List (Fin 256)) : String :=
  String.mk ((bytes.takeWhile fun b => b ≠ 0).map fun b => Char.ofNat b.val)

/-- The C function `lua_pushstring` on a pointer that may be null: a null
pointer pushes `nil`. -/
def lua_pushstring_ptr {σ : Type} (s : Option String) : LuaM σ Unit :=
  match s with
  | some s => lua_pushstring s
  | none => lua_pushnil

/-- The C function `lua_pushlstring`: the first `len` bytes at `s`.  (The block
is taken to hold at least `len` bytes; a read past its end is not modelled.) -/
def lua_pushlstring {σ : Type} (s : String) (len : Nat) : LuaM σ Unit :=
  lua_pushstring (s.take len)

/-! ## Keyboard character binding -/

/-- Source: `lua_st_key_get_char`.  `char str[2] = { (char)ch, 0 }` holds the low
eight bits of the code and a terminator. -/
def lua_st_key_get_char {σ : Type} : LuaM σ Int := do
  let ch : Nat ← engine .st_key_get_char
  (if ch ≠ 0 then lua_pushstring (cstr [toUInt8 ch, 0]) else lua_pushnil)
  return 1

/-! ## Indexed sprite bindings -/

/-- The store `pixels[i] = v` into a `std::vector<uint8_t>`: not defined outside
the vector. -/
def vector_store {σ : Type} (pixels : List (Fin 256)) (i : Nat) (v : Fin 256) :
    LuaM σ (List (Fin 256)) :=
  if i < pixels.length then pure (pixels.set i v)
  else raise (.fault "store outside the vector")

/-- The pixel loop of `lua_st_sprite_load_indexed_from_rgba`, `for (i = ...; i <
expected_size; i++)`, from `i` on with `n` iterations left: entry `i + 1` of the
table at index 1 is pushed, checked to be an integer, narrowed to `uint8_t`,
stored at `pixels[i]` and popped. -/
def read_pixels {σ : Type} : Nat → Nat → List (Fin 256) → LuaM σ (List (Fin 256))
  | 0, _, pixels => pure pixels
  | n + 1, i, pixels => do
    lua_rawgeti 1 (i + 1)
    let v ← luaL_checkintegerAt (-1)
    let pixels ← vector_store pixels i (toUInt8 v)
    lua_pop 1
    read_pixels n (i + 1) pixels

/-- The palette loop of the indexed sprite bindings, `for (i = ...; i < 64; i++)`,
from `i` on with `n` iterations left: `palette[i]` is pushed and stored under
key `i + 1` of the table below it. -/
def push_palette {σ : Type} (palette : Nat → Fin 256) : Nat → Nat → LuaM σ Unit
  | 0, _ => pure ()
  | n + 1, i => do
    lua_pushinteger (palette i).val
    lua_rawseti (-2) (i + 1)
    push_palette palette n (i + 1)

/-- Source: `lua_st_sprite_load_indexed_from_rgba`.  The two products are C `int`
products, taken to wrap at 32 bits; `std::vector<uint8_t> pixels(expected_size)`
with a negative size throws (the size becomes a huge `size_t`), otherwise the
vector holds `expected_size` zero bytes. -/
def lua_st_sprite_load_indexed_from_rgba {σ : Type} : LuaM σ Int := do
  luaL_checktype_LUA_TTABLE 1
  let width := toInt32 (← luaL_checkinteger 2)
  let height := toInt32 (← luaL_checkinteger 3)
  let pixel_count := toInt32 (width * height)
  let expected_size := toInt32 (pixel_count * 4)
  if expected_size < 0 then raise (.fault "std::vector: size out of range")
  else do
    let pixels ← read_pixels expected_size.toNat 0 (List.replicate expected_size.toNat 0)
    let r : Int × (Nat → Fin 256) ←
      engine (.st_sprite_load_indexed_from_rgba pixels width height)
    let sprite_id := r.1
    if sprite_id < 0 then do
      lua_pushnil
      return 1
    else do
      lua_pushinteger sprite_id
      lua_createtable 64 0
      push_palette r.2 64 0
      return 2

/-- Source: `lua_st_sprite_get_palette`. -/
def lua_st_sprite_get_palette {σ : Type} : LuaM σ Int := do
  let sprite_id := toInt32 (← luaL_checkinteger 1)
  let r : Bool × (Nat → Fin 256) ← engine (.st_sprite_get_palette sprite_id)
  if ¬ r.1 then do
    lua_pushnil
    return 1
  else do
    lua_createtable 64 0
    push_palette r.2 64 0
    return 1

/-- Source: `lua_st_sprite_set_standard_palette`. -/
def lua_st_sprite_set_standard_palette {σ : Type} : LuaM σ Int := do
  let sprite_id := toInt32 (← luaL_checkinteger 1)
  let palette_id := toInt32 (← luaL_checkinteger 2)
  if palette_id < 0 ∨ palette_id > 31 then do
    lua_pushboolean 0
    return 1
  else do
    let success : Bool ←
      engine (.st_sprite_set_standard_palette sprite_id (toUInt8 palette_id))
    lua_pushboolean (if success then 1 else 0)
    return 1

/-! ## Asset bindings -/

/-- The names loop of `lua_st_asset_list` and `lua_st_asset_search`, `for (i = ...;
i < count; i++)`, from `i` on with `n` iterations left: `names[i]` is pushed and
stored under key `i + 1` of the table below it. -/
def push_names {σ : Type} (names : Nat → Option String) : Nat → Nat → LuaM σ Unit
  | 0, _ => pure ()
  | n + 1, i => do
    lua_pushstring_ptr (names i)
    lua_rawseti (-2) (i + 1)
    push_names names n (i + 1)

/-- Source: `lua_st_asset_get_data`.  The type `STAssetID` is declared outside the
file: `toAssetID` is the conversion of a `lua_Integer` to it. -/
def lua_st_asset_get_data {σ : Type} (toAssetID : Int → Int) : LuaM σ Int := do
  let asset := toAssetID (← luaL_checkinteger 1)
  let data : Option String ← engine (.st_asset_get_data asset)
  let size : Nat ← engine (.st_asset_get_size asset)
  match data with
  | some d =>
    if size > 0 then do
      lua_pushlstring d size
      return 1
    else do
      lua_pushnil
      return 1
  | none =>
    lua_pushnil
    return 1

/-- Source: `lua_st_asset_get_name`. -/
def lua_st_asset_get_name {σ : Type} (toAssetID : Int → Int) : LuaM σ Int := do
  let asset := toAssetID (← luaL_checkinteger 1)
  let name : Option String ← engine (.st_asset_get_name asset)
  match name with
  | some name => lua_pushstring name
  | none => lua_pushnil
  return 1

/-- Source: `lua_st_asset_list`.  `new const char*[count]` is an array of `count`
pointers, which the second engine call fills. -/
def lua_st_asset_list {σ : Type} : LuaM σ Int := do
  let type := toInt32 (← luaL_optinteger 1 (-1))
  let count : Int ← engine (.st_asset_list type none 0)
  if count ≤ 0 then do
    lua_newtable
    return 1
  else do
    let names : Nat → Option String ← engine (.st_asset_list type (some count.toNat) count)
    lua_createtable count 0
    push_names names count.toNat 0
    return 1

/-- Source: `lua_st_asset_search`. -/
def lua_st_asset_search {σ : Type} : LuaM σ Int := do
  let pattern ← luaL_checkstring 1
  let count : Int ← engine (.st_asset_search pattern none 0)
  if count ≤ 0 then do
    lua_newtable
    return 1
  else do
    let names : Nat → Option String ←
      engine (.st_asset_search pattern (some count.toNat) count)
    lua_createtable count 0
    push_names names count.toNat 0
    return 1

/-- Source: `lua_st_asset_get_error`. -/
def lua_st_asset_get_error {σ : Type} : LuaM σ Int := do
  let error : Option String ← engine .st_asset_get_error
  match error with
  | some error => lua_pushstring error
  | none => lua_pushnil
  return 1

/-- Run a binding as Lua calls it, on a fresh frame holding the arguments, with
the tables the arguments refer to on the heap. -/
def callBindingWith {σ α : Type} (tables : List LuaTable) (f : LuaM σ α) (H : Host σ)
    (args : List LuaValue) (s : σ) : Except LuaError α × LuaState σ :=
  f H { stack := args, engine := s, calls := [], tables := tables }

/-! ## Hosts and vocabulary for the keyboard, sprite and asset statements -/

/-- A host whose engine state is the pending character code: `st_key_get_char`
answers it; every other call answers the zero of its type. -/
def keyCharHost : Host Nat where
  call := fun c s =>
    ((match c with
      | .st_key_get_char => s
      | c => c.retType.zero : c.Ret), s)
  l_strton := fun _ => none
  tostring := fun _ => ""

/-- The table the palette loop builds: key `i + 1` holds `palette[i]`, for `i`
from 0 to 63 (the latest assignment first). -/
def paletteTable (palette : Nat → Fin 256) : LuaTable :=
  (List.range 64).reverse.map fun (i : Nat) => ((i : Int) + 1, LuaValue.integer (palette i).val)

/-- The bytes the pixel loop stores for a table whose entry `i + 1` is the integer
`vals i`: `n` bytes, the entries reduced modulo 256. -/
def rgbaBytes (vals : Nat → Int) (n : Nat) : List (Fin 256) :=
  (List.range n).map fun i => toUInt8 (vals i)

/-- The engine call `sprite_load_indexed_from_rgba` makes for a table whose entry
`i + 1` is the integer `vals i`, with the script's width and height. -/
@[reducible]
def rgbaLoadCall (vals : Nat → Int) (w h : Int) : EngineCall :=
  .st_sprite_load_indexed_from_rgba (rgbaBytes vals (w * h * 4).toNat) (toInt32 w) (toInt32 h)

/-- A computation that, whenever it ends normally, leaves the stack `k` values
higher than it found it (lower, for a negative `k`). -/
def StackNet {σ α : Type} (m : LuaM σ α) (k : Int) : Prop :=
  ∀ (H : Host σ) (st : LuaState σ) (a : α) (st1 : LuaState σ),
    m H st = (.ok a, st1) → (st1.stack.length : Int) = st.stack.length + k

/-- The rest of a binding, entered when `base` values have been pushed: whenever it
ends normally, the count it returns (`count` of its result) is not negative and
is `base` plus the number of values the rest itself leaves on the stack. -/
def ReturnsPushed {σ α : Type} (count : α → Int) (m : LuaM σ α) (base : Int) : Prop :=
  ∀ (H : Host σ) (st : LuaState σ) (a : α) (st1 : LuaState σ),
    m H st = (.ok a, st1) →
      0 ≤ count a ∧ (st1.stack.length : Int) = st.stack.length + (count a - base)

/-- The count a pass of a loop returns: `n` when it executes `return n`, nothing
pushed when the loop goes round again. -/
def returnCount : Option Int → Int
  | some n => n
  | none => 0

/-- A binding whose result count, on every path on which it returns, is the number
of values it has left on the stack above what it found there: it reports no
value it did not push and drops none it pushed. -/
def CountsItsPushes {σ : Type} (f : LuaM σ Int) : Prop :=
  ∀ (H : Host σ) (st : LuaState σ) (n : Int) (st1 : LuaState σ),
    f H st = (.ok n, st1) → 0 ≤ n ∧ (st1.stack.length : Int) = st.stack.length + n

/-- The same for a binding run with fuel: whenever it returns a count within the
fuel, the count is the number of values it has left on the stack. -/
def CountsItsPushesWithin {σ : Type} (f : LuaM σ (Option Int)) : Prop :=
  ∀ (H : Host σ) (st : LuaState σ) (n : Int) (st1 : LuaState σ),
    f H st = (.ok (some n), st1) → 0 ≤ n ∧ (st1.stack.length : Int) = st.stack.length + n


/-! ## The statements of `registerBindings`

The body of `registerBindings` as the sequence of its statements, run on the
part of the Lua state it touches: the stack and the globals. -/

/-- The value a constant is registered with: an integer literal of the source, or
a macro or enumerator of the engine headers, which are not in the file. -/
inductive NumberExpr where
  | literal (n : Int)
  | constant (name : String)
deriving DecidableEq, Repr

/-- A statement of `registerBindings`. -/
inductive RegStatement where
  | luaL_setglobalfunction (name func : String)
  | luaL_setglobalnumber (name : String) (value : NumberExpr)
  | lua_newtable
  | lua_pushcfunction (func : String)
  | lua_setfield (idx : Int) (name : String)
  | lua_setglobal (name : String)
deriving DecidableEq, Repr

/-- The values `registerBindings` handles: a C function (by name), a number, and a
table with the fields set so far (the latest first). -/
inductive RegValue where
  | cfunction (func : String)
  | number (value : NumberExpr)
  | table (fields : List (String × RegValue))

/-- The part of the Lua state `registerBindings` works on: the stack, the top
first, and the assignments made to globals, the latest first. -/
structure RegState where
  stack : List RegValue
  globals : List (String × RegValue)

/-- Push a value. -/
def RegState.push (v : RegValue) (st : RegState) : Option RegState :=
  some { st with stack := v :: st.stack }

/-- The C function `lua_setglobal`: pops the top value and assigns it to the
global; not defined on an empty stack. -/
def RegState.setglobal (name : String) (st : RegState) : Option RegState :=
  match st.stack with
  | v :: rest => some { stack := rest, globals := (name, v) :: st.globals }
  | [] => none

/-- The C function `lua_setfield` with a negative index: pops the top value and
stores it under the key in the table at that index (counted before the pop, so
-2 is the value just below); not defined unless a table is there. -/
def RegState.setfield (idx : Int) (name : String) (st : RegState) : Option RegState :=
  match st.stack with
  | v :: rest =>
    if idx ≤ -2 then
      match rest.get? ((-idx).toNat - 2) with
      | some (.table fields) =>
        some { st with stack := rest.set ((-idx).toNat - 2) (.table ((name, v) :: fields)) }
      | _ => none
    else none
  | [] => none

/-- The effect of one statement.  `luaL_setglobalfunction` is `lua_pushcfunction`
then `lua_setglobal`, `luaL_setglobalnumber` is `lua_pushnumber` then
`lua_setglobal` (the two helpers at the head of the file). -/
def RegStatement.exec : RegStatement → RegState → Option RegState
  | .luaL_setglobalfunction name func, st =>
    (st.push (.cfunction func)).bind (RegState.setglobal name)
  | .luaL_setglobalnumber name value, st =>
    (st.push (.number value)).bind (RegState.setglobal name)
  | .lua_newtable, st => st.push (.table [])
  | .lua_pushcfunction func, st => st.push (.cfunction func)
  | .lua_setfield idx name, st => st.setfield idx name
  | .lua_setglobal name, st => st.setglobal name

/-- The statements in sequence; `none` when one of them is not defined. -/
def runStatements : List RegStatement → RegState → Option RegState
  | [], st => some st
  | s :: rest, st => (s.exec st).bind (runStatements rest)

/-- The heights of the stack after each statement, with the height on entry
first; `none` when a statement is not defined. -/
def stackHeights : List RegStatement → RegState → Option (List Nat)
  | [], st => some [st.stack.length]
  | s :: rest, st =>
    (s.exec st).bind fun st1 => (stackHeights rest st1).map fun hs => st.stack.length :: hs

/-- The body of `registerBindings`, statement by statement, up to its last
statement, the call of `SuperTerminal::IndexedTileBindings::registerBindings`,
which is defined outside the file. -/
def registerBindingsStatements : List RegStatement :=
  [
    .luaL_setglobalfunction "text_putchar" "lua_st_text_putchar",
    .luaL_setglobalfunction "poke_text" "lua_poke_text",
    .luaL_setglobalfunction "text_put" "lua_st_text_put",
    .luaL_setglobalfunction "text_clear" "lua_st_text_clear",
    .luaL_setglobalfunction "cls" "lua_st_text_clear",
    .luaL_setglobalfunction "text_clear_region" "lua_st_text_clear_region",
    .luaL_setglobalfunction "text_set_size" "lua_st_text_set_size",
    .luaL_setglobalfunction "text_get_size" "lua_st_text_get_size",
    .luaL_setglobalfunction "text_scroll" "lua_st_text_scroll",
    .luaL_setglobalfunction "text_display_at" "lua_st_text_display_at",
    .luaL_setglobalfunction "text_display_shear" "lua_st_text_display_shear",
    .luaL_setglobalfunction "text_display_update" "lua_st_text_display_update",
    .luaL_setglobalfunction "text_display_set_visible" "lua_st_text_display_set_visible",
    .luaL_setglobalfunction "text_display_set_color" "lua_st_text_set_item_color",
    .luaL_setglobalfunction "text_display_clear" "lua_st_text_display_clear",
    .luaL_setglobalnumber "ST_ALIGN_LEFT" (.literal 0),
    .luaL_setglobalnumber "ST_ALIGN_CENTER" (.literal 1),
    .luaL_setglobalnumber "ST_ALIGN_RIGHT" (.literal 2),
    .luaL_setglobalfunction "text_putsixel" "lua_st_text_putsixel",
    .luaL_setglobalfunction "text_putsixel_packed" "lua_st_text_putsixel_packed",
    .luaL_setglobalfunction "sixel_pack_colors" "lua_st_sixel_pack_colors",
    .luaL_setglobalfunction "sixel_set_stripe" "lua_st_sixel_set_stripe",
    .luaL_setglobalfunction "sixel_get_stripe" "lua_st_sixel_get_stripe",
    .luaL_setglobalfunction "sixel_gradient" "lua_st_sixel_gradient",
    .luaL_setglobalfunction "sixel_hline" "lua_st_sixel_hline",
    .luaL_setglobalfunction "sixel_fill_rect" "lua_st_sixel_fill_rect",
    .luaL_setglobalfunction "st_mode" "lua_st_mode",
    .luaL_setglobalfunction "text_mode" "lua_st_text_mode",
    .luaL_setglobalfunction "lores" "lua_st_lores",
    .luaL_setglobalfunction "mediumres" "lua_st_mediumres",
    .luaL_setglobalfunction "highres" "lua_st_highres",
    .luaL_setglobalfunction "ultrares" "lua_st_ultrares"] ++
  [
    .luaL_setglobalfunction "xres" "lua_st_xres", .luaL_setglobalfunction "wres" "lua_st_wres",
    .luaL_setglobalfunction "lores_pset" "lua_st_lores_pset",
    .luaL_setglobalfunction "lores_line" "lua_st_lores_line",
    .luaL_setglobalfunction "lores_rect" "lua_st_lores_rect",
    .luaL_setglobalfunction "lores_fillrect" "lua_st_lores_fillrect",
    .luaL_setglobalfunction "lores_hline" "lua_st_lores_hline",
    .luaL_setglobalfunction "lores_vline" "lua_st_lores_vline",
    .luaL_setglobalfunction "lores_clear" "lua_st_lores_clear",
    .luaL_setglobalfunction "lores_resolution" "lua_st_lores_resolution",
    .luaL_setglobalfunction "lores_buffer" "lua_st_lores_buffer",
    .luaL_setglobalfunction "lores_buffer_get" "lua_st_lores_buffer_get",
    .luaL_setglobalfunction "lores_flip" "lua_st_lores_flip",
    .luaL_setglobalfunction "lores_blit" "lua_st_lores_blit",
    .luaL_setglobalfunction "lores_blit_trans" "lua_st_lores_blit_trans",
    .luaL_setglobalfunction "lores_palette_set" "lua_st_lores_palette_set",
    .luaL_setglobalfunction "lores_palette_poke" "lua_st_lores_palette_poke",
    .luaL_setglobalfunction "lores_palette_peek" "lua_st_lores_palette_peek",
    .luaL_setglobalfunction "ures_pset" "lua_st_ures_pset",
    .luaL_setglobalfunction "ures_pget" "lua_st_ures_pget",
    .luaL_setglobalfunction "ures_clear" "lua_st_ures_clear",
    .luaL_setglobalfunction "ures_fillrect" "lua_st_ures_fillrect",
    .luaL_setglobalfunction "ures_hline" "lua_st_ures_hline",
    .luaL_setglobalfunction "ures_vline" "lua_st_ures_vline",
    .luaL_setglobalfunction "ures_buffer" "lua_st_ures_buffer",
    .luaL_setglobalfunction "ures_buffer_get" "lua_st_ures_buffer_get",
    .luaL_setglobalfunction "ures_flip" "lua_st_ures_flip",
    .luaL_setglobalfunction "ures_gpu_flip" "lua_st_ures_gpu_flip",
    .luaL_setglobalfunction "ures_sync" "lua_st_ures_sync",
    .luaL_setglobalfunction "ures_swap" "lua_st_ures_swap",
    .luaL_setglobalfunction "ures_blit_from" "lua_st_ures_blit_from",
    .luaL_setglobalfunction "ures_blit_from_trans" "lua_st_ures_blit_from_trans"] ++
  [
    .luaL_setglobalfunction "urgb" "lua_st_urgb", .luaL_setglobalfunction "urgba" "lua_st_urgba",
    .luaL_setglobalfunction "xres_pset" "lua_st_xres_pset",
    .luaL_setglobalfunction "xres_pget" "lua_st_xres_pget",
    .luaL_setglobalfunction "xres_clear" "lua_st_xres_clear",
    .luaL_setglobalfunction "xres_fillrect" "lua_st_xres_fillrect",
    .luaL_setglobalfunction "xres_hline" "lua_st_xres_hline",
    .luaL_setglobalfunction "xres_vline" "lua_st_xres_vline",
    .luaL_setglobalfunction "xres_buffer" "lua_st_xres_buffer",
    .luaL_setglobalfunction "xres_flip" "lua_st_xres_flip",
    .luaL_setglobalfunction "xres_blit" "lua_st_xres_blit",
    .luaL_setglobalfunction "xres_blit_trans" "lua_st_xres_blit_trans",
    .luaL_setglobalfunction "xres_blit_from" "lua_st_xres_blit_from",
    .luaL_setglobalfunction "xres_blit_from_trans" "lua_st_xres_blit_from_trans",
    .luaL_setglobalfunction "lores_blit_gpu" "lua_st_lores_blit_gpu",
    .luaL_setglobalfunction "lores_blit_trans_gpu" "lua_st_lores_blit_trans_gpu",
    .luaL_setglobalfunction "lores_clear_gpu" "lua_st_lores_clear_gpu",
    .luaL_setglobalfunction "lores_rect_fill_gpu" "lua_st_lores_rect_fill_gpu",
    .luaL_setglobalfunction "lores_circle_fill_gpu" "lua_st_lores_circle_fill_gpu",
    .luaL_setglobalfunction "lores_line_gpu" "lua_st_lores_line_gpu",
    .luaL_setglobalfunction "xres_blit_gpu" "lua_st_xres_blit_gpu",
    .luaL_setglobalfunction "xres_blit_trans_gpu" "lua_st_xres_blit_trans_gpu",
    .luaL_setglobalfunction "gpu_sync" "lua_st_gpu_sync",
    .luaL_setglobalfunction "xres_clear_gpu" "lua_st_xres_clear_gpu",
    .luaL_setglobalfunction "wres_clear_gpu" "lua_st_wres_clear_gpu",
    .luaL_setglobalfunction "xres_rect_fill_gpu" "lua_st_xres_rect_fill_gpu",
    .luaL_setglobalfunction "wres_rect_fill_gpu" "lua_st_wres_rect_fill_gpu",
    .luaL_setglobalfunction "xres_circle_fill_gpu" "lua_st_xres_circle_fill_gpu",
    .luaL_setglobalfunction "wres_circle_fill_gpu" "lua_st_wres_circle_fill_gpu",
    .luaL_setglobalfunction "xres_line_gpu" "lua_st_xres_line_gpu",
    .luaL_setglobalfunction "wres_line_gpu" "lua_st_wres_line_gpu",
    .luaL_setglobalfunction "xres_circle_fill_aa" "lua_st_xres_circle_fill_aa"] ++
  [
    .luaL_setglobalfunction "wres_circle_fill_aa" "lua_st_wres_circle_fill_aa",
    .luaL_setglobalfunction "xres_line_aa" "lua_st_xres_line_aa",
    .luaL_setglobalfunction "wres_line_aa" "lua_st_wres_line_aa",
    .luaL_setglobalfunction "ures_blit_copy_gpu" "lua_st_ures_blit_copy_gpu",
    .luaL_setglobalfunction "ures_blit_transparent_gpu" "lua_st_ures_blit_transparent_gpu",
    .luaL_setglobalfunction "ures_blit_alpha_composite_gpu" "lua_st_ures_blit_alpha_composite_gpu",
    .luaL_setglobalfunction "ures_clear_gpu" "lua_st_ures_clear_gpu",
    .luaL_setglobalfunction "ures_rect_fill_gpu" "lua_st_ures_rect_fill_gpu",
    .luaL_setglobalfunction "ures_circle_fill_gpu" "lua_st_ures_circle_fill_gpu",
    .luaL_setglobalfunction "ures_line_gpu" "lua_st_ures_line_gpu",
    .luaL_setglobalfunction "ures_circle_fill_aa" "lua_st_ures_circle_fill_aa",
    .luaL_setglobalfunction "ures_line_aa" "lua_st_ures_line_aa",
    .luaL_setglobalfunction "ures_rect_fill_gradient_gpu" "lua_st_ures_rect_fill_gradient_gpu",
    .luaL_setglobalfunction "ures_circle_fill_gradient_gpu" "lua_st_ures_circle_fill_gradient_gpu",
    .luaL_setglobalfunction "ures_circle_fill_gradient_aa" "lua_st_ures_circle_fill_gradient_aa",
    .luaL_setglobalfunction "ures_pack_argb4" "lua_st_ures_pack_argb4",
    .luaL_setglobalfunction "ures_pack_argb8" "lua_st_ures_pack_argb8",
    .luaL_setglobalfunction "ures_unpack_argb4" "lua_st_ures_unpack_argb4",
    .luaL_setglobalfunction "ures_unpack_argb8" "lua_st_ures_unpack_argb8",
    .luaL_setglobalfunction "ures_blend_colors" "lua_st_ures_blend_colors",
    .luaL_setglobalfunction "ures_lerp_colors" "lua_st_ures_lerp_colors",
    .luaL_setglobalfunction "ures_color_from_hsv" "lua_st_ures_color_from_hsv",
    .luaL_setglobalfunction "ures_adjust_brightness" "lua_st_ures_adjust_brightness",
    .luaL_setglobalfunction "ures_set_alpha" "lua_st_ures_set_alpha",
    .luaL_setglobalfunction "ures_get_alpha" "lua_st_ures_get_alpha",
    .luaL_setglobalfunction "begin_blit_batch" "lua_st_begin_blit_batch",
    .luaL_setglobalfunction "end_blit_batch" "lua_st_end_blit_batch",
    .luaL_setglobalfunction "xres_palette_row" "lua_st_xres_palette_row",
    .luaL_setglobalfunction "xres_palette_global" "lua_st_xres_palette_global",
    .luaL_setglobalfunction "xres_palette_rotate_row" "lua_st_xres_palette_rotate_row",
    .luaL_setglobalfunction "xres_palette_rotate_global" "lua_st_xres_palette_rotate_global",
    .luaL_setglobalfunction "xres_palette_copy_row" "lua_st_xres_palette_copy_row"] ++
  [
    .luaL_setglobalfunction "xres_palette_lerp_row" "lua_st_xres_palette_lerp_row",
    .luaL_setglobalfunction "xres_palette_lerp_global" "lua_st_xres_palette_lerp_global",
    .luaL_setglobalfunction "xres_palette_make_ramp" "lua_st_xres_palette_make_ramp",
    .luaL_setglobalfunction "xres_gradient_h" "lua_st_xres_gradient_h",
    .luaL_setglobalfunction "xres_gradient_v" "lua_st_xres_gradient_v",
    .luaL_setglobalfunction "xres_gradient_radial" "lua_st_xres_gradient_radial",
    .luaL_setglobalfunction "xres_gradient_corners" "lua_st_xres_gradient_corners",
    .luaL_setglobalfunction "xrgb" "lua_st_xrgb",
    .luaL_setglobalfunction "wres_pset" "lua_st_wres_pset",
    .luaL_setglobalfunction "wres_pget" "lua_st_wres_pget",
    .luaL_setglobalfunction "wres_clear" "lua_st_wres_clear",
    .luaL_setglobalfunction "wres_fillrect" "lua_st_wres_fillrect",
    .luaL_setglobalfunction "wres_hline" "lua_st_wres_hline",
    .luaL_setglobalfunction "wres_vline" "lua_st_wres_vline",
    .luaL_setglobalfunction "wres_buffer" "lua_st_wres_buffer",
    .luaL_setglobalfunction "wres_flip" "lua_st_wres_flip",
    .luaL_setglobalfunction "wres_blit" "lua_st_wres_blit",
    .luaL_setglobalfunction "wres_blit_trans" "lua_st_wres_blit_trans",
    .luaL_setglobalfunction "wres_blit_from" "lua_st_wres_blit_from",
    .luaL_setglobalfunction "wres_blit_from_trans" "lua_st_wres_blit_from_trans",
    .luaL_setglobalfunction "wres_blit_gpu" "lua_st_wres_blit_gpu",
    .luaL_setglobalfunction "wres_blit_trans_gpu" "lua_st_wres_blit_trans_gpu",
    .luaL_setglobalfunction "wres_palette_row" "lua_st_wres_palette_row",
    .luaL_setglobalfunction "wres_palette_global" "lua_st_wres_palette_global",
    .luaL_setglobalfunction "wres_palette_rotate_row" "lua_st_wres_palette_rotate_row",
    .luaL_setglobalfunction "wres_palette_rotate_global" "lua_st_wres_palette_rotate_global",
    .luaL_setglobalfunction "wres_palette_copy_row" "lua_st_wres_palette_copy_row",
    .luaL_setglobalfunction "wres_palette_lerp_row" "lua_st_wres_palette_lerp_row",
    .luaL_setglobalfunction "wres_palette_lerp_global" "lua_st_wres_palette_lerp_global",
    .luaL_setglobalfunction "wres_palette_make_ramp" "lua_st_wres_palette_make_ramp",
    .luaL_setglobalfunction "wres_gradient_h" "lua_st_wres_gradient_h",
    .luaL_setglobalfunction "wres_gradient_v" "lua_st_wres_gradient_v"] ++
  [
    .luaL_setglobalfunction "wres_gradient_radial" "lua_st_wres_gradient_radial",
    .luaL_setglobalfunction "wres_gradient_corners" "lua_st_wres_gradient_corners",
    .luaL_setglobalfunction "wrgb" "lua_st_wrgb",
    .luaL_setglobalfunction "pres_pset" "lua_st_pres_pset",
    .luaL_setglobalfunction "pres_pget" "lua_st_pres_pget",
    .luaL_setglobalfunction "pres_clear" "lua_st_pres_clear",
    .luaL_setglobalfunction "pres_fillrect" "lua_st_pres_fillrect",
    .luaL_setglobalfunction "pres_hline" "lua_st_pres_hline",
    .luaL_setglobalfunction "pres_vline" "lua_st_pres_vline",
    .luaL_setglobalfunction "pres_buffer" "lua_st_pres_buffer",
    .luaL_setglobalfunction "pres_flip" "lua_st_pres_flip",
    .luaL_setglobalfunction "pres_blit" "lua_st_pres_blit",
    .luaL_setglobalfunction "pres_blit_trans" "lua_st_pres_blit_trans",
    .luaL_setglobalfunction "pres_blit_from" "lua_st_pres_blit_from",
    .luaL_setglobalfunction "pres_blit_from_trans" "lua_st_pres_blit_from_trans",
    .luaL_setglobalfunction "pres_blit_gpu" "lua_st_pres_blit_gpu",
    .luaL_setglobalfunction "pres_blit_trans_gpu" "lua_st_pres_blit_trans_gpu",
    .luaL_setglobalfunction "pres_clear_gpu" "lua_st_pres_clear_gpu",
    .luaL_setglobalfunction "pres_rect_fill_gpu" "lua_st_pres_rect_fill_gpu",
    .luaL_setglobalfunction "pres_circle_fill_gpu" "lua_st_pres_circle_fill_gpu",
    .luaL_setglobalfunction "pres_line_gpu" "lua_st_pres_line_gpu",
    .luaL_setglobalfunction "pres_circle_fill_aa" "lua_st_pres_circle_fill_aa",
    .luaL_setglobalfunction "pres_line_aa" "lua_st_pres_line_aa",
    .luaL_setglobalfunction "pres_palette_row" "lua_st_pres_palette_row",
    .luaL_setglobalfunction "pres_palette_global" "lua_st_pres_palette_global",
    .luaL_setglobalfunction "pres_palette_rotate_row" "lua_st_pres_palette_rotate_row",
    .luaL_setglobalfunction "pres_palette_rotate_global" "lua_st_pres_palette_rotate_global",
    .luaL_setglobalfunction "pres_palette_copy_row" "lua_st_pres_palette_copy_row",
    .luaL_setglobalfunction "pres_palette_lerp_row" "lua_st_pres_palette_lerp_row",
    .luaL_setglobalfunction "pres_palette_lerp_global" "lua_st_pres_palette_lerp_global",
    .luaL_setglobalfunction "pres_palette_make_ramp" "lua_st_pres_palette_make_ramp",
    .luaL_setglobalfunction "pres_gradient_h" "lua_st_pres_gradient_h"] ++
  [
    .luaL_setglobalfunction "pres_gradient_v" "lua_st_pres_gradient_v",
    .luaL_setglobalfunction "pres_gradient_radial" "lua_st_pres_gradient_radial",
    .luaL_setglobalfunction "pres_gradient_corners" "lua_st_pres_gradient_corners",
    .luaL_setglobalfunction "prgb" "lua_st_prgb",
    .luaL_setglobalfunction "video_get_color_depth" "lua_video_get_color_depth",
    .luaL_setglobalfunction "video_has_palette" "lua_video_has_palette",
    .luaL_setglobalfunction "video_has_per_row_palette" "lua_video_has_per_row_palette",
    .luaL_setglobalfunction "video_get_palette_info" "lua_video_get_palette_info",
    .luaL_setglobalfunction "video_set_palette" "lua_video_set_palette",
    .luaL_setglobalfunction "video_set_palette_row" "lua_video_set_palette_row",
    .luaL_setglobalfunction "video_get_palette" "lua_video_get_palette",
    .luaL_setglobalfunction "video_get_palette_row" "lua_video_get_palette_row",
    .luaL_setglobalfunction "video_load_palette" "lua_video_load_palette",
    .luaL_setglobalfunction "video_save_palette" "lua_video_save_palette",
    .luaL_setglobalfunction "video_load_preset_palette" "lua_video_load_preset_palette",
    .luaL_setglobalfunction "video_load_preset_palette_rows" "lua_video_load_preset_palette_rows",
    .luaL_setglobalfunction "video_pack_rgb" "lua_video_pack_rgb",
    .luaL_setglobalfunction "video_unpack_rgb" "lua_video_unpack_rgb",
    .luaL_setglobalfunction "palette_global" "lua_video_set_palette",
    .luaL_setglobalfunction "palette_row" "lua_video_set_palette_row",
    .luaL_setglobalnumber "PALETTE_IBM_RGBI" (.constant "ST_PALETTE_IBM_RGBI"),
    .luaL_setglobalnumber "PALETTE_C64" (.constant "ST_PALETTE_C64"),
    .luaL_setglobalnumber "PALETTE_GRAYSCALE" (.constant "ST_PALETTE_GRAYSCALE"),
    .luaL_setglobalnumber "PALETTE_RGB_CUBE_6x8x5" (.constant "ST_PALETTE_RGB_CUBE_6x8x5"),
    .luaL_setglobalfunction "video_mode" "lua_video_mode",
    .luaL_setglobalfunction "video_mode_name" "lua_video_mode_name",
    .luaL_setglobalfunction "video_mode_get" "lua_video_mode_get",
    .luaL_setglobalfunction "video_mode_disable" "lua_video_mode_disable",
    .luaL_setglobalfunction "video_pset" "lua_video_pset",
    .luaL_setglobalfunction "video_pget" "lua_video_pget",
    .luaL_setglobalfunction "video_clear" "lua_video_clear",
    .luaL_setglobalfunction "video_clear_gpu" "lua_video_clear_gpu"] ++
  [
    .luaL_setglobalfunction "video_rect" "lua_video_rect",
    .luaL_setglobalfunction "video_rect_gpu" "lua_video_rect_gpu",
    .luaL_setglobalfunction "video_circle" "lua_video_circle",
    .luaL_setglobalfunction "video_circle_gpu" "lua_video_circle_gpu",
    .luaL_setglobalfunction "video_circle_aa" "lua_video_circle_aa",
    .luaL_setglobalfunction "video_line" "lua_video_line",
    .luaL_setglobalfunction "video_line_gpu" "lua_video_line_gpu",
    .luaL_setglobalfunction "video_line_aa" "lua_video_line_aa",
    .luaL_setglobalfunction "video_rect_gradient_gpu" "lua_video_rect_gradient_gpu",
    .luaL_setglobalfunction "video_circle_gradient_gpu" "lua_video_circle_gradient_gpu",
    .luaL_setglobalfunction "video_supports_gradients" "lua_video_supports_gradients",
    .luaL_setglobalfunction "video_enable_antialias" "lua_video_enable_antialias",
    .luaL_setglobalfunction "video_supports_antialias" "lua_video_supports_antialias",
    .luaL_setglobalfunction "video_set_line_width" "lua_video_set_line_width",
    .luaL_setglobalfunction "video_get_line_width" "lua_video_get_line_width",
    .luaL_setglobalfunction "video_blit" "lua_video_blit",
    .luaL_setglobalfunction "video_blit_trans" "lua_video_blit_trans",
    .luaL_setglobalfunction "video_blit_gpu" "lua_video_blit_gpu",
    .luaL_setglobalfunction "video_blit_trans_gpu" "lua_video_blit_trans_gpu",
    .luaL_setglobalfunction "video_buffer" "lua_video_buffer",
    .luaL_setglobalfunction "video_buffer_get" "lua_video_buffer_get",
    .luaL_setglobalfunction "video_get_back_buffer" "lua_video_get_back_buffer",
    .luaL_setglobalfunction "video_get_front_buffer" "lua_video_get_front_buffer",
    .luaL_setglobalfunction "video_gpu_flip" "lua_video_gpu_flip",
    .luaL_setglobalfunction "load_image" "lua_video_load_image",
    .luaL_setglobalfunction "save_image" "lua_video_save_image",
    .luaL_setglobalfunction "load_palette" "lua_video_load_palette",
    .luaL_setglobalfunction "save_palette" "lua_video_save_palette",
    .luaL_setglobalfunction "video_resolution" "lua_video_resolution",
    .luaL_setglobalfunction "video_get_max_buffers" "lua_video_get_max_buffers",
    .luaL_setglobalfunction "video_is_valid_buffer" "lua_video_is_valid_buffer",
    .luaL_setglobalfunction "video_get_current_buffer" "lua_video_get_current_buffer"] ++
  [
    .luaL_setglobalfunction "video_get_feature_flags" "lua_video_get_feature_flags",
    .luaL_setglobalfunction "video_uses_palette" "lua_video_uses_palette",
    .luaL_setglobalfunction "video_has_gpu" "lua_video_has_gpu",
    .luaL_setglobalfunction "video_get_memory_per_buffer" "lua_video_get_memory_per_buffer",
    .luaL_setglobalfunction "video_get_memory_usage" "lua_video_get_memory_usage",
    .luaL_setglobalfunction "video_get_pixel_count" "lua_video_get_pixel_count",
    .luaL_setglobalfunction "video_reset_palette_to_default" "lua_video_reset_palette_to_default",
    .luaL_setglobalnumber "VIDEO_FEATURE_PALETTE" (.constant "ST_VIDEO_FEATURE_PALETTE"),
    .luaL_setglobalnumber "VIDEO_FEATURE_PER_ROW_PALETTE" (.constant "ST_VIDEO_FEATURE_PER_ROW_PALETTE"),
    .luaL_setglobalnumber "VIDEO_FEATURE_GPU_ACCEL" (.constant "ST_VIDEO_FEATURE_GPU_ACCEL"),
    .luaL_setglobalnumber "VIDEO_FEATURE_ANTIALIASING" (.constant "ST_VIDEO_FEATURE_ANTIALIASING"),
    .luaL_setglobalnumber "VIDEO_FEATURE_GRADIENTS" (.constant "ST_VIDEO_FEATURE_GRADIENTS"),
    .luaL_setglobalnumber "VIDEO_FEATURE_ALPHA_BLEND" (.constant "ST_VIDEO_FEATURE_ALPHA_BLEND"),
    .luaL_setglobalnumber "VIDEO_FEATURE_DIRECT_COLOR" (.constant "ST_VIDEO_FEATURE_DIRECT_COLOR"),
    .luaL_setglobalfunction "video_flip" "lua_video_flip",
    .luaL_setglobalfunction "video_sync" "lua_video_sync",
    .luaL_setglobalfunction "video_swap" "lua_video_swap",
    .luaL_setglobalfunction "video_begin_batch" "lua_video_begin_batch",
    .luaL_setglobalfunction "video_end_batch" "lua_video_end_batch",
    .luaL_setglobalfunction "video_resolution" "lua_video_resolution",
    .luaL_setglobalfunction "gfx_clear" "lua_st_gfx_clear",
    .luaL_setglobalfunction "gfx_rect" "lua_st_gfx_rect",
    .luaL_setglobalfunction "gfx_rect_outline" "lua_st_gfx_rect_outline",
    .luaL_setglobalfunction "gfx_circle" "lua_st_gfx_circle",
    .luaL_setglobalfunction "gfx_circle_outline" "lua_st_gfx_circle_outline",
    .luaL_setglobalfunction "gfx_line" "lua_st_gfx_line",
    .luaL_setglobalfunction "gfx_point" "lua_st_gfx_point",
    .luaL_setglobalfunction "rect_create" "lua_st_rect_create",
    .luaL_setglobalfunction "rect_create_gradient" "lua_st_rect_create_gradient",
    .luaL_setglobalfunction "rect_create_three_point" "lua_st_rect_create_three_point",
    .luaL_setglobalfunction "rect_create_four_corner" "lua_st_rect_create_four_corner",
    .luaL_setglobalfunction "rect_set_position" "lua_st_rect_set_position"] ++
  [
    .luaL_setglobalfunction "rect_set_size" "lua_st_rect_set_size",
    .luaL_setglobalfunction "rect_set_color" "lua_st_rect_set_color",
    .luaL_setglobalfunction "rect_set_colors" "lua_st_rect_set_colors",
    .luaL_setglobalfunction "rect_set_mode" "lua_st_rect_set_mode",
    .luaL_setglobalfunction "rect_set_rotation" "lua_st_rect_set_rotation",
    .luaL_setglobalfunction "rect_set_visible" "lua_st_rect_set_visible",
    .luaL_setglobalfunction "rect_exists" "lua_st_rect_exists",
    .luaL_setglobalfunction "rect_is_visible" "lua_st_rect_is_visible",
    .luaL_setglobalfunction "rect_delete" "lua_st_rect_delete",
    .luaL_setglobalfunction "rect_delete_all" "lua_st_rect_delete_all",
    .luaL_setglobalfunction "rect_create_outline" "lua_st_rect_create_outline",
    .luaL_setglobalfunction "rect_create_horizontal_stripes" "lua_st_rect_create_horizontal_stripes",
    .luaL_setglobalfunction "rect_create_vertical_stripes" "lua_st_rect_create_vertical_stripes",
    .luaL_setglobalfunction "rect_create_diagonal_stripes" "lua_st_rect_create_diagonal_stripes",
    .luaL_setglobalfunction "rect_create_checkerboard" "lua_st_rect_create_checkerboard",
    .luaL_setglobalfunction "rect_create_dots" "lua_st_rect_create_dots",
    .luaL_setglobalfunction "rect_create_grid" "lua_st_rect_create_grid",
    .luaL_setglobalfunction "circle_create" "lua_st_circle_create",
    .luaL_setglobalfunction "circle_create_radial" "lua_st_circle_create_radial",
    .luaL_setglobalfunction "circle_create_radial_3" "lua_st_circle_create_radial_3",
    .luaL_setglobalfunction "circle_create_radial_4" "lua_st_circle_create_radial_4",
    .luaL_setglobalfunction "circle_create_outline" "lua_st_circle_create_outline",
    .luaL_setglobalfunction "circle_create_dashed_outline" "lua_st_circle_create_dashed_outline",
    .luaL_setglobalfunction "circle_create_ring" "lua_st_circle_create_ring",
    .luaL_setglobalfunction "circle_create_pie_slice" "lua_st_circle_create_pie_slice",
    .luaL_setglobalfunction "circle_create_arc" "lua_st_circle_create_arc",
    .luaL_setglobalfunction "circle_create_dots_ring" "lua_st_circle_create_dots_ring",
    .luaL_setglobalfunction "circle_create_star_burst" "lua_st_circle_create_star_burst",
    .luaL_setglobalfunction "circle_set_position" "lua_st_circle_set_position",
    .luaL_setglobalfunction "circle_set_radius" "lua_st_circle_set_radius",
    .luaL_setglobalfunction "circle_set_color" "lua_st_circle_set_color",
    .luaL_setglobalfunction "circle_set_colors" "lua_st_circle_set_colors"] ++
  [
    .luaL_setglobalfunction "circle_set_parameters" "lua_st_circle_set_parameters",
    .luaL_setglobalfunction "circle_set_visible" "lua_st_circle_set_visible",
    .luaL_setglobalfunction "circle_exists" "lua_st_circle_exists",
    .luaL_setglobalfunction "circle_is_visible" "lua_st_circle_is_visible",
    .luaL_setglobalfunction "circle_delete" "lua_st_circle_delete",
    .luaL_setglobalfunction "circle_delete_all" "lua_st_circle_delete_all",
    .luaL_setglobalfunction "circle_count" "lua_st_circle_count",
    .luaL_setglobalfunction "circle_is_empty" "lua_st_circle_is_empty",
    .luaL_setglobalfunction "circle_set_max" "lua_st_circle_set_max",
    .luaL_setglobalfunction "circle_get_max" "lua_st_circle_get_max",
    .luaL_setglobalfunction "line_create" "lua_st_line_create",
    .luaL_setglobalfunction "line_create_gradient" "lua_st_line_create_gradient",
    .luaL_setglobalfunction "line_create_dashed" "lua_st_line_create_dashed",
    .luaL_setglobalfunction "line_create_dotted" "lua_st_line_create_dotted",
    .luaL_setglobalfunction "line_set_endpoints" "lua_st_line_set_endpoints",
    .luaL_setglobalfunction "line_set_thickness" "lua_st_line_set_thickness",
    .luaL_setglobalfunction "line_set_color" "lua_st_line_set_color",
    .luaL_setglobalfunction "line_set_colors" "lua_st_line_set_colors",
    .luaL_setglobalfunction "line_set_dash_pattern" "lua_st_line_set_dash_pattern",
    .luaL_setglobalfunction "line_set_visible" "lua_st_line_set_visible",
    .luaL_setglobalfunction "line_exists" "lua_st_line_exists",
    .luaL_setglobalfunction "line_is_visible" "lua_st_line_is_visible",
    .luaL_setglobalfunction "line_delete" "lua_st_line_delete",
    .luaL_setglobalfunction "line_delete_all" "lua_st_line_delete_all",
    .luaL_setglobalfunction "line_count" "lua_st_line_count",
    .luaL_setglobalfunction "line_is_empty" "lua_st_line_is_empty",
    .luaL_setglobalfunction "line_set_max" "lua_st_line_set_max",
    .luaL_setglobalfunction "line_get_max" "lua_st_line_get_max",
    .luaL_setglobalfunction "polygon_create" "lua_st_polygon_create",
    .luaL_setglobalfunction "polygon_create_gradient" "lua_st_polygon_create_gradient",
    .luaL_setglobalfunction "polygon_set_position" "lua_st_polygon_set_position",
    .luaL_setglobalfunction "polygon_set_radius" "lua_st_polygon_set_radius"] ++
  [
    .luaL_setglobalfunction "polygon_set_sides" "lua_st_polygon_set_sides",
    .luaL_setglobalfunction "polygon_set_color" "lua_st_polygon_set_color",
    .luaL_setglobalfunction "polygon_set_rotation" "lua_st_polygon_set_rotation",
    .luaL_setglobalfunction "polygon_set_visible" "lua_st_polygon_set_visible",
    .luaL_setglobalfunction "polygon_delete" "lua_st_polygon_delete",
    .luaL_setglobalfunction "polygon_delete_all" "lua_st_polygon_delete_all",
    .luaL_setglobalfunction "polygon_count" "lua_st_polygon_count",
    .luaL_setglobalfunction "star_create" "lua_st_star_create",
    .luaL_setglobalfunction "star_create_custom" "lua_st_star_create_custom",
    .luaL_setglobalfunction "star_create_gradient" "lua_st_star_create_gradient",
    .luaL_setglobalfunction "star_create_outline" "lua_st_star_create_outline",
    .luaL_setglobalfunction "star_set_position" "lua_st_star_set_position",
    .luaL_setglobalfunction "star_set_radius" "lua_st_star_set_radius",
    .luaL_setglobalfunction "star_set_radii" "lua_st_star_set_radii",
    .luaL_setglobalfunction "star_set_points" "lua_st_star_set_points",
    .luaL_setglobalfunction "star_set_color" "lua_st_star_set_color",
    .luaL_setglobalfunction "star_set_colors" "lua_st_star_set_colors",
    .luaL_setglobalfunction "star_set_rotation" "lua_st_star_set_rotation",
    .luaL_setglobalfunction "star_set_visible" "lua_st_star_set_visible",
    .luaL_setglobalfunction "star_exists" "lua_st_star_exists",
    .luaL_setglobalfunction "star_is_visible" "lua_st_star_is_visible",
    .luaL_setglobalfunction "star_delete" "lua_st_star_delete",
    .luaL_setglobalfunction "star_delete_all" "lua_st_star_delete_all",
    .luaL_setglobalfunction "star_count" "lua_st_star_count",
    .luaL_setglobalfunction "star_is_empty" "lua_st_star_is_empty",
    .luaL_setglobalnumber "STAR_SOLID" (.literal 0),
    .luaL_setglobalnumber "STAR_RADIAL" (.literal 1),
    .luaL_setglobalnumber "STAR_ALTERNATING" (.literal 2),
    .luaL_setglobalnumber "STAR_OUTLINE" (.literal 100),
    .luaL_setglobalnumber "STAR_DASHED_OUTLINE" (.literal 101),
    .luaL_setglobalnumber "GRADIENT_HORIZONTAL" (.constant "ST_GRADIENT_HORIZONTAL"),
    .luaL_setglobalnumber "GRADIENT_VERTICAL" (.constant "ST_GRADIENT_VERTICAL")] ++
  [
    .luaL_setglobalnumber "GRADIENT_RADIAL" (.constant "ST_GRADIENT_RADIAL"),
    .luaL_setglobalnumber "GRADIENT_DIAGONAL_TL_BR" (.constant "ST_GRADIENT_DIAGONAL_TL_BR"),
    .luaL_setglobalnumber "GRADIENT_DIAGONAL_TR_BL" (.constant "ST_GRADIENT_DIAGONAL_TR_BL"),
    .luaL_setglobalnumber "PATTERN_OUTLINE" (.constant "ST_PATTERN_OUTLINE"),
    .luaL_setglobalnumber "PATTERN_HORIZONTAL_STRIPES" (.constant "ST_PATTERN_HORIZONTAL_STRIPES"),
    .luaL_setglobalnumber "PATTERN_VERTICAL_STRIPES" (.constant "ST_PATTERN_VERTICAL_STRIPES"),
    .luaL_setglobalnumber "PATTERN_DIAGONAL_STRIPES" (.constant "ST_PATTERN_DIAGONAL_STRIPES"),
    .luaL_setglobalnumber "PATTERN_CHECKERBOARD" (.constant "ST_PATTERN_CHECKERBOARD"),
    .luaL_setglobalnumber "PATTERN_DOTS" (.constant "ST_PATTERN_DOTS"),
    .luaL_setglobalnumber "PATTERN_GRID" (.constant "ST_PATTERN_GRID"),
    .luaL_setglobalfunction "music_play" "lua_st_music_play",
    .luaL_setglobalfunction "music_play_file" "lua_st_music_play_file",
    .luaL_setglobalfunction "music_stop" "lua_st_music_stop",
    .luaL_setglobalfunction "music_pause" "lua_st_music_pause",
    .luaL_setglobalfunction "music_resume" "lua_st_music_resume",
    .luaL_setglobalfunction "music_is_playing" "lua_st_music_is_playing",
    .luaL_setglobalfunction "music_set_volume" "lua_st_music_set_volume",
    .luaL_setglobalfunction "synth_note" "lua_st_synth_note",
    .luaL_setglobalfunction "synth_set_instrument" "lua_st_synth_set_instrument",
    .luaL_setglobalfunction "sound_create_beep" "lua_st_sound_create_beep",
    .luaL_setglobalfunction "sound_create_blip" "lua_st_sound_create_blip",
    .luaL_setglobalfunction "sound_create_click" "lua_st_sound_create_click",
    .luaL_setglobalfunction "sound_create_zap" "lua_st_sound_create_zap",
    .luaL_setglobalfunction "sound_create_explode" "lua_st_sound_create_explode",
    .luaL_setglobalfunction "sound_create_pickup" "lua_st_sound_create_pickup",
    .luaL_setglobalfunction "sound_create_hurt" "lua_st_sound_create_hurt",
    .luaL_setglobalfunction "sound_create_sweep_down" "lua_st_sound_create_sweep_down",
    .luaL_setglobalfunction "sound_create_coin" "lua_st_sound_create_coin",
    .luaL_setglobalfunction "sound_create_powerup" "lua_st_sound_create_powerup",
    .luaL_setglobalfunction "sound_play_id" "lua_st_sound_play_id",
    .luaL_setglobalfunction "sound_play" "lua_st_sound_play_id",
    .luaL_setglobalfunction "sound_exists" "lua_st_sound_exists"] ++
  [
    .luaL_setglobalfunction "sound_delete" "lua_st_sound_delete",
    .luaL_setglobalfunction "synth_frequency" "lua_st_synth_frequency",
    .luaL_setglobalfunction "voice_set_waveform" "lua_st_voice_set_waveform",
    .luaL_setglobalfunction "voice_set_frequency" "lua_st_voice_set_frequency",
    .luaL_setglobalfunction "voice_set_note" "lua_st_voice_set_note",
    .luaL_setglobalfunction "voice_set_note_name" "lua_st_voice_set_note_name",
    .luaL_setglobalfunction "voice_set_envelope" "lua_st_voice_set_envelope",
    .luaL_setglobalfunction "voice_set_gate" "lua_st_voice_set_gate",
    .luaL_setglobalfunction "voice_set_volume" "lua_st_voice_set_volume",
    .luaL_setglobalfunction "voice_set_pulse_width" "lua_st_voice_set_pulse_width",
    .luaL_setglobalfunction "voice_set_pan" "lua_st_voice_set_pan",
    .luaL_setglobalfunction "voice_set_filter_routing" "lua_st_voice_set_filter_routing",
    .luaL_setglobalfunction "voice_set_filter_type" "lua_st_voice_set_filter_type",
    .luaL_setglobalfunction "voice_set_filter_cutoff" "lua_st_voice_set_filter_cutoff",
    .luaL_setglobalfunction "voice_set_filter_resonance" "lua_st_voice_set_filter_resonance",
    .luaL_setglobalfunction "voice_set_filter_enabled" "lua_st_voice_set_filter_enabled",
    .luaL_setglobalfunction "voice_set_master_volume" "lua_st_voice_set_master_volume",
    .luaL_setglobalfunction "voice_get_master_volume" "lua_st_voice_get_master_volume",
    .luaL_setglobalfunction "voice_reset_all" "lua_st_voice_reset_all",
    .luaL_setglobalfunction "voice_wait" "lua_st_voice_wait",
    .luaL_setglobalfunction "voice_set_physical_model" "lua_st_voice_set_physical_model",
    .luaL_setglobalfunction "voice_set_physical_damping" "lua_st_voice_set_physical_damping",
    .luaL_setglobalfunction "voice_set_physical_brightness" "lua_st_voice_set_physical_brightness",
    .luaL_setglobalfunction "voice_set_physical_excitation" "lua_st_voice_set_physical_excitation",
    .luaL_setglobalfunction "voice_set_physical_resonance" "lua_st_voice_set_physical_resonance",
    .luaL_setglobalfunction "voice_set_physical_tension" "lua_st_voice_set_physical_tension",
    .luaL_setglobalfunction "voice_set_physical_pressure" "lua_st_voice_set_physical_pressure",
    .luaL_setglobalfunction "voice_physical_trigger" "lua_st_voice_physical_trigger",
    .luaL_setglobalfunction "voice_set_ring_mod" "lua_st_voice_set_ring_mod",
    .luaL_setglobalfunction "voice_set_sync" "lua_st_voice_set_sync",
    .luaL_setglobalfunction "voice_set_portamento" "lua_st_voice_set_portamento",
    .luaL_setglobalfunction "voice_set_detune" "lua_st_voice_set_detune"] ++
  [
    .luaL_setglobalfunction "voice_set_delay_enable" "lua_st_voice_set_delay_enable",
    .luaL_setglobalfunction "voice_set_delay_time" "lua_st_voice_set_delay_time",
    .luaL_setglobalfunction "voice_set_delay_feedback" "lua_st_voice_set_delay_feedback",
    .luaL_setglobalfunction "voice_set_delay_mix" "lua_st_voice_set_delay_mix",
    .luaL_setglobalfunction "lfo_set_waveform" "lua_st_lfo_set_waveform",
    .luaL_setglobalfunction "lfo_set_rate" "lua_st_lfo_set_rate",
    .luaL_setglobalfunction "lfo_reset" "lua_st_lfo_reset",
    .luaL_setglobalfunction "lfo_to_pitch" "lua_st_lfo_to_pitch",
    .luaL_setglobalfunction "lfo_to_volume" "lua_st_lfo_to_volume",
    .luaL_setglobalfunction "lfo_to_filter" "lua_st_lfo_to_filter",
    .luaL_setglobalfunction "lfo_to_pulsewidth" "lua_st_lfo_to_pulsewidth",
    .luaL_setglobalfunction "voices_start" "lua_st_voices_start",
    .luaL_setglobalfunction "voices_set_tempo" "lua_st_voices_set_tempo",
    .luaL_setglobalfunction "voices_end_slot" "lua_st_voices_end_slot",
    .luaL_setglobalfunction "voices_next_slot" "lua_st_voices_next_slot",
    .luaL_setglobalfunction "voices_end_play" "lua_st_voices_end_play",
    .luaL_setglobalfunction "voices_end_save" "lua_st_voices_end_save",
    .luaL_setglobalfunction "voices_are_playing" "lua_st_voices_are_playing",
    .luaL_setglobalfunction "voice_direct" "lua_st_voice_direct",
    .luaL_setglobalfunction "voice_direct_slot" "lua_st_voice_direct_slot",
    .luaL_setglobalfunction "vscript_save_to_bank" "lua_st_vscript_save_to_bank",
    .luaL_setglobalnumber "WAVE_SILENCE" (.literal 0),
    .luaL_setglobalnumber "WAVE_SINE" (.literal 1),
    .luaL_setglobalnumber "WAVE_SQUARE" (.literal 2),
    .luaL_setglobalnumber "WAVE_SAW" (.literal 3),
    .luaL_setglobalnumber "WAVE_SAWTOOTH" (.literal 3),
    .luaL_setglobalnumber "WAVE_TRIANGLE" (.literal 4),
    .luaL_setglobalnumber "WAVE_NOISE" (.literal 5),
    .luaL_setglobalnumber "WAVE_PULSE" (.literal 6),
    .luaL_setglobalnumber "WAVE_PHYSICAL" (.literal 7),
    .luaL_setglobalnumber "FILTER_NONE" (.literal 0),
    .luaL_setglobalnumber "FILTER_LOWPASS" (.literal 1)] ++
  [
    .luaL_setglobalnumber "FILTER_HIGHPASS" (.literal 2),
    .luaL_setglobalnumber "FILTER_BANDPASS" (.literal 3),
    .luaL_setglobalfunction "key_pressed" "lua_st_key_pressed",
    .luaL_setglobalfunction "key_just_pressed" "lua_st_key_just_pressed",
    .luaL_setglobalfunction "key_just_released" "lua_st_key_just_released",
    .luaL_setglobalfunction "key_get_char" "lua_st_key_get_char",
    .luaL_setglobalfunction "key_clear_buffer" "lua_st_key_clear_buffer",
    .luaL_setglobalfunction "mouse_position" "lua_st_mouse_position",
    .luaL_setglobalfunction "mouse_grid_position" "lua_st_mouse_grid_position",
    .luaL_setglobalfunction "mouse_button" "lua_st_mouse_button",
    .luaL_setglobalfunction "mouse_button_just_pressed" "lua_st_mouse_button_just_pressed",
    .luaL_setglobalfunction "mouse_button_just_released" "lua_st_mouse_button_just_released",
    .luaL_setglobalfunction "wait_frame" "lua_st_wait_frame",
    .luaL_setglobalfunction "wait_frames" "lua_st_wait_frames",
    .luaL_setglobalfunction "wait_key" "lua_st_wait_key",
    .luaL_setglobalfunction "wait" "lua_st_wait", .luaL_setglobalfunction "sleep" "lua_st_sleep",
    .luaL_setglobalfunction "frame_count" "lua_st_frame_count",
    .luaL_setglobalfunction "time" "lua_st_time",
    .luaL_setglobalfunction "delta_time" "lua_st_delta_time",
    .luaL_setglobalfunction "rgb" "lua_st_rgb", .luaL_setglobalfunction "rgba" "lua_st_rgba",
    .luaL_setglobalfunction "hsv" "lua_st_hsv",
    .luaL_setglobalfunction "debug_print" "lua_st_debug_print",
    .luaL_setglobalfunction "display_size" "lua_st_display_size",
    .luaL_setglobalfunction "cell_size" "lua_st_cell_size",
    .luaL_setglobalfunction "st_get_error" "lua_st_get_error",
    .luaL_setglobalfunction "st_clear_error" "lua_st_clear_error",
    .luaL_setglobalnumber "KEY_ESCAPE" (.constant "ST_KEY_ESCAPE"),
    .luaL_setglobalnumber "KEY_ENTER" (.constant "ST_KEY_ENTER"),
    .luaL_setglobalnumber "KEY_SPACE" (.constant "ST_KEY_SPACE"),
    .luaL_setglobalnumber "KEY_BACKSPACE" (.constant "ST_KEY_BACKSPACE")] ++
  [
    .luaL_setglobalnumber "KEY_TAB" (.constant "ST_KEY_TAB"),
    .luaL_setglobalnumber "KEY_UP" (.constant "ST_KEY_UP"),
    .luaL_setglobalnumber "KEY_DOWN" (.constant "ST_KEY_DOWN"),
    .luaL_setglobalnumber "KEY_LEFT" (.constant "ST_KEY_LEFT"),
    .luaL_setglobalnumber "KEY_RIGHT" (.constant "ST_KEY_RIGHT"),
    .luaL_setglobalnumber "KEY_A" (.constant "ST_KEY_A"),
    .luaL_setglobalnumber "KEY_B" (.constant "ST_KEY_B"),
    .luaL_setglobalnumber "KEY_C" (.constant "ST_KEY_C"),
    .luaL_setglobalnumber "KEY_D" (.constant "ST_KEY_D"),
    .luaL_setglobalnumber "KEY_E" (.constant "ST_KEY_E"),
    .luaL_setglobalnumber "KEY_F" (.constant "ST_KEY_F"),
    .luaL_setglobalnumber "KEY_G" (.constant "ST_KEY_G"),
    .luaL_setglobalnumber "KEY_H" (.constant "ST_KEY_H"),
    .luaL_setglobalnumber "KEY_I" (.constant "ST_KEY_I"),
    .luaL_setglobalnumber "KEY_J" (.constant "ST_KEY_J"),
    .luaL_setglobalnumber "KEY_K" (.constant "ST_KEY_K"),
    .luaL_setglobalnumber "KEY_L" (.constant "ST_KEY_L"),
    .luaL_setglobalnumber "KEY_M" (.constant "ST_KEY_M"),
    .luaL_setglobalnumber "KEY_N" (.constant "ST_KEY_N"),
    .luaL_setglobalnumber "KEY_O" (.constant "ST_KEY_O"),
    .luaL_setglobalnumber "KEY_P" (.constant "ST_KEY_P"),
    .luaL_setglobalnumber "KEY_Q" (.constant "ST_KEY_Q"),
    .luaL_setglobalnumber "KEY_R" (.constant "ST_KEY_R"),
    .luaL_setglobalnumber "KEY_S" (.constant "ST_KEY_S"),
    .luaL_setglobalnumber "KEY_T" (.constant "ST_KEY_T"),
    .luaL_setglobalnumber "KEY_U" (.constant "ST_KEY_U"),
    .luaL_setglobalnumber "KEY_V" (.constant "ST_KEY_V"),
    .luaL_setglobalnumber "KEY_W" (.constant "ST_KEY_W"),
    .luaL_setglobalnumber "KEY_X" (.constant "ST_KEY_X"),
    .luaL_setglobalnumber "KEY_Y" (.constant "ST_KEY_Y"),
    .luaL_setglobalnumber "KEY_Z" (.constant "ST_KEY_Z"),
    .luaL_setglobalnumber "KEY_F1" (.constant "ST_KEY_F1")] ++
  [
    .luaL_setglobalnumber "KEY_F2" (.constant "ST_KEY_F2"),
    .luaL_setglobalnumber "KEY_F3" (.constant "ST_KEY_F3"),
    .luaL_setglobalnumber "KEY_F4" (.constant "ST_KEY_F4"),
    .luaL_setglobalnumber "KEY_F5" (.constant "ST_KEY_F5"),
    .luaL_setglobalnumber "KEY_F6" (.constant "ST_KEY_F6"),
    .luaL_setglobalnumber "KEY_F7" (.constant "ST_KEY_F7"),
    .luaL_setglobalnumber "KEY_F8" (.constant "ST_KEY_F8"),
    .luaL_setglobalnumber "KEY_F9" (.constant "ST_KEY_F9"),
    .luaL_setglobalnumber "KEY_F10" (.constant "ST_KEY_F10"),
    .luaL_setglobalnumber "KEY_F11" (.constant "ST_KEY_F11"),
    .luaL_setglobalnumber "KEY_F12" (.constant "ST_KEY_F12"),
    .luaL_setglobalnumber "MOUSE_LEFT" (.constant "ST_MOUSE_LEFT"),
    .luaL_setglobalnumber "MOUSE_RIGHT" (.constant "ST_MOUSE_RIGHT"),
    .luaL_setglobalnumber "MOUSE_MIDDLE" (.constant "ST_MOUSE_MIDDLE"),
    .luaL_setglobalfunction "st_sprite_explode" "lua_st_sprite_explode",
    .luaL_setglobalfunction "st_sprite_explode_advanced" "lua_st_sprite_explode_advanced",
    .luaL_setglobalfunction "st_sprite_explode_directional" "lua_st_sprite_explode_directional",
    .luaL_setglobalfunction "st_particle_clear" "lua_st_particle_clear",
    .luaL_setglobalfunction "st_particle_pause" "lua_st_particle_pause",
    .luaL_setglobalfunction "st_particle_resume" "lua_st_particle_resume",
    .luaL_setglobalfunction "st_particle_set_time_scale" "lua_st_particle_set_time_scale",
    .luaL_setglobalfunction "st_particle_set_world_bounds" "lua_st_particle_set_world_bounds",
    .luaL_setglobalfunction "st_particle_set_enabled" "lua_st_particle_set_enabled",
    .luaL_setglobalfunction "st_particle_get_active_count" "lua_st_particle_get_active_count",
    .luaL_setglobalfunction "st_particle_get_total_created" "lua_st_particle_get_total_created",
    .luaL_setglobalfunction "st_particle_dump_stats" "lua_st_particle_dump_stats",
    .luaL_setglobalfunction "sprite_load" "lua_st_sprite_load",
    .luaL_setglobalfunction "sprite_load_builtin" "lua_st_sprite_load_builtin",
    .luaL_setglobalfunction "sprite_load_sprtz" "lua_st_sprite_load_sprtz",
    .luaL_setglobalfunction "sprite_show" "lua_st_sprite_show",
    .luaL_setglobalfunction "sprite_hide" "lua_st_sprite_hide",
    .luaL_setglobalfunction "sprite_transform" "lua_st_sprite_transform"] ++
  [
    .luaL_setglobalfunction "sprite_tint" "lua_st_sprite_tint",
    .luaL_setglobalfunction "sprite_unload" "lua_st_sprite_unload",
    .luaL_setglobalfunction "sprite_load_indexed_from_rgba" "lua_st_sprite_load_indexed_from_rgba",
    .luaL_setglobalfunction "sprite_is_indexed" "lua_st_sprite_is_indexed",
    .luaL_setglobalfunction "sprite_set_palette" "lua_st_sprite_set_palette",
    .luaL_setglobalfunction "sprite_get_palette" "lua_st_sprite_get_palette",
    .luaL_setglobalfunction "sprite_set_palette_color" "lua_st_sprite_set_palette_color",
    .luaL_setglobalfunction "sprite_lerp_palette" "lua_st_sprite_lerp_palette",
    .luaL_setglobalfunction "sprite_rotate_palette" "lua_st_sprite_rotate_palette",
    .luaL_setglobalfunction "sprite_adjust_brightness" "lua_st_sprite_adjust_brightness",
    .luaL_setglobalfunction "sprite_copy_palette" "lua_st_sprite_copy_palette",
    .luaL_setglobalfunction "sprite_set_standard_palette" "lua_st_sprite_set_standard_palette",
    .luaL_setglobalfunction "sprite_explode" "lua_sprite_explode",
    .luaL_setglobalfunction "sprite_explode_advanced" "lua_sprite_explode_advanced",
    .luaL_setglobalfunction "sprite_explode_directional" "lua_sprite_explode_directional",
    .luaL_setglobalfunction "sprite_explode_mode" "lua_sprite_explode_mode",
    .luaL_setglobalnumber "BASIC_EXPLOSION" (.literal 1),
    .luaL_setglobalnumber "MASSIVE_BLAST" (.literal 2),
    .luaL_setglobalnumber "GENTLE_DISPERSAL" (.literal 3),
    .luaL_setglobalnumber "RIGHTWARD_BLAST" (.literal 4),
    .luaL_setglobalnumber "UPWARD_ERUPTION" (.literal 5),
    .luaL_setglobalnumber "RAPID_BURST" (.literal 6),
    .luaL_setglobalnumber "PARTICLE_MODE_POINT_SPRITE" (.literal 0),
    .luaL_setglobalnumber "PARTICLE_MODE_SPRITE_FRAGMENT" (.literal 1),
    .luaL_setglobalnumber "ASSET_IMAGE" (.constant "ST_ASSET_IMAGE"),
    .luaL_setglobalnumber "ASSET_SOUND" (.constant "ST_ASSET_SOUND"),
    .luaL_setglobalnumber "ASSET_MUSIC" (.constant "ST_ASSET_MUSIC"),
    .luaL_setglobalnumber "ASSET_FONT" (.constant "ST_ASSET_FONT"),
    .luaL_setglobalnumber "ASSET_SPRITE" (.constant "ST_ASSET_SPRITE"),
    .luaL_setglobalnumber "ASSET_DATA" (.constant "ST_ASSET_DATA"), .lua_newtable,
    .lua_pushcfunction "lua_st_asset_init"] ++
  [
    .lua_setfield (-2) "init", .lua_pushcfunction "lua_st_asset_shutdown",
    .lua_setfield (-2) "shutdown", .lua_pushcfunction "lua_st_asset_is_initialized",
    .lua_setfield (-2) "isInitialized", .lua_pushcfunction "lua_st_asset_load",
    .lua_setfield (-2) "load", .lua_pushcfunction "lua_st_asset_load_file",
    .lua_setfield (-2) "loadFile", .lua_pushcfunction "lua_st_asset_unload",
    .lua_setfield (-2) "unload", .lua_pushcfunction "lua_st_asset_is_loaded",
    .lua_setfield (-2) "isLoaded", .lua_pushcfunction "lua_st_asset_import",
    .lua_setfield (-2) "import", .lua_pushcfunction "lua_st_asset_import_directory",
    .lua_setfield (-2) "importDirectory", .lua_pushcfunction "lua_st_asset_export",
    .lua_setfield (-2) "export", .lua_pushcfunction "lua_st_asset_delete",
    .lua_setfield (-2) "delete", .lua_pushcfunction "lua_st_asset_get_data",
    .lua_setfield (-2) "getData", .lua_pushcfunction "lua_st_asset_get_size",
    .lua_setfield (-2) "getSize", .lua_pushcfunction "lua_st_asset_get_type",
    .lua_setfield (-2) "getType", .lua_pushcfunction "lua_st_asset_get_name",
    .lua_setfield (-2) "getName", .lua_pushcfunction "lua_st_asset_exists",
    .lua_setfield (-2) "exists", .lua_pushcfunction "lua_st_asset_list"] ++
  [
    .lua_setfield (-2) "list", .lua_pushcfunction "lua_st_asset_search",
    .lua_setfield (-2) "search", .lua_pushcfunction "lua_st_asset_get_count",
    .lua_setfield (-2) "getCount", .lua_pushcfunction "lua_st_asset_clear_cache",
    .lua_setfield (-2) "clearCache", .lua_pushcfunction "lua_st_asset_get_cache_size",
    .lua_setfield (-2) "getCacheSize", .lua_pushcfunction "lua_st_asset_get_cached_count",
    .lua_setfield (-2) "getCachedCount", .lua_pushcfunction "lua_st_asset_set_max_cache_size",
    .lua_setfield (-2) "setMaxCacheSize", .lua_pushcfunction "lua_st_asset_get_hit_rate",
    .lua_setfield (-2) "getHitRate", .lua_pushcfunction "lua_st_asset_get_database_size",
    .lua_setfield (-2) "getDatabaseSize", .lua_pushcfunction "lua_st_asset_get_error",
    .lua_setfield (-2) "getError", .lua_pushcfunction "lua_st_asset_clear_error",
    .lua_setfield (-2) "clearError", .lua_setglobal "asset", .lua_newtable,
    .lua_pushcfunction "lua_st_tilemap_init", .lua_setfield (-2) "init",
    .lua_pushcfunction "lua_st_tilemap_shutdown", .lua_setfield (-2) "shutdown",
    .lua_pushcfunction "lua_st_tilemap_create", .lua_setfield (-2) "create",
    .lua_pushcfunction "lua_st_tilemap_destroy", .lua_setfield (-2) "destroy",
    .lua_pushcfunction "lua_st_tilemap_get_size"] ++
  [
    .lua_setfield (-2) "getSize", .lua_pushcfunction "lua_st_tilemap_create_layer",
    .lua_setfield (-2) "createLayer", .lua_pushcfunction "lua_st_tilemap_destroy_layer",
    .lua_setfield (-2) "destroyLayer", .lua_pushcfunction "lua_st_tilemap_layer_set_tilemap",
    .lua_setfield (-2) "layerSetTilemap", .lua_pushcfunction "lua_st_tilemap_layer_set_tileset",
    .lua_setfield (-2) "layerSetTileset", .lua_pushcfunction "lua_st_tilemap_layer_set_parallax",
    .lua_setfield (-2) "layerSetParallax", .lua_pushcfunction "lua_st_tilemap_layer_set_opacity",
    .lua_setfield (-2) "layerSetOpacity", .lua_pushcfunction "lua_st_tilemap_layer_set_visible",
    .lua_setfield (-2) "layerSetVisible", .lua_pushcfunction "lua_st_tilemap_layer_set_z_order",
    .lua_setfield (-2) "layerSetZOrder", .lua_pushcfunction "lua_st_tilemap_layer_set_auto_scroll",
    .lua_setfield (-2) "layerSetAutoScroll", .lua_pushcfunction "lua_st_tilemap_set_tile",
    .lua_setfield (-2) "setTile", .lua_pushcfunction "lua_st_tilemap_get_tile",
    .lua_setfield (-2) "getTile", .lua_pushcfunction "lua_st_tilemap_fill_rect",
    .lua_setfield (-2) "fillRect", .lua_pushcfunction "lua_st_tilemap_clear",
    .lua_setfield (-2) "clear", .lua_pushcfunction "lua_st_tilemap_set_camera",
    .lua_setfield (-2) "setCamera", .lua_pushcfunction "lua_st_tilemap_move_camera",
    .lua_setfield (-2) "moveCamera", .lua_pushcfunction "lua_st_tilemap_get_camera"] ++
  [
    .lua_setfield (-2) "getCamera", .lua_pushcfunction "lua_st_tilemap_set_zoom",
    .lua_setfield (-2) "setZoom", .lua_pushcfunction "lua_st_tilemap_camera_follow",
    .lua_setfield (-2) "cameraFollow", .lua_pushcfunction "lua_st_tilemap_set_camera_bounds",
    .lua_setfield (-2) "setCameraBounds", .lua_pushcfunction "lua_st_tilemap_camera_shake",
    .lua_setfield (-2) "cameraShake", .lua_pushcfunction "lua_st_tilemap_update",
    .lua_setfield (-2) "update", .lua_pushcfunction "lua_st_tilemap_world_to_tile",
    .lua_setfield (-2) "worldToTile", .lua_pushcfunction "lua_st_tilemap_tile_to_world",
    .lua_setfield (-2) "tileToWorld", .lua_pushcfunction "lua_st_tileset_load",
    .lua_setfield (-2) "loadTileset", .lua_pushcfunction "lua_st_tileset_load_asset",
    .lua_setfield (-2) "loadTilesetAsset", .lua_pushcfunction "lua_st_tileset_destroy",
    .lua_setfield (-2) "destroyTileset", .lua_pushcfunction "lua_st_tileset_get_tile_count",
    .lua_setfield (-2) "getTilesetTileCount", .lua_pushcfunction "lua_st_tileset_get_dimensions",
    .lua_setfield (-2) "getTilesetDimensions", .lua_setglobal "tilemap",
    .luaL_setglobalfunction "collision_circle_circle" "lua_collision_circle_circle",
    .luaL_setglobalfunction "collision_circle_rect" "lua_collision_circle_rect",
    .luaL_setglobalfunction "collision_circle_rect_bottom" "lua_collision_circle_rect_bottom",
    .luaL_setglobalfunction "collision_rect_rect" "lua_collision_rect_rect",
    .luaL_setglobalfunction "collision_point_in_circle" "lua_collision_point_in_circle",
    .luaL_setglobalfunction "collision_point_in_rect" "lua_collision_point_in_rect"] ++
  [
    .luaL_setglobalfunction "collision_circle_rect_info" "lua_collision_circle_rect_info",
    .luaL_setglobalfunction "collision_circle_circle_penetration" "lua_collision_circle_circle_penetration",
    .luaL_setglobalfunction "collision_rect_rect_overlap" "lua_collision_rect_rect_overlap",
    .luaL_setglobalfunction "collision_swept_circle_rect" "lua_collision_swept_circle_rect"]

/-- The registrations a list of global assignments (the latest first) amounts to,
the earliest first: a global holding a C function is one registration, a
global holding a table one registration for each field that holds a C
function. -/
def registrationsIn : List (String × RegValue) → List Registration
  | [] => []
  | (name, .cfunction func) :: rest => registrationsIn rest ++ [Registration.global name func]
  | (_, .number _) :: rest => registrationsIn rest
  | (name, .table fields) :: rest =>
    registrationsIn rest ++
      fields.reverse.filterMap fun p =>
        match p.2 with
        | .cfunction func => some (Registration.field name p.1 func)
        | _ => none

/-- The integer-literal constants a list of statements registers, in order. -/
def literalNumbers : List RegStatement → List (String × Int)
  | [] => []
  | .luaL_setglobalnumber name (.literal n) :: rest => (name, n) :: literalNumbers rest
  | _ :: rest => literalNumbers rest

/-- The number of values a statement of `registerBindings` leaves on the stack above
those found on entry: none after a statement that sets a global, the namespace
table after `lua_newtable` and after each `lua_setfield`, the table and the
function after `lua_pushcfunction`. -/
def RegStatement.heightAfter : RegStatement → Nat
  | .luaL_setglobalfunction .. => 0
  | .luaL_setglobalnumber .. => 0
  | .lua_setglobal _ => 0
  | .lua_newtable => 1
  | .lua_setfield .. => 1
  | .lua_pushcfunction _ => 2

/-! ## Floating-point values and the timed waits

`wait` and `sleep` compute with the number they are given, in C `float`
arithmetic.  The values are modelled exactly: IEEE 754 binary32 and binary64,
round to nearest, ties to even, each operation evaluated in the precision of
its type (the sign of a zero is not kept; it plays no part in a conversion to
`int`).  A conversion to `int` of a value outside the range of `int` has no
defined result in C; the model raises `fault` there. -/

/-- The value of a C floating-point number: `finite m e` is the real number
`m * 2^e`. -/
inductive FloatValue where
  | finite (m : Int) (e : Int)
  | inf (negative : Bool)
  | nan
deriving Repr, DecidableEq

/-- The integer part of the binary logarithm of `n`, found in at most `fuel`
halvings (0 for `n = 0`). -/
def log2Within : Nat → Nat → Nat
  | 0, _ => 0
  | fuel + 1, n => if n < 2 then 0 else log2Within fuel (n / 2) + 1

/-- The integer part of the binary logarithm of a positive number. -/
def log2 (n : Nat) : Nat := log2Within n n

/-- The integer part of the binary logarithm of the positive fraction `n / d`. -/
def log2Fraction (n d : Nat) : Int :=
  let k : Int := (log2 n : Int) - (log2 d : Int)
  if (if 0 ≤ k then d * 2 ^ k.toNat ≤ n else d ≤ n * 2 ^ (-k).toNat) then k else k - 1

/-- Rounding of the positive fraction `n / d` to the nearest multiple of the quantum
`2^q`, ties to the even multiple, where `q` leaves `p` bits for the significand but
is at least `qmin`: the multiple and `q`. -/
def roundNearestEven (p : Nat) (qmin : Int) (n d : Nat) : Nat × Int :=
  let q : Int := max (log2Fraction n d - ((p : Int) - 1)) qmin
  let num : Nat := if q ≤ 0 then n * 2 ^ (-q).toNat else n
  let den : Nat := if q ≤ 0 then d else d * 2 ^ q.toNat
  let f : Nat := num / den
  let rem : Nat := num % den
  (if 2 * rem < den then f
    else if den < 2 * rem then f + 1
    else if f % 2 = 0 then f else f + 1, q)

/-- Rounding of a real number, given by its sign and the fraction `n / d` of its
magnitude, to a binary format with `p` significand bits, least quantum `2^qmin` and
finite values below `2^emax`: a result of magnitude `2^emax` or more is an infinity. -/
def roundBinary (p : Nat) (qmin : Int) (emax : Nat) (negative : Bool) (n d : Nat) :
    FloatValue :=
  if n = 0 then .finite 0 0
  else
    let r := roundNearestEven p qmin n d
    if 0 ≤ r.2 ∧ 2 ^ emax ≤ r.1 * 2 ^ r.2.toNat then .inf negative
    else .finite (if negative then -(r.1 : Int) else r.1) r.2

/-- Rounding to `float` (binary32). -/
def roundFloat32 (negative : Bool) (n d : Nat) : FloatValue :=
  roundBinary 24 (-149) 128 negative n d

/-- Rounding to `double` (binary64). -/
def roundFloat64 (negative : Bool) (n d : Nat) : FloatValue :=
  roundBinary 53 (-1074) 1024 negative n d

/-- The magnitude `m * 2^e` as a fraction. -/
def dyadicFraction (m : Nat) (e : Int) : Nat × Nat :=
  if 0 ≤ e then (m * 2 ^ e.toNat, 1) else (m, 2 ^ (-e).toNat)

/-- The conversion `(float)x` of a `double`. -/
def toFloat32 : FloatValue → FloatValue
  | .finite m e =>
    roundFloat32 (decide (m < 0)) (dyadicFraction m.natAbs e).1 (dyadicFraction m.natAbs e).2
  | .inf negative => .inf negative
  | .nan => .nan

/-- The product `x * y` of two `float`s, in `float`. -/
def mulFloat32 : FloatValue → FloatValue → FloatValue
  | .nan, _ => .nan
  | _, .nan => .nan
  | .inf a, .inf b => .inf (a != b)
  | .inf a, .finite m _ => if m = 0 then .nan else .inf (a != decide (m < 0))
  | .finite m _, .inf b => if m = 0 then .nan else .inf (decide (m < 0) != b)
  | .finite m1 e1, .finite m2 e2 =>
    roundFloat32 (decide (m1 * m2 < 0))
      (dyadicFraction (m1 * m2).natAbs (e1 + e2)).1 (dyadicFraction (m1 * m2).natAbs (e1 + e2)).2

/-- The quotient `x / y` of two `float`s, in `float`. -/
def divFloat32 : FloatValue → FloatValue → FloatValue
  | .nan, _ => .nan
  | _, .nan => .nan
  | .inf _, .inf _ => .nan
  | .inf a, .finite m _ => .inf (a != decide (m < 0))
  | .finite _ _, .inf _ => .finite 0 0
  | .finite m1 e1, .finite m2 e2 =>
    if m2 = 0 then (if m1 = 0 then .nan else .inf (decide (m1 < 0)))
    else
      roundFloat32 (decide (m1 < 0) != decide (m2 < 0))
        ((dyadicFraction m1.natAbs e1).1 * (dyadicFraction m2.natAbs e2).2)
        ((dyadicFraction m1.natAbs e1).2 * (dyadicFraction m2.natAbs e2).1)

/-- The conversion `(int)x` of a `float`: the value truncated toward zero; not
defined (`none`) when that is not an `int`, or for an infinity or a NaN. -/
def floatToInt : FloatValue → Option Int
  | .finite m e =>
    let t : Int := if 0 ≤ e then m * 2 ^ e.toNat else m.tdiv (2 ^ (-e).toNat)
    if -2 ^ 31 ≤ t ∧ t < 2 ^ 31 then some t else none
  | _ => none

/-- The value of a `double` of the Lua runtime. -/
def doubleValue (x : Float) : FloatValue :=
  match x.toRatParts with
  | some (m, e) => .finite m e
  | none => if x.isNaN then .nan else .inf (x < 0)

/-- The conversion of a `lua_Integer` to `lua_Number`. -/
def integerToDouble (i : Int) : FloatValue := roundFloat64 (decide (i < 0)) i.natAbs 1

/-- Conversion of a value to a float (`lua_tonumberx`), the float given by its
value. -/
def tonumberValue {σ : Type} (H : Host σ) : LuaValue → Option FloatValue
  | .number x => some (doubleValue x)
  | .integer i => some (integerToDouble i)
  | .string s =>
    match H.l_strton s with
    | some (.integer i) => some (integerToDouble i)
    | some (.number x) => some (doubleValue x)
    | _ => none
  | _ => none

/-- The C function `luaL_checknumber`, the number given by its value. -/
def luaL_checknumberValue {σ : Type} (arg : Nat) : LuaM σ FloatValue :=
  fun H st =>
    match (index2value st.stack arg).bind (tonumberValue H) with
    | some x => (.ok x, st)
    | none =>
      (.error (.badArgument arg
        ("number expected, got " ++ luaL_typename (index2value st.stack arg))), st)

/-- The loop `for (int i = 0; i < frames; i++) st_wait_frame();` with `n` rounds to
go. -/
def wait_frames {σ : Type} : Nat → LuaM σ Unit
  | 0 => pure ()
  | n + 1 => do
    engine .st_wait_frame
    wait_frames n

/-- The tail of `lua_st_wait` and `lua_st_sleep`: `int frames = (int)(seconds *
60.0f)`, the loop, and `return 0`.  Where the conversion to `int` is not defined
the binding is not either. -/
def wait_seconds {σ : Type} (seconds : FloatValue) : LuaM σ Int :=
  match floatToInt (mulFloat32 seconds (.finite 60 0)) with
  | some frames => do
    wait_frames frames.toNat
    return 0
  | none => raise (.fault "float to int conversion out of range")

/-- Source: `lua_st_wait`. -/
def lua_st_wait {σ : Type} : LuaM σ Int := do
  let seconds := toFloat32 (← luaL_checknumberValue 1)
  wait_seconds seconds

/-- Source: `lua_st_sleep`. -/
def lua_st_sleep {σ : Type} : LuaM σ Int := do
  let milliseconds := toFloat32 (← luaL_checknumberValue 1)
  let seconds := divFloat32 milliseconds (.finite 1000 0)
  wait_seconds seconds

/-! ## Arithmetic of the C conversions -/

theorem toInt32_of_range (v : Int) (h1 : -2 ^ 31 ≤ v) (h2 : v < 2 ^ 31) : toInt32 v = v := by
  unfold toInt32
  omega

theorem toInt32_range (v : Int) : -2 ^ 31 ≤ toInt32 v ∧ toInt32 v < 2 ^ 31 := by
  unfold toInt32
  omega

theorem toUInt32_of_lt (n : Nat) (h : n < 2 ^ 32) : toUInt32 (n : Int) = n := by
  unfold toUInt32
  omega

/-! ## Computations that only read the stack -/

theorem quiet_pure {σ α : Type} (a : α) : Quiet (pure a : LuaM σ α) := fun _ _ => rfl

theorem quiet_bind {σ α β : Type} {m : LuaM σ α} {f : α → LuaM σ β}
    (hm : Quiet m) (hf : ∀ a, Quiet (f a)) : Quiet (m >>= f) := by
  intro H st
  have h := hm H st
  show (LuaM.bind m f H st).2 = st
  unfold LuaM.bind
  rcases hr : m H st with ⟨r, st1⟩
  rw [hr] at h
  cases r with
  | error e => simpa using h
  | ok a =>
    have := hf a H st1
    simp only at h ⊢
    rw [this, h]

theorem quiet_map {σ α β : Type} {m : LuaM σ α} (g : α → β) (hm : Quiet m) :
    Quiet (g <$> m) :=
  quiet_bind hm fun _ => quiet_pure _

theorem quiet_ite {σ α : Type} {c : Prop} [Decidable c] {m1 m2 : LuaM σ α}
    (h1 : Quiet m1) (h2 : Quiet m2) : Quiet (if c then m1 else m2) := by
  split <;> assumption

theorem quiet_checkinteger {σ : Type} (arg : Nat) :
    Quiet (luaL_checkinteger arg : LuaM σ Int) := by
  intro H st
  unfold luaL_checkinteger
  split
  · rfl
  · split <;> rfl

theorem quiet_checknumber {σ : Type} (arg : Nat) :
    Quiet (luaL_checknumber arg : LuaM σ Float) := by
  intro H st
  unfold luaL_checknumber
  split <;> rfl

theorem quiet_gettop {σ : Type} : Quiet (lua_gettop : LuaM σ Int) := fun _ _ => rfl

theorem raises_error {σ α : Type} (msg : String) : Raises (luaL_error msg : LuaM σ α) :=
  fun _ _ => ⟨⟨_, rfl⟩, rfl⟩

theorem raises_bind {σ α β : Type} {m : LuaM σ α} {f : α → LuaM σ β}
    (hm : Quiet m) (hf : ∀ a, Raises (f a)) : Raises (m >>= f) := by
  intro H st
  have h := hm H st
  show (∃ e, (LuaM.bind m f H st).1 = .error e) ∧ (LuaM.bind m f H st).2 = st
  unfold LuaM.bind
  rcases hr : m H st with ⟨r, st1⟩
  rw [hr] at h
  cases r with
  | error e => exact ⟨⟨e, rfl⟩, by simpa using h⟩
  | ok a =>
    have := hf a H st1
    simp only at h ⊢
    rw [h] at this ⊢
    exact this

theorem checkinteger_head {σ α : Type} (H : Host σ) (st : LuaState σ) (a : LuaValue)
    (rest : List LuaValue) (id : Int) (f : Int → LuaM σ α)
    (hs : st.stack = a :: rest) (ha : tointeger H a = some id) :
    (luaL_checkinteger 1 >>= f) H st = f id H st := by
  show LuaM.bind (luaL_checkinteger 1) f H st = f id H st
  simp [LuaM.bind, luaL_checkinteger, index2value, hs, ha]


/-! ## Defaults of the optional arguments -/

/-- C1: `sound_play_id` and its alias `sound_play` (both names hold the same
function) hand the engine volume 1.0 and pan 0.0 when the optional arguments
are omitted (absent or nil), and `voices_end_slot`, `voices_next_slot` and
`voice_direct_slot` hand it volume 1.0; a number the script supplies reaches
the engine as that number, converted to `float` and nothing else. -/
theorem optional_volume_pan_defaults {σ : Type} (H : Host σ) (s : σ) (fuel : Nat)
    (id slot : Int) (v p d : LuaNum) :
    (getglobal "sound_play_id" = some .lua_st_sound_play_id ∧
      getglobal "sound_play" = some .lua_st_sound_play_id) ∧
    (callBinding (CFunction.lua_st_sound_play_id.body fuel) H [.integer id] s).2.calls
      = [.st_sound_play_id (toUInt32 id) ⟨1.0⟩ ⟨0.0⟩] ∧
    (callBinding (CFunction.lua_st_sound_play_id.body fuel) H [.integer id, .nil, .nil] s).2.calls
      = [.st_sound_play_id (toUInt32 id) ⟨1.0⟩ ⟨0.0⟩] ∧
    (callBinding (CFunction.lua_st_sound_play_id.body fuel) H [.integer id, v.value] s).2.calls
      = [.st_sound_play_id (toUInt32 id) ⟨v.toDouble⟩ ⟨0.0⟩] ∧
    (callBinding (CFunction.lua_st_sound_play_id.body fuel) H
        [.integer id, .nil, p.value] s).2.calls
      = [.st_sound_play_id (toUInt32 id) ⟨1.0⟩ ⟨p.toDouble⟩] ∧
    (callBinding (CFunction.lua_st_sound_play_id.body fuel) H
        [.integer id, v.value, p.value] s).2.calls
      = [.st_sound_play_id (toUInt32 id) ⟨v.toDouble⟩ ⟨p.toDouble⟩] ∧
    (callBinding lua_st_voices_end_slot H [.integer slot] s).2.calls
      = [.st_voices_end_slot (toInt32 slot) ⟨1.0⟩] ∧
    (callBinding lua_st_voices_end_slot H [.integer slot, .nil] s).2.calls
      = [.st_voices_end_slot (toInt32 slot) ⟨1.0⟩] ∧
    (callBinding lua_st_voices_end_slot H [.integer slot, v.value] s).2.calls
      = [.st_voices_end_slot (toInt32 slot) ⟨v.toDouble⟩] ∧
    (callBinding lua_st_voices_next_slot H [] s).2.calls = [.st_voices_next_slot ⟨1.0⟩] ∧
    (callBinding lua_st_voices_next_slot H [.nil] s).2.calls = [.st_voices_next_slot ⟨1.0⟩] ∧
    (callBinding lua_st_voices_next_slot H [v.value] s).2.calls
      = [.st_voices_next_slot ⟨v.toDouble⟩] ∧
    (callBinding lua_st_voice_direct_slot H [.integer slot] s).2.calls
      = [.st_voice_direct_slot (toInt32 slot) ⟨1.0⟩ ⟨0.0⟩] ∧
    (callBinding lua_st_voice_direct_slot H [.integer slot, .nil, d.value] s).2.calls
      = [.st_voice_direct_slot (toInt32 slot) ⟨1.0⟩ ⟨d.toDouble⟩] ∧
    (callBinding lua_st_voice_direct_slot H [.integer slot, v.value] s).2.calls
      = [.st_voice_direct_slot (toInt32 slot) ⟨v.toDouble⟩ ⟨0.0⟩] ∧
    (callBinding lua_st_voice_direct_slot H [.integer slot, v.value, d.value] s).2.calls
      = [.st_voice_direct_slot (toInt32 slot) ⟨v.toDouble⟩ ⟨d.toDouble⟩] := by
  cases v <;> cases p <;> cases d <;>
    exact ⟨⟨by decide, by decide⟩, rfl, rfl, rfl, rfl, rfl, rfl, rfl, rfl, rfl, rfl, rfl, rfl,
      rfl, rfl, rfl⟩

/-! ## Voice indices -/

/-- C2 (as stated, refuted): the script passes the integer 4294967296 (2^32) as
the voice index of `voice_set_volume`; the index handed to the engine is 0, a
different integer, and a valid voice index (of a 16-voice pool, say) although
the script's index is not one. -/
theorem voice_index_wraps_to_zero :
    (callBinding lua_st_voice_set_volume idleHost
        [.integer 4294967296, .number 0.5] ()).2.calls = [.st_voice_set_volume 0 ⟨0.5⟩] ∧
    (4294967296 : Int) ≠ 0 ∧
    ¬ ((0 : Int) ≤ 4294967296 ∧ (4294967296 : Int) < 16) ∧
    ((0 : Int) ≤ 0 ∧ (0 : Int) < 16) := by
  exact ⟨rfl, by decide, by decide, by decide⟩

/-- C2 (amended): for every voice index within the range of a 32-bit C `int`,
each per-voice setter (waveform, frequency, note, note name, envelope, gate,
volume, pulse width, pan) makes one engine call, and the voice index of that
call is the integer the script passed; hence an index outside `0..N-1` in that
range reaches the engine as the same out-of-range index, for every `N`. -/
theorem voice_index_passed_through {σ : Type} (H : Host σ) (s : σ) (v : Int)
    (h1 : -2 ^ 31 ≤ v) (h2 : v < 2 ^ 31)
    (w m : Int) (x a d su r : LuaNum) (g : Bool) (name : String) :
    (callBinding lua_st_voice_set_waveform H [.integer v, .integer w] s).2.calls
      = [.st_voice_set_waveform v (toInt32 w)] ∧
    (callBinding lua_st_voice_set_frequency H [.integer v, x.value] s).2.calls
      = [.st_voice_set_frequency v ⟨x.toDouble⟩] ∧
    (callBinding lua_st_voice_set_note H [.integer v, .integer m] s).2.calls
      = [.st_voice_set_note v (toInt32 m)] ∧
    (callBinding lua_st_voice_set_note_name H [.integer v, .string name] s).2.calls
      = [.st_voice_set_note_name v name] ∧
    (callBinding lua_st_voice_set_envelope H
        [.integer v, a.value, d.value, su.value, r.value] s).2.calls
      = [.st_voice_set_envelope v ⟨a.toDouble⟩ ⟨d.toDouble⟩ ⟨su.toDouble⟩ ⟨r.toDouble⟩] ∧
    (callBinding lua_st_voice_set_gate H [.integer v, .boolean g] s).2.calls
      = [.st_voice_set_gate v (if g then 1 else 0)] ∧
    (callBinding lua_st_voice_set_volume H [.integer v, x.value] s).2.calls
      = [.st_voice_set_volume v ⟨x.toDouble⟩] ∧
    (callBinding lua_st_voice_set_pulse_width H [.integer v, x.value] s).2.calls
      = [.st_voice_set_pulse_width v ⟨x.toDouble⟩] ∧
    (callBinding lua_st_voice_set_pan H [.integer v, x.value] s).2.calls
      = [.st_voice_set_pan v ⟨x.toDouble⟩] ∧
    ∀ N : Int, ¬ (0 ≤ v ∧ v < N) → ¬ (0 ≤ toInt32 v ∧ toInt32 v < N) := by
  have hv : toInt32 v = v := toInt32_of_range v h1 h2
  refine ⟨?_, ?_, ?_, ?_, ?_, ?_, ?_, ?_, ?_, ?_⟩
  case refine_10 => rw [hv]; exact fun _ h => h
  all_goals
    conv_rhs => rw [← hv]
    cases x <;> cases a <;> cases d <;> cases su <;> cases r <;> cases g <;> rfl

/-- Witness of C2 (amended), at voice index 16, one past the last voice of a
16-voice pool. -/
theorem voice_index_passed_through_witness :
    (-2 ^ 31 ≤ (16 : Int) ∧ (16 : Int) < 2 ^ 31) ∧
    (callBinding lua_st_voice_set_volume idleHost
        [.integer 16, (LuaNum.float 0.5).value] ()).2.calls
      = [.st_voice_set_volume 16 ⟨(LuaNum.float 0.5).toDouble⟩] ∧
    ¬ (0 ≤ toInt32 16 ∧ toInt32 16 < 16) :=
  have h := voice_index_passed_through idleHost () 16 (by decide) (by decide) 1 60
    (.float 0.5) (.float 0.5) (.float 0.5) (.float 0.5) (.float 0.5) true "C4"
  ⟨⟨by decide, by decide⟩, h.2.2.2.2.2.2.1, h.2.2.2.2.2.2.2.2.2 16 (by decide)⟩

/-! ## No binding of the voice, LFO and sound-id family raises -/

/-- C3: with an arbitrary integer as every index (`i`, `j`) and arguments of the
type each binding checks for (integers for waveform, note, model, source voice
and the delay-enable flag; numbers of either subtype for the numeric
parameters; a string for the note name; any value at all for the gate and
filter-routing flags), each binding that takes a voice, LFO or sound index
completes without a Lua error: the setters, `sound_play_id` and `sound_delete`
return zero values, and `sound_exists` returns exactly one value, the boolean
the engine answered. -/
theorem indexed_bindings_never_raise {σ : Type} (H : Host σ) (s : σ) (i j : Int)
    (a b c d : LuaNum) (g : LuaValue) (name : String) :
    (callBinding lua_st_voice_set_waveform H [.integer i, .integer j] s).1 = .ok 0 ∧
    (callBinding lua_st_voice_set_frequency H [.integer i, a.value] s).1 = .ok 0 ∧
    (callBinding lua_st_voice_set_note H [.integer i, .integer j] s).1 = .ok 0 ∧
    (callBinding lua_st_voice_set_note_name H [.integer i, .string name] s).1 = .ok 0 ∧
    (callBinding lua_st_voice_set_envelope H
        [.integer i, a.value, b.value, c.value, d.value] s).1 = .ok 0 ∧
    (callBinding lua_st_voice_set_gate H [.integer i, g] s).1 = .ok 0 ∧
    (callBinding lua_st_voice_set_volume H [.integer i, a.value] s).1 = .ok 0 ∧
    (callBinding lua_st_voice_set_pulse_width H [.integer i, a.value] s).1 = .ok 0 ∧
    (callBinding lua_st_voice_set_pan H [.integer i, a.value] s).1 = .ok 0 ∧
    (callBinding lua_st_voice_set_filter_routing H [.integer i, g] s).1 = .ok 0 ∧
    (callBinding lua_st_voice_set_physical_model H [.integer i, .integer j] s).1 = .ok 0 ∧
    (callBinding lua_st_voice_set_physical_damping H [.integer i, a.value] s).1 = .ok 0 ∧
    (callBinding lua_st_voice_set_physical_brightness H [.integer i, a.value] s).1 = .ok 0 ∧
    (callBinding lua_st_voice_set_physical_excitation H [.integer i, a.value] s).1 = .ok 0 ∧
    (callBinding lua_st_voice_set_physical_resonance H [.integer i, a.value] s).1 = .ok 0 ∧
    (callBinding lua_st_voice_set_physical_tension H [.integer i, a.value] s).1 = .ok 0 ∧
    (callBinding lua_st_voice_set_physical_pressure H [.integer i, a.value] s).1 = .ok 0 ∧
    (callBinding lua_st_voice_physical_trigger H [.integer i] s).1 = .ok 0 ∧
    (callBinding lua_st_voice_set_ring_mod H [.integer i, .integer j] s).1 = .ok 0 ∧
    (callBinding lua_st_voice_set_sync H [.integer i, .integer j] s).1 = .ok 0 ∧
    (callBinding lua_st_voice_set_portamento H [.integer i, a.value] s).1 = .ok 0 ∧
    (callBinding lua_st_voice_set_detune H [.integer i, a.value] s).1 = .ok 0 ∧
    (callBinding lua_st_voice_set_delay_enable H [.integer i, .integer j] s).1 = .ok 0 ∧
    (callBinding lua_st_voice_set_delay_time H [.integer i, a.value] s).1 = .ok 0 ∧
    (callBinding lua_st_voice_set_delay_feedback H [.integer i, a.value] s).1 = .ok 0 ∧
    (callBinding lua_st_voice_set_delay_mix H [.integer i, a.value] s).1 = .ok 0 ∧
    (callBinding lua_st_lfo_set_waveform H [.integer i, .integer j] s).1 = .ok 0 ∧
    (callBinding lua_st_lfo_set_rate H [.integer i, a.value] s).1 = .ok 0 ∧
    (callBinding lua_st_lfo_reset H [.integer i] s).1 = .ok 0 ∧
    (callBinding lua_st_lfo_to_pitch H [.integer i, .integer j, a.value] s).1 = .ok 0 ∧
    (callBinding lua_st_lfo_to_volume H [.integer i, .integer j, a.value] s).1 = .ok 0 ∧
    (callBinding lua_st_lfo_to_filter H [.integer i, .integer j, a.value] s).1 = .ok 0 ∧
    (callBinding lua_st_lfo_to_pulsewidth H [.integer i, .integer j, a.value] s).1 = .ok 0 ∧
    (callBinding lua_st_sound_play_id H [.integer i] s).1 = .ok 0 ∧
    (callBinding lua_st_sound_play_id H [.integer i, a.value, b.value] s).1 = .ok 0 ∧
    (callBinding lua_st_sound_delete H [.integer i] s).1 = .ok 0 ∧
    (callBinding lua_st_sound_exists H [.integer i] s).1 = .ok 1 ∧
    results (callBinding lua_st_sound_exists H [.integer i] s)
      = some [.boolean (H.call (.st_sound_exists (toUInt32 i)) s).1] := by
  have hb : ∀ q : Bool, ((if q then (1 : Int) else 0) != 0) = q := by decide
  cases a <;> cases b <;> cases c <;> cases d <;>
    refine ⟨?_, ?_, ?_, ?_, ?_, ?_, ?_, ?_, ?_, ?_, ?_, ?_, ?_, ?_, ?_, ?_, ?_, ?_, ?_, ?_, ?_,
      ?_, ?_, ?_, ?_, ?_, ?_, ?_, ?_, ?_, ?_, ?_, ?_, ?_, ?_, ?_, ?_, ?_⟩
  all_goals first
    | rfl
    | (cases g <;> first | rfl | (rename_i q; cases q <;> rfl))
    | (simp [results, callBinding, lua_st_sound_exists, bind, LuaM.bind, luaL_checkinteger,
        index2value, tointeger, engine, lua_pushboolean, pure, hb])

/-! ## Out-of-range sprite ids -/

theorem sprite_explode_bad_id {σ : Type} (H : Host σ) (st : LuaState σ) (a : LuaValue)
    (rest : List LuaValue) (id : Int) (hs : st.stack = a :: rest) (ha : tointeger H a = some id)
    (hbad : toInt32 id < 1 ∨ toInt32 id > 1024) :
    (∃ e, (lua_sprite_explode H st).1 = .error e) ∧ (lua_sprite_explode H st).2 = st := by
  unfold lua_sprite_explode
  rw [checkinteger_head H st a rest id _ hs ha]
  refine raises_bind quiet_gettop (fun top => ?_) H st
  refine raises_bind ?_ (fun pc => ?_)
  · exact quiet_ite (quiet_map _ (quiet_checkinteger _)) (quiet_pure _)
  refine raises_bind ?_ (fun _ => ?_)
  · exact quiet_ite (quiet_map _ (quiet_checkinteger _)) (quiet_pure _)
  rw [if_pos hbad]
  exact raises_error _

theorem sprite_explode_advanced_bad_id {σ : Type} (H : Host σ) (st : LuaState σ) (a : LuaValue)
    (rest : List LuaValue) (id : Int) (hs : st.stack = a :: rest) (ha : tointeger H a = some id)
    (hbad : toInt32 id < 1 ∨ toInt32 id > 1024) :
    (∃ e, (lua_sprite_explode_advanced H st).1 = .error e) ∧
      (lua_sprite_explode_advanced H st).2 = st := by
  unfold lua_sprite_explode_advanced
  rw [checkinteger_head H st a rest id _ hs ha]
  refine raises_bind (quiet_checkinteger _) (fun pc => ?_) H st
  refine raises_bind quiet_gettop (fun top => ?_)
  refine raises_bind ?_ (fun _ => ?_)
  · exact quiet_ite (quiet_map _ (quiet_checknumber _)) (quiet_pure _)
  refine raises_bind ?_ (fun _ => ?_)
  · exact quiet_ite (quiet_map _ (quiet_checknumber _)) (quiet_pure _)
  refine raises_bind ?_ (fun _ => ?_)
  · exact quiet_ite (quiet_map _ (quiet_checknumber _)) (quiet_pure _)
  refine raises_bind ?_ (fun _ => ?_)
  · exact quiet_ite (quiet_map _ (quiet_checkinteger _)) (quiet_pure _)
  rw [if_pos hbad]
  exact raises_error _

theorem sprite_explode_directional_bad_id {σ : Type} (H : Host σ) (st : LuaState σ)
    (a : LuaValue) (rest : List LuaValue) (id : Int) (hs : st.stack = a :: rest)
    (ha : tointeger H a = some id) (hbad : toInt32 id < 1 ∨ toInt32 id > 1024) :
    (∃ e, (lua_sprite_explode_directional H st).1 = .error e) ∧
      (lua_sprite_explode_directional H st).2 = st := by
  unfold lua_sprite_explode_directional
  rw [checkinteger_head H st a rest id _ hs ha]
  refine raises_bind (quiet_checkinteger _) (fun pc => ?_) H st
  refine raises_bind (quiet_checknumber _) (fun _ => ?_)
  refine raises_bind (quiet_checknumber _) (fun _ => ?_)
  rw [if_pos hbad]
  exact raises_error _

theorem sprite_explode_mode_bad_id {σ : Type} (H : Host σ) (st : LuaState σ)
    (a : LuaValue) (rest : List LuaValue) (id : Int) (hs : st.stack = a :: rest)
    (ha : tointeger H a = some id) (hbad : toInt32 id < 1 ∨ toInt32 id > 1024) :
    (∃ e, (lua_sprite_explode_mode H st).1 = .error e) ∧
      (lua_sprite_explode_mode H st).2 = st := by
  unfold lua_sprite_explode_mode
  rw [checkinteger_head H st a rest id _ hs ha]
  refine raises_bind (quiet_checkinteger _) (fun pc => ?_) H st
  rw [if_pos hbad]
  exact raises_error _

/-- C4 (as stated, refuted): called with sprite id 0 (or 1025), outside 1..1024,
the four explosion bindings raise a Lua error; the script gets no result. -/
theorem sprite_explode_zero_id_raises :
    (callBinding lua_sprite_explode idleHost [.integer 0] ()).1
      = .error (.runtime "sprite_explode: sprite_id must be between 1 and 1024") ∧
    results (callBinding lua_sprite_explode idleHost [.integer 0] ()) = none ∧
    (callBinding lua_sprite_explode_advanced idleHost [.integer 1025, .integer 10] ()).1
      = .error (.runtime "sprite_explode_advanced: sprite_id must be between 1 and 1024") ∧
    (callBinding lua_sprite_explode_directional idleHost
        [.integer 0, .integer 10, .number 1.0, .number 1.0] ()).1
      = .error (.runtime "sprite_explode_directional: sprite_id must be between 1 and 1024") ∧
    (callBinding lua_sprite_explode_mode idleHost [.integer 0, .integer 1] ()).1
      = .error (.runtime "sprite_explode_mode: sprite_id must be between 1 and 1024") :=
  ⟨rfl, rfl, rfl, rfl, rfl⟩

/-- C4 (amended): when the first argument is a sprite id within the range of a
32-bit C `int` and outside 1..1024, `sprite_explode`, `sprite_explode_advanced`,
`sprite_explode_directional` and `sprite_explode_mode` raise a Lua error,
whatever the other arguments are, and reach the end without an engine call and
with the engine state untouched; with well-typed other arguments the error is
the binding's own "sprite_id must be between 1 and 1024" message. -/
theorem sprite_explode_bad_id_raises {σ : Type} (H : Host σ) (s : σ) (a : LuaValue)
    (rest : List LuaValue) (id : Int) (ha : tointeger H a = some id)
    (h1 : -2 ^ 31 ≤ id) (h2 : id < 2 ^ 31) (hbad : id < 1 ∨ id > 1024)
    (n m : Int) (fx fy : LuaNum) :
    ((∃ e, (callBinding lua_sprite_explode H (a :: rest) s).1 = .error e) ∧
      (callBinding lua_sprite_explode H (a :: rest) s).2.calls = [] ∧
      (callBinding lua_sprite_explode H (a :: rest) s).2.engine = s) ∧
    ((∃ e, (callBinding lua_sprite_explode_advanced H (a :: rest) s).1 = .error e) ∧
      (callBinding lua_sprite_explode_advanced H (a :: rest) s).2.calls = [] ∧
      (callBinding lua_sprite_explode_advanced H (a :: rest) s).2.engine = s) ∧
    ((∃ e, (callBinding lua_sprite_explode_directional H (a :: rest) s).1 = .error e) ∧
      (callBinding lua_sprite_explode_directional H (a :: rest) s).2.calls = [] ∧
      (callBinding lua_sprite_explode_directional H (a :: rest) s).2.engine = s) ∧
    ((∃ e, (callBinding lua_sprite_explode_mode H (a :: rest) s).1 = .error e) ∧
      (callBinding lua_sprite_explode_mode H (a :: rest) s).2.calls = [] ∧
      (callBinding lua_sprite_explode_mode H (a :: rest) s).2.engine = s) ∧
    (callBinding lua_sprite_explode H [.integer id] s).1
      = .error (.runtime "sprite_explode: sprite_id must be between 1 and 1024") ∧
    (callBinding lua_sprite_explode H [.integer id, .integer n] s).1
      = .error (.runtime "sprite_explode: sprite_id must be between 1 and 1024") ∧
    (callBinding lua_sprite_explode_advanced H [.integer id, .integer n] s).1
      = .error (.runtime "sprite_explode_advanced: sprite_id must be between 1 and 1024") ∧
    (callBinding lua_sprite_explode_directional H
        [.integer id, .integer n, fx.value, fy.value] s).1
      = .error (.runtime "sprite_explode_directional: sprite_id must be between 1 and 1024") ∧
    (callBinding lua_sprite_explode_mode H [.integer id, .integer m] s).1
      = .error (.runtime "sprite_explode_mode: sprite_id must be between 1 and 1024") := by
  have hv := toInt32_of_range id h1 h2
  have hbad2 : toInt32 id < 1 ∨ toInt32 id > 1024 := by rw [hv]; exact hbad
  have e1 := sprite_explode_bad_id H ⟨a :: rest, s, [], []⟩ a rest id rfl ha hbad2
  have e2 := sprite_explode_advanced_bad_id H ⟨a :: rest, s, [], []⟩ a rest id rfl ha hbad2
  have e3 := sprite_explode_directional_bad_id H ⟨a :: rest, s, [], []⟩ a rest id rfl ha hbad2
  have e4 := sprite_explode_mode_bad_id H ⟨a :: rest, s, [], []⟩ a rest id rfl ha hbad2
  refine ⟨⟨e1.1, ?_, ?_⟩, ⟨e2.1, ?_, ?_⟩, ⟨e3.1, ?_, ?_⟩, ⟨e4.1, ?_, ?_⟩, ?_⟩
  · exact congrArg LuaState.calls e1.2
  · exact congrArg LuaState.engine e1.2
  · exact congrArg LuaState.calls e2.2
  · exact congrArg LuaState.engine e2.2
  · exact congrArg LuaState.calls e3.2
  · exact congrArg LuaState.engine e3.2
  · exact congrArg LuaState.calls e4.2
  · exact congrArg LuaState.engine e4.2
  · cases fx <;> cases fy <;>
      simp [callBinding, lua_sprite_explode, lua_sprite_explode_advanced,
        lua_sprite_explode_directional, lua_sprite_explode_mode, bind, LuaM.bind,
        luaL_checkinteger, luaL_checknumber, lua_gettop, index2value, tointeger, tonumber,
        pure, luaL_error, raise, hbad2, LuaNum.value, Functor.map, Function.comp]

/-- Witness of C4 (amended), at sprite id 0 and at sprite id 1025. -/
theorem sprite_explode_bad_id_raises_witness :
    (tointeger idleHost (.integer 0) = some 0 ∧ -2 ^ 31 ≤ (0 : Int) ∧ (0 : Int) < 2 ^ 31 ∧
      ((0 : Int) < 1 ∨ (0 : Int) > 1024)) ∧
    (callBinding lua_sprite_explode idleHost [.integer 0, .string "many"] ()).2.calls = [] ∧
    (callBinding lua_sprite_explode_mode idleHost [.integer 1025, .integer 3] ()).1
      = .error (.runtime "sprite_explode_mode: sprite_id must be between 1 and 1024") :=
  ⟨⟨rfl, by decide, by decide, by decide⟩,
    (sprite_explode_bad_id_raises idleHost () (.integer 0) [.string "many"] 0 rfl (by decide)
      (by decide) (by decide) 10 3 (.float 1.0) (.float 1.0)).1.2.1,
    (sprite_explode_bad_id_raises idleHost () (.integer 1025) [] 1025 rfl (by decide)
      (by decide) (by decide) 10 3 (.float 1.0) (.float 1.0)).2.2.2.2.2.2.2.2⟩

/-! ## Waiting for a key -/

theorem wait_key_scan_step {σ : Type} (H : Host σ) (n : Nat) (key : Int) (st : LuaState σ) :
    wait_key_scan (n + 1) key H st =
      if (H.call (.st_key_pressed key) st.engine).1 = true then
        (.ok true, { st with engine := (H.call (.st_key_pressed key) st.engine).2,
                             calls := st.calls ++ [.st_key_pressed key] })
      else wait_key_scan n (key + 1) H
        { st with engine := (H.call (.st_key_pressed key) st.engine).2,
                  calls := st.calls ++ [.st_key_pressed key] } := by
  conv_lhs => unfold wait_key_scan
  simp only [bind, LuaM.bind, engine, pure]
  cases (H.call (.st_key_pressed key) st.engine).1 <;> simp

theorem wait_key_scan_spec {σ : Type} (H : Host σ) : ∀ (n : Nat) (key : Int) (st : LuaState σ),
    ∃ (b : Bool) (st1 : LuaState σ), wait_key_scan n key H st = (.ok b, st1) ∧
      st1.stack = st.stack ∧ (b = true ↔ keyPressedInScan H n key st.engine) := by
  intro n
  induction n with
  | zero =>
    intro key st
    exact ⟨false, st, rfl, rfl, by simp [keyPressedInScan]⟩
  | succ n ih =>
    intro key st
    rw [wait_key_scan_step]
    by_cases hp : (H.call (.st_key_pressed key) st.engine).1 = true
    · rw [if_pos hp]
      refine ⟨true, _, rfl, rfl, ?_⟩
      simp only [true_iff]
      have e0 : key + ((0 : Nat) : Int) = key := by simp
      refine ⟨0, Nat.succ_pos n, ?_⟩
      rw [e0]
      exact hp
    · rw [if_neg hp]
      obtain ⟨b, st1, h1, h2, h3⟩ := ih (key + 1)
        { st with engine := (H.call (.st_key_pressed key) st.engine).2,
                  calls := st.calls ++ [.st_key_pressed key] }
      refine ⟨b, st1, h1, h2, h3.trans ?_⟩
      constructor
      · rintro ⟨j, hj, hpj⟩
        refine ⟨j + 1, Nat.succ_lt_succ hj, ?_⟩
        have e : key + ((j + 1 : Nat) : Int) = key + 1 + (j : Int) := by push_cast; ring
        rw [e]
        exact hpj
      · rintro ⟨j, hj, hpj⟩
        cases j with
        | zero =>
          have e0 : key + ((0 : Nat) : Int) = key := by simp
          rw [e0] at hpj
          exact absurd hpj hp
        | succ j =>
          refine ⟨j, Nat.lt_of_succ_lt_succ hj, ?_⟩
          have e : key + ((j + 1 : Nat) : Int) = key + 1 + (j : Int) := by push_cast; ring
          rw [e] at hpj
          exact hpj

theorem wait_key_frame_spec {σ : Type} (H : Host σ) (t fw : Int) (ht : t ≤ 0)
    (st : LuaState σ) :
    (keyPressedInScan H 512 0 (H.call .st_wait_frame st.engine).2 →
      (wait_key_frame t fw H st).1 = .ok (some 1) ∧
      (wait_key_frame t fw H st).2.stack = st.stack ++ [.boolean true]) ∧
    (¬ keyPressedInScan H 512 0 (H.call .st_wait_frame st.engine).2 →
      (wait_key_frame t fw H st).1 = .ok none ∧
      (wait_key_frame t fw H st).2.stack = st.stack) := by
  have hnt : ¬ (t > 0 ∧ toInt32 (fw + 1) ≥ t) := fun h => absurd h.1 (not_lt.mpr ht)
  obtain ⟨b, st1, h1, h2, h3⟩ := wait_key_scan_spec H 512 0
    { st with engine := (H.call .st_wait_frame st.engine).2,
              calls := st.calls ++ [.st_wait_frame] }
  have hf : wait_key_frame t fw H st =
      if b = true then (.ok (some 1), { st1 with stack := st1.stack ++ [.boolean true] })
      else (.ok none, st1) := by
    unfold wait_key_frame
    simp only [bind, LuaM.bind, engine, pure, if_neg hnt, h1]
    cases b
    · simp
    · rfl
  simp only at h3
  rw [hf]
  constructor
  · intro hp
    rw [if_pos (h3.2 hp)]
    exact ⟨rfl, by simp [h2]⟩
  · intro hp
    have hb : ¬ b = true := fun h => hp (h3.1 h)
    rw [if_neg hb]
    exact ⟨rfl, h2⟩

theorem wait_key_loop_step {σ : Type} (H : Host σ) (t : Int) (fuel : Nat) (fw : Int)
    (st : LuaState σ) :
    wait_key_loop t (fuel + 1) fw H st =
      match wait_key_frame t fw H st with
      | (.ok (some n), st1) => (.ok (some n), st1)
      | (.ok none, st1) => wait_key_loop t fuel (toInt32 (fw + 1)) H st1
      | (.error e, st1) => (.error e, st1) := by
  conv_lhs => unfold wait_key_loop
  simp only [bind, LuaM.bind, pure]
  rcases wait_key_frame t fw H st with ⟨r, st1⟩
  rcases r with e | r
  · rfl
  · cases r <;> rfl

theorem wait_key_loop_never_false {σ : Type} (H : Host σ) (t : Int) (ht : t ≤ 0) :
    ∀ (fuel : Nat) (fw : Int) (st : LuaState σ),
      ((wait_key_loop t fuel fw H st).1 = .ok none ∧
        (wait_key_loop t fuel fw H st).2.stack = st.stack) ∨
      ((wait_key_loop t fuel fw H st).1 = .ok (some 1) ∧
        (wait_key_loop t fuel fw H st).2.stack = st.stack ++ [.boolean true]) := by
  intro fuel
  induction fuel with
  | zero => intro fw st; exact Or.inl ⟨rfl, rfl⟩
  | succ fuel ih =>
    intro fw st
    rw [wait_key_loop_step]
    have hf := wait_key_frame_spec H t fw ht st
    by_cases hp : keyPressedInScan H 512 0 (H.call .st_wait_frame st.engine).2
    · obtain ⟨e1, e2⟩ := hf.1 hp
      rcases hr : wait_key_frame t fw H st with ⟨r, st1⟩
      rw [hr] at e1 e2
      simp only at e1 e2
      subst e1
      exact Or.inr ⟨rfl, e2⟩
    · obtain ⟨e1, e2⟩ := hf.2 hp
      rcases hr : wait_key_frame t fw H st with ⟨r, st1⟩
      rw [hr] at e1 e2
      simp only at e1 e2
      subst e1
      simp only
      rw [← e2]
      exact ih _ st1

theorem wait_key_loop_waits {σ : Type} (H : Host σ) (t : Int) (ht : t ≤ 0)
    (hquiet : ∀ (key : Int) (s : σ), (H.call (.st_key_pressed key) s).1 = false) :
    ∀ (fuel : Nat) (fw : Int) (st : LuaState σ), (wait_key_loop t fuel fw H st).1 = .ok none := by
  intro fuel
  induction fuel with
  | zero => intro fw st; rfl
  | succ fuel ih =>
    intro fw st
    rw [wait_key_loop_step]
    have hp : ¬ keyPressedInScan H 512 0 (H.call .st_wait_frame st.engine).2 := by
      rintro ⟨j, _, hj⟩
      rw [hquiet] at hj
      exact Bool.false_ne_true hj
    obtain ⟨e1, _⟩ := (wait_key_frame_spec H t fw ht st).2 hp
    rcases hr : wait_key_frame t fw H st with ⟨r, st1⟩
    rw [hr] at e1
    simp only at e1
    subst e1
    exact ih _ st1

/-- C5 (as stated, refuted): the timeout -4294967295 is at most 0, yet with no
key pressed `wait_key` returns false after one frame (as a C `int` the timeout
is 1). -/
theorem wait_key_wrapped_timeout_returns_false :
    (-4294967295 : Int) ≤ 0 ∧
    (callBinding (lua_st_wait_key 1) idleHost [.integer (-4294967295)] ()).1 = .ok (some 1) ∧
    (callBinding (lua_st_wait_key 1) idleHost [.integer (-4294967295)] ()).2.stack
      = [.integer (-4294967295), .boolean false] :=
  ⟨by decide, rfl, rfl⟩

/-- C5 (amended): `wait_key` called without a timeout runs its loop with timeout
-1, and called with a timeout `t` from -2^31 to 0 it runs the loop with timeout
`t`.  In both cases, after any number of frames it is either still waiting or
has returned one value, the boolean true, never false and never an error.  In
each frame of such a wait the loop body returns true when some key code in
0..511 is reported pressed during that frame's scan and goes round again when
none is; and when no key is ever pressed the wait outlasts every number of
frames. -/
theorem wait_key_unbounded {σ : Type} (H : Host σ) (s : σ) (t : Int)
    (h1 : -2 ^ 31 ≤ t) (h2 : t ≤ 0) (fuel : Nat) :
    (callBinding (lua_st_wait_key fuel) H [] s
        = wait_key_loop (-1) fuel 0 H { stack := [], engine := s, calls := [] } ∧
      callBinding (lua_st_wait_key fuel) H [.integer t] s
        = wait_key_loop t fuel 0 H { stack := [.integer t], engine := s, calls := [] }) ∧
    (((callBinding (lua_st_wait_key fuel) H [] s).1 = .ok none ∧
        (callBinding (lua_st_wait_key fuel) H [] s).2.stack = []) ∨
      ((callBinding (lua_st_wait_key fuel) H [] s).1 = .ok (some 1) ∧
        (callBinding (lua_st_wait_key fuel) H [] s).2.stack = [.boolean true])) ∧
    (((callBinding (lua_st_wait_key fuel) H [.integer t] s).1 = .ok none ∧
        (callBinding (lua_st_wait_key fuel) H [.integer t] s).2.stack = [.integer t]) ∨
      ((callBinding (lua_st_wait_key fuel) H [.integer t] s).1 = .ok (some 1) ∧
        (callBinding (lua_st_wait_key fuel) H [.integer t] s).2.stack
          = [.integer t, .boolean true])) ∧
    (∀ (frames_waited : Int) (st : LuaState σ),
      (keyPressedInScan H 512 0 (H.call .st_wait_frame st.engine).2 →
        (wait_key_frame t frames_waited H st).1 = .ok (some 1) ∧
        (wait_key_frame t frames_waited H st).2.stack = st.stack ++ [.boolean true]) ∧
      (¬ keyPressedInScan H 512 0 (H.call .st_wait_frame st.engine).2 →
        (wait_key_frame t frames_waited H st).1 = .ok none ∧
        (wait_key_frame t frames_waited H st).2.stack = st.stack)) ∧
    ((∀ (key : Int) (s1 : σ), (H.call (.st_key_pressed key) s1).1 = false) →
      (callBinding (lua_st_wait_key fuel) H [] s).1 = .ok none ∧
      (callBinding (lua_st_wait_key fuel) H [.integer t] s).1 = .ok none) := by
  have hv : toInt32 t = t := toInt32_of_range t h1 (by omega)
  have e0 : callBinding (lua_st_wait_key fuel) H [] s
      = wait_key_loop (-1) fuel 0 H { stack := [], engine := s, calls := [] } := rfl
  have e1 : callBinding (lua_st_wait_key fuel) H [.integer t] s
      = wait_key_loop t fuel 0 H { stack := [.integer t], engine := s, calls := [] } := by
    have e : callBinding (lua_st_wait_key fuel) H [.integer t] s
        = wait_key_loop (toInt32 t) fuel 0 H
            { stack := [.integer t], engine := s, calls := [] } := rfl
    rw [e, hv]
  refine ⟨⟨e0, e1⟩, ?_, ?_, fun fw st => wait_key_frame_spec H t fw h2 st, fun hq => ⟨?_, ?_⟩⟩
  · rw [e0]
    exact wait_key_loop_never_false H (-1) (by decide) fuel 0 _
  · rw [e1]
    exact wait_key_loop_never_false H t h2 fuel 0 _
  · rw [e0]
    exact wait_key_loop_waits H (-1) (by decide) hq fuel 0 _
  · rw [e1]
    exact wait_key_loop_waits H t h2 hq fuel 0 _

/-- Witness of C5 (amended), at timeout 0 on the host where no key is ever
pressed: after 3 frames `wait_key(0)` is still waiting. -/
theorem wait_key_unbounded_witness :
    (-2 ^ 31 ≤ (0 : Int) ∧ (0 : Int) ≤ 0) ∧
    (callBinding (lua_st_wait_key 3) idleHost [.integer 0] ()).1 = .ok none :=
  ⟨⟨by decide, by decide⟩,
    ((wait_key_unbounded idleHost () 0 (by decide) (by decide) 3).2.2.2.2 (fun _ _ => rfl)).2⟩

/-! ## Timeline results -/

/-- C6: `voices_end_slot(slot, volume)` returns no values; `voices_next_slot(volume)`
makes the engine's next-slot call with that volume and returns exactly one
value, the sound id that call produced; `voices_are_playing` returns exactly
one boolean, true iff the engine's answer is not zero. -/
theorem timeline_results {σ : Type} (H : Host σ) (s : σ) (slot : Int) (v : LuaNum) :
    ((callBinding lua_st_voices_end_slot H [.integer slot, v.value] s).1 = .ok 0 ∧
      results (callBinding lua_st_voices_end_slot H [.integer slot, v.value] s) = some [] ∧
      results (callBinding lua_st_voices_end_slot H [.integer slot] s) = some []) ∧
    (results (callBinding lua_st_voices_next_slot H [] s)
        = some [.integer (H.call (.st_voices_next_slot ⟨1.0⟩) s).1] ∧
      (callBinding lua_st_voices_next_slot H [v.value] s).1 = .ok 1 ∧
      (callBinding lua_st_voices_next_slot H [v.value] s).2.calls
        = [.st_voices_next_slot ⟨v.toDouble⟩] ∧
      results (callBinding lua_st_voices_next_slot H [v.value] s)
        = some [.integer (H.call (.st_voices_next_slot ⟨v.toDouble⟩) s).1]) ∧
    ((callBinding lua_st_voices_are_playing H [] s).1 = .ok 1 ∧
      ∃ playing : Bool,
        results (callBinding lua_st_voices_are_playing H [] s) = some [.boolean playing] ∧
        (playing = true ↔ (H.call .st_voices_are_playing s).1 ≠ 0)) := by
  refine ⟨?_, ?_, rfl, ⟨(H.call .st_voices_are_playing s).1 != 0, rfl, by simp⟩⟩
  · cases v <;> exact ⟨rfl, rfl, rfl⟩
  · cases v <;> exact ⟨rfl, rfl, rfl, rfl⟩

/-! ## Procedural generators -/

/-- C7: each of the ten generator bindings calls the same-named engine
generator once, with the script's numbers in the order given (three for
`sound_create_sweep_down`: start frequency, end frequency, duration; two for
the others), and returns exactly one value, the id that call returned. -/
theorem generators_return_engine_id {σ : Type} (H : Host σ) (s : σ) (a b c : LuaNum) :
    ((callBinding lua_st_sound_create_beep H [a.value, b.value] s).1 = .ok 1 ∧
      results (callBinding lua_st_sound_create_beep H [a.value, b.value] s)
        = some [.integer (H.call (.st_sound_create_beep ⟨a.toDouble⟩ ⟨b.toDouble⟩) s).1] ∧
      (callBinding lua_st_sound_create_beep H [a.value, b.value] s).2.calls
        = [.st_sound_create_beep ⟨a.toDouble⟩ ⟨b.toDouble⟩]) ∧
    ((callBinding lua_st_sound_create_blip H [a.value, b.value] s).1 = .ok 1 ∧
      results (callBinding lua_st_sound_create_blip H [a.value, b.value] s)
        = some [.integer (H.call (.st_sound_create_blip ⟨a.toDouble⟩ ⟨b.toDouble⟩) s).1] ∧
      (callBinding lua_st_sound_create_blip H [a.value, b.value] s).2.calls
        = [.st_sound_create_blip ⟨a.toDouble⟩ ⟨b.toDouble⟩]) ∧
    ((callBinding lua_st_sound_create_click H [a.value, b.value] s).1 = .ok 1 ∧
      results (callBinding lua_st_sound_create_click H [a.value, b.value] s)
        = some [.integer (H.call (.st_sound_create_click ⟨a.toDouble⟩ ⟨b.toDouble⟩) s).1] ∧
      (callBinding lua_st_sound_create_click H [a.value, b.value] s).2.calls
        = [.st_sound_create_click ⟨a.toDouble⟩ ⟨b.toDouble⟩]) ∧
    ((callBinding lua_st_sound_create_zap H [a.value, b.value] s).1 = .ok 1 ∧
      results (callBinding lua_st_sound_create_zap H [a.value, b.value] s)
        = some [.integer (H.call (.st_sound_create_zap ⟨a.toDouble⟩ ⟨b.toDouble⟩) s).1] ∧
      (callBinding lua_st_sound_create_zap H [a.value, b.value] s).2.calls
        = [.st_sound_create_zap ⟨a.toDouble⟩ ⟨b.toDouble⟩]) ∧
    ((callBinding lua_st_sound_create_explode H [a.value, b.value] s).1 = .ok 1 ∧
      results (callBinding lua_st_sound_create_explode H [a.value, b.value] s)
        = some [.integer (H.call (.st_sound_create_explode ⟨a.toDouble⟩ ⟨b.toDouble⟩) s).1] ∧
      (callBinding lua_st_sound_create_explode H [a.value, b.value] s).2.calls
        = [.st_sound_create_explode ⟨a.toDouble⟩ ⟨b.toDouble⟩]) ∧
    ((callBinding lua_st_sound_create_pickup H [a.value, b.value] s).1 = .ok 1 ∧
      results (callBinding lua_st_sound_create_pickup H [a.value, b.value] s)
        = some [.integer (H.call (.st_sound_create_pickup ⟨a.toDouble⟩ ⟨b.toDouble⟩) s).1] ∧
      (callBinding lua_st_sound_create_pickup H [a.value, b.value] s).2.calls
        = [.st_sound_create_pickup ⟨a.toDouble⟩ ⟨b.toDouble⟩]) ∧
    ((callBinding lua_st_sound_create_hurt H [a.value, b.value] s).1 = .ok 1 ∧
      results (callBinding lua_st_sound_create_hurt H [a.value, b.value] s)
        = some [.integer (H.call (.st_sound_create_hurt ⟨a.toDouble⟩ ⟨b.toDouble⟩) s).1] ∧
      (callBinding lua_st_sound_create_hurt H [a.value, b.value] s).2.calls
        = [.st_sound_create_hurt ⟨a.toDouble⟩ ⟨b.toDouble⟩]) ∧
    ((callBinding lua_st_sound_create_sweep_down H [a.value, b.value, c.value] s).1 = .ok 1 ∧
      results (callBinding lua_st_sound_create_sweep_down H [a.value, b.value, c.value] s)
        = some [.integer
            (H.call (.st_sound_create_sweep_down ⟨a.toDouble⟩ ⟨b.toDouble⟩ ⟨c.toDouble⟩) s).1] ∧
      (callBinding lua_st_sound_create_sweep_down H [a.value, b.value, c.value] s).2.calls
        = [.st_sound_create_sweep_down ⟨a.toDouble⟩ ⟨b.toDouble⟩ ⟨c.toDouble⟩]) ∧
    ((callBinding lua_st_sound_create_coin H [a.value, b.value] s).1 = .ok 1 ∧
      results (callBinding lua_st_sound_create_coin H [a.value, b.value] s)
        = some [.integer (H.call (.st_sound_create_coin ⟨a.toDouble⟩ ⟨b.toDouble⟩) s).1] ∧
      (callBinding lua_st_sound_create_coin H [a.value, b.value] s).2.calls
        = [.st_sound_create_coin ⟨a.toDouble⟩ ⟨b.toDouble⟩]) ∧
    ((callBinding lua_st_sound_create_powerup H [a.value, b.value] s).1 = .ok 1 ∧
      results (callBinding lua_st_sound_create_powerup H [a.value, b.value] s)
        = some [.integer (H.call (.st_sound_create_powerup ⟨a.toDouble⟩ ⟨b.toDouble⟩) s).1] ∧
      (callBinding lua_st_sound_create_powerup H [a.value, b.value] s).2.calls
        = [.st_sound_create_powerup ⟨a.toDouble⟩ ⟨b.toDouble⟩]) := by
  cases a <;> cases b <;> cases c <;>
    exact ⟨⟨rfl, rfl, rfl⟩, ⟨rfl, rfl, rfl⟩, ⟨rfl, rfl, rfl⟩, ⟨rfl, rfl, rfl⟩, ⟨rfl, rfl, rfl⟩,
      ⟨rfl, rfl, rfl⟩, ⟨rfl, rfl, rfl⟩, ⟨rfl, rfl, rfl⟩, ⟨rfl, rfl, rfl⟩, ⟨rfl, rfl, rfl⟩⟩

/-! ## Sound ids through the script -/

/-- C8: let the engine id `sid` be below 2^32.  The value each generator
binding returns for it is the Lua integer `sid`, and `sound_play_id`,
`sound_exists` and `sound_delete`, called with that Lua integer, hand the
engine exactly `sid`. -/
theorem sound_id_round_trip {σ : Type} (H : Host σ) (s t : σ) (a b c : LuaNum) (sid : Nat)
    (hsid : sid < 2 ^ 32) :
    ((H.call (.st_sound_create_beep ⟨a.toDouble⟩ ⟨b.toDouble⟩) s).1 = sid →
      results (callBinding lua_st_sound_create_beep H [a.value, b.value] s)
        = some [.integer sid]) ∧
    ((H.call (.st_sound_create_blip ⟨a.toDouble⟩ ⟨b.toDouble⟩) s).1 = sid →
      results (callBinding lua_st_sound_create_blip H [a.value, b.value] s)
        = some [.integer sid]) ∧
    ((H.call (.st_sound_create_click ⟨a.toDouble⟩ ⟨b.toDouble⟩) s).1 = sid →
      results (callBinding lua_st_sound_create_click H [a.value, b.value] s)
        = some [.integer sid]) ∧
    ((H.call (.st_sound_create_zap ⟨a.toDouble⟩ ⟨b.toDouble⟩) s).1 = sid →
      results (callBinding lua_st_sound_create_zap H [a.value, b.value] s)
        = some [.integer sid]) ∧
    ((H.call (.st_sound_create_explode ⟨a.toDouble⟩ ⟨b.toDouble⟩) s).1 = sid →
      results (callBinding lua_st_sound_create_explode H [a.value, b.value] s)
        = some [.integer sid]) ∧
    ((H.call (.st_sound_create_pickup ⟨a.toDouble⟩ ⟨b.toDouble⟩) s).1 = sid →
      results (callBinding lua_st_sound_create_pickup H [a.value, b.value] s)
        = some [.integer sid]) ∧
    ((H.call (.st_sound_create_hurt ⟨a.toDouble⟩ ⟨b.toDouble⟩) s).1 = sid →
      results (callBinding lua_st_sound_create_hurt H [a.value, b.value] s)
        = some [.integer sid]) ∧
    ((H.call (.st_sound_create_sweep_down ⟨a.toDouble⟩ ⟨b.toDouble⟩ ⟨c.toDouble⟩) s).1 = sid →
      results (callBinding lua_st_sound_create_sweep_down H [a.value, b.value, c.value] s)
        = some [.integer sid]) ∧
    ((H.call (.st_sound_create_coin ⟨a.toDouble⟩ ⟨b.toDouble⟩) s).1 = sid →
      results (callBinding lua_st_sound_create_coin H [a.value, b.value] s)
        = some [.integer sid]) ∧
    ((H.call (.st_sound_create_powerup ⟨a.toDouble⟩ ⟨b.toDouble⟩) s).1 = sid →
      results (callBinding lua_st_sound_create_powerup H [a.value, b.value] s)
        = some [.integer sid]) ∧
    (callBinding lua_st_sound_play_id H [.integer sid] t).2.calls
      = [.st_sound_play_id sid ⟨1.0⟩ ⟨0.0⟩] ∧
    (callBinding lua_st_sound_play_id H [.integer sid, a.value, b.value] t).2.calls
      = [.st_sound_play_id sid ⟨a.toDouble⟩ ⟨b.toDouble⟩] ∧
    (callBinding lua_st_sound_exists H [.integer sid] t).2.calls = [.st_sound_exists sid] ∧
    (callBinding lua_st_sound_delete H [.integer sid] t).2.calls = [.st_sound_unload sid] := by
  have hu : toUInt32 (sid : Int) = sid := toUInt32_of_lt sid hsid
  refine ⟨?_, ?_, ?_, ?_, ?_, ?_, ?_, ?_, ?_, ?_, ?_, ?_, ?_, ?_⟩
  case refine_11 => conv_rhs => rw [← hu]
                    rfl
  case refine_12 => conv_rhs => rw [← hu]
                    cases a <;> cases b <;> rfl
  case refine_13 => conv_rhs => rw [← hu]
                    rfl
  case refine_14 => conv_rhs => rw [← hu]
                    rfl
  all_goals
    intro h
    rw [← h]
    cases a <;> cases b <;> cases c <;> rfl

/-- Witness of C8, at the largest id, 2^32 - 1, on a host that answers every
call with zero (so the generators return id 0). -/
theorem sound_id_round_trip_witness :
    (4294967295 : Nat) < 2 ^ 32 ∧
    (callBinding lua_st_sound_delete idleHost [.integer 4294967295] ()).2.calls
      = [.st_sound_unload 4294967295] ∧
    results (callBinding lua_st_sound_create_beep idleHost
        [(LuaNum.float 440.0).value, (LuaNum.float 0.5).value] ()) = some [.integer 0] :=
  ⟨by decide,
    (sound_id_round_trip idleHost () () (.float 440.0) (.float 0.5) (.float 0.5) 4294967295
      (by decide)).2.2.2.2.2.2.2.2.2.2.2.2.2,
    (sound_id_round_trip idleHost () () (.float 440.0) (.float 0.5) (.float 0.5) 0
      (by decide)).1 rfl⟩

/-! ## The delay enable flag -/

/-- C9 (the code at the failing input): `voice_set_delay_enable(voice, true)` and
`voice_set_delay_enable(voice, false)` raise a bad-argument error on the second
argument and make no engine call, for every voice index; the sibling setters
`voice_set_gate` and `voice_set_filter_routing` take the same booleans and hand
the engine 1 and 0. -/
theorem delay_enable_rejects_boolean {σ : Type} (H : Host σ) (s : σ) (voice : Int) (flag : Bool) :
    (callBinding lua_st_voice_set_delay_enable H [.integer voice, .boolean flag] s).1
      = .error (.badArgument 2 "number expected, got boolean") ∧
    (callBinding lua_st_voice_set_delay_enable H [.integer voice, .boolean flag] s).2.calls = [] ∧
    (callBinding lua_st_voice_set_gate H [.integer voice, .boolean flag] s).2.calls
      = [.st_voice_set_gate (toInt32 voice) (if flag then 1 else 0)] ∧
    (callBinding lua_st_voice_set_filter_routing H [.integer voice, .boolean flag] s).2.calls
      = [.st_voice_set_filter_routing (toInt32 voice) (if flag then 1 else 0)] := by
  cases flag <;> exact ⟨rfl, rfl, rfl, rfl⟩

/-! ## The last-error query -/

/-- C10: `st_get_error` asks the engine once and returns one value: nil exactly
when the engine's last-error string is null or empty, and otherwise that
string; `st_clear_error` makes one engine call, the clear, and returns nothing;
so when the engine's clear leaves its error null or empty, an `st_get_error`
issued right after `st_clear_error` returns nil. -/
theorem get_error_after_clear {σ : Type} (H : Host σ) (s : σ) :
    ((callBinding lua_st_get_error H [] s).1 = .ok 1 ∧
      (callBinding lua_st_get_error H [] s).2.calls = [.st_get_last_error]) ∧
    (results (callBinding lua_st_get_error H [] s) = some [.nil] ↔
      ((H.call .st_get_last_error s).1 = none ∨ (H.call .st_get_last_error s).1 = some "")) ∧
    (∀ e : String, (H.call .st_get_last_error s).1 = some e → e ≠ "" →
      results (callBinding lua_st_get_error H [] s) = some [.string e]) ∧
    ((callBinding lua_st_clear_error H [] s).1 = .ok 0 ∧
      results (callBinding lua_st_clear_error H [] s) = some [] ∧
      (callBinding lua_st_clear_error H [] s).2.calls = [.st_clear_error] ∧
      (callBinding lua_st_clear_error H [] s).2.engine = (H.call .st_clear_error s).2) ∧
    (((H.call .st_get_last_error (H.call .st_clear_error s).2).1 = none ∨
        (H.call .st_get_last_error (H.call .st_clear_error s).2).1 = some "") →
      results (callBinding lua_st_get_error H []
        (callBinding lua_st_clear_error H [] s).2.engine) = some [.nil]) := by
  have key : ∀ t : σ,
      ((callBinding lua_st_get_error H [] t).1 = .ok 1 ∧
        (callBinding lua_st_get_error H [] t).2.calls = [.st_get_last_error]) ∧
      (results (callBinding lua_st_get_error H [] t) = some [.nil] ↔
        ((H.call .st_get_last_error t).1 = none ∨ (H.call .st_get_last_error t).1 = some "")) ∧
      (∀ e : String, (H.call .st_get_last_error t).1 = some e → e ≠ "" →
        results (callBinding lua_st_get_error H [] t) = some [.string e]) := by
    intro t
    simp only [callBinding, lua_st_get_error, bind, LuaM.bind, engine, results, pure,
      lua_pushstring, lua_pushnil]
    rcases h : (H.call .st_get_last_error t).1 with _ | e
    · simp [LuaM.bind, lua_pushnil]
    · by_cases he : e = ""
      · simp [LuaM.bind, lua_pushnil, lua_pushstring, he]
        intro e1 h1
        exact (Option.some.inj h1).symm
      · simp [LuaM.bind, lua_pushnil, lua_pushstring, he]
        exact ⟨fun h2 => he (Option.some.inj h2), fun e1 h1 _ => Option.some.inj h1⟩
  refine ⟨(key s).1, (key s).2.1, (key s).2.2, ⟨rfl, rfl, rfl, rfl⟩, fun h => ?_⟩
  exact ((key _).2.1).2 h

/-- Witness of C10, on the host whose engine state is its last-error string:
with the error "boom" pending the query returns it, and after `st_clear_error`
it returns nil. -/
theorem get_error_after_clear_witness :
    results (callBinding lua_st_get_error errorHost [] (some "boom")) = some [.string "boom"] ∧
    results (callBinding lua_st_get_error errorHost []
      (callBinding lua_st_clear_error errorHost [] (some "boom")).2.engine) = some [.nil] :=
  ⟨(get_error_after_clear errorHost (some "boom")).2.2.1 "boom" rfl (by decide),
    (get_error_after_clear errorHost (some "boom")).2.2.2.2 (Or.inl rfl)⟩

/-! ## Waveform and filter constants -/

/-- C12: `registerBindings` defines `WAVE_SILENCE`, `WAVE_SINE`, `WAVE_SQUARE`,
`WAVE_SAW`, `WAVE_TRIANGLE`, `WAVE_NOISE`, `WAVE_PULSE`, `WAVE_PHYSICAL` as
0..7, in the order of the waveform enumeration, and `FILTER_NONE`,
`FILTER_LOWPASS`, `FILTER_HIGHPASS`, `FILTER_BANDPASS` as 0..3, in the order of
the filter types; the eight waveform values are pairwise distinct; the names
registered with the prefix `WAVE_` are these eight and `WAVE_SAWTOOTH`, which
equals `WAVE_SAW`; each constant is stored as the `lua_Number` of its value. -/
theorem waveform_filter_constants :
    (["SILENCE", "SINE", "SQUARE", "SAW", "TRIANGLE", "NOISE", "PULSE", "PHYSICAL"].map
        fun n => getglobalnumber ("WAVE_" ++ n))
      = [some 0, some 1, some 2, some 3, some 4, some 5, some 6, some 7] ∧
    (["NONE", "LOWPASS", "HIGHPASS", "BANDPASS"].map fun n => getglobalnumber ("FILTER_" ++ n))
      = [some 0, some 1, some 2, some 3] ∧
    ((["SILENCE", "SINE", "SQUARE", "SAW", "TRIANGLE", "NOISE", "PULSE", "PHYSICAL"].map
        fun n => getglobalnumber ("WAVE_" ++ n)).Nodup) ∧
    getglobalnumber "WAVE_SAWTOOTH" = getglobalnumber "WAVE_SAW" ∧
    ((registerNumbers.map Prod.fst).filter fun n => "WAVE_".toList.isPrefixOf n.toList)
      = ["WAVE_SILENCE", "WAVE_SINE", "WAVE_SQUARE", "WAVE_SAW", "WAVE_SAWTOOTH",
          "WAVE_TRIANGLE", "WAVE_NOISE", "WAVE_PULSE", "WAVE_PHYSICAL"] ∧
    ((registerNumbers.map Prod.fst).filter fun n => "FILTER_".toList.isPrefixOf n.toList)
      = ["FILTER_NONE", "FILTER_LOWPASS", "FILTER_HIGHPASS", "FILTER_BANDPASS"] ∧
    getglobalvalue "WAVE_PHYSICAL" = some (.number (Float.ofInt 7)) ∧
    getglobalvalue "FILTER_BANDPASS" = some (.number (Float.ofInt 3)) := by
  refine ⟨by decide, by decide, by decide, by decide, by decide, by decide, rfl, rfl⟩

/-! ## The setters are parameter-passing wrappers -/

/-- C13: every per-voice, filter, master-volume, physical-model, modulation,
delay and LFO setter binding, called with arguments of the types it reads,
makes exactly one engine call, to the engine function of the same name, whose
arguments are the script's arguments in the order received (each through its C
conversion: integers narrowed to `int`, numbers cast to `float`, a flag read as
0 or 1); it leaves the engine as that one call left it and returns no values.
`voice_set_envelope` forwards voice, attack, decay, sustain, release; each
`lfo_to_*` forwards voice, LFO, depth. -/
theorem setters_forward_one_call {σ : Type} (H : Host σ) (s : σ) (i j : Int)
    (a b c d : LuaNum) (g : Bool) (name : String) :
    Forwards H s "voice_set_waveform" [.integer i, .integer j]
      (.st_voice_set_waveform (toInt32 i) (toInt32 j)) ∧
    Forwards H s "voice_set_frequency" [.integer i, a.value]
      (.st_voice_set_frequency (toInt32 i) ⟨a.toDouble⟩) ∧
    Forwards H s "voice_set_note" [.integer i, .integer j]
      (.st_voice_set_note (toInt32 i) (toInt32 j)) ∧
    Forwards H s "voice_set_note_name" [.integer i, .string name]
      (.st_voice_set_note_name (toInt32 i) name) ∧
    Forwards H s "voice_set_envelope" [.integer i, a.value, b.value, c.value, d.value]
      (.st_voice_set_envelope (toInt32 i) ⟨a.toDouble⟩ ⟨b.toDouble⟩ ⟨c.toDouble⟩ ⟨d.toDouble⟩) ∧
    Forwards H s "voice_set_gate" [.integer i, .boolean g]
      (.st_voice_set_gate (toInt32 i) (if g then 1 else 0)) ∧
    Forwards H s "voice_set_volume" [.integer i, a.value]
      (.st_voice_set_volume (toInt32 i) ⟨a.toDouble⟩) ∧
    Forwards H s "voice_set_pulse_width" [.integer i, a.value]
      (.st_voice_set_pulse_width (toInt32 i) ⟨a.toDouble⟩) ∧
    Forwards H s "voice_set_pan" [.integer i, a.value]
      (.st_voice_set_pan (toInt32 i) ⟨a.toDouble⟩) ∧
    Forwards H s "voice_set_filter_routing" [.integer i, .boolean g]
      (.st_voice_set_filter_routing (toInt32 i) (if g then 1 else 0)) ∧
    Forwards H s "voice_set_filter_type" [.integer i]
      (.st_voice_set_filter_type (toInt32 i)) ∧
    Forwards H s "voice_set_filter_cutoff" [a.value]
      (.st_voice_set_filter_cutoff ⟨a.toDouble⟩) ∧
    Forwards H s "voice_set_filter_resonance" [a.value]
      (.st_voice_set_filter_resonance ⟨a.toDouble⟩) ∧
    Forwards H s "voice_set_filter_enabled" [.boolean g]
      (.st_voice_set_filter_enabled (if g then 1 else 0)) ∧
    Forwards H s "voice_set_master_volume" [a.value]
      (.st_voice_set_master_volume ⟨a.toDouble⟩) ∧
    Forwards H s "voice_set_physical_model" [.integer i, .integer j]
      (.st_voice_set_physical_model (toInt32 i) (toInt32 j)) ∧
    Forwards H s "voice_set_physical_damping" [.integer i, a.value]
      (.st_voice_set_physical_damping (toInt32 i) ⟨a.toDouble⟩) ∧
    Forwards H s "voice_set_physical_brightness" [.integer i, a.value]
      (.st_voice_set_physical_brightness (toInt32 i) ⟨a.toDouble⟩) ∧
    Forwards H s "voice_set_physical_excitation" [.integer i, a.value]
      (.st_voice_set_physical_excitation (toInt32 i) ⟨a.toDouble⟩) ∧
    Forwards H s "voice_set_physical_resonance" [.integer i, a.value]
      (.st_voice_set_physical_resonance (toInt32 i) ⟨a.toDouble⟩) ∧
    Forwards H s "voice_set_physical_tension" [.integer i, a.value]
      (.st_voice_set_physical_tension (toInt32 i) ⟨a.toDouble⟩) ∧
    Forwards H s "voice_set_physical_pressure" [.integer i, a.value]
      (.st_voice_set_physical_pressure (toInt32 i) ⟨a.toDouble⟩) ∧
    Forwards H s "voice_set_ring_mod" [.integer i, .integer j]
      (.st_voice_set_ring_mod (toInt32 i) (toInt32 j)) ∧
    Forwards H s "voice_set_sync" [.integer i, .integer j]
      (.st_voice_set_sync (toInt32 i) (toInt32 j)) ∧
    Forwards H s "voice_set_portamento" [.integer i, a.value]
      (.st_voice_set_portamento (toInt32 i) ⟨a.toDouble⟩) ∧
    Forwards H s "voice_set_detune" [.integer i, a.value]
      (.st_voice_set_detune (toInt32 i) ⟨a.toDouble⟩) ∧
    Forwards H s "voice_set_delay_enable" [.integer i, .integer j]
      (.st_voice_set_delay_enable (toInt32 i) (toInt32 j)) ∧
    Forwards H s "voice_set_delay_time" [.integer i, a.value]
      (.st_voice_set_delay_time (toInt32 i) ⟨a.toDouble⟩) ∧
    Forwards H s "voice_set_delay_feedback" [.integer i, a.value]
      (.st_voice_set_delay_feedback (toInt32 i) ⟨a.toDouble⟩) ∧
    Forwards H s "voice_set_delay_mix" [.integer i, a.value]
      (.st_voice_set_delay_mix (toInt32 i) ⟨a.toDouble⟩) ∧
    Forwards H s "lfo_set_waveform" [.integer i, .integer j]
      (.st_lfo_set_waveform (toInt32 i) (toInt32 j)) ∧
    Forwards H s "lfo_set_rate" [.integer i, a.value]
      (.st_lfo_set_rate (toInt32 i) ⟨a.toDouble⟩) ∧
    Forwards H s "lfo_reset" [.integer i]
      (.st_lfo_reset (toInt32 i)) ∧
    Forwards H s "lfo_to_pitch" [.integer i, .integer j, a.value]
      (.st_lfo_to_pitch (toInt32 i) (toInt32 j) ⟨a.toDouble⟩) ∧
    Forwards H s "lfo_to_volume" [.integer i, .integer j, a.value]
      (.st_lfo_to_volume (toInt32 i) (toInt32 j) ⟨a.toDouble⟩) ∧
    Forwards H s "lfo_to_filter" [.integer i, .integer j, a.value]
      (.st_lfo_to_filter (toInt32 i) (toInt32 j) ⟨a.toDouble⟩) ∧
    Forwards H s "lfo_to_pulsewidth" [.integer i, .integer j, a.value]
      (.st_lfo_to_pulsewidth (toInt32 i) (toInt32 j) ⟨a.toDouble⟩) := by
  refine ⟨⟨.lua_st_voice_set_waveform, by decide, rfl, fun _ => ?_⟩,
    ⟨.lua_st_voice_set_frequency, by decide, rfl, fun _ => ?_⟩,
    ⟨.lua_st_voice_set_note, by decide, rfl, fun _ => ?_⟩,
    ⟨.lua_st_voice_set_note_name, by decide, rfl, fun _ => ?_⟩,
    ⟨.lua_st_voice_set_envelope, by decide, rfl, fun _ => ?_⟩,
    ⟨.lua_st_voice_set_gate, by decide, rfl, fun _ => ?_⟩,
    ⟨.lua_st_voice_set_volume, by decide, rfl, fun _ => ?_⟩,
    ⟨.lua_st_voice_set_pulse_width, by decide, rfl, fun _ => ?_⟩,
    ⟨.lua_st_voice_set_pan, by decide, rfl, fun _ => ?_⟩,
    ⟨.lua_st_voice_set_filter_routing, by decide, rfl, fun _ => ?_⟩,
    ⟨.lua_st_voice_set_filter_type, by decide, rfl, fun _ => ?_⟩,
    ⟨.lua_st_voice_set_filter_cutoff, by decide, rfl, fun _ => ?_⟩,
    ⟨.lua_st_voice_set_filter_resonance, by decide, rfl, fun _ => ?_⟩,
    ⟨.lua_st_voice_set_filter_enabled, by decide, rfl, fun _ => ?_⟩,
    ⟨.lua_st_voice_set_master_volume, by decide, rfl, fun _ => ?_⟩,
    ⟨.lua_st_voice_set_physical_model, by decide, rfl, fun _ => ?_⟩,
    ⟨.lua_st_voice_set_physical_damping, by decide, rfl, fun _ => ?_⟩,
    ⟨.lua_st_voice_set_physical_brightness, by decide, rfl, fun _ => ?_⟩,
    ⟨.lua_st_voice_set_physical_excitation, by decide, rfl, fun _ => ?_⟩,
    ⟨.lua_st_voice_set_physical_resonance, by decide, rfl, fun _ => ?_⟩,
    ⟨.lua_st_voice_set_physical_tension, by decide, rfl, fun _ => ?_⟩,
    ⟨.lua_st_voice_set_physical_pressure, by decide, rfl, fun _ => ?_⟩,
    ⟨.lua_st_voice_set_ring_mod, by decide, rfl, fun _ => ?_⟩,
    ⟨.lua_st_voice_set_sync, by decide, rfl, fun _ => ?_⟩,
    ⟨.lua_st_voice_set_portamento, by decide, rfl, fun _ => ?_⟩,
    ⟨.lua_st_voice_set_detune, by decide, rfl, fun _ => ?_⟩,
    ⟨.lua_st_voice_set_delay_enable, by decide, rfl, fun _ => ?_⟩,
    ⟨.lua_st_voice_set_delay_time, by decide, rfl, fun _ => ?_⟩,
    ⟨.lua_st_voice_set_delay_feedback, by decide, rfl, fun _ => ?_⟩,
    ⟨.lua_st_voice_set_delay_mix, by decide, rfl, fun _ => ?_⟩,
    ⟨.lua_st_lfo_set_waveform, by decide, rfl, fun _ => ?_⟩,
    ⟨.lua_st_lfo_set_rate, by decide, rfl, fun _ => ?_⟩,
    ⟨.lua_st_lfo_reset, by decide, rfl, fun _ => ?_⟩,
    ⟨.lua_st_lfo_to_pitch, by decide, rfl, fun _ => ?_⟩,
    ⟨.lua_st_lfo_to_volume, by decide, rfl, fun _ => ?_⟩,
    ⟨.lua_st_lfo_to_filter, by decide, rfl, fun _ => ?_⟩,
    ⟨.lua_st_lfo_to_pulsewidth, by decide, rfl, fun _ => ?_⟩⟩
  all_goals first
    | exact ⟨rfl, rfl, rfl⟩
    | (cases a <;> exact ⟨rfl, rfl, rfl⟩)
    | (cases g <;> exact ⟨rfl, rfl, rfl⟩)
    | (cases a <;> cases b <;> cases c <;> cases d <;> exact ⟨rfl, rfl, rfl⟩)

/-! ## Truthiness of the gate and filter-routing flags -/

/-- C20: `voice_set_gate` and `voice_set_filter_routing` hand the engine the flag
0 when the second argument is absent, nil or false, and the flag 1 for every
other value; in particular every number, 0 included, turns the gate (or the
filter routing) on.  The voice index is an arbitrary integer. -/
theorem flag_is_truthiness {σ : Type} (H : Host σ) (s : σ) (v : Int) (g : LuaValue)
    (n : LuaNum) :
    ((callBinding lua_st_voice_set_gate H [.integer v] s).2.calls
        = [.st_voice_set_gate (toInt32 v) 0] ∧
      (callBinding lua_st_voice_set_filter_routing H [.integer v] s).2.calls
        = [.st_voice_set_filter_routing (toInt32 v) 0]) ∧
    ((g = .nil ∨ g = .boolean false) →
      (callBinding lua_st_voice_set_gate H [.integer v, g] s).2.calls
        = [.st_voice_set_gate (toInt32 v) 0] ∧
      (callBinding lua_st_voice_set_filter_routing H [.integer v, g] s).2.calls
        = [.st_voice_set_filter_routing (toInt32 v) 0]) ∧
    (g ≠ .nil → g ≠ .boolean false →
      (callBinding lua_st_voice_set_gate H [.integer v, g] s).2.calls
        = [.st_voice_set_gate (toInt32 v) 1] ∧
      (callBinding lua_st_voice_set_filter_routing H [.integer v, g] s).2.calls
        = [.st_voice_set_filter_routing (toInt32 v) 1]) ∧
    ((callBinding lua_st_voice_set_gate H [.integer v, n.value] s).2.calls
        = [.st_voice_set_gate (toInt32 v) 1] ∧
      (callBinding lua_st_voice_set_filter_routing H [.integer v, n.value] s).2.calls
        = [.st_voice_set_filter_routing (toInt32 v) 1]) ∧
    ((callBinding lua_st_voice_set_gate H [.integer v, .integer 0] s).2.calls
        = [.st_voice_set_gate (toInt32 v) 1] ∧
      (callBinding lua_st_voice_set_filter_routing H [.integer v, .integer 0] s).2.calls
        = [.st_voice_set_filter_routing (toInt32 v) 1]) := by
  refine ⟨⟨rfl, rfl⟩, ?_, ?_, ?_, ⟨rfl, rfl⟩⟩
  · rintro (h | h) <;> subst h <;> exact ⟨rfl, rfl⟩
  · intro h1 h2
    cases g with
    | nil => exact absurd rfl h1
    | boolean q =>
      cases q
      · exact absurd rfl h2
      · exact ⟨rfl, rfl⟩
    | _ => exact ⟨rfl, rfl⟩
  · cases n <;> exact ⟨rfl, rfl⟩

/-- Witness of C20: the number 0 turns the gate on, `false` turns it off. -/
theorem flag_is_truthiness_witness :
    (callBinding lua_st_voice_set_gate idleHost [.integer 2, .integer 0] ()).2.calls
      = [.st_voice_set_gate (toInt32 2) 1] ∧
    (callBinding lua_st_voice_set_gate idleHost [.integer 2, .boolean false] ()).2.calls
      = [.st_voice_set_gate (toInt32 2) 0] :=
  ⟨((flag_is_truthiness idleHost () 2 (.integer 0) (.int 0)).2.2.1
      (fun h => LuaValue.noConfusion h) (fun h => LuaValue.noConfusion h)).1,
    ((flag_is_truthiness idleHost () 2 (.boolean false) (.int 0)).2.1 (Or.inr rfl)).1⟩

/-! ## Evaluation of the sprite explosion bindings on integer arguments -/

theorem toUInt16_of_range (i : Int) (h1 : 0 ≤ i) (h2 : i < 2 ^ 16) : toUInt16 i = i.toNat := by
  unfold toUInt16
  congr 1
  omega

theorem tonumber_value {σ : Type} (H : Host σ) (x : LuaNum) :
    tonumber H x.value = some x.toDouble := by
  cases x <;> rfl

theorem pushboolean_of_bool (q : Bool) : ((if q = true then (1 : Int) else 0) != 0) = q := by
  cases q <;> rfl

theorem sprite_explode_eval {σ : Type} (H : Host σ) (s : σ) (id n : Int)
    (tail : List LuaValue) (htail : tail = [] ∨ ∃ m : Int, tail = [.integer m]) :
    callBinding lua_sprite_explode H (.integer id :: .integer n :: tail) s =
      if toInt32 id < 1 ∨ toInt32 id > 1024 then
        (.error (.runtime "sprite_explode: sprite_id must be between 1 and 1024"),
          { stack := .integer id :: .integer n :: tail, engine := s, calls := [] })
      else if toInt32 n < 1 ∨ toInt32 n > 500 then
        (.error (.runtime "sprite_explode: particle_count must be between 1 and 500"),
          { stack := .integer id :: .integer n :: tail, engine := s, calls := [] })
      else
        (.ok 1,
          { stack := (.integer id :: .integer n :: tail) ++ [.boolean
              (H.call (.sprite_explode (toUInt16 (toInt32 id)) (toUInt16 (toInt32 n))) s).1],
            engine :=
              (H.call (.sprite_explode (toUInt16 (toInt32 id)) (toUInt16 (toInt32 n))) s).2,
            calls := [.sprite_explode (toUInt16 (toInt32 id)) (toUInt16 (toInt32 n))] }) := by
  by_cases h1 : toInt32 id < 1 ∨ toInt32 id > 1024
  · rw [if_pos h1]
    rcases htail with h | ⟨m, h⟩ <;> subst h <;>
      simp [callBinding, lua_sprite_explode, bind, LuaM.bind, luaL_checkinteger, lua_gettop,
        index2value, tointeger, pure, luaL_error, raise, Functor.map, Function.comp, h1]
  · rw [if_neg h1]
    by_cases h2 : toInt32 n < 1 ∨ toInt32 n > 500
    · rw [if_pos h2]
      rcases htail with h | ⟨m, h⟩ <;> subst h <;>
        simp [callBinding, lua_sprite_explode, bind, LuaM.bind, luaL_checkinteger, lua_gettop,
          index2value, tointeger, pure, luaL_error, raise, Functor.map, Function.comp, h1, h2]
    · rw [if_neg h2]
      rcases htail with h | ⟨m, h⟩ <;> subst h <;>
        simp [callBinding, lua_sprite_explode, bind, LuaM.bind, luaL_checkinteger, lua_gettop,
          index2value, tointeger, pure, luaL_error, raise, Functor.map, Function.comp, h1, h2,
          engine, lua_pushboolean] <;>
        exact pushboolean_of_bool _

theorem sprite_explode_advanced_eval_defaults {σ : Type} (H : Host σ) (s : σ) (id n : Int) :
    callBinding lua_sprite_explode_advanced H ([.integer id, .integer n]) s =
      if toInt32 id < 1 ∨ toInt32 id > 1024 then
        (.error (.runtime "sprite_explode_advanced: sprite_id must be between 1 and 1024"),
          { stack := [.integer id, .integer n], engine := s, calls := [] })
      else if toInt32 n < 1 ∨ toInt32 n > 500 then
        (.error (.runtime "sprite_explode_advanced: particle_count must be between 1 and 500"),
          { stack := [.integer id, .integer n], engine := s, calls := [] })
      else
        (.ok 1,
          { stack := ([.integer id, .integer n]) ++ [.boolean
              (H.call (.sprite_explode_advanced (toUInt16 (toInt32 id)) (toUInt16 (toInt32 n))
                ⟨200.0⟩ ⟨100.0⟩ ⟨2.0⟩) s).1],
            engine :=
              (H.call (.sprite_explode_advanced (toUInt16 (toInt32 id)) (toUInt16 (toInt32 n))
                ⟨200.0⟩ ⟨100.0⟩ ⟨2.0⟩) s).2,
            calls := [.sprite_explode_advanced (toUInt16 (toInt32 id)) (toUInt16 (toInt32 n))
                ⟨200.0⟩ ⟨100.0⟩ ⟨2.0⟩] }) := by
  by_cases h1 : toInt32 id < 1 ∨ toInt32 id > 1024
  · rw [if_pos h1]
    simp [callBinding, lua_sprite_explode_advanced, bind, LuaM.bind, luaL_checkinteger, luaL_checknumber,
        lua_gettop, index2value, tointeger, pure, luaL_error, raise, Functor.map,
        Function.comp, tonumber_value, h1]
  · rw [if_neg h1]
    by_cases h2 : toInt32 n < 1 ∨ toInt32 n > 500
    · rw [if_pos h2]
      simp [callBinding, lua_sprite_explode_advanced, bind, LuaM.bind, luaL_checkinteger, luaL_checknumber,
          lua_gettop, index2value, tointeger, pure, luaL_error, raise, Functor.map,
          Function.comp, tonumber_value, h1, h2]
    · rw [if_neg h2]
      simp [callBinding, lua_sprite_explode_advanced, bind, LuaM.bind, luaL_checkinteger, luaL_checknumber,
          lua_gettop, index2value, tointeger, pure, luaL_error, raise, Functor.map,
          Function.comp, tonumber_value, h1, h2, engine, lua_pushboolean]
      exact pushboolean_of_bool _

theorem sprite_explode_advanced_eval {σ : Type} (H : Host σ) (s : σ) (id n : Int) (f g t : LuaNum)
    (tail : List LuaValue) (htail : tail = [] ∨ ∃ m : Int, tail = [.integer m]) :
    callBinding lua_sprite_explode_advanced H (.integer id :: .integer n :: f.value :: g.value :: t.value :: tail) s =
      if toInt32 id < 1 ∨ toInt32 id > 1024 then
        (.error (.runtime "sprite_explode_advanced: sprite_id must be between 1 and 1024"),
          { stack := .integer id :: .integer n :: f.value :: g.value :: t.value :: tail, engine := s, calls := [] })
      else if toInt32 n < 1 ∨ toInt32 n > 500 then
        (.error (.runtime "sprite_explode_advanced: particle_count must be between 1 and 500"),
          { stack := .integer id :: .integer n :: f.value :: g.value :: t.value :: tail, engine := s, calls := [] })
      else
        (.ok 1,
          { stack := (.integer id :: .integer n :: f.value :: g.value :: t.value :: tail) ++ [.boolean
              (H.call (.sprite_explode_advanced (toUInt16 (toInt32 id)) (toUInt16 (toInt32 n))
                ⟨f.toDouble⟩ ⟨g.toDouble⟩ ⟨t.toDouble⟩) s).1],
            engine :=
              (H.call (.sprite_explode_advanced (toUInt16 (toInt32 id)) (toUInt16 (toInt32 n))
                ⟨f.toDouble⟩ ⟨g.toDouble⟩ ⟨t.toDouble⟩) s).2,
            calls := [.sprite_explode_advanced (toUInt16 (toInt32 id)) (toUInt16 (toInt32 n))
                ⟨f.toDouble⟩ ⟨g.toDouble⟩ ⟨t.toDouble⟩] }) := by
  by_cases h1 : toInt32 id < 1 ∨ toInt32 id > 1024
  · rw [if_pos h1]
    rcases htail with h | ⟨m, h⟩ <;> subst h <;>
      simp [callBinding, lua_sprite_explode_advanced, bind, LuaM.bind, luaL_checkinteger, luaL_checknumber,
        lua_gettop, index2value, tointeger, pure, luaL_error, raise, Functor.map,
        Function.comp, tonumber_value, h1]
  · rw [if_neg h1]
    by_cases h2 : toInt32 n < 1 ∨ toInt32 n > 500
    · rw [if_pos h2]
      rcases htail with h | ⟨m, h⟩ <;> subst h <;>
        simp [callBinding, lua_sprite_explode_advanced, bind, LuaM.bind, luaL_checkinteger, luaL_checknumber,
          lua_gettop, index2value, tointeger, pure, luaL_error, raise, Functor.map,
          Function.comp, tonumber_value, h1, h2]
    · rw [if_neg h2]
      rcases htail with h | ⟨m, h⟩ <;> subst h <;>
        simp [callBinding, lua_sprite_explode_advanced, bind, LuaM.bind, luaL_checkinteger, luaL_checknumber,
          lua_gettop, index2value, tointeger, pure, luaL_error, raise, Functor.map,
          Function.comp, tonumber_value, h1, h2, engine, lua_pushboolean] <;>
        exact pushboolean_of_bool _

theorem sprite_explode_directional_eval {σ : Type} (H : Host σ) (s : σ) (id n : Int) (fx fy : LuaNum) :
    callBinding lua_sprite_explode_directional H ([.integer id, .integer n, fx.value, fy.value]) s =
      if toInt32 id < 1 ∨ toInt32 id > 1024 then
        (.error (.runtime "sprite_explode_directional: sprite_id must be between 1 and 1024"),
          { stack := [.integer id, .integer n, fx.value, fy.value], engine := s, calls := [] })
      else if toInt32 n < 1 ∨ toInt32 n > 500 then
        (.error (.runtime "sprite_explode_directional: particle_count must be between 1 and 500"),
          { stack := [.integer id, .integer n, fx.value, fy.value], engine := s, calls := [] })
      else
        (.ok 1,
          { stack := ([.integer id, .integer n, fx.value, fy.value]) ++ [.boolean
              (H.call (.sprite_explode_directional (toUInt16 (toInt32 id)) (toUInt16 (toInt32 n))
                ⟨fx.toDouble⟩ ⟨fy.toDouble⟩) s).1],
            engine :=
              (H.call (.sprite_explode_directional (toUInt16 (toInt32 id)) (toUInt16 (toInt32 n))
                ⟨fx.toDouble⟩ ⟨fy.toDouble⟩) s).2,
            calls := [.sprite_explode_directional (toUInt16 (toInt32 id)) (toUInt16 (toInt32 n))
                ⟨fx.toDouble⟩ ⟨fy.toDouble⟩] }) := by
  by_cases h1 : toInt32 id < 1 ∨ toInt32 id > 1024
  · rw [if_pos h1]
    simp [callBinding, lua_sprite_explode_directional, bind, LuaM.bind, luaL_checkinteger, luaL_checknumber,
        lua_gettop, index2value, tointeger, pure, luaL_error, raise, Functor.map,
        Function.comp, tonumber_value, h1]
  · rw [if_neg h1]
    by_cases h2 : toInt32 n < 1 ∨ toInt32 n > 500
    · rw [if_pos h2]
      simp [callBinding, lua_sprite_explode_directional, bind, LuaM.bind, luaL_checkinteger, luaL_checknumber,
          lua_gettop, index2value, tointeger, pure, luaL_error, raise, Functor.map,
          Function.comp, tonumber_value, h1, h2]
    · rw [if_neg h2]
      simp [callBinding, lua_sprite_explode_directional, bind, LuaM.bind, luaL_checkinteger, luaL_checknumber,
          lua_gettop, index2value, tointeger, pure, luaL_error, raise, Functor.map,
          Function.comp, tonumber_value, h1, h2, engine, lua_pushboolean]
      exact pushboolean_of_bool _

theorem sprite_explode_eval_count_omitted {σ : Type} (H : Host σ) (s : σ) (id : Int) :
    callBinding lua_sprite_explode H [.integer id] s =
      if toInt32 id < 1 ∨ toInt32 id > 1024 then
        (.error (.runtime "sprite_explode: sprite_id must be between 1 and 1024"),
          { stack := [.integer id], engine := s, calls := [] })
      else
        (.ok 1,
          { stack := [.integer id, .boolean
              (H.call (.sprite_explode (toUInt16 (toInt32 id)) 32) s).1],
            engine := (H.call (.sprite_explode (toUInt16 (toInt32 id)) 32) s).2,
            calls := [.sprite_explode (toUInt16 (toInt32 id)) 32] }) := by
  by_cases h1 : toInt32 id < 1 ∨ toInt32 id > 1024
  · rw [if_pos h1]
    simp [callBinding, lua_sprite_explode, bind, LuaM.bind, luaL_checkinteger, lua_gettop,
      index2value, tointeger, pure, luaL_error, raise, h1]
  · rw [if_neg h1]
    simp [callBinding, lua_sprite_explode, bind, LuaM.bind, luaL_checkinteger, lua_gettop,
      index2value, tointeger, pure, luaL_error, raise, h1, engine, lua_pushboolean, toUInt16]
    exact pushboolean_of_bool _

/-- The preset `lua_sprite_explode_mode` issues for each explosion mode from 1
to 6, as the `switch` lists them. -/
theorem sprite_explode_mode_eval {σ : Type} (H : Host σ) (s : σ) (id : Int)
    (h1 : 1 ≤ toInt32 id) (h2 : toInt32 id ≤ 1024) :
    callBinding lua_sprite_explode_mode H [.integer id, .integer 1] s =
      (.ok 1,
        { stack := [.integer id, .integer 1, .boolean
            (H.call (.sprite_explode_advanced (toUInt16 (toInt32 id)) 48 ⟨200.0⟩ ⟨100.0⟩ ⟨2.0⟩) s).1],
          engine := (H.call (.sprite_explode_advanced (toUInt16 (toInt32 id)) 48 ⟨200.0⟩ ⟨100.0⟩ ⟨2.0⟩) s).2,
          calls := [.sprite_explode_advanced (toUInt16 (toInt32 id)) 48 ⟨200.0⟩ ⟨100.0⟩ ⟨2.0⟩] }) ∧
    callBinding lua_sprite_explode_mode H [.integer id, .integer 2] s =
      (.ok 1,
        { stack := [.integer id, .integer 2, .boolean
            (H.call (.sprite_explode_advanced (toUInt16 (toInt32 id)) 128 ⟨350.0⟩ ⟨80.0⟩ ⟨3.0⟩) s).1],
          engine := (H.call (.sprite_explode_advanced (toUInt16 (toInt32 id)) 128 ⟨350.0⟩ ⟨80.0⟩ ⟨3.0⟩) s).2,
          calls := [.sprite_explode_advanced (toUInt16 (toInt32 id)) 128 ⟨350.0⟩ ⟨80.0⟩ ⟨3.0⟩] }) ∧
    callBinding lua_sprite_explode_mode H [.integer id, .integer 3] s =
      (.ok 1,
        { stack := [.integer id, .integer 3, .boolean
            (H.call (.sprite_explode_advanced (toUInt16 (toInt32 id)) 64 ⟨120.0⟩ ⟨40.0⟩ ⟨4.0⟩) s).1],
          engine := (H.call (.sprite_explode_advanced (toUInt16 (toInt32 id)) 64 ⟨120.0⟩ ⟨40.0⟩ ⟨4.0⟩) s).2,
          calls := [.sprite_explode_advanced (toUInt16 (toInt32 id)) 64 ⟨120.0⟩ ⟨40.0⟩ ⟨4.0⟩] }) ∧
    callBinding lua_sprite_explode_mode H [.integer id, .integer 4] s =
      (.ok 1,
        { stack := [.integer id, .integer 4, .boolean
            (H.call (.sprite_explode_directional (toUInt16 (toInt32 id)) 80 ⟨180.0⟩ ⟨-30.0⟩) s).1],
          engine := (H.call (.sprite_explode_directional (toUInt16 (toInt32 id)) 80 ⟨180.0⟩ ⟨-30.0⟩) s).2,
          calls := [.sprite_explode_directional (toUInt16 (toInt32 id)) 80 ⟨180.0⟩ ⟨-30.0⟩] }) ∧
    callBinding lua_sprite_explode_mode H [.integer id, .integer 5] s =
      (.ok 1,
        { stack := [.integer id, .integer 5, .boolean
            (H.call (.sprite_explode_directional (toUInt16 (toInt32 id)) 96 ⟨0.0⟩ ⟨-250.0⟩) s).1],
          engine := (H.call (.sprite_explode_directional (toUInt16 (toInt32 id)) 96 ⟨0.0⟩ ⟨-250.0⟩) s).2,
          calls := [.sprite_explode_directional (toUInt16 (toInt32 id)) 96 ⟨0.0⟩ ⟨-250.0⟩] }) ∧
    callBinding lua_sprite_explode_mode H [.integer id, .integer 6] s =
      (.ok 1,
        { stack := [.integer id, .integer 6, .boolean
            (H.call (.sprite_explode_advanced (toUInt16 (toInt32 id)) 32 ⟨400.0⟩ ⟨200.0⟩ ⟨1.0⟩) s).1],
          engine := (H.call (.sprite_explode_advanced (toUInt16 (toInt32 id)) 32 ⟨400.0⟩ ⟨200.0⟩ ⟨1.0⟩) s).2,
          calls := [.sprite_explode_advanced (toUInt16 (toInt32 id)) 32 ⟨400.0⟩ ⟨200.0⟩ ⟨1.0⟩] }) := by
  have hid : ¬ (toInt32 id < 1 ∨ toInt32 id > 1024) := by omega
  have m1 : toInt32 1 = 1 := by decide
  have m2 : toInt32 2 = 2 := by decide
  have m3 : toInt32 3 = 3 := by decide
  have m4 : toInt32 4 = 4 := by decide
  have m5 : toInt32 5 = 5 := by decide
  have m6 : toInt32 6 = 6 := by decide
  refine ⟨?_, ?_, ?_, ?_, ?_, ?_⟩ <;>
    simp [callBinding, lua_sprite_explode_mode, bind, LuaM.bind, luaL_checkinteger,
      index2value, tointeger, pure, luaL_error, raise, hid, engine, lua_pushboolean,
      m1, m2, m3, m4, m5, m6] <;>
    exact pushboolean_of_bool _

theorem sprite_explode_mode_eval_bad {σ : Type} (H : Host σ) (s : σ) (id mode : Int) :
    ((toInt32 id < 1 ∨ toInt32 id > 1024) →
      callBinding lua_sprite_explode_mode H [.integer id, .integer mode] s =
        (.error (.runtime "sprite_explode_mode: sprite_id must be between 1 and 1024"),
          { stack := [.integer id, .integer mode], engine := s, calls := [] })) ∧
    (¬ (toInt32 id < 1 ∨ toInt32 id > 1024) → (toInt32 mode < 1 ∨ toInt32 mode > 6) →
      callBinding lua_sprite_explode_mode H [.integer id, .integer mode] s =
        (.error (.runtime "sprite_explode_mode: explosion_mode must be between 1 and 6"),
          { stack := [.integer id, .integer mode], engine := s, calls := [] })) := by
  constructor
  · intro h1
    simp [callBinding, lua_sprite_explode_mode, bind, LuaM.bind, luaL_checkinteger,
      index2value, tointeger, pure, luaL_error, raise, h1]
  · intro h1 h2
    simp [callBinding, lua_sprite_explode_mode, bind, LuaM.bind, luaL_checkinteger,
      index2value, tointeger, pure, luaL_error, raise, h1, h2]

/-! ## Range checks of the explosion bindings -/

theorem results_push_one {σ : Type} (args : List LuaValue) (x : LuaValue) (e : σ)
    (cs : List EngineCall) :
    results ((.ok 1, { stack := args ++ [x], engine := e, calls := cs }) :
      Except LuaError Int × LuaState σ) = some [x] := by
  simp [results]

theorem validatedCall_of_eval {σ : Type} (H : Host σ) (s : σ) (fname : String) (id n : Int)
    (c : EngineCall) (r : Except LuaError Int × LuaState σ) (args : List LuaValue) (b : Bool)
    (hr : r =
      if id < 1 ∨ id > 1024 then
        (.error (.runtime (fname ++ ": sprite_id must be between 1 and 1024")),
          { stack := args, engine := s, calls := [] })
      else if n < 1 ∨ n > 500 then
        (.error (.runtime (fname ++ ": particle_count must be between 1 and 500")),
          { stack := args, engine := s, calls := [] })
      else
        (.ok 1, { stack := args ++ [.boolean b], engine := (H.call c s).2, calls := [c] })) :
    ValidatedCall r H s fname id n c := by
  subst hr
  refine ⟨fun h => ?_, fun h1 h2 => ?_, fun h1 h2 => ?_, ?_⟩
  · rw [if_pos h]
    exact ⟨rfl, rfl⟩
  · have h1' : ¬ (id < 1 ∨ id > 1024) := by omega
    rw [if_neg h1', if_pos h2]
    exact ⟨rfl, rfl⟩
  · have h1' : ¬ (id < 1 ∨ id > 1024) := by omega
    have h2' : ¬ (n < 1 ∨ n > 500) := by omega
    rw [if_neg h1', if_neg h2']
    exact ⟨rfl, rfl, rfl, b, results_push_one _ _ _ _⟩
  · by_cases h1 : id < 1 ∨ id > 1024
    · rw [if_pos h1]
      exact ⟨fun _ => by omega, fun _ => ⟨_, rfl⟩⟩
    · rw [if_neg h1]
      by_cases h2 : n < 1 ∨ n > 500
      · rw [if_pos h2]
        exact ⟨fun _ => by omega, fun _ => ⟨_, rfl⟩⟩
      · rw [if_neg h2]
        constructor
        · rintro ⟨e, he⟩
          cases he
        · intro h
          omega

/-- C17: for a sprite id and a particle count in the range of a 32-bit `int`
(and well-typed further arguments), `sprite_explode`, `sprite_explode_advanced`
and `sprite_explode_directional` raise a Lua error iff the sprite id is outside
1..1024 or the particle count is outside 1..500, the sprite-id message being
the one reported when both hold; they make no engine call when they raise and
exactly one when both are in range, with the id and the count unchanged;
`sprite_explode` with the count omitted uses 32 particles. -/
theorem explosion_range_checks {σ : Type} (H : Host σ) (s : σ) (id n m : Int)
    (hid1 : -2 ^ 31 ≤ id) (hid2 : id < 2 ^ 31) (hn1 : -2 ^ 31 ≤ n) (hn2 : n < 2 ^ 31)
    (f g t fx fy : LuaNum) :
    ValidatedCall (callBinding lua_sprite_explode H [.integer id, .integer n] s) H s
      "sprite_explode" id n (.sprite_explode (toUInt16 id) (toUInt16 n)) ∧
    ValidatedCall (callBinding lua_sprite_explode H [.integer id, .integer n, .integer m] s) H s
      "sprite_explode" id n (.sprite_explode (toUInt16 id) (toUInt16 n)) ∧
    ValidatedCall (callBinding lua_sprite_explode H [.integer id] s) H s
      "sprite_explode" id 32 (.sprite_explode (toUInt16 id) 32) ∧
    ValidatedCall (callBinding lua_sprite_explode_advanced H [.integer id, .integer n] s) H s
      "sprite_explode_advanced" id n
      (.sprite_explode_advanced (toUInt16 id) (toUInt16 n) ⟨200.0⟩ ⟨100.0⟩ ⟨2.0⟩) ∧
    ValidatedCall (callBinding lua_sprite_explode_advanced H
        [.integer id, .integer n, f.value, g.value, t.value] s) H s
      "sprite_explode_advanced" id n
      (.sprite_explode_advanced (toUInt16 id) (toUInt16 n)
        ⟨f.toDouble⟩ ⟨g.toDouble⟩ ⟨t.toDouble⟩) ∧
    ValidatedCall (callBinding lua_sprite_explode_advanced H
        [.integer id, .integer n, f.value, g.value, t.value, .integer m] s) H s
      "sprite_explode_advanced" id n
      (.sprite_explode_advanced (toUInt16 id) (toUInt16 n)
        ⟨f.toDouble⟩ ⟨g.toDouble⟩ ⟨t.toDouble⟩) ∧
    ValidatedCall (callBinding lua_sprite_explode_directional H
        [.integer id, .integer n, fx.value, fy.value] s) H s
      "sprite_explode_directional" id n
      (.sprite_explode_directional (toUInt16 id) (toUInt16 n) ⟨fx.toDouble⟩ ⟨fy.toDouble⟩) ∧
    ((1 ≤ id ∧ id ≤ 1024) → toUInt16 id = id.toNat) ∧
    ((1 ≤ n ∧ n ≤ 500) → toUInt16 n = n.toNat) := by
  have hv : toInt32 id = id := toInt32_of_range id hid1 hid2
  have hw : toInt32 n = n := toInt32_of_range n hn1 hn2
  refine ⟨?_, ?_, ?_, ?_, ?_, ?_, ?_, fun h => toUInt16_of_range id (by omega) (by omega),
    fun h => toUInt16_of_range n (by omega) (by omega)⟩
  · refine validatedCall_of_eval H s _ id n _ _ [.integer id, .integer n]
      (H.call (.sprite_explode (toUInt16 id) (toUInt16 n)) s).1 ?_
    rw [sprite_explode_eval H s id n [] (Or.inl rfl), hv, hw]
    rfl
  · refine validatedCall_of_eval H s _ id n _ _ [.integer id, .integer n, .integer m]
      (H.call (.sprite_explode (toUInt16 id) (toUInt16 n)) s).1 ?_
    rw [sprite_explode_eval H s id n [.integer m] (Or.inr ⟨m, rfl⟩), hv, hw]
    rfl
  · refine validatedCall_of_eval H s _ id 32 _ _ [.integer id]
      (H.call (.sprite_explode (toUInt16 id) 32) s).1 ?_
    rw [sprite_explode_eval_count_omitted, hv,
      if_neg (show ¬ ((32 : Int) < 1 ∨ (32 : Int) > 500) by decide)]
    rfl
  · refine validatedCall_of_eval H s _ id n _ _ [.integer id, .integer n]
      (H.call (.sprite_explode_advanced (toUInt16 id) (toUInt16 n)
        ⟨200.0⟩ ⟨100.0⟩ ⟨2.0⟩) s).1 ?_
    rw [sprite_explode_advanced_eval_defaults, hv, hw]
    rfl
  · refine validatedCall_of_eval H s _ id n _ _
      [.integer id, .integer n, f.value, g.value, t.value]
      (H.call (.sprite_explode_advanced (toUInt16 id) (toUInt16 n)
        ⟨f.toDouble⟩ ⟨g.toDouble⟩ ⟨t.toDouble⟩) s).1 ?_
    rw [sprite_explode_advanced_eval H s id n f g t [] (Or.inl rfl), hv, hw]
    rfl
  · refine validatedCall_of_eval H s _ id n _ _
      [.integer id, .integer n, f.value, g.value, t.value, .integer m]
      (H.call (.sprite_explode_advanced (toUInt16 id) (toUInt16 n)
        ⟨f.toDouble⟩ ⟨g.toDouble⟩ ⟨t.toDouble⟩) s).1 ?_
    rw [sprite_explode_advanced_eval H s id n f g t [.integer m] (Or.inr ⟨m, rfl⟩), hv, hw]
    rfl
  · refine validatedCall_of_eval H s _ id n _ _
      [.integer id, .integer n, fx.value, fy.value]
      (H.call (.sprite_explode_directional (toUInt16 id) (toUInt16 n)
        ⟨fx.toDouble⟩ ⟨fy.toDouble⟩) s).1 ?_
    rw [sprite_explode_directional_eval, hv, hw]
    rfl

/-- Witness of C17: sprite id 5 with 10 particles reaches the engine once; sprite
id 5 with 501 particles raises the particle-count error. -/
theorem explosion_range_checks_witness :
    ((-2 ^ 31 ≤ (5 : Int) ∧ (5 : Int) < 2 ^ 31) ∧ (1 ≤ (5 : Int) ∧ (5 : Int) ≤ 1024) ∧
      (1 ≤ (10 : Int) ∧ (10 : Int) ≤ 500) ∧ ((501 : Int) < 1 ∨ (501 : Int) > 500)) ∧
    (callBinding lua_sprite_explode idleHost [.integer 5, .integer 10] ()).2.calls
      = [.sprite_explode (toUInt16 5) (toUInt16 10)] ∧
    (callBinding lua_sprite_explode idleHost [.integer 5, .integer 501] ()).1
      = .error (.runtime ("sprite_explode" ++ ": particle_count must be between 1 and 500")) :=
  ⟨⟨⟨by decide, by decide⟩, ⟨by decide, by decide⟩, ⟨by decide, by decide⟩, by decide⟩,
    ((explosion_range_checks idleHost () 5 10 0 (by decide) (by decide) (by decide) (by decide)
      (.float 1.0) (.float 1.0) (.float 1.0) (.float 1.0) (.float 1.0)).1.2.2.1
        ⟨by decide, by decide⟩ ⟨by decide, by decide⟩).2.1,
    ((explosion_range_checks idleHost () 5 501 0 (by decide) (by decide) (by decide) (by decide)
      (.float 1.0) (.float 1.0) (.float 1.0) (.float 1.0) (.float 1.0)).1.2.1
        ⟨by decide, by decide⟩ (by decide)).1⟩

/-! ## The particle mode argument -/

/-- C18 (the code at the failing input): the mode argument of `sprite_explode`
(3rd) and `sprite_explode_advanced` (6th) is read and turned into a particle
mode (1 is sprite fragment, any other value point sprite, as the registered
constants say), but the mode is not handed to the engine: for every sprite id,
particle count and pair of modes, the two calls that differ only in the mode
end with the same outcome, the same engine calls and the same engine state,
and so does the call that omits the mode. -/
theorem particle_mode_ignored {σ : Type} (H : Host σ) (s : σ) (id n m1 m2 : Int)
    (f g t : LuaNum) :
    (particleMode 1 = .SPRITE_FRAGMENT ∧ particleMode 0 = .POINT_SPRITE ∧
      getglobalnumber "PARTICLE_MODE_SPRITE_FRAGMENT" = some 1 ∧
      getglobalnumber "PARTICLE_MODE_POINT_SPRITE" = some 0) ∧
    ((callBinding lua_sprite_explode H [.integer id, .integer n, .integer m1] s).1
        = (callBinding lua_sprite_explode H [.integer id, .integer n, .integer m2] s).1 ∧
      (callBinding lua_sprite_explode H [.integer id, .integer n, .integer m1] s).2.calls
        = (callBinding lua_sprite_explode H [.integer id, .integer n, .integer m2] s).2.calls ∧
      (callBinding lua_sprite_explode H [.integer id, .integer n, .integer m1] s).2.engine
        = (callBinding lua_sprite_explode H [.integer id, .integer n, .integer m2] s).2.engine ∧
      (callBinding lua_sprite_explode H [.integer id, .integer n, .integer m1] s).2.calls
        = (callBinding lua_sprite_explode H [.integer id, .integer n] s).2.calls) ∧
    ((callBinding lua_sprite_explode_advanced H
          [.integer id, .integer n, f.value, g.value, t.value, .integer m1] s).1
        = (callBinding lua_sprite_explode_advanced H
          [.integer id, .integer n, f.value, g.value, t.value, .integer m2] s).1 ∧
      (callBinding lua_sprite_explode_advanced H
          [.integer id, .integer n, f.value, g.value, t.value, .integer m1] s).2.calls
        = (callBinding lua_sprite_explode_advanced H
          [.integer id, .integer n, f.value, g.value, t.value, .integer m2] s).2.calls ∧
      (callBinding lua_sprite_explode_advanced H
          [.integer id, .integer n, f.value, g.value, t.value, .integer m1] s).2.engine
        = (callBinding lua_sprite_explode_advanced H
          [.integer id, .integer n, f.value, g.value, t.value, .integer m2] s).2.engine ∧
      (callBinding lua_sprite_explode_advanced H
          [.integer id, .integer n, f.value, g.value, t.value, .integer m1] s).2.calls
        = (callBinding lua_sprite_explode_advanced H
          [.integer id, .integer n, f.value, g.value, t.value] s).2.calls) := by
  refine ⟨⟨by decide, by decide, by decide, by decide⟩, ?_, ?_⟩
  · rw [sprite_explode_eval H s id n [.integer m1] (Or.inr ⟨m1, rfl⟩),
      sprite_explode_eval H s id n [.integer m2] (Or.inr ⟨m2, rfl⟩),
      sprite_explode_eval H s id n [] (Or.inl rfl)]
    split_ifs <;> exact ⟨rfl, rfl, rfl, rfl⟩
  · rw [sprite_explode_advanced_eval H s id n f g t [.integer m1] (Or.inr ⟨m1, rfl⟩),
      sprite_explode_advanced_eval H s id n f g t [.integer m2] (Or.inr ⟨m2, rfl⟩),
      sprite_explode_advanced_eval H s id n f g t [] (Or.inl rfl)]
    split_ifs <;> exact ⟨rfl, rfl, rfl, rfl⟩

/-! ## Explosion mode presets -/

/-- C19 (as stated, refuted): the mode 4294967297 is not in 1..6, yet
`sprite_explode_mode(1, 4294967297)` does not raise: as a C `int` the mode is 1
and the binding issues the preset of mode 1. -/
theorem explosion_mode_wraps_to_preset :
    ¬ ((1 : Int) ≤ 4294967297 ∧ (4294967297 : Int) ≤ 6) ∧
    (callBinding lua_sprite_explode_mode idleHost [.integer 1, .integer 4294967297] ()).1
      = .ok 1 ∧
    (callBinding lua_sprite_explode_mode idleHost [.integer 1, .integer 4294967297] ()).2.calls
      = [.sprite_explode_advanced 1 48 ⟨200.0⟩ ⟨100.0⟩ ⟨2.0⟩] :=
  ⟨by decide, rfl, rfl⟩

/-- C19 (amended): for sprite ids and modes in the range of a 32-bit `int`.  With
the sprite id in 1..1024, each mode from 1 to 6 makes exactly one engine call,
the preset named by the registered constant: 1 `BASIC_EXPLOSION` advanced(48,
200, 100, 2); 2 `MASSIVE_BLAST` advanced(128, 350, 80, 3); 3 `GENTLE_DISPERSAL`
advanced(64, 120, 40, 4); 4 `RIGHTWARD_BLAST` directional(80, 180, -30);
5 `UPWARD_ERUPTION` directional(96, 0, -250); 6 `RAPID_BURST` advanced(32, 400,
200, 1); every preset particle count lies in 1..500.  A sprite id outside
1..1024 raises the sprite-id error, any other mode the explosion-mode error,
both without an engine call; and no sprite id and mode lead to the error of the
`default:` branch of the switch. -/
theorem explosion_mode_presets {σ : Type} (H : Host σ) (s : σ) (id mode : Int)
    (hid1 : -2 ^ 31 ≤ id) (hid2 : id < 2 ^ 31) (hm1 : -2 ^ 31 ≤ mode) (hm2 : mode < 2 ^ 31) :
    ((1 ≤ id ∧ id ≤ 1024) →
      IssuesPreset H s id "BASIC_EXPLOSION" 1
        (.sprite_explode_advanced (toUInt16 id) 48 ⟨200.0⟩ ⟨100.0⟩ ⟨2.0⟩) ∧
      IssuesPreset H s id "MASSIVE_BLAST" 2
        (.sprite_explode_advanced (toUInt16 id) 128 ⟨350.0⟩ ⟨80.0⟩ ⟨3.0⟩) ∧
      IssuesPreset H s id "GENTLE_DISPERSAL" 3
        (.sprite_explode_advanced (toUInt16 id) 64 ⟨120.0⟩ ⟨40.0⟩ ⟨4.0⟩) ∧
      IssuesPreset H s id "RIGHTWARD_BLAST" 4
        (.sprite_explode_directional (toUInt16 id) 80 ⟨180.0⟩ ⟨-30.0⟩) ∧
      IssuesPreset H s id "UPWARD_ERUPTION" 5
        (.sprite_explode_directional (toUInt16 id) 96 ⟨0.0⟩ ⟨-250.0⟩) ∧
      IssuesPreset H s id "RAPID_BURST" 6
        (.sprite_explode_advanced (toUInt16 id) 32 ⟨400.0⟩ ⟨200.0⟩ ⟨1.0⟩)) ∧
    ((id < 1 ∨ id > 1024) →
      (callBinding lua_sprite_explode_mode H [.integer id, .integer mode] s).1
        = .error (.runtime "sprite_explode_mode: sprite_id must be between 1 and 1024") ∧
      (callBinding lua_sprite_explode_mode H [.integer id, .integer mode] s).2.calls = []) ∧
    ((1 ≤ id ∧ id ≤ 1024) → (mode < 1 ∨ mode > 6) →
      (callBinding lua_sprite_explode_mode H [.integer id, .integer mode] s).1
        = .error (.runtime "sprite_explode_mode: explosion_mode must be between 1 and 6") ∧
      (callBinding lua_sprite_explode_mode H [.integer id, .integer mode] s).2.calls = []) ∧
    (callBinding lua_sprite_explode_mode H [.integer id, .integer mode] s).1
      ≠ .error (.runtime "sprite_explode_mode: invalid explosion_mode") := by
  have hv : toInt32 id = id := toInt32_of_range id hid1 hid2
  have hw : toInt32 mode = mode := toInt32_of_range mode hm1 hm2
  have hbad := sprite_explode_mode_eval_bad H s id mode
  rw [hv, hw] at hbad
  refine ⟨fun hin => ?_, fun hout => ?_, fun hin hout => ?_, ?_⟩
  · have he := sprite_explode_mode_eval H s id (by rw [hv]; exact hin.1) (by rw [hv]; exact hin.2)
    refine ⟨?_, ?_, ?_, ?_, ?_, ?_⟩
    · have e := he.1
      rw [hv] at e
      exact ⟨by decide, by rw [e], by rw [e], by rw [e],
        ⟨_, by rw [e]; rfl⟩, ⟨48, rfl, by decide, by decide⟩⟩
    · have e := he.2.1
      rw [hv] at e
      exact ⟨by decide, by rw [e], by rw [e], by rw [e],
        ⟨_, by rw [e]; rfl⟩, ⟨128, rfl, by decide, by decide⟩⟩
    · have e := he.2.2.1
      rw [hv] at e
      exact ⟨by decide, by rw [e], by rw [e], by rw [e],
        ⟨_, by rw [e]; rfl⟩, ⟨64, rfl, by decide, by decide⟩⟩
    · have e := he.2.2.2.1
      rw [hv] at e
      exact ⟨by decide, by rw [e], by rw [e], by rw [e],
        ⟨_, by rw [e]; rfl⟩, ⟨80, rfl, by decide, by decide⟩⟩
    · have e := he.2.2.2.2.1
      rw [hv] at e
      exact ⟨by decide, by rw [e], by rw [e], by rw [e],
        ⟨_, by rw [e]; rfl⟩, ⟨96, rfl, by decide, by decide⟩⟩
    · have e := he.2.2.2.2.2
      rw [hv] at e
      exact ⟨by decide, by rw [e], by rw [e], by rw [e],
        ⟨_, by rw [e]; rfl⟩, ⟨32, rfl, by decide, by decide⟩⟩
  · rw [hbad.1 hout]
    exact ⟨rfl, rfl⟩
  · rw [hbad.2 (by omega) hout]
    exact ⟨rfl, rfl⟩
  · by_cases h1 : id < 1 ∨ id > 1024
    · rw [hbad.1 h1]
      simp
    · by_cases h2 : mode < 1 ∨ mode > 6
      · rw [hbad.2 h1 h2]
        simp
      · have he := sprite_explode_mode_eval H s id (by rw [hv]; omega) (by rw [hv]; omega)
        have hm : mode = 1 ∨ mode = 2 ∨ mode = 3 ∨ mode = 4 ∨ mode = 5 ∨ mode = 6 := by omega
        rcases hm with h | h | h | h | h | h <;> subst h
        · rw [he.1]; simp
        · rw [he.2.1]; simp
        · rw [he.2.2.1]; simp
        · rw [he.2.2.2.1]; simp
        · rw [he.2.2.2.2.1]; simp
        · rw [he.2.2.2.2.2]; simp

/-- Witness of C19 (amended): sprite 7 with mode 4 issues the rightward blast;
sprite 7 with mode 7 raises the explosion-mode error. -/
theorem explosion_mode_presets_witness :
    ((-2 ^ 31 ≤ (7 : Int) ∧ (7 : Int) < 2 ^ 31) ∧ (1 ≤ (7 : Int) ∧ (7 : Int) ≤ 1024) ∧
      ((7 : Int) < 1 ∨ (7 : Int) > 6)) ∧
    IssuesPreset idleHost () 7 "RIGHTWARD_BLAST" 4
      (.sprite_explode_directional (toUInt16 7) 80 ⟨180.0⟩ ⟨-30.0⟩) ∧
    (callBinding lua_sprite_explode_mode idleHost [.integer 7, .integer 7] ()).1
      = .error (.runtime "sprite_explode_mode: explosion_mode must be between 1 and 6") :=
  ⟨⟨⟨by decide, by decide⟩, ⟨by decide, by decide⟩, by decide⟩,
    ((explosion_mode_presets idleHost () 7 7 (by decide) (by decide) (by decide)
      (by decide)).1 ⟨by decide, by decide⟩).2.2.2.1,
    ((explosion_mode_presets idleHost () 7 7 (by decide) (by decide) (by decide)
      (by decide)).2.2.1 ⟨by decide, by decide⟩ (by decide)).1⟩

/-! ## Waiting for a key with a timeout -/

theorem frameWaits_append (xs ys : List EngineCall) :
    frameWaits (xs ++ ys) = frameWaits xs + frameWaits ys := by
  simp [frameWaits, List.countP_append]

theorem wait_key_scan_trace {σ : Type} (H : Host σ) :
    ∀ (n : Nat) (key : Int) (st : LuaState σ),
      ∃ (b : Bool) (st1 : LuaState σ), wait_key_scan n key H st = (.ok b, st1) ∧
        st1.stack = st.stack ∧ frameWaits st1.calls = frameWaits st.calls ∧
        (b = true ↔ keyPressedInScan H n key st.engine) ∧
        (b = false → st1.engine = scanState H n key st.engine) := by
  intro n
  induction n with
  | zero =>
    intro key st
    exact ⟨false, st, rfl, rfl, rfl, by simp [keyPressedInScan], fun _ => rfl⟩
  | succ n ih =>
    intro key st
    rw [wait_key_scan_step]
    by_cases hp : (H.call (.st_key_pressed key) st.engine).1 = true
    · rw [if_pos hp]
      have e0 : key + ((0 : Nat) : Int) = key := by simp
      refine ⟨true, _, rfl, rfl, ?_, ?_, fun h => absurd h (by decide)⟩
      · simp [frameWaits_append, frameWaits]
      · simp only [true_iff]
        refine ⟨0, Nat.succ_pos n, ?_⟩
        rw [e0]
        exact hp
    · rw [if_neg hp]
      obtain ⟨b, st1, h1, h2, h3, h4, h5⟩ := ih (key + 1)
        { st with engine := (H.call (.st_key_pressed key) st.engine).2,
                  calls := st.calls ++ [.st_key_pressed key] }
      refine ⟨b, st1, h1, h2, ?_, h4.trans ?_, fun hb => h5 hb⟩
      · rw [h3]
        simp [frameWaits_append, frameWaits]
      · constructor
        · rintro ⟨j, hj, hpj⟩
          refine ⟨j + 1, Nat.succ_lt_succ hj, ?_⟩
          have e : key + ((j + 1 : Nat) : Int) = key + 1 + (j : Int) := by push_cast; ring
          rw [e]
          exact hpj
        · rintro ⟨j, hj, hpj⟩
          cases j with
          | zero =>
            have e0 : key + ((0 : Nat) : Int) = key := by simp
            rw [e0] at hpj
            exact absurd hpj hp
          | succ j =>
            refine ⟨j, Nat.lt_of_succ_lt_succ hj, ?_⟩
            have e : key + ((j + 1 : Nat) : Int) = key + 1 + (j : Int) := by push_cast; ring
            rw [e] at hpj
            exact hpj

theorem wait_key_frame_timeout {σ : Type} (H : Host σ) (t fw : Int) (ht : 0 < t)
    (h0 : 0 ≤ fw) (h1 : fw + 1 < 2 ^ 31) (st : LuaState σ) :
    (fw + 1 ≥ t →
      wait_key_frame t fw H st =
        (.ok (some 1),
          { stack := st.stack ++ [.boolean false], engine := (H.call .st_wait_frame st.engine).2,
            calls := st.calls ++ [.st_wait_frame], tables := st.tables })) ∧
    (fw + 1 < t → keyPressedInScan H 512 0 (H.call .st_wait_frame st.engine).2 →
      (wait_key_frame t fw H st).1 = .ok (some 1) ∧
      (wait_key_frame t fw H st).2.stack = st.stack ++ [.boolean true] ∧
      frameWaits (wait_key_frame t fw H st).2.calls = frameWaits st.calls + 1) ∧
    (fw + 1 < t → ¬ keyPressedInScan H 512 0 (H.call .st_wait_frame st.engine).2 →
      (wait_key_frame t fw H st).1 = .ok none ∧
      (wait_key_frame t fw H st).2.stack = st.stack ∧
      (wait_key_frame t fw H st).2.engine = afterQuietFrame H st.engine ∧
      frameWaits (wait_key_frame t fw H st).2.calls = frameWaits st.calls + 1) := by
  have hv : toInt32 (fw + 1) = fw + 1 := toInt32_of_range _ (by omega) h1
  have hw : frameWaits (st.calls ++ [EngineCall.st_wait_frame]) = frameWaits st.calls + 1 := by
    simp [frameWaits_append, frameWaits]
  refine ⟨fun hge => ?_, ?_⟩
  · have hc : t > 0 ∧ toInt32 (fw + 1) ≥ t := ⟨ht, by rw [hv]; exact hge⟩
    unfold wait_key_frame
    simp only [bind, LuaM.bind, engine, pure, if_pos hc]
    rfl
  · obtain ⟨b, st1, e1, e2, e3, e4, e5⟩ := wait_key_scan_trace H 512 0
      { st with engine := (H.call .st_wait_frame st.engine).2,
                calls := st.calls ++ [.st_wait_frame] }
    have hf : fw + 1 < t → wait_key_frame t fw H st =
        if b = true then (.ok (some 1), { st1 with stack := st1.stack ++ [.boolean true] })
        else (.ok none, st1) := by
      intro hlt
      have hc : ¬ (t > 0 ∧ toInt32 (fw + 1) ≥ t) := by rw [hv]; omega
      unfold wait_key_frame
      simp only [bind, LuaM.bind, engine, pure, if_neg hc, e1]
      cases b
      · simp
      · rfl
    simp only at e2 e3 e4 e5
    rw [hw] at e3
    constructor
    · intro hlt hp
      rw [hf hlt, if_pos (e4.2 hp)]
      exact ⟨rfl, by simp [e2], e3⟩
    · intro hlt hp
      have hb : ¬ b = true := fun h => hp (e4.1 h)
      rw [hf hlt, if_neg hb]
      exact ⟨rfl, e2, e5 (by simpa using hb), e3⟩

theorem keyPressedInFrame_succ {σ : Type} (H : Host σ) (j : Nat) (hj : 1 ≤ j) (s : σ) :
    keyPressedInFrame H (j + 1) s ↔ keyPressedInFrame H j (afterQuietFrame H s) := by
  cases j with
  | zero => exact absurd hj (by decide)
  | succ j => exact Iff.rfl

theorem wait_key_loop_key {σ : Type} (H : Host σ) (t : Int) (ht : 0 < t) (ht2 : t < 2 ^ 31) :
    ∀ (k : Nat) (fw : Int) (st : LuaState σ) (fuel : Nat), 0 ≤ fw → fw + (k + 1 : Nat) < t →
      (∀ j : Nat, 1 ≤ j → j ≤ k → ¬ keyPressedInFrame H j st.engine) →
      keyPressedInFrame H (k + 1) st.engine → k + 1 ≤ fuel →
      (wait_key_loop t fuel fw H st).1 = .ok (some 1) ∧
      (wait_key_loop t fuel fw H st).2.stack = st.stack ++ [.boolean true] ∧
      frameWaits (wait_key_loop t fuel fw H st).2.calls = frameWaits st.calls + (k + 1) := by
  intro k
  induction k with
  | zero =>
    intro fw st fuel h0 hlt _ hp hfuel
    obtain ⟨f, rfl⟩ : ∃ f, fuel = f + 1 := ⟨fuel - 1, by omega⟩
    rw [wait_key_loop_step]
    obtain ⟨e1, e2, e3⟩ :=
      (wait_key_frame_timeout H t fw ht h0 (by push_cast at hlt; omega) st).2.1
        (by push_cast at hlt; omega) hp
    rcases hr : wait_key_frame t fw H st with ⟨r, st1⟩
    rw [hr] at e1 e2 e3
    simp only at e1 e2 e3
    subst e1
    exact ⟨rfl, e2, e3⟩
  | succ k ih =>
    intro fw st fuel h0 hlt hq hp hfuel
    obtain ⟨f, rfl⟩ : ∃ f, fuel = f + 1 := ⟨fuel - 1, by omega⟩
    rw [wait_key_loop_step]
    have hq1 : ¬ keyPressedInScan H 512 0 (H.call .st_wait_frame st.engine).2 :=
      hq 1 (le_refl 1) (by omega)
    obtain ⟨e1, e2, e3, e4⟩ :=
      (wait_key_frame_timeout H t fw ht h0 (by push_cast at hlt; omega) st).2.2
        (by push_cast at hlt; omega) hq1
    rcases hr : wait_key_frame t fw H st with ⟨r, st1⟩
    rw [hr] at e1 e2 e3 e4
    simp only at e1 e2 e3 e4
    subst e1
    simp only
    have hv : toInt32 (fw + 1) = fw + 1 :=
      toInt32_of_range _ (by omega) (by push_cast at hlt; omega)
    rw [hv]
    have h := ih (fw + 1) st1 f (by omega) (by push_cast at hlt ⊢; omega)
      (fun j hj1 hj2 => by
        rw [e3]
        exact fun hpj => hq (j + 1) (by omega) (by omega)
          ((keyPressedInFrame_succ H j hj1 st.engine).2 hpj))
      (by
        rw [e3]
        exact (keyPressedInFrame_succ H (k + 1) (by omega) st.engine).1 hp)
      (by omega)
    rw [e2, e4] at h
    refine ⟨h.1, h.2.1, ?_⟩
    rw [h.2.2]
    omega

theorem wait_key_loop_times_out {σ : Type} (H : Host σ) (t : Int) (ht : 0 < t)
    (ht2 : t < 2 ^ 31) :
    ∀ (r : Nat) (fw : Int) (st : LuaState σ) (fuel : Nat), 0 ≤ fw → fw + (r + 1 : Nat) = t →
      (∀ j : Nat, 1 ≤ j → j ≤ r → ¬ keyPressedInFrame H j st.engine) → r + 1 ≤ fuel →
      (wait_key_loop t fuel fw H st).1 = .ok (some 1) ∧
      (wait_key_loop t fuel fw H st).2.stack = st.stack ++ [.boolean false] ∧
      frameWaits (wait_key_loop t fuel fw H st).2.calls = frameWaits st.calls + (r + 1) := by
  intro r
  induction r with
  | zero =>
    intro fw st fuel h0 heq _ hfuel
    obtain ⟨f, rfl⟩ : ∃ f, fuel = f + 1 := ⟨fuel - 1, by omega⟩
    rw [wait_key_loop_step]
    have e := (wait_key_frame_timeout H t fw ht h0 (by push_cast at heq; omega) st).1
      (by push_cast at heq; omega)
    rw [e]
    refine ⟨rfl, rfl, ?_⟩
    simp [frameWaits_append, frameWaits]
  | succ r ih =>
    intro fw st fuel h0 heq hq hfuel
    obtain ⟨f, rfl⟩ : ∃ f, fuel = f + 1 := ⟨fuel - 1, by omega⟩
    rw [wait_key_loop_step]
    have hq1 : ¬ keyPressedInScan H 512 0 (H.call .st_wait_frame st.engine).2 :=
      hq 1 (le_refl 1) (by omega)
    obtain ⟨e1, e2, e3, e4⟩ :=
      (wait_key_frame_timeout H t fw ht h0 (by push_cast at heq; omega) st).2.2
        (by push_cast at heq; omega) hq1
    rcases hr : wait_key_frame t fw H st with ⟨res, st1⟩
    rw [hr] at e1 e2 e3 e4
    simp only at e1 e2 e3 e4
    subst e1
    simp only
    have hv : toInt32 (fw + 1) = fw + 1 :=
      toInt32_of_range _ (by omega) (by push_cast at heq; omega)
    rw [hv]
    have h := ih (fw + 1) st1 f (by omega) (by push_cast at heq ⊢; omega)
      (fun j hj1 hj2 => by
        rw [e3]
        exact fun hpj => hq (j + 1) (by omega) (by omega)
          ((keyPressedInFrame_succ H j hj1 st.engine).2 hpj))
      (by omega)
    rw [e2, e4] at h
    refine ⟨h.1, h.2.1, ?_⟩
    rw [h.2.2]
    omega

/-- C16 (as stated, refuted): the timeout 4294967297 is positive, yet with no key
pressed `wait_key` returns false after one frame wait, not after 4294967297 (as
a C `int` the timeout is 1). -/
theorem wait_key_wrapped_timeout_fires_early :
    (0 : Int) < 4294967297 ∧
    (callBinding (lua_st_wait_key 1) idleHost [.integer 4294967297] ()).1 = .ok (some 1) ∧
    (callBinding (lua_st_wait_key 1) idleHost [.integer 4294967297] ()).2.stack
      = [.integer 4294967297, .boolean false] ∧
    frameWaits (callBinding (lua_st_wait_key 1) idleHost [.integer 4294967297] ()).2.calls = 1 :=
  ⟨by decide, rfl, rfl, rfl⟩

/-- C16 (amended): for every timeout `N` with 0 < N < 2^31.  If frame `k < N` is
the first frame on which some key code in 0..511 is pressed, `wait_key` returns
true, after exactly `k` frame waits.  If no key is pressed on the frames before
frame `N`, it returns false, after exactly `N` frame waits, whatever is pressed
on frame `N` itself: the timeout test precedes the key test.  With timeout 1 it
always returns false after one frame wait.  (Each holds once the loop is given
at least that many frames to run.) -/
theorem wait_key_timeout {σ : Type} (H : Host σ) (s : σ) (N : Int)
    (h1 : 0 < N) (h2 : N < 2 ^ 31) :
    (∀ k fuel : Nat, 1 ≤ k → (k : Int) < N → k ≤ fuel →
      (∀ j : Nat, 1 ≤ j → j < k → ¬ keyPressedInFrame H j s) → keyPressedInFrame H k s →
      (callBinding (lua_st_wait_key fuel) H [.integer N] s).1 = .ok (some 1) ∧
      (callBinding (lua_st_wait_key fuel) H [.integer N] s).2.stack
        = [.integer N, .boolean true] ∧
      frameWaits (callBinding (lua_st_wait_key fuel) H [.integer N] s).2.calls = k) ∧
    (∀ fuel : Nat, N ≤ fuel →
      (∀ j : Nat, 1 ≤ j → (j : Int) < N → ¬ keyPressedInFrame H j s) →
      (callBinding (lua_st_wait_key fuel) H [.integer N] s).1 = .ok (some 1) ∧
      (callBinding (lua_st_wait_key fuel) H [.integer N] s).2.stack
        = [.integer N, .boolean false] ∧
      (frameWaits (callBinding (lua_st_wait_key fuel) H [.integer N] s).2.calls : Int) = N) ∧
    (N = 1 → ∀ fuel : Nat, 1 ≤ fuel →
      (callBinding (lua_st_wait_key fuel) H [.integer N] s).1 = .ok (some 1) ∧
      (callBinding (lua_st_wait_key fuel) H [.integer N] s).2.stack
        = [.integer N, .boolean false] ∧
      frameWaits (callBinding (lua_st_wait_key fuel) H [.integer N] s).2.calls = 1) := by
  have hv : toInt32 N = N := toInt32_of_range N (by omega) h2
  have e : ∀ fuel, callBinding (lua_st_wait_key fuel) H [.integer N] s
      = wait_key_loop N fuel 0 H { stack := [.integer N], engine := s, calls := [] } := by
    intro fuel
    have e0 : callBinding (lua_st_wait_key fuel) H [.integer N] s
        = wait_key_loop (toInt32 N) fuel 0 H
            { stack := [.integer N], engine := s, calls := [] } := rfl
    rw [e0, hv]
  have hto : ∀ fuel : Nat, N ≤ fuel →
      (∀ j : Nat, 1 ≤ j → (j : Int) < N → ¬ keyPressedInFrame H j s) →
      (callBinding (lua_st_wait_key fuel) H [.integer N] s).1 = .ok (some 1) ∧
      (callBinding (lua_st_wait_key fuel) H [.integer N] s).2.stack
        = [.integer N, .boolean false] ∧
      (frameWaits (callBinding (lua_st_wait_key fuel) H [.integer N] s).2.calls : Int)
        = N := by
    intro fuel hfuel hq
    obtain ⟨r, hr⟩ : ∃ r : Nat, N = ((r + 1 : Nat) : Int) := ⟨(N - 1).toNat, by omega⟩
    rw [e]
    have h := wait_key_loop_times_out H N h1 h2 r 0
      { stack := [.integer N], engine := s, calls := [] } fuel (le_refl 0) (by omega)
      (fun j hj1 hj2 => hq j hj1 (by omega)) (by omega)
    refine ⟨h.1, h.2.1, ?_⟩
    rw [h.2.2]
    simp [frameWaits]
    omega
  refine ⟨fun k fuel hk1 hk2 hfuel hq hp => ?_, hto, fun hN fuel hfuel => ?_⟩
  · obtain ⟨k', rfl⟩ : ∃ k', k = k' + 1 := ⟨k - 1, by omega⟩
    rw [e]
    have h := wait_key_loop_key H N h1 h2 k' 0
      { stack := [.integer N], engine := s, calls := [] } fuel (le_refl 0) (by omega)
      (fun j hj1 hj2 => hq j hj1 (by omega)) hp hfuel
    refine ⟨h.1, h.2.1, ?_⟩
    rw [h.2.2]
    simp [frameWaits]
  · have h := hto fuel (by omega) (fun j hj1 hj2 => absurd hj2 (by omega))
    refine ⟨h.1, h.2.1, ?_⟩
    have h3 := h.2.2
    omega

/-- Witness of C16 (amended), on the host where no key is ever pressed:
`wait_key(2)` returns false after two frame waits. -/
theorem wait_key_timeout_witness :
    ((0 : Int) < 2 ∧ (2 : Int) < 2 ^ 31) ∧
    (callBinding (lua_st_wait_key 2) idleHost [.integer 2] ()).2.stack
      = [.integer 2, .boolean false] ∧
    (frameWaits (callBinding (lua_st_wait_key 2) idleHost [.integer 2] ()).2.calls : Int) = 2 :=
  have h := (wait_key_timeout idleHost () 2 (by decide) (by decide)).2.1 2 (by decide)
    (fun j _ _ hp => by
      cases j with
      | zero => exact hp
      | succ j =>
        obtain ⟨_, _, hk⟩ := hp
        exact Bool.false_ne_true hk)
  ⟨⟨by decide, by decide⟩, h.2.1, h.2.2⟩

/-! ## Registration coverage -/

/-- Every element of a list has a partner in the zip with a list at least as long. -/
theorem exists_mem_zip {α β : Type} (a : α) :
    ∀ (l : List α) (m : List β), l.length ≤ m.length → a ∈ l → ∃ b, (a, b) ∈ l.zip m
  | [], _, _, h => absurd h (List.not_mem_nil a)
  | _ :: _, [], hl, _ => absurd hl (by simp)
  | x :: l, y :: m, hl, h => by
    rcases List.mem_cons.1 h with rfl | h
    · exact ⟨y, by simp⟩
    · obtain ⟨b, hb⟩ := exists_mem_zip a l m (by simpa using hl) h
      exact ⟨b, by simp [hb]⟩

set_option maxRecDepth 100000 in
/-- The positions of `firstRegistration` are right: each defined binding is installed by the
registration at its position, or has no position and is one of the text-item functions. -/
theorem firstRegistration_spec :
    (definedBindings.zip firstRegistration).all (fun p =>
      match p.2 with
      | none => textItemBindings.contains p.1
      | some i => (registrations.get? i).any fun r => r.func == p.1) = true := by
  decide!

set_option maxRecDepth 100000 in
/-- C14 (refuted): of the binding functions the file defines, exactly the seven text-item
functions of lines 5516-5569 are installed by no registration of `registerBindings`, under
no global name and in no namespace table; every other defined binding is installed by some
registration. -/
theorem text_item_bindings_never_registered :
    (∀ f ∈ textItemBindings, f ∈ definedBindings ∧ reachable f = false) ∧
    (∀ f ∈ definedBindings, reachable f = false ↔ f ∈ textItemBindings) := by
  have hseven : ∀ f ∈ textItemBindings, f ∈ definedBindings ∧ reachable f = false := by
    decide!
  refine ⟨hseven, fun f hf => ⟨fun hr => ?_, fun hm => (hseven f hm).2⟩⟩
  obtain ⟨c, hc⟩ := exists_mem_zip f definedBindings firstRegistration (by decide) hf
  have h := List.all_eq_true.1 firstRegistration_spec (f, c) hc
  cases c with
  | none => simpa using h
  | some i =>
    have h2 : (registrations.get? i).any (fun r => r.func == f) = true := h
    cases hget : registrations.get? i with
    | none =>
      rw [hget] at h2
      exact absurd h2 Bool.false_ne_true
    | some r =>
      rw [hget] at h2
      have hreach : reachable f = true :=
        List.any_eq_true.2 ⟨r, List.get?_mem hget, h2⟩
      rw [hr] at hreach
      exact absurd hreach (by decide)

/-! ## Modulation sources: no voice modulates itself -/

/-- The modelled ring-modulation setter ignores a voice naming itself. -/
theorem st_voice_set_ring_mod_self (v : Int) (bank : VoiceBank) :
    st_voice_set_ring_mod v v bank = bank := by
  simp [st_voice_set_ring_mod]

/-- The modelled hard-sync setter ignores a voice naming itself. -/
theorem st_voice_set_sync_self (v : Int) (bank : VoiceBank) :
    st_voice_set_sync v v bank = bank := by
  simp [st_voice_set_sync]

/-- Changing one voice keeps `NoSelfSource` when the changed voice does not name itself. -/
theorem noSelfSource_modifyVoice (bank : VoiceBank) (i : Nat) (f : Voice → Voice)
    (h : NoSelfSource bank)
    (hf : ∀ w, bank.get? i = some w →
      (f w).ringModSource ≠ some i ∧ (f w).syncSource ≠ some i) :
    NoSelfSource (bank.modifyVoice i f) := by
  unfold VoiceBank.modifyVoice
  cases hw : bank.get? i with
  | none => exact h
  | some w =>
    intro j hj
    have hj2 : j < bank.length := by simpa using hj
    by_cases hij : i = j
    · subst hij
      have e : (bank.set i (f w)).get? i = some (f w) := by
        simp [List.getElem?_set, hj2]
      rw [e]
      exact hf w hw
    · have e : (bank.set i (f w)).get? j = bank.get? j := by
        simp [List.getElem?_set, hij]
      rw [e]
      exact h j hj2

/-- The modelled ring-modulation setter keeps `NoSelfSource`, whatever its arguments. -/
theorem noSelfSource_set_ring_mod (a b : Int) (bank : VoiceBank) (h : NoSelfSource bank) :
    NoSelfSource (st_voice_set_ring_mod a b bank) := by
  unfold st_voice_set_ring_mod
  split
  · rename_i hc
    simp only [Bool.and_eq_true, VoiceBank.valid, decide_eq_true_eq, bne_iff_ne] at hc
    obtain ⟨⟨⟨ha0, _⟩, ⟨hb0, _⟩⟩, hne⟩ := hc
    refine noSelfSource_modifyVoice bank a.toNat _ h fun w hw => ⟨?_, ?_⟩
    · intro e
      have e2 : b.toNat = a.toNat := Option.some.inj e
      omega
    · have hlt : a.toNat < bank.length := by
        rcases Nat.lt_or_ge a.toNat bank.length with h1 | h1
        · exact h1
        · rw [List.get?_eq_none.2 h1] at hw
          exact absurd hw (by simp)
      have := (h a.toNat hlt).2
      rw [hw] at this
      exact this
  · exact h

/-- The modelled hard-sync setter keeps `NoSelfSource`, whatever its arguments. -/
theorem noSelfSource_set_sync (a b : Int) (bank : VoiceBank) (h : NoSelfSource bank) :
    NoSelfSource (st_voice_set_sync a b bank) := by
  unfold st_voice_set_sync
  split
  · rename_i hc
    simp only [Bool.and_eq_true, VoiceBank.valid, decide_eq_true_eq, bne_iff_ne] at hc
    obtain ⟨⟨⟨ha0, _⟩, ⟨hb0, _⟩⟩, hne⟩ := hc
    refine noSelfSource_modifyVoice bank a.toNat _ h fun w hw => ⟨?_, ?_⟩
    · have hlt : a.toNat < bank.length := by
        rcases Nat.lt_or_ge a.toNat bank.length with h1 | h1
        · exact h1
        · rw [List.get?_eq_none.2 h1] at hw
          exact absurd hw (by simp)
      have := (h a.toNat hlt).1
      rw [hw] at this
      exact this
    · intro e
      have e2 : b.toNat = a.toNat := Option.some.inj e
      omega
  · exact h

/-- The function `luaL_checkinteger` leaves the state as it is. -/
theorem luaL_checkinteger_state {σ : Type} (n : Nat) (H : Host σ) (st : LuaState σ) :
    (luaL_checkinteger n H st).2 = st := by
  unfold luaL_checkinteger
  split
  · rfl
  · split <;> rfl

/-- The engine state `voice_set_ring_mod` leaves behind: untouched when an argument is
refused, else the state after the one engine call. -/
theorem voice_set_ring_mod_engine {σ : Type} (H : Host σ) (args : List LuaValue) (s : σ) :
    (callBinding lua_st_voice_set_ring_mod H args s).2.engine = s ∨
    ∃ a b : Int, (callBinding lua_st_voice_set_ring_mod H args s).2.engine
      = (H.call (.st_voice_set_ring_mod a b) s).2 := by
  have h1 := luaL_checkinteger_state 1 H { stack := args, engine := s, calls := [] }
  have h2 := luaL_checkinteger_state 2 H { stack := args, engine := s, calls := [] }
  simp only [callBinding, lua_st_voice_set_ring_mod, bind, LuaM.bind]
  rcases hr1 : luaL_checkinteger 1 H { stack := args, engine := s, calls := [] } with ⟨r1, st1⟩
  rw [hr1] at h1
  subst h1
  cases r1 with
  | error e => exact Or.inl rfl
  | ok i =>
    rcases hr2 : luaL_checkinteger 2 H { stack := args, engine := s, calls := [] }
      with ⟨r2, st2⟩
    dsimp only
    rw [hr2]
    rw [hr2] at h2
    subst h2
    cases r2 with
    | error e => exact Or.inl rfl
    | ok j => exact Or.inr ⟨toInt32 i, toInt32 j, rfl⟩

/-- The engine state `voice_set_sync` leaves behind: untouched when an argument is refused,
else the state after the one engine call. -/
theorem voice_set_sync_engine {σ : Type} (H : Host σ) (args : List LuaValue) (s : σ) :
    (callBinding lua_st_voice_set_sync H args s).2.engine = s ∨
    ∃ a b : Int, (callBinding lua_st_voice_set_sync H args s).2.engine
      = (H.call (.st_voice_set_sync a b) s).2 := by
  have h1 := luaL_checkinteger_state 1 H { stack := args, engine := s, calls := [] }
  have h2 := luaL_checkinteger_state 2 H { stack := args, engine := s, calls := [] }
  simp only [callBinding, lua_st_voice_set_sync, bind, LuaM.bind]
  rcases hr1 : luaL_checkinteger 1 H { stack := args, engine := s, calls := [] } with ⟨r1, st1⟩
  rw [hr1] at h1
  subst h1
  cases r1 with
  | error e => exact Or.inl rfl
  | ok i =>
    rcases hr2 : luaL_checkinteger 2 H { stack := args, engine := s, calls := [] }
      with ⟨r2, st2⟩
    dsimp only
    rw [hr2]
    rw [hr2] at h2
    subst h2
    cases r2 with
    | error e => exact Or.inl rfl
    | ok j => exact Or.inr ⟨toInt32 i, toInt32 j, rfl⟩

/-- C11: on the voice bank as the spec describes it, `voice_set_ring_mod(v, v)` and
`voice_set_sync(v, v)` return normally, with no result, and leave every modulation source as
it was, for every integer `v` (the binding hands `v` to the engine twice, narrowed the same
way).  More generally, from a bank in which no voice is its own source, no call of either
binding, whatever its arguments, leads to a bank in which some voice is. -/
theorem self_modulation_ignored (bank : VoiceBank) :
    (∀ v : Int,
      (callBinding lua_st_voice_set_ring_mod voiceBankHost [.integer v, .integer v] bank).1
        = .ok 0 ∧
      (callBinding lua_st_voice_set_ring_mod voiceBankHost [.integer v, .integer v] bank).2.engine
        = bank ∧
      (callBinding lua_st_voice_set_sync voiceBankHost [.integer v, .integer v] bank).1
        = .ok 0 ∧
      (callBinding lua_st_voice_set_sync voiceBankHost [.integer v, .integer v] bank).2.engine
        = bank) ∧
    (NoSelfSource bank → ∀ args : List LuaValue,
      NoSelfSource (callBinding lua_st_voice_set_ring_mod voiceBankHost args bank).2.engine ∧
      NoSelfSource (callBinding lua_st_voice_set_sync voiceBankHost args bank).2.engine) := by
  refine ⟨fun v => ⟨rfl, ?_, rfl, ?_⟩, fun h args => ⟨?_, ?_⟩⟩
  · exact st_voice_set_ring_mod_self (toInt32 v) bank
  · exact st_voice_set_sync_self (toInt32 v) bank
  · rcases voice_set_ring_mod_engine voiceBankHost args bank with e | ⟨a, b, e⟩
    · rw [e]
      exact h
    · rw [e]
      exact noSelfSource_set_ring_mod a b bank h
  · rcases voice_set_sync_engine voiceBankHost args bank with e | ⟨a, b, e⟩
    · rw [e]
      exact h
    · rw [e]
      exact noSelfSource_set_sync a b bank h

/-- Witness of C11 on a bank of two voices without sources: the call
`voice_set_ring_mod(0, 4294967296)`, whose source is voice 0 as a C `int`, and the call
`voice_set_sync(1, 0)` leave no voice its own source. -/
theorem self_modulation_ignored_witness :
    NoSelfSource [Voice.mk none none, Voice.mk none none] ∧
    NoSelfSource (callBinding lua_st_voice_set_ring_mod voiceBankHost
      [.integer 0, .integer 4294967296] [Voice.mk none none, Voice.mk none none]).2.engine ∧
    NoSelfSource (callBinding lua_st_voice_set_sync voiceBankHost
      [.integer 1, .integer 0] [Voice.mk none none, Voice.mk none none]).2.engine :=
  ⟨by decide,
    ((self_modulation_ignored [Voice.mk none none, Voice.mk none none]).2 (by decide)
      [.integer 0, .integer 4294967296]).1,
    ((self_modulation_ignored [Voice.mk none none, Voice.mk none none]).2 (by decide)
      [.integer 1, .integer 0]).2⟩

/-! ## Timeline: two slots in a row -/

/-- Mixing into an empty buffer gives the mixed run itself. -/
theorem mixSamples_nil (xs : List ℚ) : mixSamples [] xs = xs := by
  cases xs <;> rfl

/-- Mixing a run in at the end of the buffer appends it. -/
theorem mixAt_length (buffer xs : List ℚ) : mixAt buffer buffer.length xs = buffer ++ xs := by
  induction buffer with
  | nil => exact mixSamples_nil xs
  | cons b buffer ih =>
    show b :: mixAt buffer buffer.length xs = b :: (buffer ++ xs)
    rw [ih]

/-- A rendered beat has one beat of samples. -/
theorem renderBeat_length (signal : Nat → ℚ) (volume : ℚ) (start beat : Nat) :
    (renderBeat signal volume start beat).length = beat := by
  simp [renderBeat]

/-- At tempo 120 a beat is `sampleRate * 60 / 120` samples. -/
theorem beatDurationSamples_120 (sampleRate : Nat) :
    beatDurationSamples sampleRate 120 = sampleRate * 60 / 120 := by
  unfold beatDurationSamples
  have h : Nat.floor (((sampleRate * 60 : Nat) : ℚ) / ((120 : Nat) : ℚ)) = sampleRate * 60 / 120 :=
    Nat.floor_div_eq_div _ _
  rw [← h]
  push_cast
  rfl

/-- C15: on the timeline session as the spec describes it, with a sample rate `R`, any voice
signal and any reading of C floats as numbers under which the float 120 is 120: after the
script `voices_start(); voices_set_tempo(120); voices_next_slot(1.0); voices_next_slot(1.0)`
the accumulation buffer is the first slot's render followed by the second slot's render
(contiguous, no sample of one mixed with a sample of the other), each `R * 60 / 120` samples
long, so that the buffer holds exactly `2 * (R * 60 / 120)` samples, whatever the session held
before; the two calls return two different sound ids, each standing for its own slot's
render. -/
theorem timeline_two_slots (signal : Nat → ℚ) (real : CFloat → ℚ) (t : Timeline)
    (h120 : real (CFloat.ofDouble (Float.ofInt 120)) = 120) :
    (twoSlotScript (timelineHost signal real) (.integer 120) (.number 1.0) t).2.2.engine.buffer
      = renderBeat signal (real (CFloat.ofDouble 1.0)) 0 (t.sampleRate * 60 / 120) ++
        renderBeat signal (real (CFloat.ofDouble 1.0)) (t.sampleRate * 60 / 120)
          (t.sampleRate * 60 / 120) ∧
    (renderBeat signal (real (CFloat.ofDouble 1.0)) 0 (t.sampleRate * 60 / 120)).length
      = t.sampleRate * 60 / 120 ∧
    (renderBeat signal (real (CFloat.ofDouble 1.0)) (t.sampleRate * 60 / 120)
      (t.sampleRate * 60 / 120)).length = t.sampleRate * 60 / 120 ∧
    (twoSlotScript (timelineHost signal real) (.integer 120) (.number 1.0)
      t).2.2.engine.buffer.length = 2 * (t.sampleRate * 60 / 120) ∧
    results (twoSlotScript (timelineHost signal real) (.integer 120) (.number 1.0) t).1
      = some [.integer t.nextId] ∧
    results (twoSlotScript (timelineHost signal real) (.integer 120) (.number 1.0) t).2
      = some [.integer (t.nextId + 1 : Nat)] ∧
    (twoSlotScript (timelineHost signal real) (.integer 120) (.number 1.0) t).2.2.engine.sounds
      = t.sounds ++
        [(t.nextId, renderBeat signal (real (CFloat.ofDouble 1.0)) 0 (t.sampleRate * 60 / 120)),
         (t.nextId + 1, renderBeat signal (real (CFloat.ofDouble 1.0))
            (t.sampleRate * 60 / 120) (t.sampleRate * 60 / 120))] := by
  have hb : (twoSlotScript (timelineHost signal real) (.integer 120) (.number 1.0)
        t).2.2.engine.buffer
      = mixAt (mixAt [] 0 (renderBeat signal (real (CFloat.ofDouble 1.0)) 0
            (beatDurationSamples t.sampleRate (real (CFloat.ofDouble (Float.ofInt 120))))))
          (0 + beatDurationSamples t.sampleRate (real (CFloat.ofDouble (Float.ofInt 120))))
          (renderBeat signal (real (CFloat.ofDouble 1.0))
            (0 + beatDurationSamples t.sampleRate (real (CFloat.ofDouble (Float.ofInt 120))))
            (beatDurationSamples t.sampleRate (real (CFloat.ofDouble (Float.ofInt 120))))) :=
    rfl
  have hs : (twoSlotScript (timelineHost signal real) (.integer 120) (.number 1.0)
        t).2.2.engine.sounds
      = (t.sounds ++ [(t.nextId, renderBeat signal (real (CFloat.ofDouble 1.0)) 0
            (beatDurationSamples t.sampleRate (real (CFloat.ofDouble (Float.ofInt 120)))))]) ++
          [(t.nextId + 1, renderBeat signal (real (CFloat.ofDouble 1.0))
            (0 + beatDurationSamples t.sampleRate (real (CFloat.ofDouble (Float.ofInt 120))))
            (beatDurationSamples t.sampleRate (real (CFloat.ofDouble (Float.ofInt 120)))))] :=
    rfl
  rw [h120, beatDurationSamples_120, Nat.zero_add] at hb hs
  have hmix : mixAt [] 0 (renderBeat signal (real (CFloat.ofDouble 1.0)) 0
      (t.sampleRate * 60 / 120))
      = renderBeat signal (real (CFloat.ofDouble 1.0)) 0 (t.sampleRate * 60 / 120) :=
    mixSamples_nil _
  rw [hmix] at hb
  have hlen := renderBeat_length signal (real (CFloat.ofDouble 1.0)) 0 (t.sampleRate * 60 / 120)
  have happ := mixAt_length
    (renderBeat signal (real (CFloat.ofDouble 1.0)) 0 (t.sampleRate * 60 / 120))
    (renderBeat signal (real (CFloat.ofDouble 1.0)) (t.sampleRate * 60 / 120)
      (t.sampleRate * 60 / 120))
  rw [hlen] at happ
  rw [happ] at hb
  refine ⟨hb, hlen, renderBeat_length _ _ _ _, ?_, rfl, rfl, ?_⟩
  · rw [hb, List.length_append, renderBeat_length, renderBeat_length]
    omega
  · rw [hs, List.append_assoc]
    rfl

/-- Witness of C15 at sample rate 4, on a session that held one sample with its cursor at 7,
with the voice signal 0, 1, 2, ... and every C float read as 120: the buffer holds
2 * (4 * 60 / 120) = 4 samples after the script. -/
theorem timeline_two_slots_witness :
    (fun _ : CFloat => (120 : ℚ)) (CFloat.ofDouble (Float.ofInt 120)) = 120 ∧
    (twoSlotScript (timelineHost (fun k => (k : ℚ)) (fun _ => 120)) (.integer 120) (.number 1.0)
      { sampleRate := 4, active := false, tempoBPM := 0, cursor := 7, buffer := [1],
        sounds := [], nextId := 5 }).2.2.engine.buffer.length = 2 * (4 * 60 / 120) :=
  ⟨rfl,
    (timeline_two_slots (fun k => (k : ℚ)) (fun _ => 120)
      { sampleRate := 4, active := false, tempoBPM := 0, cursor := 7, buffer := [1],
        sounds := [], nextId := 5 } rfl).2.2.2.1⟩

/-! ## The pending character -/

/-- The C string of one byte and a terminator: empty when the byte is zero. -/
theorem cstr_byte (b : Fin 256) :
    cstr [b, 0] = if b = 0 then "" else String.mk [Char.ofNat b.val] := by
  by_cases h : b = 0
  · subst h
    rfl
  · simp [cstr, List.takeWhile, h]

/-- The low eight bits of a natural number, as a `uint8_t`. -/
theorem toUInt8_natCast (n : Nat) : (toUInt8 (n : Int)).val = n % 256 := by
  show ((n : Int) % 256).toNat = n % 256
  omega

/-- What `key_get_char` hands back, for every answer of the engine. -/
theorem key_get_char_eval {σ : Type} (H : Host σ) (args : List LuaValue) (s : σ) :
    (callBinding lua_st_key_get_char H args s).1 = .ok 1 ∧
    (callBinding lua_st_key_get_char H args s).2.calls = [.st_key_get_char] ∧
    results (callBinding lua_st_key_get_char H args s) =
      some [if (H.call .st_key_get_char s).1 ≠ 0
        then .string (cstr [toUInt8 ((H.call .st_key_get_char s).1 : Nat), 0]) else .nil] := by
  by_cases h : (H.call .st_key_get_char s).1 = 0
  · simp [callBinding, lua_st_key_get_char, bind, LuaM.bind, engine, pure, results,
      lua_pushstring, lua_pushnil, h]
  · simp [callBinding, lua_st_key_get_char, bind, LuaM.bind, engine, pure, results,
      lua_pushstring, lua_pushnil, h]

/-- C22 (as stated, refuted): the character code 256 is not zero, yet
`key_get_char` returns the empty string, which has no character: the low eight
bits of the code are the terminator of the C string. -/
theorem key_get_char_code_256_gives_empty_string :
    (256 : Nat) ≠ 0 ∧
    (keyCharHost.call .st_key_get_char 256).1 = 256 ∧
    results (callBinding lua_st_key_get_char keyCharHost [] 256) = some [.string ""] ∧
    ("").length = 0 :=
  ⟨by decide, rfl, rfl, rfl⟩

/-- C22 (amended): `key_get_char` returns exactly one value, whatever the
arguments: nil when the pending character code is 0; for every code whose low
eight bits are not all zero, the string of exactly one character, the
character whose byte is those low eight bits; and for a code that is not zero
but whose low eight bits are (256, 512, ...), the empty string. -/
theorem key_get_char_low_byte {σ : Type} (H : Host σ) (args : List LuaValue) (s : σ) :
    (callBinding lua_st_key_get_char H args s).1 = .ok 1 ∧
    ((H.call .st_key_get_char s).1 = 0 →
      results (callBinding lua_st_key_get_char H args s) = some [.nil]) ∧
    ((H.call .st_key_get_char s).1 % 256 ≠ 0 →
      results (callBinding lua_st_key_get_char H args s)
        = some [.string (String.mk [Char.ofNat ((H.call .st_key_get_char s).1 % 256)])] ∧
      (String.mk [Char.ofNat ((H.call .st_key_get_char s).1 % 256)]).length = 1) ∧
    ((H.call .st_key_get_char s).1 ≠ 0 → (H.call .st_key_get_char s).1 % 256 = 0 →
      results (callBinding lua_st_key_get_char H args s) = some [.string ""]) := by
  obtain ⟨h1, _, h3⟩ := key_get_char_eval H args s
  have hb := toUInt8_natCast (H.call .st_key_get_char s).1
  refine ⟨h1, fun h0 => ?_, fun hlow => ⟨?_, rfl⟩, fun hne hlow => ?_⟩
  · rw [h3]
    simp [h0]
  · have hne : (H.call .st_key_get_char s).1 ≠ 0 := by
      intro h0
      rw [h0] at hlow
      exact hlow rfl
    have hb0 : toUInt8 ((H.call .st_key_get_char s).1 : Nat) ≠ 0 := by
      intro h
      rw [h] at hb
      exact hlow hb.symm
    rw [h3, if_pos hne, cstr_byte, if_neg hb0, hb]
  · have hb0 : toUInt8 ((H.call .st_key_get_char s).1 : Nat) = 0 := by
      apply Fin.ext
      rw [hb, hlow]
      rfl
    rw [h3, if_pos hne, cstr_byte, if_pos hb0]

/-- Witness of C22 (amended) on the host whose pending code is 65: `key_get_char`
returns the one-character string "A". -/
theorem key_get_char_low_byte_witness :
    (keyCharHost.call .st_key_get_char 65).1 % 256 ≠ 0 ∧
    results (callBinding lua_st_key_get_char keyCharHost [] 65)
      = some [.string (String.mk [Char.ofNat ((keyCharHost.call .st_key_get_char 65).1 % 256)])] :=
  ⟨by decide, ((key_get_char_low_byte keyCharHost [] 65).2.2.1 (by decide)).1⟩

/-! ## The standard palette -/

/-- The outcome of `sprite_set_standard_palette` on two integers. -/
theorem sprite_set_standard_palette_eval {σ : Type} (H : Host σ) (s : σ) (sprite p : Int) :
    callBinding lua_st_sprite_set_standard_palette H [.integer sprite, .integer p] s =
      if toInt32 p < 0 ∨ toInt32 p > 31 then
        (.ok 1, { stack := [.integer sprite, .integer p, .boolean false], engine := s,
                  calls := [] })
      else
        (.ok 1,
          { stack := [.integer sprite, .integer p,
              .boolean (H.call (.st_sprite_set_standard_palette (toInt32 sprite)
                (toUInt8 (toInt32 p))) s).1],
            engine := (H.call (.st_sprite_set_standard_palette (toInt32 sprite)
                (toUInt8 (toInt32 p))) s).2,
            calls := [.st_sprite_set_standard_palette (toInt32 sprite)
                (toUInt8 (toInt32 p))] }) := by
  by_cases h : toInt32 p < 0 ∨ toInt32 p > 31
  · rw [if_pos h]
    simp [callBinding, lua_st_sprite_set_standard_palette, bind, LuaM.bind,
      luaL_checkinteger, index2value, tointeger, pure, h, lua_pushboolean]
  · rw [if_neg h]
    simp [callBinding, lua_st_sprite_set_standard_palette, bind, LuaM.bind,
      luaL_checkinteger, index2value, tointeger, pure, h, lua_pushboolean, engine]
    exact pushboolean_of_bool _

/-- C24 (as stated, refuted): the palette id 4294967301 is outside 0..31, yet
`sprite_set_standard_palette(1, 4294967301)` calls the engine: as a C `int` the
id is 5. -/
theorem standard_palette_id_wraps :
    ¬ ((0 : Int) ≤ 4294967301 ∧ (4294967301 : Int) ≤ 31) ∧
    (callBinding lua_st_sprite_set_standard_palette idleHost
      [.integer 1, .integer 4294967301] ()).2.calls
      = [.st_sprite_set_standard_palette 1 5] :=
  ⟨by decide, rfl⟩

/-- C24 (amended): for a palette id in the range of a 32-bit `int` (and any
integer as the sprite id).  Outside 0..31 `sprite_set_standard_palette` returns
false and makes no engine call; in 0..31 it makes exactly one engine call, with
the palette id unchanged by the 8-bit cast, returns the engine's answer and
leaves the engine as that call left it.  So it returns without an engine call
iff the palette id is outside 0..31. -/
theorem standard_palette_range_check {σ : Type} (H : Host σ) (s : σ) (sprite p : Int)
    (hp1 : -2 ^ 31 ≤ p) (hp2 : p < 2 ^ 31) :
    (callBinding lua_st_sprite_set_standard_palette H [.integer sprite, .integer p] s).1
      = .ok 1 ∧
    ((p < 0 ∨ p > 31) →
      results (callBinding lua_st_sprite_set_standard_palette H
        [.integer sprite, .integer p] s) = some [.boolean false] ∧
      (callBinding lua_st_sprite_set_standard_palette H
        [.integer sprite, .integer p] s).2.calls = []) ∧
    ((0 ≤ p ∧ p ≤ 31) →
      ∃ id : Fin 256, (id.val : Int) = p ∧
        (callBinding lua_st_sprite_set_standard_palette H
          [.integer sprite, .integer p] s).2.calls
          = [.st_sprite_set_standard_palette (toInt32 sprite) id] ∧
        results (callBinding lua_st_sprite_set_standard_palette H
          [.integer sprite, .integer p] s)
          = some [.boolean (H.call (.st_sprite_set_standard_palette (toInt32 sprite) id) s).1] ∧
        (callBinding lua_st_sprite_set_standard_palette H
          [.integer sprite, .integer p] s).2.engine
          = (H.call (.st_sprite_set_standard_palette (toInt32 sprite) id) s).2) ∧
    ((callBinding lua_st_sprite_set_standard_palette H
        [.integer sprite, .integer p] s).2.calls = [] ↔ (p < 0 ∨ p > 31)) := by
  have hv : toInt32 p = p := toInt32_of_range p hp1 hp2
  have e := sprite_set_standard_palette_eval H s sprite p
  rw [hv] at e
  by_cases h : p < 0 ∨ p > 31
  · rw [if_pos h] at e
    rw [e]
    refine ⟨rfl, fun _ => ⟨rfl, rfl⟩, fun h2 => absurd h (by omega), ?_⟩
    exact ⟨fun _ => h, fun _ => rfl⟩
  · rw [if_neg h] at e
    rw [e]
    refine ⟨rfl, fun h2 => absurd h2 h, fun _ => ⟨toUInt8 p, ?_, rfl, rfl, rfl⟩, ?_⟩
    · show (((p % 256).toNat : Nat) : Int) = p
      omega
    · constructor
      · intro hc
        cases hc
      · intro h2
        exact absurd h2 h

/-- Witness of C24 (amended) on the host that answers false: palette 32 is
refused without an engine call. -/
theorem standard_palette_range_check_witness :
    (-2 ^ 31 ≤ (32 : Int) ∧ (32 : Int) < 2 ^ 31) ∧
    ((32 : Int) < 0 ∨ (32 : Int) > 31) ∧
    (callBinding lua_st_sprite_set_standard_palette idleHost
      [.integer 7, .integer 32] ()).2.calls = [] :=
  ⟨⟨by decide, by decide⟩, by decide,
    ((standard_palette_range_check idleHost () 7 32 (by decide) (by decide)).2.1
      (by decide)).2⟩

/-! ## Loading an indexed sprite from RGBA data -/

/-- The top of the stack is at index -1. -/
theorem index2valueRel_top (stack : List LuaValue) (v : LuaValue) :
    index2valueRel (stack ++ [v]) (-1) = some v := by
  simp [index2valueRel]

/-- The value below the top is at index -2. -/
theorem index2valueRel_below_top (stack : List LuaValue) (u v : LuaValue) :
    index2valueRel (stack ++ [u, v]) (-2) = some u := by
  have e : (stack ++ [u, v]).length - 2 = stack.length := by simp
  have g : (stack ++ [u, v]).get? stack.length = some u := by
    rw [List.get?_eq_getElem?, List.getElem?_append_right (le_refl _)]
    simp
  simp only [index2valueRel]
  rw [if_neg (by decide), if_pos ⟨by decide, by simp⟩]
  show (stack ++ [u, v]).get? ((stack ++ [u, v]).length - 2) = some u
  rw [e, g]

/-- Pushing a value leaves the values below it where they are. -/
theorem index2value_append (stack : List LuaValue) (v x : LuaValue) (idx : Nat)
    (h : index2value stack idx = some x) : index2value (stack ++ [v]) idx = some x := by
  unfold index2value at *
  split at h
  · cases h
  · rename_i h0
    rw [if_neg h0]
    have hlt : idx - 1 < stack.length := by
      rcases Nat.lt_or_ge (idx - 1) stack.length with h1 | h1
      · exact h1
      · rw [List.get?_eq_none.2 h1] at h
        cases h
    rw [List.get?_eq_getElem?, List.getElem?_append_left hlt, ← List.get?_eq_getElem?]
    exact h

/-- One round of the pixel loop on a convertible entry: the byte is stored and the
state is as before. -/
theorem read_pixels_step {σ : Type} (H : Host σ) (st : LuaState σ) (r : Nat) (t : LuaTable)
    (n i : Nat) (pixels : List (Fin 256)) (v : Int)
    (hr : index2value st.stack 1 = some (.table r)) (ht : st.tables.get? r = some t)
    (hv : tointeger H (t.rawget ((i : Int) + 1)) = some v) (hi : i < pixels.length) :
    read_pixels (n + 1) i pixels H st = read_pixels n (i + 1) (pixels.set i (toUInt8 v)) H st := by
  conv_lhs => unfold read_pixels
  simp only [bind, LuaM.bind, lua_rawgeti, hr, ht, luaL_checkintegerAt, index2valueRel_top,
    Option.bind, hv, vector_store, if_pos hi, pure, lua_pop]
  have e : (st.stack ++ [t.rawget ((i : Int) + 1)]).length - 1 = st.stack.length := by simp
  simp [e]

/-- The pixel loop on a table whose entries from `i + 1` to `i + n` are convertible
to integers: it ends normally, in the state it started in, with those `n` bytes
stored and every other byte untouched. -/
theorem read_pixels_spec {σ : Type} (H : Host σ) (st : LuaState σ) (r : Nat) (t : LuaTable)
    (vals : Nat → Int)
    (hr : index2value st.stack 1 = some (.table r)) (ht : st.tables.get? r = some t) :
    ∀ (n i : Nat) (pixels : List (Fin 256)), i + n ≤ pixels.length →
      (∀ j : Nat, i ≤ j → j < i + n → tointeger H (t.rawget ((j : Int) + 1)) = some (vals j)) →
      ∃ out : List (Fin 256), read_pixels n i pixels H st = (.ok out, st) ∧
        out.length = pixels.length ∧
        ∀ j : Nat, out.get? j =
          if i ≤ j ∧ j < i + n then some (toUInt8 (vals j)) else pixels.get? j := by
  intro n
  induction n with
  | zero =>
    intro i pixels _ _
    refine ⟨pixels, rfl, rfl, fun j => ?_⟩
    rw [if_neg (by omega)]
  | succ n ih =>
    intro i pixels hlen hvals
    rw [read_pixels_step H st r t n i pixels (vals i) hr ht (hvals i (le_refl i) (by omega))
      (by omega)]
    obtain ⟨out, h1, h2, h3⟩ := ih (i + 1) (pixels.set i (toUInt8 (vals i)))
      (by rw [List.length_set]; omega) (fun j hj1 hj2 => hvals j (by omega) (by omega))
    refine ⟨out, h1, by rw [h2, List.length_set], fun j => ?_⟩
    rw [h3 j]
    by_cases hj : i + 1 ≤ j ∧ j < i + 1 + n
    · rw [if_pos hj, if_pos (by omega)]
    · rw [if_neg hj]
      by_cases hij : j = i
      · subst hij
        rw [if_pos (by omega)]
        simp [List.getElem?_set]
        omega
      · rw [if_neg (by omega)]
        simp [List.getElem?_set]
        omega

/-- The pixel loop over a whole zeroed vector gives the bytes of the table. -/
theorem read_pixels_all {σ : Type} (H : Host σ) (st : LuaState σ) (r : Nat) (t : LuaTable)
    (vals : Nat → Int) (n : Nat)
    (hr : index2value st.stack 1 = some (.table r)) (ht : st.tables.get? r = some t)
    (hvals : ∀ j : Nat, j < n → tointeger H (t.rawget ((j : Int) + 1)) = some (vals j)) :
    read_pixels n 0 (List.replicate n 0) H st = (.ok (rgbaBytes vals n), st) := by
  obtain ⟨out, h1, h2, h3⟩ := read_pixels_spec H st r t vals hr ht n 0 (List.replicate n 0)
    (by simp) (fun j _ hj => hvals j (by omega))
  have e : out = rgbaBytes vals n := by
    apply List.ext_get?
    intro j
    rw [h3 j]
    by_cases hj : j < n
    · rw [if_pos ⟨Nat.zero_le j, by omega⟩]
      simp [rgbaBytes, List.getElem?_map, List.getElem?_range hj]
    · rw [if_neg (by omega)]
      rw [List.get?_eq_none.2 (by simp; omega), List.get?_eq_none.2 (by simp [rgbaBytes]; omega)]
  rw [h1, e]

/-- The check `luaL_checkinteger(L, -1)` on a value that is not convertible to an
integer raises its bad-argument error and leaves the state as it is. -/
theorem luaL_checkintegerAt_top_none {σ : Type} (H : Host σ) (st : LuaState σ) (v : LuaValue)
    (hv : index2valueRel st.stack (-1) = some v) (hk : tointeger H v = none) :
    ∃ msg : String, luaL_checkintegerAt (-1) H st = (.error (.badArgumentAt (-1) msg), st) := by
  unfold luaL_checkintegerAt
  rw [hv]
  have e : (some v).bind (tointeger H) = none := hk
  rw [e]
  dsimp only
  split
  · exact ⟨_, rfl⟩
  · exact ⟨_, rfl⟩

/-- The pixel loop on a table whose first entry that is not convertible to an
integer is entry `k + 1`, inside the range it reads: it raises the bad-argument
error of `luaL_checkinteger(L, -1)`, having made no engine call. -/
theorem read_pixels_bad_entry {σ : Type} (H : Host σ) (st : LuaState σ) (r : Nat) (t : LuaTable)
    (vals : Nat → Int) (k : Nat)
    (hr : index2value st.stack 1 = some (.table r)) (ht : st.tables.get? r = some t)
    (hk : tointeger H (t.rawget ((k : Int) + 1)) = none) :
    ∀ (n i : Nat) (pixels : List (Fin 256)), i + n ≤ pixels.length → i ≤ k → k < i + n →
      (∀ j : Nat, i ≤ j → j < k → tointeger H (t.rawget ((j : Int) + 1)) = some (vals j)) →
      ∃ (msg : String) (st1 : LuaState σ),
        read_pixels n i pixels H st = (.error (.badArgumentAt (-1) msg), st1) ∧
        st1.calls = st.calls ∧ st1.engine = st.engine := by
  intro n
  induction n with
  | zero =>
    intro i pixels _ h1 h2 _
    omega
  | succ n ih =>
    intro i pixels hlen h1 h2 hvals
    by_cases hik : i = k
    · subst hik
      obtain ⟨msg, hmsg⟩ := luaL_checkintegerAt_top_none H
        { st with stack := st.stack ++ [t.rawget ((i : Int) + 1)] } _
        (index2valueRel_top st.stack _) hk
      refine ⟨msg, { st with stack := st.stack ++ [t.rawget ((i : Int) + 1)] }, ?_, rfl, rfl⟩
      conv_lhs => unfold read_pixels
      simp only [bind, LuaM.bind, lua_rawgeti, hr, ht]
      rw [hmsg]
    · rw [read_pixels_step H st r t n i pixels (vals i) hr ht (hvals i (le_refl i) (by omega))
        (by omega)]
      exact ih (i + 1) (pixels.set i (toUInt8 (vals i))) (by rw [List.length_set]; omega)
        (by omega) (by omega) (fun j hj1 hj2 => hvals j (by omega) hj2)

/-- Writing back the table that is already there changes nothing. -/
theorem set_get?_self {α : Type} : ∀ (l : List α) (i : Nat) (a : α),
    l.get? i = some a → l.set i a = l
  | [], _, _, h => by cases h
  | x :: l, 0, a, h => by
    have e : x = a := Option.some.inj h
    subst e
    rfl
  | x :: l, i + 1, a, h => by
    show x :: l.set i a = x :: l
    rw [set_get?_self l i a h]

/-- The palette loop below a table of the heap: it ends normally, the stack as it
was, with `palette[j]` stored under key `j + 1` for `j` from `i` to `i + n - 1`. -/
theorem push_palette_spec {σ : Type} (H : Host σ) (palette : Nat → Fin 256) (ref : Nat) :
    ∀ (n i : Nat) (st : LuaState σ) (below : List LuaValue) (t0 : LuaTable),
      st.stack = below ++ [.table ref] → st.tables.get? ref = some t0 →
      push_palette palette n i H st =
        (.ok (), { st with tables := (st.tables.set ref
          (((List.range' i n).reverse.map fun (j : Nat) =>
            ((j : Int) + 1, LuaValue.integer (palette j).val)) ++ t0)) }) := by
  intro n
  induction n with
  | zero =>
    intro i st below t0 _ ht
    show (Except.ok (), st) = _
    have e : st.tables.set ref ([] ++ t0) = st.tables := set_get?_self _ _ _ ht
    simp only [List.range'_zero, List.reverse_nil, List.map_nil]
    rw [e]
  | succ n ih =>
    intro i st below t0 hs ht
    have hlt : ref < st.tables.length := by
      rcases Nat.lt_or_ge ref st.tables.length with h | h
      · exact h
      · rw [List.get?_eq_none.2 h] at ht
        cases ht
    conv_lhs => unfold push_palette
    have hb : index2valueRel (st.stack ++ [LuaValue.integer (palette i).val]) (-2)
        = some (.table ref) := by
      rw [hs, List.append_assoc]
      exact index2valueRel_below_top below _ _
    have hlen : (st.stack ++ [LuaValue.integer ((palette i).val : Int)]).length - 1
        = st.stack.length := by simp
    simp only [bind, LuaM.bind, lua_pushinteger, lua_rawseti, hb, List.getLast?_append,
      List.getLast?_singleton, Option.or, ht, hlen, List.take_left']
    rw [ih (i + 1) _ below ((((i : Nat) : Int) + 1, LuaValue.integer (palette i).val) :: t0)
      (by simpa using hs) (by simp [List.getElem?_set, hlt])]
    simp [List.range'_succ, List.set_set]

/-- The size the binding computes, `(width * height) * 4` in C `int` arithmetic,
is the product itself when that fits a 32-bit `int` and neither factor is
negative. -/
theorem expected_size_exact (w h : Int) (hw : 0 ≤ w) (hh : 0 ≤ h) (hsize : w * h * 4 < 2 ^ 31) :
    toInt32 (toInt32 (toInt32 w * toInt32 h) * 4) = w * h * 4 := by
  have hwh : 0 ≤ w * h := Int.mul_nonneg hw hh
  by_cases h0 : h = 0
  · subst h0
    have e : toInt32 0 = 0 := by decide
    rw [e, Int.mul_zero, e]
    simp [e]
  · by_cases w0 : w = 0
    · subst w0
      have e : toInt32 0 = 0 := by decide
      rw [e, Int.zero_mul, e]
      simp [e]
    · have hpos : 0 < h := by omega
      have wpos : 0 < w := by omega
      have h1 : w ≤ w * h := by nlinarith
      have h2 : h ≤ w * h := by nlinarith
      rw [toInt32_of_range w (by omega) (by omega), toInt32_of_range h (by omega) (by omega),
        toInt32_of_range (w * h) (by omega) (by omega),
        toInt32_of_range (w * h * 4) (by omega) (by omega)]

/-- The entries of the table the palette loop builds. -/
theorem lookup_palette_entries (f : Nat → LuaValue) : ∀ (n i : Nat), i < n →
    ((List.range n).reverse.map fun (j : Nat) => ((j : Int) + 1, f j)).lookup ((i : Int) + 1)
      = some (f i)
  | 0, _, h => absurd h (Nat.not_lt_zero _)
  | n + 1, i, h => by
    rw [List.range_succ, List.reverse_append, List.reverse_singleton, List.singleton_append,
      List.map_cons, List.lookup_cons]
    by_cases hin : i = n
    · subst hin
      simp
    · have hne : (((i : Int) + 1) == ((n : Int) + 1)) = false := by
        rw [beq_eq_false_iff_ne]
        omega
      rw [hne]
      exact lookup_palette_entries f n i (by omega)

/-- The palette table has 64 entries, and entry `i + 1` is `palette[i]`. -/
theorem paletteTable_spec (palette : Nat → Fin 256) :
    (paletteTable palette).length = 64 ∧
    ∀ i : Nat, i < 64 →
      (paletteTable palette).rawget ((i : Int) + 1) = .integer (palette i).val := by
  refine ⟨by simp [paletteTable], fun i hi => ?_⟩
  unfold LuaTable.rawget paletteTable
  rw [lookup_palette_entries (fun j => LuaValue.integer (palette j).val) 64 i hi]

/-- The outcome of `sprite_load_indexed_from_rgba` on a table of the heap whose
entries 1..`4wh` convert to the integers `vals`. -/
theorem sprite_load_indexed_eval {σ : Type} (H : Host σ) (s : σ) (tables : List LuaTable)
    (r : Nat) (t : LuaTable) (w h : Int) (vals : Nat → Int)
    (hw : 0 ≤ w) (hh : 0 ≤ h) (hsize : w * h * 4 < 2 ^ 31)
    (ht : tables.get? r = some t)
    (hvals : ∀ i : Nat, (i : Int) < w * h * 4 →
      tointeger H (t.rawget ((i : Int) + 1)) = some (vals i)) :
    callBindingWith tables lua_st_sprite_load_indexed_from_rgba H
        [.table r, .integer w, .integer h] s =
      if (H.call (.st_sprite_load_indexed_from_rgba (rgbaBytes vals (w * h * 4).toNat)
          (toInt32 w) (toInt32 h)) s).1.1 < 0 then
        (.ok 1,
          { stack := [.table r, .integer w, .integer h, .nil],
            engine := (H.call (.st_sprite_load_indexed_from_rgba
              (rgbaBytes vals (w * h * 4).toNat) (toInt32 w) (toInt32 h)) s).2,
            calls := [.st_sprite_load_indexed_from_rgba (rgbaBytes vals (w * h * 4).toNat)
              (toInt32 w) (toInt32 h)],
            tables := tables })
      else
        (.ok 2,
          { stack := [.table r, .integer w, .integer h,
              .integer (H.call (.st_sprite_load_indexed_from_rgba
                (rgbaBytes vals (w * h * 4).toNat) (toInt32 w) (toInt32 h)) s).1.1,
              .table tables.length],
            engine := (H.call (.st_sprite_load_indexed_from_rgba
              (rgbaBytes vals (w * h * 4).toNat) (toInt32 w) (toInt32 h)) s).2,
            calls := [.st_sprite_load_indexed_from_rgba (rgbaBytes vals (w * h * 4).toNat)
              (toInt32 w) (toInt32 h)],
            tables := tables ++ [paletteTable (H.call (.st_sprite_load_indexed_from_rgba
              (rgbaBytes vals (w * h * 4).toNat) (toInt32 w) (toInt32 h)) s).1.2] }) := by
  have hsz := expected_size_exact w h hw hh hsize
  have hnn : ¬ (w * h * 4 < 0) := by
    have := Int.mul_nonneg hw hh
    omega
  have hread := read_pixels_all H
    ({ stack := [.table r, .integer w, .integer h], engine := s, calls := [],
       tables := tables } : LuaState σ) r t vals (w * h * 4).toNat rfl ht
    (fun j hj => hvals j (by omega))
  simp only [callBindingWith, lua_st_sprite_load_indexed_from_rgba, bind, LuaM.bind,
    luaL_checktype_LUA_TTABLE, luaL_checkinteger, index2value, tointeger, pure]
  simp only [List.get?, Option.bind, ↓reduceIte, Nat.reduceSub, Nat.reduceEqDiff,
    OfNat.ofNat_ne_zero, hsz, if_neg hnn]
  unfold LuaM.bind
  rw [hread]
  dsimp only
  by_cases hid : (H.call (.st_sprite_load_indexed_from_rgba (rgbaBytes vals (w * h * 4).toNat)
      (toInt32 w) (toInt32 h)) s).1.1 < 0
  · rw [if_pos hid]
    simp only [engine, if_pos hid, lua_pushnil]
    rfl
  · rw [if_neg hid]
    simp only [engine, if_neg hid, lua_pushinteger, lua_createtable]
    rw [push_palette_spec H _ tables.length 64 0 _
      [.table r, .integer w, .integer h, .integer (H.call (.st_sprite_load_indexed_from_rgba
        (rgbaBytes vals (w * h * 4).toNat) (toInt32 w) (toInt32 h)) s).1.1] [] rfl
      (by simp)]
    simp [paletteTable, List.range_eq_range']

/-- The outcome of `sprite_load_indexed_from_rgba` on a table whose first entry
that does not convert to an integer is entry `k + 1`, with `k < 4wh`. -/
theorem sprite_load_indexed_bad_entry {σ : Type} (H : Host σ) (s : σ) (tables : List LuaTable)
    (r : Nat) (t : LuaTable) (w h : Int) (vals : Nat → Int) (k : Nat)
    (hw : 0 ≤ w) (hh : 0 ≤ h) (hsize : w * h * 4 < 2 ^ 31)
    (ht : tables.get? r = some t) (hk : (k : Int) < w * h * 4)
    (hvals : ∀ i : Nat, i < k → tointeger H (t.rawget ((i : Int) + 1)) = some (vals i))
    (hbad : tointeger H (t.rawget ((k : Int) + 1)) = none) :
    ∃ msg : String,
      (callBindingWith tables lua_st_sprite_load_indexed_from_rgba H
        [.table r, .integer w, .integer h] s).1 = .error (.badArgumentAt (-1) msg) ∧
      (callBindingWith tables lua_st_sprite_load_indexed_from_rgba H
        [.table r, .integer w, .integer h] s).2.calls = [] := by
  have hsz := expected_size_exact w h hw hh hsize
  have hnn : ¬ (w * h * 4 < 0) := by
    have := Int.mul_nonneg hw hh
    omega
  obtain ⟨msg, st1, hread, hc, _⟩ := read_pixels_bad_entry H
    ({ stack := [.table r, .integer w, .integer h], engine := s, calls := [],
       tables := tables } : LuaState σ) r t vals k rfl ht hbad (w * h * 4).toNat 0
    (List.replicate (w * h * 4).toNat 0) (by simp) (Nat.zero_le k) (by omega)
    (fun j _ hj => hvals j hj)
  refine ⟨msg, ?_⟩
  simp only [callBindingWith, lua_st_sprite_load_indexed_from_rgba, bind, LuaM.bind,
    luaL_checktype_LUA_TTABLE, luaL_checkinteger, index2value, tointeger, pure]
  simp only [List.get?, Option.bind, ↓reduceIte, Nat.reduceSub, Nat.reduceEqDiff,
    OfNat.ofNat_ne_zero, hsz, if_neg hnn]
  unfold LuaM.bind
  rw [hread]
  exact ⟨rfl, hc⟩

/-- C23: for every width `w ≥ 0` and height `h ≥ 0` with `4wh` below 2^31, and a
table (the first argument) whose entries 1..`4wh` are integers (or convert to
integers).  `sprite_load_indexed_from_rgba` hands the engine, in one call, a
buffer of exactly `4wh` bytes whose byte `i` is entry `i + 1` reduced modulo
256 (no store falls outside the buffer: the binding ends normally), with the
width and height; no entry past `4wh` is looked at.  It then returns a single
nil when the engine's id is negative, and otherwise the id followed by a new
table of 64 entries whose entry `i + 1` is palette byte `i`.  The entries are
read in order: when entry `k + 1` is the first that is not an integer, with
`k < 4wh`, the binding raises the bad-argument error of its check and makes no
engine call. -/
theorem sprite_load_indexed_from_rgba_spec {σ : Type} (H : Host σ) (s : σ)
    (tables : List LuaTable) (r : Nat) (t : LuaTable) (w h : Int) (vals : Nat → Int)
    (hw : 0 ≤ w) (hh : 0 ≤ h) (hsize : w * h * 4 < 2 ^ 31) (ht : tables.get? r = some t) :
    ((rgbaBytes vals (w * h * 4).toNat).length = (w * h * 4).toNat ∧
      ∀ i : Nat, i < (w * h * 4).toNat →
        (rgbaBytes vals (w * h * 4).toNat).get? i = some (toUInt8 (vals i)) ∧
        ((toUInt8 (vals i)).val : Int) = vals i % 256) ∧
    ((∀ i : Nat, (i : Int) < w * h * 4 →
        tointeger H (t.rawget ((i : Int) + 1)) = some (vals i)) →
      (callBindingWith tables lua_st_sprite_load_indexed_from_rgba H
        [.table r, .integer w, .integer h] s).2.calls = [rgbaLoadCall vals w h] ∧
      (callBindingWith tables lua_st_sprite_load_indexed_from_rgba H
        [.table r, .integer w, .integer h] s).2.engine = (H.call (rgbaLoadCall vals w h) s).2 ∧
      ((H.call (rgbaLoadCall vals w h) s).1.1 < 0 →
        (callBindingWith tables lua_st_sprite_load_indexed_from_rgba H
          [.table r, .integer w, .integer h] s).1 = .ok 1 ∧
        results (callBindingWith tables lua_st_sprite_load_indexed_from_rgba H
          [.table r, .integer w, .integer h] s) = some [.nil] ∧
        (callBindingWith tables lua_st_sprite_load_indexed_from_rgba H
          [.table r, .integer w, .integer h] s).2.tables = tables) ∧
      (0 ≤ (H.call (rgbaLoadCall vals w h) s).1.1 →
        (callBindingWith tables lua_st_sprite_load_indexed_from_rgba H
          [.table r, .integer w, .integer h] s).1 = .ok 2 ∧
        results (callBindingWith tables lua_st_sprite_load_indexed_from_rgba H
          [.table r, .integer w, .integer h] s)
          = some [.integer (H.call (rgbaLoadCall vals w h) s).1.1, .table tables.length] ∧
        (callBindingWith tables lua_st_sprite_load_indexed_from_rgba H
          [.table r, .integer w, .integer h] s).2.tables
          = tables ++ [paletteTable (H.call (rgbaLoadCall vals w h) s).1.2] ∧
        (paletteTable (H.call (rgbaLoadCall vals w h) s).1.2).length = 64 ∧
        ∀ i : Nat, i < 64 →
          (paletteTable (H.call (rgbaLoadCall vals w h) s).1.2).rawget ((i : Int) + 1)
            = .integer ((H.call (rgbaLoadCall vals w h) s).1.2 i).val)) ∧
    (∀ k : Nat, (k : Int) < w * h * 4 →
      (∀ i : Nat, i < k → tointeger H (t.rawget ((i : Int) + 1)) = some (vals i)) →
      tointeger H (t.rawget ((k : Int) + 1)) = none →
      ∃ msg : String,
        (callBindingWith tables lua_st_sprite_load_indexed_from_rgba H
          [.table r, .integer w, .integer h] s).1 = .error (.badArgumentAt (-1) msg) ∧
        (callBindingWith tables lua_st_sprite_load_indexed_from_rgba H
          [.table r, .integer w, .integer h] s).2.calls = []) := by
  refine ⟨⟨by simp [rgbaBytes], fun i hi => ⟨?_, ?_⟩⟩, fun hvals => ?_, fun k hk hv hbad =>
    sprite_load_indexed_bad_entry H s tables r t w h vals k hw hh hsize ht hk hv hbad⟩
  · simp [rgbaBytes, List.getElem?_map, List.getElem?_range hi]
  · show (((vals i % 256).toNat : Nat) : Int) = vals i % 256
    omega
  · have e := sprite_load_indexed_eval H s tables r t w h vals hw hh hsize ht hvals
    have hp := paletteTable_spec (H.call (rgbaLoadCall vals w h) s).1.2
    by_cases hid : (H.call (rgbaLoadCall vals w h) s).1.1 < 0
    · rw [if_pos hid] at e
      rw [e]
      exact ⟨rfl, rfl, fun _ => ⟨rfl, rfl, rfl⟩, fun h0 => absurd hid (by omega)⟩
    · rw [if_neg hid] at e
      rw [e]
      exact ⟨rfl, rfl, fun h0 => absurd h0 hid, fun _ => ⟨rfl, rfl, rfl, hp.1, hp.2⟩⟩

/-- Witness of C23 on a 1 x 1 image whose table holds 300, 0, 0, 255: the engine
receives the four bytes 44, 0, 0, 255 with width 1 and height 1. -/
theorem sprite_load_indexed_from_rgba_spec_witness :
    ((0 : Int) ≤ 1 ∧ (1 : Int) * 1 * 4 < 2 ^ 31) ∧
    (callBindingWith [[(1, .integer 300), (2, .integer 0), (3, .integer 0), (4, .integer 255)]]
      lua_st_sprite_load_indexed_from_rgba idleHost
      [.table 0, .integer 1, .integer 1] ()).2.calls
      = [rgbaLoadCall (fun i => [300, 0, 0, 255].getD i 0) 1 1] ∧
    rgbaBytes (fun i => [300, 0, 0, 255].getD i 0) 4 = [44, 0, 0, 255] :=
  ⟨⟨by decide, by decide⟩,
    ((sprite_load_indexed_from_rgba_spec idleHost ()
      [[(1, .integer 300), (2, .integer 0), (3, .integer 0), (4, .integer 255)]] 0
      [(1, .integer 300), (2, .integer 0), (3, .integer 0), (4, .integer 255)] 1 1
      (fun i => [300, 0, 0, 255].getD i 0) (by decide) (by decide) (by decide) rfl).2.1
      (fun i hi => by
        have h4 : i < 4 := by omega
        interval_cases i <;> rfl)).1,
    by decide⟩

/-! ## Result counts and pushed values -/

theorem stackNet_pure {σ α : Type} (a : α) : StackNet (pure a : LuaM σ α) 0 := by
  intro H st b st1 h
  cases h
  simp

theorem stackNet_bind {σ α β : Type} (m : LuaM σ α) (f : α → LuaM σ β) (j k : Int)
    (hm : StackNet m j) (hf : ∀ a, StackNet (f a) k) : StackNet (m >>= f) (j + k) := by
  intro H st b st2 h
  simp only [bind, LuaM.bind] at h
  rcases hr : m H st with ⟨r, st1⟩
  rw [hr] at h
  cases r with
  | error e => cases h
  | ok a =>
    have h1 := hm H st a st1 hr
    have h2 := hf a H st1 b st2 h
    omega

theorem stackNet_ite {σ α : Type} (c : Prop) [Decidable c] (m n : LuaM σ α) (k : Int)
    (hm : StackNet m k) (hn : StackNet n k) : StackNet (if c then m else n) k := by
  split
  · exact hm
  · exact hn

theorem stackNet_raise {σ α : Type} (e : LuaError) (k : Int) :
    StackNet (raise e : LuaM σ α) k := by
  intro H st b st1 h
  cases h

theorem returnsPushed_pure {σ α : Type} (count : α → Int) (a : α) (hn : 0 ≤ count a) :
    ReturnsPushed count (pure a : LuaM σ α) (count a) := by
  intro H st b st1 h
  cases h
  exact ⟨hn, by simp⟩

theorem returnsPushed_bind {σ α β : Type} (count : β → Int) (m : LuaM σ α)
    (f : α → LuaM σ β) (j base : Int)
    (hm : StackNet m j) (hf : ∀ a, ReturnsPushed count (f a) (base + j)) :
    ReturnsPushed count (m >>= f) base := by
  intro H st b st2 h
  simp only [bind, LuaM.bind] at h
  rcases hr : m H st with ⟨r, st1⟩
  rw [hr] at h
  cases r with
  | error e => cases h
  | ok a =>
    have h1 := hm H st a st1 hr
    have h2 := hf a H st1 b st2 h
    exact ⟨h2.1, by omega⟩

theorem returnsPushed_bind_counted {σ α β : Type} (cm : α → Int) (count : β → Int)
    (m : LuaM σ α) (f : α → LuaM σ β) (base : Int)
    (hm : ReturnsPushed cm m 0) (hf : ∀ a, 0 ≤ cm a → ReturnsPushed count (f a) (base + cm a)) :
    ReturnsPushed count (m >>= f) base := by
  intro H st b st2 h
  simp only [bind, LuaM.bind] at h
  rcases hr : m H st with ⟨r, st1⟩
  rw [hr] at h
  cases r with
  | error e => cases h
  | ok a =>
    have h1 := hm H st a st1 hr
    have h2 := hf a h1.1 H st1 b st2 h
    exact ⟨h2.1, by omega⟩

theorem returnsPushed_ite {σ α : Type} (count : α → Int) (c : Prop) [Decidable c]
    (m n : LuaM σ α) (base : Int)
    (hm : ReturnsPushed count m base) (hn : ReturnsPushed count n base) :
    ReturnsPushed count (if c then m else n) base := by
  split
  · exact hm
  · exact hn

theorem returnsPushed_raise {σ α : Type} (count : α → Int) (e : LuaError) (base : Int) :
    ReturnsPushed count (raise e : LuaM σ α) base := by
  intro H st b st1 h
  cases h

theorem countsItsPushes_of_returnsPushed {σ : Type} (f : LuaM σ Int)
    (h : ReturnsPushed id f 0) : CountsItsPushes f := by
  intro H st n st1 hr
  have := h H st n st1 hr
  exact ⟨this.1, by simpa using this.2⟩

theorem stackNet_engine {σ : Type} (c : EngineCall) : StackNet (engine c : LuaM σ c.Ret) 0 := by
  intro H st a st1 h
  cases h
  simp

theorem stackNet_pushinteger {σ : Type} (n : Int) : StackNet (lua_pushinteger n : LuaM σ Unit) 1 := by
  intro H st a st1 h
  cases h
  simp

theorem stackNet_pushboolean {σ : Type} (n : Int) : StackNet (lua_pushboolean n : LuaM σ Unit) 1 := by
  intro H st a st1 h
  cases h
  simp

theorem stackNet_pushstring {σ : Type} (s : String) : StackNet (lua_pushstring s : LuaM σ Unit) 1 := by
  intro H st a st1 h
  cases h
  simp

theorem stackNet_pushnil {σ : Type} : StackNet (lua_pushnil : LuaM σ Unit) 1 := by
  intro H st a st1 h
  cases h
  simp

theorem stackNet_pushstring_ptr {σ : Type} (s : Option String) :
    StackNet (lua_pushstring_ptr s : LuaM σ Unit) 1 := by
  cases s
  · exact stackNet_pushnil
  · exact stackNet_pushstring _

theorem stackNet_pushlstring {σ : Type} (s : String) (len : Nat) :
    StackNet (lua_pushlstring s len : LuaM σ Unit) 1 :=
  stackNet_pushstring _

theorem stackNet_createtable {σ : Type} (a b : Int) :
    StackNet (lua_createtable a b : LuaM σ Unit) 1 := by
  intro H st x st1 h
  cases h
  simp

theorem stackNet_newtable {σ : Type} : StackNet (lua_newtable : LuaM σ Unit) 1 :=
  stackNet_createtable 0 0

theorem stackNet_checkinteger {σ : Type} (arg : Nat) :
    StackNet (luaL_checkinteger arg : LuaM σ Int) 0 := by
  intro H st a st1 h
  have e := luaL_checkinteger_state arg H st
  rw [h] at e
  cases e
  simp

theorem stackNet_optinteger {σ : Type} (arg : Nat) (d : Int) :
    StackNet (luaL_optinteger arg d : LuaM σ Int) 0 := by
  intro H st a st1 h
  unfold luaL_optinteger at h
  split at h
  · cases h
    simp
  · exact stackNet_checkinteger arg H st a st1 h

theorem stackNet_checkintegerAt {σ : Type} (idx : Int) :
    StackNet (luaL_checkintegerAt idx : LuaM σ Int) 0 := by
  intro H st a st1 h
  unfold luaL_checkintegerAt at h
  split at h
  · cases h
    simp
  · split at h <;> cases h

theorem stackNet_checkstring {σ : Type} (arg : Nat) :
    StackNet (luaL_checkstring arg : LuaM σ String) 0 := by
  intro H st a st1 h
  unfold luaL_checkstring at h
  split at h
  · cases h
    simp
  · cases h
    simp
  · cases h
    simp
  · cases h

theorem stackNet_checktype {σ : Type} (arg : Nat) :
    StackNet (luaL_checktype_LUA_TTABLE arg : LuaM σ Unit) 0 := by
  intro H st a st1 h
  unfold luaL_checktype_LUA_TTABLE at h
  split at h
  · cases h
    simp
  · cases h

theorem stackNet_rawgeti {σ : Type} (idx : Nat) (n : Int) :
    StackNet (lua_rawgeti idx n : LuaM σ Unit) 1 := by
  intro H st a st1 h
  unfold lua_rawgeti at h
  split at h
  · split at h
    · cases h
      simp
    · cases h
  · cases h

theorem stackNet_pop {σ : Type} : StackNet (lua_pop 1 : LuaM σ Unit) (-1) := by
  intro H st a st1 h
  unfold lua_pop at h
  split at h
  · rename_i hlen
    cases h
    simp
    omega
  · cases h

theorem stackNet_rawseti {σ : Type} (idx n : Int) :
    StackNet (lua_rawseti idx n : LuaM σ Unit) (-1) := by
  intro H st a st1 h
  unfold lua_rawseti at h
  split at h
  · rename_i v hv hlast
    have hne : st.stack ≠ [] := by
      intro he
      rw [he] at hlast
      cases hlast
    have hpos : 0 < st.stack.length := List.length_pos.2 hne
    split at h
    · cases h
      simp
      omega
    · cases h
  · cases h

theorem stackNet_vector_store {σ : Type} (px : List (Fin 256)) (i : Nat) (v : Fin 256) :
    StackNet (vector_store px i v : LuaM σ (List (Fin 256))) 0 := by
  unfold vector_store
  exact stackNet_ite _ _ _ _ (stackNet_pure _) (stackNet_raise _ _)

theorem stackNet_read_pixels {σ : Type} : ∀ (n i : Nat) (px : List (Fin 256)),
    StackNet (read_pixels n i px : LuaM σ (List (Fin 256))) 0
  | 0, _, _ => stackNet_pure _
  | n + 1, i, px => by
    unfold read_pixels
    have h := stackNet_bind (lua_rawgeti 1 ((i : Int) + 1) : LuaM σ Unit) _ 1 (-1)
      (stackNet_rawgeti _ _) (fun _ =>
        stackNet_bind (luaL_checkintegerAt (-1)) _ 0 (-1) (stackNet_checkintegerAt _) (fun v =>
          stackNet_bind (vector_store px i (toUInt8 v)) _ 0 (-1) (stackNet_vector_store _ _ _)
            (fun px1 =>
              stackNet_bind (lua_pop 1) _ (-1) 0 stackNet_pop (fun _ =>
                stackNet_read_pixels n (i + 1) px1))))
    exact h

theorem stackNet_push_palette {σ : Type} (p : Nat → Fin 256) : ∀ (n i : Nat),
    StackNet (push_palette p n i : LuaM σ Unit) 0
  | 0, _ => stackNet_pure _
  | n + 1, i => by
    unfold push_palette
    exact stackNet_bind (lua_pushinteger _ : LuaM σ Unit) _ 1 (-1) (stackNet_pushinteger _)
      (fun _ => stackNet_bind (lua_rawseti (-2) _) _ (-1) 0 (stackNet_rawseti _ _)
        (fun _ => stackNet_push_palette p n (i + 1)))

theorem stackNet_push_names {σ : Type} (names : Nat → Option String) : ∀ (n i : Nat),
    StackNet (push_names names n i : LuaM σ Unit) 0
  | 0, _ => stackNet_pure _
  | n + 1, i => by
    unfold push_names
    exact stackNet_bind (lua_pushstring_ptr _ : LuaM σ Unit) _ 1 (-1) (stackNet_pushstring_ptr _)
      (fun _ => stackNet_bind (lua_rawseti (-2) _) _ (-1) 0 (stackNet_rawseti _ _)
        (fun _ => stackNet_push_names names n (i + 1)))

theorem countsItsPushes_key_get_char {σ : Type} :
    CountsItsPushes (lua_st_key_get_char : LuaM σ Int) := by
  apply countsItsPushes_of_returnsPushed
  unfold lua_st_key_get_char
  refine returnsPushed_bind id _ _ 0 0 (stackNet_engine _) (fun ch => ?_)
  refine returnsPushed_bind id _ _ 1 _ (stackNet_ite _ _ _ _ (stackNet_pushstring _) stackNet_pushnil)
    (fun _ => ?_)
  exact returnsPushed_pure id 1 (by decide)

theorem countsItsPushes_get_error {σ : Type} :
    CountsItsPushes (lua_st_get_error : LuaM σ Int) := by
  apply countsItsPushes_of_returnsPushed
  unfold lua_st_get_error
  refine returnsPushed_bind id _ _ 0 0 (stackNet_engine _) (fun e => ?_)
  cases e with
  | none =>
    refine returnsPushed_bind id _ _ 1 _ stackNet_pushnil (fun _ => ?_)
    exact returnsPushed_pure id 1 (by decide)
  | some e =>
    dsimp only
    refine returnsPushed_ite id _ _ _ _ ?_ ?_
    · refine returnsPushed_bind id _ _ 1 _ (stackNet_pushstring _) (fun _ => ?_)
      exact returnsPushed_pure id 1 (by decide)
    · refine returnsPushed_bind id _ _ 1 _ stackNet_pushnil (fun _ => ?_)
      exact returnsPushed_pure id 1 (by decide)

theorem countsItsPushes_sprite_set_standard_palette {σ : Type} :
    CountsItsPushes (lua_st_sprite_set_standard_palette : LuaM σ Int) := by
  apply countsItsPushes_of_returnsPushed
  unfold lua_st_sprite_set_standard_palette
  refine returnsPushed_bind id _ _ 0 0 (stackNet_checkinteger _) (fun a => ?_)
  refine returnsPushed_bind id _ _ 0 _ (stackNet_checkinteger _) (fun b => ?_)
  refine returnsPushed_ite id _ _ _ _ ?_ ?_
  · refine returnsPushed_bind id _ _ 1 _ (stackNet_pushboolean _) (fun _ => ?_)
    exact returnsPushed_pure id 1 (by decide)
  · refine returnsPushed_bind id _ _ 0 _ (stackNet_engine _) (fun q => ?_)
    refine returnsPushed_bind id _ _ 1 _ (stackNet_pushboolean _) (fun _ => ?_)
    exact returnsPushed_pure id 1 (by decide)

theorem countsItsPushes_sprite_get_palette {σ : Type} :
    CountsItsPushes (lua_st_sprite_get_palette : LuaM σ Int) := by
  apply countsItsPushes_of_returnsPushed
  unfold lua_st_sprite_get_palette
  refine returnsPushed_bind id _ _ 0 0 (stackNet_checkinteger _) (fun a => ?_)
  refine returnsPushed_bind id _ _ 0 _ (stackNet_engine _) (fun r => ?_)
  refine returnsPushed_ite id _ _ _ _ ?_ ?_
  · refine returnsPushed_bind id _ _ 1 _ stackNet_pushnil (fun _ => ?_)
    exact returnsPushed_pure id 1 (by decide)
  · refine returnsPushed_bind id _ _ 1 _ (stackNet_createtable _ _) (fun _ => ?_)
    refine returnsPushed_bind id _ _ 0 _ (stackNet_push_palette _ _ _) (fun _ => ?_)
    exact returnsPushed_pure id 1 (by decide)

theorem countsItsPushes_sprite_load_indexed_from_rgba {σ : Type} :
    CountsItsPushes (lua_st_sprite_load_indexed_from_rgba : LuaM σ Int) := by
  apply countsItsPushes_of_returnsPushed
  unfold lua_st_sprite_load_indexed_from_rgba
  refine returnsPushed_bind id _ _ 0 0 (stackNet_checktype _) (fun _ => ?_)
  refine returnsPushed_bind id _ _ 0 _ (stackNet_checkinteger _) (fun a => ?_)
  refine returnsPushed_bind id _ _ 0 _ (stackNet_checkinteger _) (fun b => ?_)
  refine returnsPushed_ite id _ _ _ _ (returnsPushed_raise id _ _) ?_
  refine returnsPushed_bind id _ _ 0 _ (stackNet_read_pixels _ _ _) (fun px => ?_)
  refine returnsPushed_bind id _ _ 0 _ (stackNet_engine _) (fun r => ?_)
  refine returnsPushed_ite id _ _ _ _ ?_ ?_
  · refine returnsPushed_bind id _ _ 1 _ stackNet_pushnil (fun _ => ?_)
    exact returnsPushed_pure id 1 (by decide)
  · refine returnsPushed_bind id _ _ 1 _ (stackNet_pushinteger _) (fun _ => ?_)
    refine returnsPushed_bind id _ _ 1 _ (stackNet_createtable _ _) (fun _ => ?_)
    refine returnsPushed_bind id _ _ 0 _ (stackNet_push_palette _ _ _) (fun _ => ?_)
    exact returnsPushed_pure id 2 (by decide)

theorem countsItsPushes_asset_get_data {σ : Type} (toAssetID : Int → Int) :
    CountsItsPushes (lua_st_asset_get_data toAssetID : LuaM σ Int) := by
  apply countsItsPushes_of_returnsPushed
  unfold lua_st_asset_get_data
  refine returnsPushed_bind id _ _ 0 0 (stackNet_checkinteger _) (fun a => ?_)
  refine returnsPushed_bind id _ _ 0 _ (stackNet_engine _) (fun d => ?_)
  refine returnsPushed_bind id _ _ 0 _ (stackNet_engine _) (fun size => ?_)
  cases d with
  | none =>
    refine returnsPushed_bind id _ _ 1 _ stackNet_pushnil (fun _ => ?_)
    exact returnsPushed_pure id 1 (by decide)
  | some d =>
    refine returnsPushed_ite id _ _ _ _ ?_ ?_
    · refine returnsPushed_bind id _ _ 1 _ (stackNet_pushlstring _ _) (fun _ => ?_)
      exact returnsPushed_pure id 1 (by decide)
    · refine returnsPushed_bind id _ _ 1 _ stackNet_pushnil (fun _ => ?_)
      exact returnsPushed_pure id 1 (by decide)

theorem countsItsPushes_asset_get_name {σ : Type} (toAssetID : Int → Int) :
    CountsItsPushes (lua_st_asset_get_name toAssetID : LuaM σ Int) := by
  apply countsItsPushes_of_returnsPushed
  unfold lua_st_asset_get_name
  refine returnsPushed_bind id _ _ 0 0 (stackNet_checkinteger _) (fun a => ?_)
  refine returnsPushed_bind id _ _ 0 _ (stackNet_engine _) (fun d => ?_)
  cases d with
  | none =>
    refine returnsPushed_bind id _ _ 1 _ stackNet_pushnil (fun _ => ?_)
    exact returnsPushed_pure id 1 (by decide)
  | some name =>
    refine returnsPushed_bind id _ _ 1 _ (stackNet_pushstring _) (fun _ => ?_)
    exact returnsPushed_pure id 1 (by decide)

theorem countsItsPushes_asset_get_error {σ : Type} :
    CountsItsPushes (lua_st_asset_get_error : LuaM σ Int) := by
  apply countsItsPushes_of_returnsPushed
  unfold lua_st_asset_get_error
  refine returnsPushed_bind id _ _ 0 0 (stackNet_engine _) (fun d => ?_)
  cases d with
  | none =>
    refine returnsPushed_bind id _ _ 1 _ stackNet_pushnil (fun _ => ?_)
    exact returnsPushed_pure id 1 (by decide)
  | some error =>
    refine returnsPushed_bind id _ _ 1 _ (stackNet_pushstring _) (fun _ => ?_)
    exact returnsPushed_pure id 1 (by decide)

theorem countsItsPushes_asset_list {σ : Type} :
    CountsItsPushes (lua_st_asset_list : LuaM σ Int) := by
  apply countsItsPushes_of_returnsPushed
  unfold lua_st_asset_list
  refine returnsPushed_bind id _ _ 0 0 (stackNet_optinteger _ _) (fun a => ?_)
  refine returnsPushed_bind id _ _ 0 _ (stackNet_engine _) (fun count => ?_)
  refine returnsPushed_ite id _ _ _ _ ?_ ?_
  · refine returnsPushed_bind id _ _ 1 _ stackNet_newtable (fun _ => ?_)
    exact returnsPushed_pure id 1 (by decide)
  · refine returnsPushed_bind id _ _ 0 _ (stackNet_engine _) (fun names => ?_)
    refine returnsPushed_bind id _ _ 1 _ (stackNet_createtable _ _) (fun _ => ?_)
    refine returnsPushed_bind id _ _ 0 _ (stackNet_push_names _ _ _) (fun _ => ?_)
    exact returnsPushed_pure id 1 (by decide)

theorem countsItsPushes_asset_search {σ : Type} :
    CountsItsPushes (lua_st_asset_search : LuaM σ Int) := by
  apply countsItsPushes_of_returnsPushed
  unfold lua_st_asset_search
  refine returnsPushed_bind id _ _ 0 0 (stackNet_checkstring _) (fun a => ?_)
  refine returnsPushed_bind id _ _ 0 _ (stackNet_engine _) (fun count => ?_)
  refine returnsPushed_ite id _ _ _ _ ?_ ?_
  · refine returnsPushed_bind id _ _ 1 _ stackNet_newtable (fun _ => ?_)
    exact returnsPushed_pure id 1 (by decide)
  · refine returnsPushed_bind id _ _ 0 _ (stackNet_engine _) (fun names => ?_)
    refine returnsPushed_bind id _ _ 1 _ (stackNet_createtable _ _) (fun _ => ?_)
    refine returnsPushed_bind id _ _ 0 _ (stackNet_push_names _ _ _) (fun _ => ?_)
    exact returnsPushed_pure id 1 (by decide)

theorem stackNet_wait_key_scan {σ : Type} : ∀ (n : Nat) (key : Int),
    StackNet (wait_key_scan n key : LuaM σ Bool) 0
  | 0, _ => stackNet_pure _
  | n + 1, key => by
    unfold wait_key_scan
    exact stackNet_bind (engine (.st_key_pressed key) : LuaM σ Bool) _ 0 0 (stackNet_engine _)
      (fun pressed => stackNet_ite _ _ _ _ (stackNet_pure _) (stackNet_wait_key_scan n (key + 1)))

theorem returnsPushed_wait_key_frame {σ : Type} (t fw : Int) :
    ReturnsPushed returnCount (wait_key_frame t fw : LuaM σ (Option Int)) 0 := by
  unfold wait_key_frame
  refine returnsPushed_bind returnCount _ _ 0 0 (stackNet_engine _) (fun _ => ?_)
  dsimp only
  refine returnsPushed_ite returnCount _ _ _ _ ?_ ?_
  · refine returnsPushed_bind returnCount _ _ 1 _ (stackNet_pushboolean _) (fun _ => ?_)
    exact returnsPushed_pure returnCount (some 1) (by decide)
  · refine returnsPushed_bind returnCount _ _ 0 _ (stackNet_wait_key_scan _ _) (fun p => ?_)
    refine returnsPushed_ite returnCount _ _ _ _ ?_ ?_
    · refine returnsPushed_bind returnCount _ _ 1 _ (stackNet_pushboolean _) (fun _ => ?_)
      exact returnsPushed_pure returnCount (some 1) (by decide)
    · exact returnsPushed_pure returnCount none (by decide)

theorem returnsPushed_wait_key_loop {σ : Type} (t : Int) : ∀ (fuel : Nat) (fw : Int),
    ReturnsPushed returnCount (wait_key_loop t fuel fw : LuaM σ (Option Int)) 0
  | 0, _ => returnsPushed_pure returnCount none (by decide)
  | fuel + 1, fw => by
    unfold wait_key_loop
    refine returnsPushed_bind_counted returnCount returnCount _ _ 0
      (returnsPushed_wait_key_frame t fw) (fun r hr => ?_)
    cases r with
    | none => exact returnsPushed_wait_key_loop t fuel _
    | some n =>
      have e : (0 : Int) + returnCount (some n) = returnCount (some n) := Int.zero_add _
      rw [e]
      exact returnsPushed_pure returnCount (some n) hr

theorem countsItsPushes_wait_key {σ : Type} (fuel : Nat) :
    CountsItsPushesWithin (lua_st_wait_key fuel : LuaM σ (Option Int)) := by
  have h : ReturnsPushed returnCount (lua_st_wait_key fuel : LuaM σ (Option Int)) 0 := by
    unfold lua_st_wait_key
    refine returnsPushed_bind returnCount _ _ 0 0 (stackNet_optinteger _ _) (fun a => ?_)
    exact returnsPushed_wait_key_loop _ fuel 0
  intro H st n st1 hr
  have := h H st (some n) st1 hr
  exact ⟨this.1, by simpa [returnCount] using this.2⟩

/-- C25: each binding with more than one exit path returns, on every path on which
it returns, a count that is the number of values it has left on the stack
above those it found there, whatever the arguments, the heap and the engine's
answers: `key_get_char`, `wait_key` (whenever it returns within the frames it
is given), `sprite_load_indexed_from_rgba`, `sprite_get_palette`,
`sprite_set_standard_palette`, the asset bindings `get_data`, `get_name`,
`list`, `search` and `get_error`, and `st_get_error`.  (The values the loops
push on the way, table entries and palette bytes, are popped again before the
return.) -/
theorem result_counts_match_pushes {σ : Type} (toAssetID : Int → Int) (fuel : Nat) :
    CountsItsPushes (lua_st_key_get_char : LuaM σ Int) ∧
    CountsItsPushesWithin (lua_st_wait_key fuel : LuaM σ (Option Int)) ∧
    CountsItsPushes (lua_st_sprite_load_indexed_from_rgba : LuaM σ Int) ∧
    CountsItsPushes (lua_st_sprite_get_palette : LuaM σ Int) ∧
    CountsItsPushes (lua_st_sprite_set_standard_palette : LuaM σ Int) ∧
    CountsItsPushes (lua_st_asset_get_data toAssetID : LuaM σ Int) ∧
    CountsItsPushes (lua_st_asset_get_name toAssetID : LuaM σ Int) ∧
    CountsItsPushes (lua_st_asset_list : LuaM σ Int) ∧
    CountsItsPushes (lua_st_asset_search : LuaM σ Int) ∧
    CountsItsPushes (lua_st_asset_get_error : LuaM σ Int) ∧
    CountsItsPushes (lua_st_get_error : LuaM σ Int) :=
  ⟨countsItsPushes_key_get_char, countsItsPushes_wait_key fuel,
    countsItsPushes_sprite_load_indexed_from_rgba, countsItsPushes_sprite_get_palette,
    countsItsPushes_sprite_set_standard_palette, countsItsPushes_asset_get_data toAssetID,
    countsItsPushes_asset_get_name toAssetID, countsItsPushes_asset_list,
    countsItsPushes_asset_search, countsItsPushes_asset_get_error, countsItsPushes_get_error⟩

/-- Witness of C25: `key_get_char`, entered with one value on the stack and the
pending code 65, returns the count 1 and leaves two values. -/
theorem result_counts_match_pushes_witness :
    lua_st_key_get_char keyCharHost { stack := [.nil], engine := 65, calls := [] }
      = (.ok 1, { stack := [.nil, .string "A"], engine := 65, calls := [.st_key_get_char] }) ∧
    ((0 : Int) ≤ 1 ∧
      (({ stack := [.nil, .string "A"], engine := 65, calls := [.st_key_get_char] } :
          LuaState Nat).stack.length : Int)
        = (({ stack := [.nil], engine := 65, calls := [] } : LuaState Nat).stack.length : Int)
          + 1) :=
  ⟨rfl, (result_counts_match_pushes (fun a => a) 0).1 keyCharHost
    { stack := [.nil], engine := 65, calls := [] } 1
    { stack := [.nil, .string "A"], engine := 65, calls := [.st_key_get_char] } rfl⟩

/-! ## Registration leaves the stack as it found it -/

/-- A statement that is defined on a stack is defined above any further values, and
does there what it does without them. -/
theorem exec_frame (s : RegStatement) (st st1 : RegState) (h : s.exec st = some st1)
    (below : List RegValue) (older : List (String × RegValue)) :
    s.exec { stack := st.stack ++ below, globals := st.globals ++ older }
      = some { stack := st1.stack ++ below, globals := st1.globals ++ older } := by
  obtain ⟨stack, globals⟩ := st
  cases s with
  | luaL_setglobalfunction name func =>
    cases h
    rfl
  | luaL_setglobalnumber name value =>
    cases h
    rfl
  | lua_newtable =>
    cases h
    rfl
  | lua_pushcfunction func =>
    cases h
    rfl
  | lua_setglobal name =>
    cases stack with
    | nil => cases h
    | cons v rest =>
      cases h
      rfl
  | lua_setfield idx name =>
    cases stack with
    | nil => cases h
    | cons v rest =>
      simp only [RegStatement.exec, RegState.setfield] at h ⊢
      split at h
      · rename_i hidx
        split at h
        · rename_i fields hget
          cases h
          have hlt : (-idx).toNat - 2 < rest.length := by
            rcases Nat.lt_or_ge ((-idx).toNat - 2) rest.length with h1 | h1
            · exact h1
            · rw [List.get?_eq_none.2 h1] at hget
              cases hget
          have hget2 : (rest ++ below).get? ((-idx).toNat - 2) = some (.table fields) := by
            rw [List.get?_eq_getElem?, List.getElem?_append_left hlt, ← List.get?_eq_getElem?]
            exact hget
          simp only [List.cons_append, if_pos hidx, hget2, List.set_append_left _ _ hlt]
        · cases h
      · cases h

/-- The same for a sequence of statements. -/
theorem runStatements_frame : ∀ (ss : List RegStatement) (st st1 : RegState),
    runStatements ss st = some st1 →
    ∀ (below : List RegValue) (older : List (String × RegValue)),
      runStatements ss { stack := st.stack ++ below, globals := st.globals ++ older }
        = some { stack := st1.stack ++ below, globals := st1.globals ++ older }
  | [], st, st1, h, below, older => by
    cases h
    rfl
  | s :: rest, st, st1, h, below, older => by
    simp only [runStatements] at h ⊢
    cases hs : s.exec st with
    | none =>
      rw [hs] at h
      cases h
    | some st2 =>
      rw [hs] at h
      rw [exec_frame s st st2 hs below older]
      exact runStatements_frame rest st2 st1 h below older

/-- The heights of the stack above further values are the heights without them, each
raised by their number. -/
theorem stackHeights_frame : ∀ (ss : List RegStatement) (st : RegState) (hs : List Nat),
    stackHeights ss st = some hs →
    ∀ (below : List RegValue) (older : List (String × RegValue)),
      stackHeights ss { stack := st.stack ++ below, globals := st.globals ++ older }
        = some (hs.map fun h => h + below.length)
  | [], st, hs, h, below, older => by
    cases h
    simp [stackHeights]
  | s :: rest, st, hs, h, below, older => by
    simp only [stackHeights] at h ⊢
    cases he : s.exec st with
    | none =>
      rw [he] at h
      cases h
    | some st2 =>
      rw [he] at h
      rw [exec_frame s st st2 he below older]
      simp only [Option.some_bind] at h ⊢
      cases hr : stackHeights rest st2 with
      | none =>
        rw [hr] at h
        cases h
      | some hs2 =>
        rw [hr] at h
        cases h
        simp [stackHeights_frame rest st2 hs2 hr below older]

set_option maxRecDepth 1000000 in
/-- Run on an empty stack, `registerBindings` is defined throughout and ends on an
empty stack. -/
theorem registerBindings_on_empty_stack :
    (runStatements registerBindingsStatements { stack := [], globals := [] }).map
      (fun st => st.stack.length) = some 0 := by
  decide!

set_option maxRecDepth 1000000 in
/-- Run on an empty stack, `registerBindings` leaves after each statement the
height that goes with the kind of the statement. -/
theorem registerBindings_heights_on_empty_stack :
    stackHeights registerBindingsStatements { stack := [], globals := [] }
      = some (0 :: registerBindingsStatements.map RegStatement.heightAfter) := by
  decide!

set_option maxRecDepth 1000000 in
/-- The registrations the statements of `registerBindings` amount to are the
registrations of the binding table. -/
theorem registerBindings_registrations :
    (runStatements registerBindingsStatements { stack := [], globals := [] }).map
      (fun st => registrationsIn st.globals) = some registrations := by
  decide!

set_option maxRecDepth 1000000 in
/-- The integer literals among the constants are the registered numbers. -/
theorem registerBindings_literals :
    literalNumbers registerBindingsStatements = registerNumbers := by
  decide!

set_option maxRecDepth 1000000 in
/-- C26: whatever the stack and the globals on entry, every statement of
`registerBindings` before the final delegated call is defined, and the
statements leave the stack exactly as they found it.  After each statement
that sets a global (`luaL_setglobalfunction`, `luaL_setglobalnumber`, and the
`lua_setglobal` that stores the `asset` or the `tilemap` table) the height is
the height on entry; while a namespace table is built it is one more (the
table, after `lua_newtable` and after each `lua_setfield`) or two more (the
table and the function, after `lua_pushcfunction`): each value pushed is popped
by the set-global or set-field that follows it.  Both tables are stored, by
the only two `lua_setglobal` statements. -/
theorem registerBindings_stack_neutral (stack : List RegValue)
    (globals : List (String × RegValue)) :
    (∃ st1 : RegState,
      runStatements registerBindingsStatements { stack := stack, globals := globals }
        = some st1 ∧
      st1.stack = stack ∧ st1.stack.length = stack.length) ∧
    stackHeights registerBindingsStatements { stack := stack, globals := globals }
      = some (stack.length ::
          registerBindingsStatements.map fun s => s.heightAfter + stack.length) ∧
    (registerBindingsStatements.filter fun s =>
        match s with
        | .lua_setglobal _ => true
        | _ => false) = [.lua_setglobal "asset", .lua_setglobal "tilemap"] ∧
    (registerBindingsStatements.getLast?).map RegStatement.heightAfter = some 0 := by
  refine ⟨?_, ?_, by decide!, by decide!⟩
  · cases hr : runStatements registerBindingsStatements { stack := [], globals := [] } with
    | none =>
      have h := registerBindings_on_empty_stack
      rw [hr] at h
      cases h
    | some st0 =>
      have h := registerBindings_on_empty_stack
      rw [hr] at h
      have h0 : st0.stack = [] := List.length_eq_zero.1 (Option.some.inj h)
      have hf := runStatements_frame registerBindingsStatements _ st0 hr stack globals
      rw [h0] at hf
      exact ⟨_, hf, rfl, rfl⟩
  · have hf := stackHeights_frame registerBindingsStatements _ _
      registerBindings_heights_on_empty_stack stack globals
    have hf2 : stackHeights registerBindingsStatements { stack := stack, globals := globals }
        = some (List.map (fun h => h + stack.length)
            (0 :: List.map RegStatement.heightAfter registerBindingsStatements)) := hf
    rw [hf2, List.map_cons, List.map_map, Nat.zero_add]
    rfl

/-! ## Timed waits -/

/-- The frame loop makes exactly its `n` engine calls, all `st_wait_frame`, and
leaves the stack and the heap alone. -/
theorem wait_frames_spec {σ : Type} (H : Host σ) : ∀ (n : Nat) (st : LuaState σ),
    wait_frames n H st =
      (.ok (), { st with
        engine := (fun e => (H.call .st_wait_frame e).2)^[n] st.engine
        calls := st.calls ++ List.replicate n .st_wait_frame })
  | 0, st => by
    simp [wait_frames, pure]
  | n + 1, st => by
    unfold wait_frames
    simp only [bind, LuaM.bind, engine]
    rw [wait_frames_spec H n]
    simp [List.replicate_succ, Function.iterate_succ]

/-- The outcome of the common tail of `wait` and `sleep`. -/
theorem wait_seconds_eval {σ : Type} (H : Host σ) (seconds : FloatValue) (st : LuaState σ) :
    wait_seconds seconds H st =
      match floatToInt (mulFloat32 seconds (.finite 60 0)) with
      | some frames =>
        (.ok 0, { st with
          engine := (fun e => (H.call .st_wait_frame e).2)^[frames.toNat] st.engine
          calls := st.calls ++ List.replicate frames.toNat .st_wait_frame })
      | none => (.error (.fault "float to int conversion out of range"), st) := by
  unfold wait_seconds
  cases floatToInt (mulFloat32 seconds (.finite 60 0)) with
  | none => rfl
  | some frames =>
    simp only [bind, LuaM.bind, wait_frames_spec, pure]

/-- The outcome of `wait` on one argument that converts to a number. -/
theorem wait_eval {σ : Type} (H : Host σ) (s : σ) (v : LuaValue) (d : FloatValue)
    (hv : tonumberValue H v = some d) :
    callBinding lua_st_wait H [v] s =
      match floatToInt (mulFloat32 (toFloat32 d) (.finite 60 0)) with
      | some frames =>
        (.ok 0, ⟨[v], (fun e => (H.call .st_wait_frame e).2)^[frames.toNat] s,
          List.replicate frames.toNat .st_wait_frame, []⟩)
      | none =>
        (.error (.fault "float to int conversion out of range"), ⟨[v], s, [], []⟩) := by
  simp only [callBinding, lua_st_wait, bind, LuaM.bind, luaL_checknumberValue, index2value]
  simp only [List.get?, Option.bind, ↓reduceIte, Nat.reduceSub, one_ne_zero, hv,
    wait_seconds_eval]
  cases floatToInt (mulFloat32 (toFloat32 d) (.finite 60 0)) <;> simp

/-- The outcome of `sleep` on one argument that converts to a number. -/
theorem sleep_eval {σ : Type} (H : Host σ) (s : σ) (v : LuaValue) (d : FloatValue)
    (hv : tonumberValue H v = some d) :
    callBinding lua_st_sleep H [v] s =
      match floatToInt
        (mulFloat32 (divFloat32 (toFloat32 d) (.finite 1000 0)) (.finite 60 0)) with
      | some frames =>
        (.ok 0, ⟨[v], (fun e => (H.call .st_wait_frame e).2)^[frames.toNat] s,
          List.replicate frames.toNat .st_wait_frame, []⟩)
      | none =>
        (.error (.fault "float to int conversion out of range"), ⟨[v], s, [], []⟩) := by
  simp only [callBinding, lua_st_sleep, bind, LuaM.bind, luaL_checknumberValue, index2value]
  simp only [List.get?, Option.bind, ↓reduceIte, Nat.reduceSub, one_ne_zero, hv,
    wait_seconds_eval]
  cases floatToInt
    (mulFloat32 (divFloat32 (toFloat32 d) (.finite 1000 0)) (.finite 60 0)) <;> simp

/-- C21 (as stated, refuted): `sleep(1050)` performs 62 frame waits, not the
trunc((1050 / 1000) x 60) = 63 of the claim: the `float` quotient 1050 / 1000 is
8808038 / 2^23, a little below 1.05, so the product with 60 is below 63. -/
theorem sleep_1050_waits_62_frames :
    ((1050 : ℚ) / 1000 * 60 = 63) ∧
    divFloat32 (toFloat32 (integerToDouble 1050)) (.finite 1000 0) = .finite 8808038 (-23) ∧
    (callBinding lua_st_sleep idleHost [.integer 1050] ()).2.calls
      = List.replicate 62 .st_wait_frame ∧
    frameWaits (callBinding lua_st_sleep idleHost [.integer 1050] ()).2.calls = 62 := by
  have h : floatToInt (mulFloat32 (divFloat32 (toFloat32 (integerToDouble 1050))
      (.finite 1000 0)) (.finite 60 0)) = some 62 := by decide
  have e := sleep_eval idleHost () (.integer 1050) (integerToDouble 1050) rfl
  rw [h] at e
  refine ⟨by norm_num, by decide, ?_, ?_⟩
  · rw [e]
    rfl
  · rw [e]
    decide

/-- Rounding a magnitude that carries a minus sign, or is zero, gives minus
infinity or a finite value that is not positive. -/
theorem roundBinary_nonpos (p : Nat) (qmin : Int) (emax : Nat) (negative : Bool) (n d : Nat)
    (h : negative = false → n = 0) :
    roundBinary p qmin emax negative n d = .inf true ∨
      ∃ (r : Nat) (q : Int), roundBinary p qmin emax negative n d = .finite (-(r : Int)) q := by
  unfold roundBinary
  by_cases hn : n = 0
  · exact Or.inr ⟨0, 0, by simp [hn]⟩
  · have hneg : negative = true := by
      cases negative with
      | false => exact absurd (h rfl) hn
      | true => rfl
    subst hneg
    simp only [hn, ↓reduceIte]
    split
    · exact Or.inl rfl
    · exact Or.inr ⟨_, _, rfl⟩

/-- A finite value that is not positive converts to an `int` that is not positive. -/
theorem floatToInt_nonpos (r : Nat) (q t : Int)
    (h : floatToInt (.finite (-(r : Int)) q) = some t) : t ≤ 0 := by
  unfold floatToInt at h
  simp only at h
  by_cases hq : 0 ≤ q
  · simp only [hq, ↓reduceIte] at h
    split at h
    · cases h
      exact mul_nonpos_of_nonpos_of_nonneg (by omega) (by positivity)
    · cases h
  · simp only [hq, ↓reduceIte] at h
    split at h
    · cases h
      rw [Int.neg_tdiv]
      have := Int.tdiv_nonneg (Int.ofNat_nonneg r)
        (show (0 : Int) ≤ 2 ^ (-q).toNat by positivity)
      omega
    · cases h

/-- The `float` product with 60 of a value that is not positive converts, when it
converts at all, to an `int` that is not positive. -/
theorem mul60_nonpos (x : FloatValue)
    (hx : x = .inf true ∨ ∃ (r : Nat) (q : Int), x = .finite (-(r : Int)) q) (t : Int)
    (h : floatToInt (mulFloat32 x (.finite 60 0)) = some t) : t ≤ 0 := by
  rcases hx with rfl | ⟨r, q, rfl⟩
  · simp [mulFloat32, floatToInt] at h
  · have hs := roundBinary_nonpos 24 (-149) 128 (decide (-(r : Int) * 60 < 0))
      (dyadicFraction (-(r : Int) * 60).natAbs (q + 0)).1
      (dyadicFraction (-(r : Int) * 60).natAbs (q + 0)).2 (by
        intro hd
        have hr : r = 0 := by
          have : ¬ (-(r : Int) * 60 < 0) := by simpa using hd
          omega
        subst hr
        unfold dyadicFraction
        split <;> simp)
    simp only [mulFloat32, roundFloat32] at h
    rcases hs with hs | ⟨r2, q2, hs⟩
    · rw [hs] at h
      simp [floatToInt] at h
    · rw [hs] at h
      exact floatToInt_nonpos r2 q2 t h

/-- The `float` quotient by 1000 of a value that is not positive is not positive. -/
theorem div1000_nonpos (x : FloatValue)
    (hx : x = .inf true ∨ ∃ (r : Nat) (q : Int), x = .finite (-(r : Int)) q) :
    divFloat32 x (.finite 1000 0) = .inf true ∨
      ∃ (r : Nat) (q : Int), divFloat32 x (.finite 1000 0) = .finite (-(r : Int)) q := by
  rcases hx with rfl | ⟨r, q, rfl⟩
  · exact Or.inl (by simp [divFloat32])
  · have hs := roundBinary_nonpos 24 (-149) 128
      (decide (-(r : Int) < 0) != decide ((1000 : Int) < 0))
      ((dyadicFraction (-(r : Int)).natAbs q).1 * (dyadicFraction (1000 : Int).natAbs 0).2)
      ((dyadicFraction (-(r : Int)).natAbs q).2 * (dyadicFraction (1000 : Int).natAbs 0).1) (by
        intro hd
        have hr : r = 0 := by
          have : ¬ (-(r : Int) < 0) := by simpa using hd
          omega
        subst hr
        unfold dyadicFraction
        split <;> simp)
    have e : divFloat32 (.finite (-(r : Int)) q) (.finite 1000 0) =
        roundBinary 24 (-149) 128 (decide (-(r : Int) < 0) != decide ((1000 : Int) < 0))
          ((dyadicFraction (-(r : Int)).natAbs q).1 * (dyadicFraction (1000 : Int).natAbs 0).2)
          ((dyadicFraction (-(r : Int)).natAbs q).2 * (dyadicFraction (1000 : Int).natAbs 0).1) := by
      simp [divFloat32, roundFloat32]
    rw [e]
    exact hs

/-- The conversion to `float` of a negative `double` is not positive. -/
theorem toFloat32_nonpos (m e : Int) (hm : m < 0) :
    toFloat32 (.finite m e) = .inf true ∨
      ∃ (r : Nat) (q : Int), toFloat32 (.finite m e) = .finite (-(r : Int)) q := by
  unfold toFloat32 roundFloat32
  exact roundBinary_nonpos 24 (-149) 128 _ _ _ (by simp [hm])

/-- C21 (amended): with the argument converting to the number `d`, `wait` performs
exactly max(0, F) frame waits and nothing else, where F is the `int` conversion of
the single-precision product (float)d * 60.0f, and `sleep` likewise with
((float)d / 1000.0f) * 60.0f, each operation rounded to `float`, whenever that
conversion is defined; both return no result.  So there are no frame waits when F is
below 1, and none for a negative duration; and for the number 1 `wait`, for the
number 1000 `sleep`, performs 60 frame waits. -/
theorem timed_waits_single_precision {σ : Type} (H : Host σ) (s : σ) (v : LuaValue)
    (d : FloatValue) (hv : tonumberValue H v = some d) :
    (∀ frames : Int, floatToInt (mulFloat32 (toFloat32 d) (.finite 60 0)) = some frames →
      (callBinding lua_st_wait H [v] s).1 = .ok 0 ∧
      (callBinding lua_st_wait H [v] s).2.calls
        = List.replicate frames.toNat .st_wait_frame ∧
      frameWaits (callBinding lua_st_wait H [v] s).2.calls = frames.toNat ∧
      (frames < 1 → (callBinding lua_st_wait H [v] s).2.calls = [])) ∧
    (∀ frames : Int,
      floatToInt (mulFloat32 (divFloat32 (toFloat32 d) (.finite 1000 0)) (.finite 60 0))
        = some frames →
      (callBinding lua_st_sleep H [v] s).1 = .ok 0 ∧
      (callBinding lua_st_sleep H [v] s).2.calls
        = List.replicate frames.toNat .st_wait_frame ∧
      frameWaits (callBinding lua_st_sleep H [v] s).2.calls = frames.toNat ∧
      (frames < 1 → (callBinding lua_st_sleep H [v] s).2.calls = [])) ∧
    (∀ m e : Int, d = .finite m e → m < 0 →
      (callBinding lua_st_wait H [v] s).2.calls = [] ∧
      (callBinding lua_st_sleep H [v] s).2.calls = []) ∧
    (d = integerToDouble 1 → frameWaits (callBinding lua_st_wait H [v] s).2.calls = 60) ∧
    (d = integerToDouble 1000 →
      frameWaits (callBinding lua_st_sleep H [v] s).2.calls = 60) := by
  have hcount : ∀ n : Nat, frameWaits (List.replicate n EngineCall.st_wait_frame) = n := by
    intro n
    induction n with
    | zero => rfl
    | succ n ih =>
      rw [List.replicate_succ, ← List.singleton_append, frameWaits_append, ih]
      have : frameWaits [EngineCall.st_wait_frame] = 1 := by decide
      omega
  have hw := wait_eval H s v d hv
  have hs := sleep_eval H s v d hv
  refine ⟨?_, ?_, ?_, ?_, ?_⟩
  · intro frames hf
    rw [hf] at hw
    rw [hw]
    refine ⟨rfl, rfl, hcount _, ?_⟩
    intro h1
    have : frames.toNat = 0 := by omega
    simp [this]
  · intro frames hf
    rw [hf] at hs
    rw [hs]
    refine ⟨rfl, rfl, hcount _, ?_⟩
    intro h1
    have : frames.toNat = 0 := by omega
    simp [this]
  · intro m e hd hm
    subst hd
    constructor
    · rw [hw]
      cases hf : floatToInt (mulFloat32 (toFloat32 (.finite m e)) (.finite 60 0)) with
      | none => rfl
      | some frames =>
        have := mul60_nonpos _ (toFloat32_nonpos m e hm) frames hf
        have h0 : frames.toNat = 0 := by omega
        simp [h0]
    · rw [hs]
      cases hf : floatToInt (mulFloat32 (divFloat32 (toFloat32 (.finite m e))
          (.finite 1000 0)) (.finite 60 0)) with
      | none => rfl
      | some frames =>
        have := mul60_nonpos _ (div1000_nonpos _ (toFloat32_nonpos m e hm)) frames hf
        have h0 : frames.toNat = 0 := by omega
        simp [h0]
  · intro hd
    subst hd
    have h : floatToInt (mulFloat32 (toFloat32 (integerToDouble 1)) (.finite 60 0))
        = some 60 := by decide
    rw [h] at hw
    rw [hw]
    exact hcount 60
  · intro hd
    subst hd
    have h : floatToInt (mulFloat32 (divFloat32 (toFloat32 (integerToDouble 1000))
        (.finite 1000 0)) (.finite 60 0)) = some 60 := by decide
    rw [h] at hs
    rw [hs]
    exact hcount 60

/-- C21 (amended), at `wait(1)` and `sleep(1)` on an idle engine. -/
theorem timed_waits_single_precision_witness :
    tonumberValue idleHost (.integer 1) = some (integerToDouble 1) ∧
    frameWaits (callBinding lua_st_wait idleHost [.integer 1] ()).2.calls = 60 :=
  ⟨rfl, (timed_waits_single_precision idleHost () (.integer 1) (integerToDouble 1) rfl).2.2.2.1
    rfl⟩

end LuaRunner2
